import Mathlib

/-!
# 6502Decoder: the 65C816 tracker (`em_65816.c`) and the memory model (`memory.c`)

A shallow embedding of the two C files.  The C globals (the registers and flags of
`em_65816.c`, the statics of `memory.c` and the shared `failflag`) are the fields of one
record `State`; a C function that mutates globals is a function `State → State`, and one
that also returns a value returns a pair.

C `int` is embedded as `Int`.  Additions and subtractions are the mathematical ones (no
value of the program comes near the 32-bit range); the bitwise operators act on the 32-bit
two's-complement pattern; `>>` on an `int` is the arithmetic shift (floor division) and
`<<` is multiplication by a power of two.  Logging (`printf`, `puts`) and the tube decoder
have no effect on the embedded state and are left out.

The handlers of the paged machines (Beeb, Master, Elk, Blitter) reach the blocks of `init_ram`
through `int *` pointers.  `State` keeps each block with its size in bytes; such a handler
returns an `Option`, and an access outside a block, which is undefined in C, is `none`.  The
call through `memory_read_fn` or `memory_write_fn` turns `none` into the state marked
`undefined`.
-/

namespace Decoder

/-! ## C integer operators -/

/-- The 32-bit pattern of a C `int`. -/
def toU32 (x : Int) : Nat := (x % 4294967296).toNat

/-- The C `int` that has a given 32-bit pattern. -/
def ofU32 (n : Nat) : Int := if n < 2147483648 then (n : Int) else (n : Int) - 4294967296

/-- C `a & b` on `int`. -/
def c_and (a b : Int) : Int := ofU32 (toU32 a &&& toU32 b)

/-- C `a | b` on `int`. -/
def c_or (a b : Int) : Int := ofU32 (toU32 a ||| toU32 b)

/-- C `a ^ b` on `int`. -/
def c_xor (a b : Int) : Int := ofU32 (toU32 a ^^^ toU32 b)

/-- C `~a` on `int`. -/
def c_not (a : Int) : Int := -a - 1

/-- C `a << k`. -/
def c_shl (a : Int) (k : Nat) : Int := a * 2 ^ k

/-- C `a >> k` on `int` (arithmetic shift). -/
def c_shr (a : Int) (k : Nat) : Int := a / 2 ^ k

/-- The `int` value (0 or 1) of a C comparison or logical expression. -/
def c_bool (p : Prop) [Decidable p] : Int := if p then 1 else 0

/-- The conversion `(int8_t) x`, also applied when an `int` is stored in an `int8_t` cell. -/
def to_int8 (x : Int) : Int := if x % 256 < 128 then x % 256 else x % 256 - 256

/-- The conversion `(int16_t) x`. -/
def to_int16 (x : Int) : Int := if x % 65536 < 32768 then x % 65536 else x % 65536 - 65536

/-- The conversion of a `uint32_t` to `int` (`operand_t`). -/
def to_int32 (x : Int) : Int := ofU32 (toU32 x)

/-! ## Types declared in the headers -/

/-- Modelled from the spec: `mem_access_t` is declared in `memory.h`, which is not among the
sources.  The kinds are the five the code names (spec 4.7: FETCH, INSTR, POINTER, DATA,
STACK). -/
inductive mem_access_t where
  | MEM_FETCH
  | MEM_INSTR
  | MEM_POINTER
  | MEM_DATA
  | MEM_STACK
  deriving DecidableEq, Repr

/-- Modelled from the spec: the sample `type` of `defs.h` (spec 3.5); the code compares it
with `UNKNOWN`, `OPCODE` and `LAST` only. -/
inductive sample_type_t where
  | UNKNOWN
  | OPCODE
  | LAST
  | INSTR
  deriving DecidableEq, Repr

/-- Modelled from the spec: `sample_t` of `defs.h` (spec 3.5): the data byte, the sync hint,
and the R/W and E pins (negative when not captured). -/
structure sample_t where
  data : Int
  type : sample_type_t := sample_type_t.UNKNOWN
  rnw : Int := -1
  e : Int := -1
  deriving Repr

/-- Modelled from the spec: `instruction_t` of `defs.h` (spec 3.6). -/
structure instruction_t where
  pc : Int := -1
  pb : Int := -1
  opcode : Int := 0
  op1 : Int := 0
  op2 : Int := 0
  op3 : Int := 0
  opcount : Int := 0
  deriving Repr, DecidableEq

/-- The value of the pointer `memory_read_fn`: the read handlers of memory.c. -/
inductive read_fn_t where
  | memory_read_default
  | memory_read_atom
  | memory_read_mek6800d2
  | memory_read_pet
  | memory_read_beeb
  | memory_read_master
  | memory_read_elk
  | memory_read_blitter
  deriving DecidableEq, Repr

/-- The value of the pointer `memory_write_fn`: the write handlers of memory.c. -/
inductive write_fn_t where
  | memory_write_default
  | memory_write_atom
  | memory_write_mek6800d2
  | memory_write_beeb
  | memory_write_master
  | memory_write_elk
  | memory_write_blitter
  deriving DecidableEq, Repr

/-! ## The global state -/

/-- The globals of the two files.  `memory` is the `int8_t` shadow array (a cell holds a value
in -128..127), with `init_ram` having filled it with -1.  The bitmask `mem_model` is kept
as the set of access kinds whose bit is set: `mem_model & (1 << type)` is `mem_model type`.
`failflag` is the shared failure flag of `defs.h`.

`swrom`, `lynne`, `hazel` and `andy` point to blocks from `init_ram`, arrays of `int8_t` cells
like `memory`; a block is kept as its cells and its size in bytes (size 0 for the NULL
pointer).  `undefined` is not a global: it records that a handler of a paged machine has
made an access outside a block, after which C says nothing about the program. -/
structure State where
  A : Int := -1
  X : Int := -1
  Y : Int := -1
  SH : Int := -1
  SL : Int := -1
  PC : Int := -1
  B : Int := -1
  DP : Int := -1
  DB : Int := -1
  PB : Int := -1
  N : Int := -1
  V : Int := -1
  D : Int := -1
  I : Int := -1
  Z : Int := -1
  C : Int := -1
  MS : Int := -1
  XS : Int := -1
  E : Int := -1
  failflag : Int := 0
  memory : Int → Int := fun _ => -1
  mem_model : mem_access_t → Bool := fun _ => false
  rom_latch : Int := 0
  acccon_latch : Int := 0
  vdu_op : Int := 0
  memory_read_fn : read_fn_t := read_fn_t.memory_read_default
  memory_write_fn : write_fn_t := write_fn_t.memory_write_default
  memory_size : Int := 0
  swrom : Int → Int := fun _ => -1
  swrom_size : Int := 0
  lynne : Int → Int := fun _ => -1
  lynne_size : Int := 0
  hazel : Int → Int := fun _ => -1
  hazel_size : Int := 0
  andy : Int → Int := fun _ => -1
  andy_size : Int := 0
  boot_mode : Int := 0x20
  undefined : Bool := false

/-! ## memory.c -/

/-- The assignment `memory[ea] = data`: the `int` is converted to the `int8_t` cell type. -/
def store (m : Int → Int) (ea data : Int) : Int → Int :=
  fun a => if a = ea then to_int8 data else m a

/-- `memory_read_default` (memory.c 491-497). -/
def memory_read_default (data ea : Int) (s : State) : State :=
  { s with
    failflag := if s.memory ea ≥ 0 ∧ s.memory ea ≠ data then c_or s.failflag 1 else s.failflag,
    memory := store s.memory ea data }

/-- `memory_write_default` (memory.c 499-502). -/
def memory_write_default (data ea : Int) (s : State) : State × Int :=
  ({ s with memory := store s.memory ea data }, 0)

/-- `memory_read_atom` (memory.c 353-361). -/
def memory_read_atom (data ea : Int) (s : State) : State :=
  { s with
    failflag := if ea < 0xA000 ∧ (s.memory ea ≥ 0 ∧ s.memory ea ≠ data) then
        c_or s.failflag 1 else s.failflag,
    memory := store s.memory ea data }

/-- `memory_write_atom` (memory.c 363-366). -/
def memory_write_atom (data ea : Int) (s : State) : State × Int :=
  ({ s with memory := store s.memory ea data }, 0)

/-- `memory_read_mek6800d2` (memory.c 329-337). -/
def memory_read_mek6800d2 (data ea : Int) (s : State) : State :=
  { s with
    failflag := if (ea < 0x2000 ∨ (ea ≥ 0xA000 ∧ ea ≤ 0xAFFF)) ∧
        (s.memory ea ≥ 0 ∧ s.memory ea ≠ data) then c_or s.failflag 1 else s.failflag,
    memory := store s.memory ea data }

/-- `memory_write_mek6800d2` (memory.c 339-342). -/
def memory_write_mek6800d2 (data ea : Int) (s : State) : State × Int :=
  ({ s with memory := store s.memory ea data }, 0)

/-- `memory_read_pet` (memory.c 434-445). -/
def memory_read_pet (data ea : Int) (s : State) : State :=
  if (ea ≥ 0xe810 ∧ ea ≤ 0xe82f) ∨ (ea ≥ 0xe840 ∧ ea ≤ 0xe84f) ∨
      (ea ≥ 0xe880 ∧ ea ≤ 0xe88f) then s
  else
    { s with
      failflag := if s.memory ea ≥ 0 ∧ s.memory ea ≠ data then c_or s.failflag 1
        else s.failflag,
      memory := store s.memory ea data }

/-! ### memory.c: the handlers of the paged machines -/

/-- `SWROM_SIZE` (memory.c 11). -/
def SWROM_SIZE : Int := 0x4000

/-- `SWROM_NUM_BANKS` (memory.c 12). -/
def SWROM_NUM_BANKS : Int := 16

/-- `init_ram` (memory.c 112-118): `malloc(size)` bytes, every `int8_t` cell set to -1. -/
def init_ram (size : Int) : (Int → Int) × Int := (fun _ => -1, size)

/-- The block that a pointer points into. -/
inductive block_t where
  | memory
  | swrom
  | lynne
  | hazel
  | andy
  deriving DecidableEq, Repr

/-- An `int *` value: a block and a byte offset in it. -/
structure int_ptr where
  block : block_t
  offset : Int
  deriving DecidableEq, Repr

/-- The `int` read from four `int8_t` cells (little-endian, 32-bit `int`). -/
def load_int (cells : Int → Int) (offset : Int) : Int :=
  ofU32 (cells offset % 256 + 256 * (cells (offset + 1) % 256) +
    65536 * (cells (offset + 2) % 256) + 16777216 * (cells (offset + 3) % 256)).toNat

/-- The four `int8_t` cells after an `int` is stored in them (little-endian, 32-bit `int`). -/
def store_int (cells : Int → Int) (offset value : Int) : Int → Int :=
  fun a =>
    if a = offset then to_int8 (toU32 value % 256)
    else if a = offset + 1 then to_int8 (toU32 value / 256 % 256)
    else if a = offset + 2 then to_int8 (toU32 value / 65536 % 256)
    else if a = offset + 3 then to_int8 (toU32 value / 16777216 % 256)
    else cells a

/-- The read `*memptr`; an access that is not inside the block is undefined in C and gives
`none`. -/
def read_ptr (p : int_ptr) (s : State) : Option Int :=
  match p.block with
  | block_t.memory =>
    if 0 ≤ p.offset ∧ p.offset + 4 ≤ s.memory_size then some (load_int s.memory p.offset)
    else none
  | block_t.swrom =>
    if 0 ≤ p.offset ∧ p.offset + 4 ≤ s.swrom_size then some (load_int s.swrom p.offset)
    else none
  | block_t.lynne =>
    if 0 ≤ p.offset ∧ p.offset + 4 ≤ s.lynne_size then some (load_int s.lynne p.offset)
    else none
  | block_t.hazel =>
    if 0 ≤ p.offset ∧ p.offset + 4 ≤ s.hazel_size then some (load_int s.hazel p.offset)
    else none
  | block_t.andy =>
    if 0 ≤ p.offset ∧ p.offset + 4 ≤ s.andy_size then some (load_int s.andy p.offset)
    else none

/-- The assignment `*memptr = data`; `none` when it is not inside the block. -/
def write_ptr (p : int_ptr) (data : Int) (s : State) : Option State :=
  match p.block with
  | block_t.memory =>
    if 0 ≤ p.offset ∧ p.offset + 4 ≤ s.memory_size then
      some { s with memory := store_int s.memory p.offset data }
    else none
  | block_t.swrom =>
    if 0 ≤ p.offset ∧ p.offset + 4 ≤ s.swrom_size then
      some { s with swrom := store_int s.swrom p.offset data }
    else none
  | block_t.lynne =>
    if 0 ≤ p.offset ∧ p.offset + 4 ≤ s.lynne_size then
      some { s with lynne := store_int s.lynne p.offset data }
    else none
  | block_t.hazel =>
    if 0 ≤ p.offset ∧ p.offset + 4 ≤ s.hazel_size then
      some { s with hazel := store_int s.hazel p.offset data }
    else none
  | block_t.andy =>
    if 0 ≤ p.offset ∧ p.offset + 4 ≤ s.andy_size then
      some { s with andy := store_int s.andy p.offset data }
    else none

/-- `set_rom_latch` (memory.c 121-139); the bank label text that it also updates is used
by the log lines only. -/
def set_rom_latch (data : Int) (s : State) : State := { s with rom_latch := data }

/-- `set_acccon_latch` (memory.c 141-172); the bank label text is used by the log lines
only. -/
def set_acccon_latch (data : Int) (s : State) : State := { s with acccon_latch := data }

/-- `get_memptr_beeb` (memory.c 178-184). `swrom` is an `int *`, so `swrom + k` is `k` ints
(4 bytes each) into its block; `memory` is an `int8_t *`, so `memory + ea` is `ea` bytes
into its block, and the result is used as an `int *`. -/
def get_memptr_beeb (ea : Int) (s : State) : int_ptr :=
  if ea ≥ 0x8000 ∧ ea < 0xC000 then
    { block := block_t.swrom, offset := 4 * (c_shl s.rom_latch 14 + c_and ea 0x3FFF) }
  else { block := block_t.memory, offset := ea }

/-- `memory_read_beeb` (memory.c 186-195). -/
def memory_read_beeb (data ea : Int) (s : State) : Option State :=
  if ea < 0xfc00 ∨ ea ≥ 0xff00 then
    let memptr := get_memptr_beeb ea s
    match read_ptr memptr s with
    | none => none
    | some v =>
      let s1 := if v ≥ 0 ∧ v ≠ data then { s with failflag := c_or s.failflag 1 } else s
      write_ptr memptr data s1
  else some s

/-- `memory_write_beeb` (memory.c 197-204). -/
def memory_write_beeb (data ea : Int) (s : State) : Option (State × Int) :=
  let s1 := if ea = 0xfe30 then set_rom_latch (c_and data 0xf) s else s
  match write_ptr (get_memptr_beeb ea s1) data s1 with
  | none => none
  | some s2 => some (s2, 0)

/-- `init_beeb` (memory.c 206-213); the tube window is used by the tube decoder only. -/
def init_beeb (s : State) : State :=
  { s with swrom := (init_ram (SWROM_NUM_BANKS * SWROM_SIZE)).1,
           swrom_size := (init_ram (SWROM_NUM_BANKS * SWROM_SIZE)).2,
           memory_read_fn := read_fn_t.memory_read_beeb,
           memory_write_fn := write_fn_t.memory_write_beeb }

/-- `get_memptr_master` (memory.c 219-231); `hazel`, `andy`, `lynne` and `swrom` are
`int *`. -/
def get_memptr_master (ea : Int) (s : State) : int_ptr :=
  if c_and s.acccon_latch 0x08 ≠ 0 ∧ ea ≥ 0xc000 ∧ ea < 0xe000 then
    { block := block_t.hazel, offset := 4 * c_and ea 0x1FFF }
  else if c_and s.rom_latch 0x80 ≠ 0 ∧ ea ≥ 0x8000 ∧ ea < 0x9000 then
    { block := block_t.andy, offset := 4 * c_and ea 0x0FFF }
  else if ea ≥ 0x3000 ∧ ea < 0x8000 ∧
      c_and s.acccon_latch (if s.vdu_op ≠ 0 then 0x02 else 0x04) ≠ 0 then
    { block := block_t.lynne, offset := 4 * (ea - 0x3000) }
  else if ea ≥ 0x8000 ∧ ea < 0xC000 then
    { block := block_t.swrom,
      offset := 4 * (c_shl (c_and s.rom_latch 0xf) 14 + c_and ea 0x3FFF) }
  else { block := block_t.memory, offset := ea }

/-- `memory_read_master` (memory.c 233-242). -/
def memory_read_master (data ea : Int) (s : State) : Option State :=
  if ea < 0xfc00 ∨ ea ≥ 0xff00 then
    let memptr := get_memptr_master ea s
    match read_ptr memptr s with
    | none => none
    | some v =>
      let s1 := if v ≥ 0 ∧ v ≠ data then { s with failflag := c_or s.failflag 1 } else s
      write_ptr memptr data s1
  else some s

/-- `memory_write_master` (memory.c 244-263): a write to an address that is not writeable
is ignored and the result is 1. -/
def memory_write_master (data ea : Int) (s : State) : Option (State × Int) :=
  let s1 := if ea = 0xfe30 then set_rom_latch (c_and data 0x8f) s else s
  let s2 := if ea = 0xfe34 then set_acccon_latch (c_and data 0xff) s1 else s1
  if ea < 0x8000 ∨
      (ea < 0x9000 ∧ c_and s2.rom_latch 0x80 ≠ 0) ∨
      (ea < 0xc000 ∧ c_and s2.rom_latch 0x0c = 0x04) ∨
      (ea ≥ 0xc000 ∧ ea < 0xe000 ∧ c_and s2.acccon_latch 0x08 ≠ 0) ∨
      (ea ≥ 0xfc00 ∧ ea < 0xff00) then
    match write_ptr (get_memptr_master ea s2) data s2 with
    | none => none
    | some s3 => some (s3, 0)
  else some (s2, 1)

/-- `init_master` (memory.c 265-275). -/
def init_master (s : State) : State :=
  { s with swrom := (init_ram (SWROM_NUM_BANKS * SWROM_SIZE)).1,
           swrom_size := (init_ram (SWROM_NUM_BANKS * SWROM_SIZE)).2,
           lynne := (init_ram 20480).1, lynne_size := (init_ram 20480).2,
           hazel := (init_ram 8192).1, hazel_size := (init_ram 8192).2,
           andy := (init_ram 4096).1, andy_size := (init_ram 4096).2,
           memory_read_fn := read_fn_t.memory_read_master,
           memory_write_fn := write_fn_t.memory_write_master }

/-- `get_memptr_elk` (memory.c 281-287). -/
def get_memptr_elk (ea : Int) (s : State) : int_ptr :=
  if ea ≥ 0x8000 ∧ ea < 0xC000 then
    { block := block_t.swrom, offset := 4 * (c_shl s.rom_latch 14 + c_and ea 0x3FFF) }
  else { block := block_t.memory, offset := ea }

/-- `memory_read_elk` (memory.c 289-298). -/
def memory_read_elk (data ea : Int) (s : State) : Option State :=
  if ea < 0xfc00 ∨ ea ≥ 0xff00 then
    let memptr := get_memptr_elk ea s
    match read_ptr memptr s with
    | none => none
    | some v =>
      let s1 := if v ≥ 0 ∧ v ≠ data then { s with failflag := c_or s.failflag 1 } else s
      write_ptr memptr data s1
  else some s

/-- `memory_write_elk` (memory.c 300-307). -/
def memory_write_elk (data ea : Int) (s : State) : Option (State × Int) :=
  let s1 := if ea = 0xfe05 then set_rom_latch (c_and data 0xf) s else s
  match write_ptr (get_memptr_elk ea s1) data s1 with
  | none => none
  | some s2 => some (s2, 0)

/-- `init_elk` (memory.c 309-316). -/
def init_elk (s : State) : State :=
  { s with swrom := (init_ram (SWROM_NUM_BANKS * SWROM_SIZE)).1,
           swrom_size := (init_ram (SWROM_NUM_BANKS * SWROM_SIZE)).2,
           memory_read_fn := read_fn_t.memory_read_elk,
           memory_write_fn := write_fn_t.memory_write_elk }

/-- `remap_address_blitter` (memory.c 379-384); `boot_mode` starts as 0x20 (memory.c 377). -/
def remap_address_blitter (ea : Int) (s : State) : Int :=
  if s.boot_mode ≠ 0 ∧ c_and ea 0xff0000 = 0 then c_or ea 0xff0000 else ea

/-- `get_memptr_blitter` (memory.c 386-392). -/
def get_memptr_blitter (ea : Int) (s : State) : int_ptr :=
  if ea ≥ 0xff8000 ∧ ea < 0xffC000 then
    { block := block_t.swrom, offset := 4 * (c_shl s.rom_latch 14 + c_and ea 0x3FFF) }
  else { block := block_t.memory, offset := ea }

/-- `memory_read_blitter` (memory.c 394-404). -/
def memory_read_blitter (data ea : Int) (s : State) : Option State :=
  let ea1 := remap_address_blitter ea s
  if ea1 < 0xfffc00 ∨ ea1 ≥ 0xffff00 then
    let memptr := get_memptr_blitter ea1 s
    match read_ptr memptr s with
    | none => none
    | some v =>
      let s1 := if v ≥ 0 ∧ v ≠ data then { s with failflag := c_or s.failflag 1 } else s
      write_ptr memptr data s1
  else some s

/-- `memory_write_blitter` (memory.c 406-417). -/
def memory_write_blitter (data ea : Int) (s : State) : Option (State × Int) :=
  let ea1 := remap_address_blitter ea s
  let s1 := if ea1 = 0xfffe30 then set_rom_latch (c_and data 0xf) s else s
  let s2 := if ea1 = 0xfffe31 then { s1 with boot_mode := c_and data 0x20 } else s1
  match write_ptr (get_memptr_blitter ea1 s2) data s2 with
  | none => none
  | some s3 => some (s3, 0)

/-- `init_blitter` (memory.c 419-426). -/
def init_blitter (s : State) : State :=
  { s with swrom := (init_ram (SWROM_NUM_BANKS * SWROM_SIZE)).1,
           swrom_size := (init_ram (SWROM_NUM_BANKS * SWROM_SIZE)).2,
           memory_read_fn := read_fn_t.memory_read_blitter,
           memory_write_fn := write_fn_t.memory_write_blitter }

/-! ### memory.c: the handler pointers and the public methods -/

/-- The state after a read handler of a paged machine: `none` is an access outside a block,
after which the state is only known to be `undefined`. -/
def read_result (s : State) (r : Option State) : State :=
  match r with
  | some t => t
  | none => { s with undefined := true }

/-- The state and the result after a write handler of a paged machine. -/
def write_result (s : State) (r : Option (State × Int)) : State × Int :=
  match r with
  | some t => t
  | none => ({ s with undefined := true }, 0)

/-- The call `(*memory_read_fn)(data, ea)`. -/
def call_read_fn (data ea : Int) (s : State) : State :=
  match s.memory_read_fn with
  | read_fn_t.memory_read_default => memory_read_default data ea s
  | read_fn_t.memory_read_atom => memory_read_atom data ea s
  | read_fn_t.memory_read_mek6800d2 => memory_read_mek6800d2 data ea s
  | read_fn_t.memory_read_pet => memory_read_pet data ea s
  | read_fn_t.memory_read_beeb => read_result s (memory_read_beeb data ea s)
  | read_fn_t.memory_read_master => read_result s (memory_read_master data ea s)
  | read_fn_t.memory_read_elk => read_result s (memory_read_elk data ea s)
  | read_fn_t.memory_read_blitter => read_result s (memory_read_blitter data ea s)

/-- The call `(*memory_write_fn)(data, ea)`. -/
def call_write_fn (data ea : Int) (s : State) : State × Int :=
  match s.memory_write_fn with
  | write_fn_t.memory_write_default => memory_write_default data ea s
  | write_fn_t.memory_write_atom => memory_write_atom data ea s
  | write_fn_t.memory_write_mek6800d2 => memory_write_mek6800d2 data ea s
  | write_fn_t.memory_write_beeb => write_result s (memory_write_beeb data ea s)
  | write_fn_t.memory_write_master => write_result s (memory_write_master data ea s)
  | write_fn_t.memory_write_elk => write_result s (memory_write_elk data ea s)
  | write_fn_t.memory_write_blitter => write_result s (memory_write_blitter data ea s)

/-- `init_mek6800d2` (memory.c 344-347). -/
def init_mek6800d2 (s : State) : State :=
  { s with memory_read_fn := read_fn_t.memory_read_mek6800d2,
           memory_write_fn := write_fn_t.memory_write_mek6800d2 }

/-- `init_atom` (memory.c 368-371). -/
def init_atom (s : State) : State :=
  { s with memory_read_fn := read_fn_t.memory_read_atom,
           memory_write_fn := write_fn_t.memory_write_atom }

/-- `init_pet` (memory.c 481-485) when no ROM directory is set (`load_rom_images` then
returns at once). -/
def init_pet (s : State) : State :=
  { s with memory_read_fn := read_fn_t.memory_read_pet,
           memory_write_fn := write_fn_t.memory_write_default }

/-- `init_default` (memory.c 504-507). -/
def init_default (s : State) : State :=
  { s with memory_read_fn := read_fn_t.memory_read_default,
           memory_write_fn := write_fn_t.memory_write_default }

/-- The globals after `memory_init(size, MACHINE_BEEB, logtube)` (memory.c 513-555) at
program start: the block of `memory`, then `init_beeb`. -/
def memory_init_beeb (size : Int) : State :=
  init_beeb { memory := (init_ram size).1, memory_size := (init_ram size).2 }

/-- The globals after `memory_init(size, MACHINE_MASTER, logtube)` (memory.c 513-555) at
program start: the block of `memory`, then `init_master`. -/
def memory_init_master (size : Int) : State :=
  init_master { memory := (init_ram size).1, memory_size := (init_ram size).2 }

/-- The globals after `memory_init(size, MACHINE_BLITTER, logtube)` (memory.c 513-555) at
program start: the block of `memory`, then `init_blitter`. -/
def memory_init_blitter (size : Int) : State :=
  init_blitter { memory := (init_ram size).1, memory_size := (init_ram size).2 }

/-- `memory_set_modelling` (memory.c 566-568), on the set of kinds of the bitmask. -/
def memory_set_modelling (bitmask : mem_access_t → Bool) (s : State) : State :=
  { s with mem_model := bitmask }

/-- `memory_read` (memory.c 582-602).  The two `assert`s (`ea >= 0`, `data >= 0`) are
preconditions of the callers. -/
def memory_read (data ea : Int) (type : mem_access_t) (s : State) : State :=
  let s1 := { s with
    vdu_op := if type = mem_access_t.MEM_FETCH then
        c_bool (c_and s.acccon_latch 0x08 = 0x00 ∧ c_and ea 0xffe000 = 0xc000)
      else s.vdu_op }
  let type1 := if type = mem_access_t.MEM_FETCH then mem_access_t.MEM_INSTR else type
  if s1.mem_model type1 then call_read_fn data ea s1 else s1

/-- `memory_write` (memory.c 604-620). -/
def memory_write (data ea : Int) (type : mem_access_t) (s : State) : State :=
  if s.mem_model type then (call_write_fn data ea s).1 else s

/-- `memory_read_raw` (memory.c 622-624). -/
def memory_read_raw (ea : Int) (s : State) : Int := s.memory ea

/-- The state in which modelling of an access of kind `type` is enabled: the bit that
`memory_read` tests (a FETCH is handled as an INSTR access). -/
def modelled (type : mem_access_t) (s : State) : Prop :=
  s.mem_model (if type = mem_access_t.MEM_FETCH then mem_access_t.MEM_INSTR else type) = true

/-- The default (flat RAM) machine: the handlers installed by `init_default`. -/
def default_machine (s : State) : Prop :=
  s.memory_read_fn = read_fn_t.memory_read_default ∧
  s.memory_write_fn = write_fn_t.memory_write_default

instance (type : mem_access_t) (s : State) : Decidable (modelled type s) := by
  unfold modelled; infer_instance

instance (s : State) : Decidable (default_machine s) := by
  unfold default_machine; infer_instance

/-- A state just after `memory_init` for the default machine, with modelling enabled for
every kind. -/
def fresh_memory : State :=
  memory_set_modelling (fun _ => true) (init_default {})

/-! ## em_65816.c: types -/

/-- `AddrMode` (em_65816.c 13-39). -/
inductive AddrMode where
  | INDX | INDY | IND | IDL | IDLY | ZPX | ZPY | ZP
  | ABS | ABSX | ABSY | IND16 | IND1X | SR | ISY | ABL | ALX | IAL | BRL | BM
  | IMP | IMPA | BRA | IMM
  deriving DecidableEq, Repr

/-- The integer value of an `AddrMode` enumerator (used by the comparison `mode <= ZP`). -/
def AddrMode.val : AddrMode → Int
  | INDX => 0 | INDY => 1 | IND => 2 | IDL => 3 | IDLY => 4 | ZPX => 5 | ZPY => 6 | ZP => 7
  | ABS => 8 | ABSX => 9 | ABSY => 10 | IND16 => 11 | IND1X => 12 | SR => 13 | ISY => 14
  | ABL => 15 | ALX => 16 | IAL => 17 | BRL => 18 | BM => 19
  | IMP => 20 | IMPA => 21 | BRA => 22 | IMM => 23

/-- `OpType` (em_65816.c 41-47). -/
inductive OpType where
  | READOP | WRITEOP | RMWOP | BRANCHOP | OTHER
  deriving DecidableEq, Repr

/-- The functions that the `emulate` pointer of a table entry can point to. -/
inductive emulate_fn where
  | op_ORA | op_TSB | op_ASL | op_PHP | op_ASLA | op_PHD | op_BPL | op_TRB | op_CLC | op_INCA
  | op_TCS | op_JSR | op_AND | op_JSL | op_BIT | op_ROL | op_PLP | op_ROLA | op_PLD | op_BMI
  | op_SEC | op_DECA | op_TSC | op_RTI | op_EOR | op_MVP | op_LSR | op_PHA | op_LSRA | op_PHK
  | op_BVC | op_MVN | op_CLI | op_PHY | op_TCD | op_RTS | op_ADC | op_PER | op_STZ | op_ROR
  | op_PLA | op_RORA | op_RTL | op_BVS | op_SEI | op_PLY | op_TDC | op_STA | op_STY | op_STX
  | op_DEY | op_BIT_IMM | op_TXA | op_PHB | op_BCC | op_TYA | op_TXS | op_TXY | op_LDY | op_LDA
  | op_LDX | op_TAY | op_TAX | op_PLB | op_BCS | op_CLV | op_TSX | op_TYX | op_CPY | op_CMP
  | op_REP | op_DEC | op_INY | op_DEX | op_BNE | op_PEI | op_CLD | op_PHX | op_CPX | op_SBC
  | op_SEP | op_INC | op_INX | op_XBA | op_BEQ | op_PEA | op_SED | op_PLX | op_XCE | op_JSR_new
  deriving DecidableEq, Repr

/-- `InstrType` (em_65816.c 58-70); `emulate` is `none` for the null pointer. -/
structure InstrType where
  mnemonic : String
  undocumented : Int
  mode : AddrMode
  cycles : Int
  newop : Int
  optype : OpType
  emulate : Option emulate_fn
  len : Int := 0
  m_extra : Int := 0
  x_extra : Int := 0
  fmt : String := ""
  deriving Repr

/-- `addr_mode_table` (em_65816.c 101-126): length and format of each addressing mode. -/
def addr_mode_table : AddrMode → Int × String
  | AddrMode.INDX => (2, "%1$s (%2$02X,X)")
  | AddrMode.INDY => (2, "%1$s (%2$02X),Y")
  | AddrMode.IND => (2, "%1$s (%2$02X)")
  | AddrMode.IDL => (2, "%1$s [%2$02X]")
  | AddrMode.IDLY => (2, "%1$s [%2$02X],Y")
  | AddrMode.ZPX => (2, "%1$s %2$02X,X")
  | AddrMode.ZPY => (2, "%1$s %2$02X,Y")
  | AddrMode.ZP => (2, "%1$s %2$02X")
  | AddrMode.ABS => (3, "%1$s %3$02X%2$02X")
  | AddrMode.ABSX => (3, "%1$s %3$02X%2$02X,X")
  | AddrMode.ABSY => (3, "%1$s %3$02X%2$02X,Y")
  | AddrMode.IND16 => (3, "%1$s (%3$02X%2$02X)")
  | AddrMode.IND1X => (3, "%1$s (%3$02X%2$02X,X)")
  | AddrMode.SR => (2, "%1$s %2$02X,S")
  | AddrMode.ISY => (2, "%1$s (%2$02X,S),Y")
  | AddrMode.ABL => (4, "%1$s %4$02X%3$02X%2$02X")
  | AddrMode.ALX => (4, "%1$s %4$02X%3$02X%2$02X,X")
  | AddrMode.IAL => (3, "%1$s [%3$02X%2$02X]")
  | AddrMode.BRL => (3, "%1$s %2$s")
  | AddrMode.BM => (3, "%1$s %3$02X,%2$02X")
  | AddrMode.IMP => (1, "%1$s")
  | AddrMode.IMPA => (1, "%1$s A")
  | AddrMode.BRA => (2, "%1$s %2$s")
  | AddrMode.IMM => (2, "%1$s #%2$02X")

/-- `x1_ops` (em_65816.c 159-171). -/
def x1_ops : List String :=
  ["CPX", "CPY", "LDX", "LDY", "PHX", "PHY", "PLX", "PLY", "STX", "STY"]

/-- `m1_ops` (em_65816.c 173-187). -/
def m1_ops : List String :=
  ["ADC", "AND", "BIT", "CMP", "EOR", "LDA", "ORA", "PHA", "PLA", "SBC", "STA", "STZ"]

/-- `m2_ops` (em_65816.c 189-199). -/
def m2_ops : List String :=
  ["ASL", "DEC", "INC", "LSR", "ROL", "ROR", "TSB", "TRB"]

/-- An initialiser `{ mnemonic, undocumented, mode, cycles, newop, optype, emulate }` of the
table; the fields `len`, `m_extra`, `x_extra` and `fmt` are left zero. -/
def entry (mnemonic : String) (undocumented : Int) (mode : AddrMode) (cycles newop : Int)
    (optype : OpType) (emulate : Option emulate_fn) : InstrType :=
  { mnemonic := mnemonic, undocumented := undocumented, mode := mode, cycles := cycles,
    newop := newop, optype := optype, emulate := emulate }

/-- `instr_table_65c816` (em_65816.c 3036-3293), opcodes 00 to 0F. -/
def instr_table_65c816_0x : List InstrType := [
  /- 00 -/ entry "BRK" 0 AddrMode.IMM 7 0 OpType.OTHER none,
  /- 01 -/ entry "ORA" 0 AddrMode.INDX 6 0 OpType.READOP (some emulate_fn.op_ORA),
  /- 02 -/ entry "COP" 0 AddrMode.IMM 7 1 OpType.OTHER none,
  /- 03 -/ entry "ORA" 0 AddrMode.SR 4 1 OpType.READOP (some emulate_fn.op_ORA),
  /- 04 -/ entry "TSB" 0 AddrMode.ZP 5 0 OpType.RMWOP (some emulate_fn.op_TSB),
  /- 05 -/ entry "ORA" 0 AddrMode.ZP 3 0 OpType.READOP (some emulate_fn.op_ORA),
  /- 06 -/ entry "ASL" 0 AddrMode.ZP 5 0 OpType.RMWOP (some emulate_fn.op_ASL),
  /- 07 -/ entry "ORA" 0 AddrMode.IDL 6 1 OpType.READOP (some emulate_fn.op_ORA),
  /- 08 -/ entry "PHP" 0 AddrMode.IMP 3 0 OpType.OTHER (some emulate_fn.op_PHP),
  /- 09 -/ entry "ORA" 0 AddrMode.IMM 2 0 OpType.OTHER (some emulate_fn.op_ORA),
  /- 0A -/ entry "ASL" 0 AddrMode.IMPA 2 0 OpType.OTHER (some emulate_fn.op_ASLA),
  /- 0B -/ entry "PHD" 0 AddrMode.IMP 4 1 OpType.OTHER (some emulate_fn.op_PHD),
  /- 0C -/ entry "TSB" 0 AddrMode.ABS 6 0 OpType.RMWOP (some emulate_fn.op_TSB),
  /- 0D -/ entry "ORA" 0 AddrMode.ABS 4 0 OpType.READOP (some emulate_fn.op_ORA),
  /- 0E -/ entry "ASL" 0 AddrMode.ABS 6 0 OpType.RMWOP (some emulate_fn.op_ASL),
  /- 0F -/ entry "ORA" 0 AddrMode.ABL 5 1 OpType.READOP (some emulate_fn.op_ORA)
]

/-- `instr_table_65c816` (em_65816.c 3036-3293), opcodes 10 to 1F. -/
def instr_table_65c816_1x : List InstrType := [
  /- 10 -/ entry "BPL" 0 AddrMode.BRA 2 0 OpType.BRANCHOP (some emulate_fn.op_BPL),
  /- 11 -/ entry "ORA" 0 AddrMode.INDY 5 0 OpType.READOP (some emulate_fn.op_ORA),
  /- 12 -/ entry "ORA" 0 AddrMode.IND 5 0 OpType.READOP (some emulate_fn.op_ORA),
  /- 13 -/ entry "ORA" 0 AddrMode.ISY 7 1 OpType.READOP (some emulate_fn.op_ORA),
  /- 14 -/ entry "TRB" 0 AddrMode.ZP 5 0 OpType.RMWOP (some emulate_fn.op_TRB),
  /- 15 -/ entry "ORA" 0 AddrMode.ZPX 4 0 OpType.READOP (some emulate_fn.op_ORA),
  /- 16 -/ entry "ASL" 0 AddrMode.ZPX 6 0 OpType.RMWOP (some emulate_fn.op_ASL),
  /- 17 -/ entry "ORA" 0 AddrMode.IDLY 6 1 OpType.READOP (some emulate_fn.op_ORA),
  /- 18 -/ entry "CLC" 0 AddrMode.IMP 2 0 OpType.OTHER (some emulate_fn.op_CLC),
  /- 19 -/ entry "ORA" 0 AddrMode.ABSY 4 0 OpType.READOP (some emulate_fn.op_ORA),
  /- 1A -/ entry "INC" 0 AddrMode.IMPA 2 0 OpType.OTHER (some emulate_fn.op_INCA),
  /- 1B -/ entry "TCS" 0 AddrMode.IMP 2 1 OpType.OTHER (some emulate_fn.op_TCS),
  /- 1C -/ entry "TRB" 0 AddrMode.ABS 6 0 OpType.RMWOP (some emulate_fn.op_TRB),
  /- 1D -/ entry "ORA" 0 AddrMode.ABSX 4 0 OpType.READOP (some emulate_fn.op_ORA),
  /- 1E -/ entry "ASL" 0 AddrMode.ABSX 7 0 OpType.RMWOP (some emulate_fn.op_ASL),
  /- 1F -/ entry "ORA" 0 AddrMode.ALX 5 1 OpType.READOP (some emulate_fn.op_ORA)
]

/-- `instr_table_65c816` (em_65816.c 3036-3293), opcodes 20 to 2F. -/
def instr_table_65c816_2x : List InstrType := [
  /- 20 -/ entry "JSR" 0 AddrMode.ABS 6 0 OpType.OTHER (some emulate_fn.op_JSR),
  /- 21 -/ entry "AND" 0 AddrMode.INDX 6 0 OpType.READOP (some emulate_fn.op_AND),
  /- 22 -/ entry "JSL" 0 AddrMode.ABL 8 1 OpType.OTHER (some emulate_fn.op_JSL),
  /- 23 -/ entry "AND" 0 AddrMode.SR 4 1 OpType.READOP (some emulate_fn.op_AND),
  /- 24 -/ entry "BIT" 0 AddrMode.ZP 3 0 OpType.READOP (some emulate_fn.op_BIT),
  /- 25 -/ entry "AND" 0 AddrMode.ZP 3 0 OpType.READOP (some emulate_fn.op_AND),
  /- 26 -/ entry "ROL" 0 AddrMode.ZP 5 0 OpType.RMWOP (some emulate_fn.op_ROL),
  /- 27 -/ entry "AND" 0 AddrMode.IDL 6 1 OpType.READOP (some emulate_fn.op_AND),
  /- 28 -/ entry "PLP" 0 AddrMode.IMP 4 0 OpType.OTHER (some emulate_fn.op_PLP),
  /- 29 -/ entry "AND" 0 AddrMode.IMM 2 0 OpType.OTHER (some emulate_fn.op_AND),
  /- 2A -/ entry "ROL" 0 AddrMode.IMPA 2 0 OpType.OTHER (some emulate_fn.op_ROLA),
  /- 2B -/ entry "PLD" 0 AddrMode.IMP 5 1 OpType.OTHER (some emulate_fn.op_PLD),
  /- 2C -/ entry "BIT" 0 AddrMode.ABS 4 0 OpType.READOP (some emulate_fn.op_BIT),
  /- 2D -/ entry "AND" 0 AddrMode.ABS 4 0 OpType.READOP (some emulate_fn.op_AND),
  /- 2E -/ entry "ROL" 0 AddrMode.ABS 6 0 OpType.RMWOP (some emulate_fn.op_ROL),
  /- 2F -/ entry "AND" 0 AddrMode.ABL 5 1 OpType.READOP (some emulate_fn.op_AND)
]

/-- `instr_table_65c816` (em_65816.c 3036-3293), opcodes 30 to 3F. -/
def instr_table_65c816_3x : List InstrType := [
  /- 30 -/ entry "BMI" 0 AddrMode.BRA 2 0 OpType.BRANCHOP (some emulate_fn.op_BMI),
  /- 31 -/ entry "AND" 0 AddrMode.INDY 5 0 OpType.READOP (some emulate_fn.op_AND),
  /- 32 -/ entry "AND" 0 AddrMode.IND 5 0 OpType.READOP (some emulate_fn.op_AND),
  /- 33 -/ entry "AND" 0 AddrMode.ISY 7 1 OpType.READOP (some emulate_fn.op_AND),
  /- 34 -/ entry "BIT" 0 AddrMode.ZPX 4 0 OpType.READOP (some emulate_fn.op_BIT),
  /- 35 -/ entry "AND" 0 AddrMode.ZPX 4 0 OpType.READOP (some emulate_fn.op_AND),
  /- 36 -/ entry "ROL" 0 AddrMode.ZPX 6 0 OpType.RMWOP (some emulate_fn.op_ROL),
  /- 37 -/ entry "AND" 0 AddrMode.IDLY 6 1 OpType.READOP (some emulate_fn.op_AND),
  /- 38 -/ entry "SEC" 0 AddrMode.IMP 2 0 OpType.OTHER (some emulate_fn.op_SEC),
  /- 39 -/ entry "AND" 0 AddrMode.ABSY 4 0 OpType.READOP (some emulate_fn.op_AND),
  /- 3A -/ entry "DEC" 0 AddrMode.IMPA 2 0 OpType.OTHER (some emulate_fn.op_DECA),
  /- 3B -/ entry "TSC" 0 AddrMode.IMP 2 1 OpType.OTHER (some emulate_fn.op_TSC),
  /- 3C -/ entry "BIT" 0 AddrMode.ABSX 4 0 OpType.READOP (some emulate_fn.op_BIT),
  /- 3D -/ entry "AND" 0 AddrMode.ABSX 4 0 OpType.READOP (some emulate_fn.op_AND),
  /- 3E -/ entry "ROL" 0 AddrMode.ABSX 7 0 OpType.RMWOP (some emulate_fn.op_ROL),
  /- 3F -/ entry "AND" 0 AddrMode.ALX 5 1 OpType.READOP (some emulate_fn.op_AND)
]

/-- `instr_table_65c816` (em_65816.c 3036-3293), opcodes 40 to 4F. -/
def instr_table_65c816_4x : List InstrType := [
  /- 40 -/ entry "RTI" 0 AddrMode.IMP 6 0 OpType.OTHER (some emulate_fn.op_RTI),
  /- 41 -/ entry "EOR" 0 AddrMode.INDX 6 0 OpType.READOP (some emulate_fn.op_EOR),
  /- 42 -/ entry "WDM" 0 AddrMode.IMM 2 1 OpType.OTHER none,
  /- 43 -/ entry "EOR" 0 AddrMode.SR 4 1 OpType.READOP (some emulate_fn.op_EOR),
  /- 44 -/ entry "MVP" 0 AddrMode.BM 7 1 OpType.OTHER (some emulate_fn.op_MVP),
  /- 45 -/ entry "EOR" 0 AddrMode.ZP 3 0 OpType.READOP (some emulate_fn.op_EOR),
  /- 46 -/ entry "LSR" 0 AddrMode.ZP 5 0 OpType.RMWOP (some emulate_fn.op_LSR),
  /- 47 -/ entry "EOR" 0 AddrMode.IDL 6 1 OpType.READOP (some emulate_fn.op_EOR),
  /- 48 -/ entry "PHA" 0 AddrMode.IMP 3 0 OpType.OTHER (some emulate_fn.op_PHA),
  /- 49 -/ entry "EOR" 0 AddrMode.IMM 2 0 OpType.OTHER (some emulate_fn.op_EOR),
  /- 4A -/ entry "LSR" 0 AddrMode.IMPA 2 0 OpType.OTHER (some emulate_fn.op_LSRA),
  /- 4B -/ entry "PHK" 0 AddrMode.IMP 3 1 OpType.OTHER (some emulate_fn.op_PHK),
  /- 4C -/ entry "JMP" 0 AddrMode.ABS 3 0 OpType.OTHER none,
  /- 4D -/ entry "EOR" 0 AddrMode.ABS 4 0 OpType.READOP (some emulate_fn.op_EOR),
  /- 4E -/ entry "LSR" 0 AddrMode.ABS 6 0 OpType.RMWOP (some emulate_fn.op_LSR),
  /- 4F -/ entry "EOR" 0 AddrMode.ABL 5 1 OpType.READOP (some emulate_fn.op_EOR)
]

/-- `instr_table_65c816` (em_65816.c 3036-3293), opcodes 50 to 5F. -/
def instr_table_65c816_5x : List InstrType := [
  /- 50 -/ entry "BVC" 0 AddrMode.BRA 2 0 OpType.BRANCHOP (some emulate_fn.op_BVC),
  /- 51 -/ entry "EOR" 0 AddrMode.INDY 5 0 OpType.READOP (some emulate_fn.op_EOR),
  /- 52 -/ entry "EOR" 0 AddrMode.IND 5 0 OpType.READOP (some emulate_fn.op_EOR),
  /- 53 -/ entry "EOR" 0 AddrMode.ISY 7 1 OpType.READOP (some emulate_fn.op_EOR),
  /- 54 -/ entry "MVN" 0 AddrMode.BM 7 1 OpType.OTHER (some emulate_fn.op_MVN),
  /- 55 -/ entry "EOR" 0 AddrMode.ZPX 4 0 OpType.READOP (some emulate_fn.op_EOR),
  /- 56 -/ entry "LSR" 0 AddrMode.ZPX 6 0 OpType.RMWOP (some emulate_fn.op_LSR),
  /- 57 -/ entry "EOR" 0 AddrMode.IDLY 6 1 OpType.READOP (some emulate_fn.op_EOR),
  /- 58 -/ entry "CLI" 0 AddrMode.IMP 2 0 OpType.OTHER (some emulate_fn.op_CLI),
  /- 59 -/ entry "EOR" 0 AddrMode.ABSY 4 0 OpType.READOP (some emulate_fn.op_EOR),
  /- 5A -/ entry "PHY" 0 AddrMode.IMP 3 0 OpType.OTHER (some emulate_fn.op_PHY),
  /- 5B -/ entry "TCD" 0 AddrMode.IMP 2 1 OpType.OTHER (some emulate_fn.op_TCD),
  /- 5C -/ entry "JML" 0 AddrMode.ABL 4 1 OpType.OTHER none,
  /- 5D -/ entry "EOR" 0 AddrMode.ABSX 4 0 OpType.READOP (some emulate_fn.op_EOR),
  /- 5E -/ entry "LSR" 0 AddrMode.ABSX 7 0 OpType.RMWOP (some emulate_fn.op_LSR),
  /- 5F -/ entry "EOR" 0 AddrMode.ALX 5 1 OpType.READOP (some emulate_fn.op_EOR)
]

/-- `instr_table_65c816` (em_65816.c 3036-3293), opcodes 60 to 6F. -/
def instr_table_65c816_6x : List InstrType := [
  /- 60 -/ entry "RTS" 0 AddrMode.IMP 6 0 OpType.OTHER (some emulate_fn.op_RTS),
  /- 61 -/ entry "ADC" 0 AddrMode.INDX 6 0 OpType.READOP (some emulate_fn.op_ADC),
  /- 62 -/ entry "PER" 0 AddrMode.BRL 6 1 OpType.OTHER (some emulate_fn.op_PER),
  /- 63 -/ entry "ADC" 0 AddrMode.SR 4 1 OpType.READOP (some emulate_fn.op_ADC),
  /- 64 -/ entry "STZ" 0 AddrMode.ZP 3 0 OpType.WRITEOP (some emulate_fn.op_STZ),
  /- 65 -/ entry "ADC" 0 AddrMode.ZP 3 0 OpType.READOP (some emulate_fn.op_ADC),
  /- 66 -/ entry "ROR" 0 AddrMode.ZP 5 0 OpType.RMWOP (some emulate_fn.op_ROR),
  /- 67 -/ entry "ADC" 0 AddrMode.IDL 6 1 OpType.READOP (some emulate_fn.op_ADC),
  /- 68 -/ entry "PLA" 0 AddrMode.IMP 4 0 OpType.OTHER (some emulate_fn.op_PLA),
  /- 69 -/ entry "ADC" 0 AddrMode.IMM 2 0 OpType.OTHER (some emulate_fn.op_ADC),
  /- 6A -/ entry "ROR" 0 AddrMode.IMPA 2 0 OpType.OTHER (some emulate_fn.op_RORA),
  /- 6B -/ entry "RTL" 0 AddrMode.IMP 6 1 OpType.OTHER (some emulate_fn.op_RTL),
  /- 6C -/ entry "JMP" 0 AddrMode.IND16 5 0 OpType.OTHER none,
  /- 6D -/ entry "ADC" 0 AddrMode.ABS 4 0 OpType.READOP (some emulate_fn.op_ADC),
  /- 6E -/ entry "ROR" 0 AddrMode.ABS 6 0 OpType.RMWOP (some emulate_fn.op_ROR),
  /- 6F -/ entry "ADC" 0 AddrMode.ABL 5 1 OpType.READOP (some emulate_fn.op_ADC)
]

/-- `instr_table_65c816` (em_65816.c 3036-3293), opcodes 70 to 7F. -/
def instr_table_65c816_7x : List InstrType := [
  /- 70 -/ entry "BVS" 0 AddrMode.BRA 2 0 OpType.BRANCHOP (some emulate_fn.op_BVS),
  /- 71 -/ entry "ADC" 0 AddrMode.INDY 5 0 OpType.READOP (some emulate_fn.op_ADC),
  /- 72 -/ entry "ADC" 0 AddrMode.IND 5 0 OpType.READOP (some emulate_fn.op_ADC),
  /- 73 -/ entry "ADC" 0 AddrMode.ISY 7 1 OpType.READOP (some emulate_fn.op_ADC),
  /- 74 -/ entry "STZ" 0 AddrMode.ZPX 4 0 OpType.WRITEOP (some emulate_fn.op_STZ),
  /- 75 -/ entry "ADC" 0 AddrMode.ZPX 4 0 OpType.READOP (some emulate_fn.op_ADC),
  /- 76 -/ entry "ROR" 0 AddrMode.ZPX 6 0 OpType.RMWOP (some emulate_fn.op_ROR),
  /- 77 -/ entry "ADC" 0 AddrMode.IDLY 6 1 OpType.READOP (some emulate_fn.op_ADC),
  /- 78 -/ entry "SEI" 0 AddrMode.IMP 2 0 OpType.OTHER (some emulate_fn.op_SEI),
  /- 79 -/ entry "ADC" 0 AddrMode.ABSY 4 0 OpType.READOP (some emulate_fn.op_ADC),
  /- 7A -/ entry "PLY" 0 AddrMode.IMP 4 0 OpType.OTHER (some emulate_fn.op_PLY),
  /- 7B -/ entry "TDC" 0 AddrMode.IMP 2 1 OpType.OTHER (some emulate_fn.op_TDC),
  /- 7C -/ entry "JMP" 0 AddrMode.IND1X 6 0 OpType.OTHER none,
  /- 7D -/ entry "ADC" 0 AddrMode.ABSX 4 0 OpType.READOP (some emulate_fn.op_ADC),
  /- 7E -/ entry "ROR" 0 AddrMode.ABSX 7 0 OpType.RMWOP (some emulate_fn.op_ROR),
  /- 7F -/ entry "ADC" 0 AddrMode.ALX 5 1 OpType.READOP (some emulate_fn.op_ADC)
]

/-- `instr_table_65c816` (em_65816.c 3036-3293), opcodes 80 to 8F. -/
def instr_table_65c816_8x : List InstrType := [
  /- 80 -/ entry "BRA" 0 AddrMode.BRA 3 0 OpType.OTHER none,
  /- 81 -/ entry "STA" 0 AddrMode.INDX 6 0 OpType.WRITEOP (some emulate_fn.op_STA),
  /- 82 -/ entry "BRL" 0 AddrMode.BRL 4 1 OpType.OTHER none,
  /- 83 -/ entry "STA" 0 AddrMode.SR 4 1 OpType.WRITEOP (some emulate_fn.op_STA),
  /- 84 -/ entry "STY" 0 AddrMode.ZP 3 0 OpType.WRITEOP (some emulate_fn.op_STY),
  /- 85 -/ entry "STA" 0 AddrMode.ZP 3 0 OpType.WRITEOP (some emulate_fn.op_STA),
  /- 86 -/ entry "STX" 0 AddrMode.ZP 3 0 OpType.WRITEOP (some emulate_fn.op_STX),
  /- 87 -/ entry "STA" 0 AddrMode.IDL 6 1 OpType.WRITEOP (some emulate_fn.op_STA),
  /- 88 -/ entry "DEY" 0 AddrMode.IMP 2 0 OpType.OTHER (some emulate_fn.op_DEY),
  /- 89 -/ entry "BIT" 0 AddrMode.IMM 2 0 OpType.OTHER (some emulate_fn.op_BIT_IMM),
  /- 8A -/ entry "TXA" 0 AddrMode.IMP 2 0 OpType.OTHER (some emulate_fn.op_TXA),
  /- 8B -/ entry "PHB" 0 AddrMode.IMP 3 1 OpType.OTHER (some emulate_fn.op_PHB),
  /- 8C -/ entry "STY" 0 AddrMode.ABS 4 0 OpType.WRITEOP (some emulate_fn.op_STY),
  /- 8D -/ entry "STA" 0 AddrMode.ABS 4 0 OpType.WRITEOP (some emulate_fn.op_STA),
  /- 8E -/ entry "STX" 0 AddrMode.ABS 4 0 OpType.WRITEOP (some emulate_fn.op_STX),
  /- 8F -/ entry "STA" 0 AddrMode.ABL 5 1 OpType.WRITEOP (some emulate_fn.op_STA)
]

/-- `instr_table_65c816` (em_65816.c 3036-3293), opcodes 90 to 9F. -/
def instr_table_65c816_9x : List InstrType := [
  /- 90 -/ entry "BCC" 0 AddrMode.BRA 2 0 OpType.BRANCHOP (some emulate_fn.op_BCC),
  /- 91 -/ entry "STA" 0 AddrMode.INDY 6 0 OpType.WRITEOP (some emulate_fn.op_STA),
  /- 92 -/ entry "STA" 0 AddrMode.IND 5 0 OpType.WRITEOP (some emulate_fn.op_STA),
  /- 93 -/ entry "STA" 0 AddrMode.ISY 7 1 OpType.WRITEOP (some emulate_fn.op_STA),
  /- 94 -/ entry "STY" 0 AddrMode.ZPX 4 0 OpType.WRITEOP (some emulate_fn.op_STY),
  /- 95 -/ entry "STA" 0 AddrMode.ZPX 4 0 OpType.WRITEOP (some emulate_fn.op_STA),
  /- 96 -/ entry "STX" 0 AddrMode.ZPY 4 0 OpType.WRITEOP (some emulate_fn.op_STX),
  /- 97 -/ entry "STA" 0 AddrMode.IDLY 6 1 OpType.WRITEOP (some emulate_fn.op_STA),
  /- 98 -/ entry "TYA" 0 AddrMode.IMP 2 0 OpType.OTHER (some emulate_fn.op_TYA),
  /- 99 -/ entry "STA" 0 AddrMode.ABSY 5 0 OpType.WRITEOP (some emulate_fn.op_STA),
  /- 9A -/ entry "TXS" 0 AddrMode.IMP 2 0 OpType.OTHER (some emulate_fn.op_TXS),
  /- 9B -/ entry "TXY" 0 AddrMode.IMP 2 1 OpType.OTHER (some emulate_fn.op_TXY),
  /- 9C -/ entry "STZ" 0 AddrMode.ABS 4 0 OpType.WRITEOP (some emulate_fn.op_STZ),
  /- 9D -/ entry "STA" 0 AddrMode.ABSX 5 0 OpType.WRITEOP (some emulate_fn.op_STA),
  /- 9E -/ entry "STZ" 0 AddrMode.ABSX 5 0 OpType.WRITEOP (some emulate_fn.op_STZ),
  /- 9F -/ entry "STA" 0 AddrMode.ALX 5 1 OpType.WRITEOP (some emulate_fn.op_STA)
]

/-- `instr_table_65c816` (em_65816.c 3036-3293), opcodes A0 to AF. -/
def instr_table_65c816_Ax : List InstrType := [
  /- A0 -/ entry "LDY" 0 AddrMode.IMM 2 0 OpType.OTHER (some emulate_fn.op_LDY),
  /- A1 -/ entry "LDA" 0 AddrMode.INDX 6 0 OpType.READOP (some emulate_fn.op_LDA),
  /- A2 -/ entry "LDX" 0 AddrMode.IMM 2 0 OpType.OTHER (some emulate_fn.op_LDX),
  /- A3 -/ entry "LDA" 0 AddrMode.SR 4 1 OpType.READOP (some emulate_fn.op_LDA),
  /- A4 -/ entry "LDY" 0 AddrMode.ZP 3 0 OpType.READOP (some emulate_fn.op_LDY),
  /- A5 -/ entry "LDA" 0 AddrMode.ZP 3 0 OpType.READOP (some emulate_fn.op_LDA),
  /- A6 -/ entry "LDX" 0 AddrMode.ZP 3 0 OpType.READOP (some emulate_fn.op_LDX),
  /- A7 -/ entry "LDA" 0 AddrMode.IDL 6 1 OpType.READOP (some emulate_fn.op_LDA),
  /- A8 -/ entry "TAY" 0 AddrMode.IMP 2 0 OpType.OTHER (some emulate_fn.op_TAY),
  /- A9 -/ entry "LDA" 0 AddrMode.IMM 2 0 OpType.OTHER (some emulate_fn.op_LDA),
  /- AA -/ entry "TAX" 0 AddrMode.IMP 2 0 OpType.OTHER (some emulate_fn.op_TAX),
  /- AB -/ entry "PLB" 0 AddrMode.IMP 4 1 OpType.OTHER (some emulate_fn.op_PLB),
  /- AC -/ entry "LDY" 0 AddrMode.ABS 4 0 OpType.READOP (some emulate_fn.op_LDY),
  /- AD -/ entry "LDA" 0 AddrMode.ABS 4 0 OpType.READOP (some emulate_fn.op_LDA),
  /- AE -/ entry "LDX" 0 AddrMode.ABS 4 0 OpType.READOP (some emulate_fn.op_LDX),
  /- AF -/ entry "LDA" 0 AddrMode.ABL 5 1 OpType.READOP (some emulate_fn.op_LDA)
]

/-- `instr_table_65c816` (em_65816.c 3036-3293), opcodes B0 to BF. -/
def instr_table_65c816_Bx : List InstrType := [
  /- B0 -/ entry "BCS" 0 AddrMode.BRA 2 0 OpType.BRANCHOP (some emulate_fn.op_BCS),
  /- B1 -/ entry "LDA" 0 AddrMode.INDY 5 0 OpType.READOP (some emulate_fn.op_LDA),
  /- B2 -/ entry "LDA" 0 AddrMode.IND 5 0 OpType.READOP (some emulate_fn.op_LDA),
  /- B3 -/ entry "LDA" 0 AddrMode.ISY 7 1 OpType.READOP (some emulate_fn.op_LDA),
  /- B4 -/ entry "LDY" 0 AddrMode.ZPX 4 0 OpType.READOP (some emulate_fn.op_LDY),
  /- B5 -/ entry "LDA" 0 AddrMode.ZPX 4 0 OpType.READOP (some emulate_fn.op_LDA),
  /- B6 -/ entry "LDX" 0 AddrMode.ZPY 4 0 OpType.READOP (some emulate_fn.op_LDX),
  /- B7 -/ entry "LDA" 0 AddrMode.IDLY 6 1 OpType.READOP (some emulate_fn.op_LDA),
  /- B8 -/ entry "CLV" 0 AddrMode.IMP 2 0 OpType.OTHER (some emulate_fn.op_CLV),
  /- B9 -/ entry "LDA" 0 AddrMode.ABSY 4 0 OpType.READOP (some emulate_fn.op_LDA),
  /- BA -/ entry "TSX" 0 AddrMode.IMP 2 0 OpType.OTHER (some emulate_fn.op_TSX),
  /- BB -/ entry "TYX" 0 AddrMode.IMP 2 1 OpType.OTHER (some emulate_fn.op_TYX),
  /- BC -/ entry "LDY" 0 AddrMode.ABSX 4 0 OpType.READOP (some emulate_fn.op_LDY),
  /- BD -/ entry "LDA" 0 AddrMode.ABSX 4 0 OpType.READOP (some emulate_fn.op_LDA),
  /- BE -/ entry "LDX" 0 AddrMode.ABSY 4 0 OpType.READOP (some emulate_fn.op_LDX),
  /- BF -/ entry "LDA" 0 AddrMode.ALX 5 1 OpType.READOP (some emulate_fn.op_LDA)
]

/-- `instr_table_65c816` (em_65816.c 3036-3293), opcodes C0 to CF. -/
def instr_table_65c816_Cx : List InstrType := [
  /- C0 -/ entry "CPY" 0 AddrMode.IMM 2 0 OpType.OTHER (some emulate_fn.op_CPY),
  /- C1 -/ entry "CMP" 0 AddrMode.INDX 6 0 OpType.READOP (some emulate_fn.op_CMP),
  /- C2 -/ entry "REP" 0 AddrMode.IMM 3 1 OpType.OTHER (some emulate_fn.op_REP),
  /- C3 -/ entry "CMP" 0 AddrMode.SR 4 1 OpType.READOP (some emulate_fn.op_CMP),
  /- C4 -/ entry "CPY" 0 AddrMode.ZP 3 0 OpType.READOP (some emulate_fn.op_CPY),
  /- C5 -/ entry "CMP" 0 AddrMode.ZP 3 0 OpType.READOP (some emulate_fn.op_CMP),
  /- C6 -/ entry "DEC" 0 AddrMode.ZP 5 0 OpType.RMWOP (some emulate_fn.op_DEC),
  /- C7 -/ entry "CMP" 0 AddrMode.IDL 6 1 OpType.READOP (some emulate_fn.op_CMP),
  /- C8 -/ entry "INY" 0 AddrMode.IMP 2 0 OpType.OTHER (some emulate_fn.op_INY),
  /- C9 -/ entry "CMP" 0 AddrMode.IMM 2 0 OpType.OTHER (some emulate_fn.op_CMP),
  /- CA -/ entry "DEX" 0 AddrMode.IMP 2 0 OpType.OTHER (some emulate_fn.op_DEX),
  /- CB -/ entry "WAI" 0 AddrMode.IMP 1 1 OpType.OTHER none,
  /- CC -/ entry "CPY" 0 AddrMode.ABS 4 0 OpType.READOP (some emulate_fn.op_CPY),
  /- CD -/ entry "CMP" 0 AddrMode.ABS 4 0 OpType.READOP (some emulate_fn.op_CMP),
  /- CE -/ entry "DEC" 0 AddrMode.ABS 6 0 OpType.RMWOP (some emulate_fn.op_DEC),
  /- CF -/ entry "CMP" 0 AddrMode.ABL 5 1 OpType.READOP (some emulate_fn.op_CMP)
]

/-- `instr_table_65c816` (em_65816.c 3036-3293), opcodes D0 to DF. -/
def instr_table_65c816_Dx : List InstrType := [
  /- D0 -/ entry "BNE" 0 AddrMode.BRA 2 0 OpType.BRANCHOP (some emulate_fn.op_BNE),
  /- D1 -/ entry "CMP" 0 AddrMode.INDY 5 0 OpType.READOP (some emulate_fn.op_CMP),
  /- D2 -/ entry "CMP" 0 AddrMode.IND 5 0 OpType.READOP (some emulate_fn.op_CMP),
  /- D3 -/ entry "CMP" 0 AddrMode.ISY 7 1 OpType.READOP (some emulate_fn.op_CMP),
  /- D4 -/ entry "PEI" 0 AddrMode.IND 6 1 OpType.OTHER (some emulate_fn.op_PEI),
  /- D5 -/ entry "CMP" 0 AddrMode.ZPX 4 0 OpType.READOP (some emulate_fn.op_CMP),
  /- D6 -/ entry "DEC" 0 AddrMode.ZPX 6 0 OpType.RMWOP (some emulate_fn.op_DEC),
  /- D7 -/ entry "CMP" 0 AddrMode.IDLY 6 1 OpType.READOP (some emulate_fn.op_CMP),
  /- D8 -/ entry "CLD" 0 AddrMode.IMP 2 0 OpType.OTHER (some emulate_fn.op_CLD),
  /- D9 -/ entry "CMP" 0 AddrMode.ABSY 4 0 OpType.READOP (some emulate_fn.op_CMP),
  /- DA -/ entry "PHX" 0 AddrMode.IMP 3 0 OpType.OTHER (some emulate_fn.op_PHX),
  /- DB -/ entry "STP" 0 AddrMode.IMP 1 1 OpType.OTHER none,
  /- DC -/ entry "JML" 0 AddrMode.IAL 6 1 OpType.OTHER none,
  /- DD -/ entry "CMP" 0 AddrMode.ABSX 4 0 OpType.READOP (some emulate_fn.op_CMP),
  /- DE -/ entry "DEC" 0 AddrMode.ABSX 7 0 OpType.RMWOP (some emulate_fn.op_DEC),
  /- DF -/ entry "CMP" 0 AddrMode.ALX 5 1 OpType.READOP (some emulate_fn.op_CMP)
]

/-- `instr_table_65c816` (em_65816.c 3036-3293), opcodes E0 to EF. -/
def instr_table_65c816_Ex : List InstrType := [
  /- E0 -/ entry "CPX" 0 AddrMode.IMM 2 0 OpType.OTHER (some emulate_fn.op_CPX),
  /- E1 -/ entry "SBC" 0 AddrMode.INDX 6 0 OpType.READOP (some emulate_fn.op_SBC),
  /- E2 -/ entry "SEP" 0 AddrMode.IMM 3 1 OpType.OTHER (some emulate_fn.op_SEP),
  /- E3 -/ entry "SBC" 0 AddrMode.SR 4 1 OpType.READOP (some emulate_fn.op_SBC),
  /- E4 -/ entry "CPX" 0 AddrMode.ZP 3 0 OpType.READOP (some emulate_fn.op_CPX),
  /- E5 -/ entry "SBC" 0 AddrMode.ZP 3 0 OpType.READOP (some emulate_fn.op_SBC),
  /- E6 -/ entry "INC" 0 AddrMode.ZP 5 0 OpType.RMWOP (some emulate_fn.op_INC),
  /- E7 -/ entry "SBC" 0 AddrMode.IDL 6 1 OpType.READOP (some emulate_fn.op_SBC),
  /- E8 -/ entry "INX" 0 AddrMode.IMP 2 0 OpType.OTHER (some emulate_fn.op_INX),
  /- E9 -/ entry "SBC" 0 AddrMode.IMM 2 0 OpType.OTHER (some emulate_fn.op_SBC),
  /- EA -/ entry "NOP" 0 AddrMode.IMP 2 0 OpType.OTHER none,
  /- EB -/ entry "XBA" 0 AddrMode.IMP 3 1 OpType.OTHER (some emulate_fn.op_XBA),
  /- EC -/ entry "CPX" 0 AddrMode.ABS 4 0 OpType.READOP (some emulate_fn.op_CPX),
  /- ED -/ entry "SBC" 0 AddrMode.ABS 4 0 OpType.READOP (some emulate_fn.op_SBC),
  /- EE -/ entry "INC" 0 AddrMode.ABS 6 0 OpType.RMWOP (some emulate_fn.op_INC),
  /- EF -/ entry "SBC" 0 AddrMode.ABL 5 1 OpType.READOP (some emulate_fn.op_SBC)
]

/-- `instr_table_65c816` (em_65816.c 3036-3293), opcodes F0 to FF. -/
def instr_table_65c816_Fx : List InstrType := [
  /- F0 -/ entry "BEQ" 0 AddrMode.BRA 2 0 OpType.BRANCHOP (some emulate_fn.op_BEQ),
  /- F1 -/ entry "SBC" 0 AddrMode.INDY 5 0 OpType.READOP (some emulate_fn.op_SBC),
  /- F2 -/ entry "SBC" 0 AddrMode.IND 5 0 OpType.READOP (some emulate_fn.op_SBC),
  /- F3 -/ entry "SBC" 0 AddrMode.ISY 7 1 OpType.READOP (some emulate_fn.op_SBC),
  /- F4 -/ entry "PEA" 0 AddrMode.ABS 5 1 OpType.OTHER (some emulate_fn.op_PEA),
  /- F5 -/ entry "SBC" 0 AddrMode.ZPX 4 0 OpType.READOP (some emulate_fn.op_SBC),
  /- F6 -/ entry "INC" 0 AddrMode.ZPX 6 0 OpType.RMWOP (some emulate_fn.op_INC),
  /- F7 -/ entry "SBC" 0 AddrMode.IDLY 6 1 OpType.READOP (some emulate_fn.op_SBC),
  /- F8 -/ entry "SED" 0 AddrMode.IMP 2 0 OpType.OTHER (some emulate_fn.op_SED),
  /- F9 -/ entry "SBC" 0 AddrMode.ABSY 4 0 OpType.READOP (some emulate_fn.op_SBC),
  /- FA -/ entry "PLX" 0 AddrMode.IMP 4 0 OpType.OTHER (some emulate_fn.op_PLX),
  /- FB -/ entry "XCE" 0 AddrMode.IMP 2 1 OpType.OTHER (some emulate_fn.op_XCE),
  /- FC -/ entry "JSR" 0 AddrMode.IND1X 8 1 OpType.OTHER (some emulate_fn.op_JSR_new),
  /- FD -/ entry "SBC" 0 AddrMode.ABSX 4 0 OpType.READOP (some emulate_fn.op_SBC),
  /- FE -/ entry "INC" 0 AddrMode.ABSX 7 0 OpType.RMWOP (some emulate_fn.op_INC),
  /- FF -/ entry "SBC" 0 AddrMode.ALX 5 1 OpType.READOP (some emulate_fn.op_SBC)
]

/-- `instr_table_65c816` (em_65816.c 3036-3293), as initialised statically: the 256
entries in opcode order. -/
def instr_table_65c816 : List InstrType :=
  instr_table_65c816_0x ++
  instr_table_65c816_1x ++
  instr_table_65c816_2x ++
  instr_table_65c816_3x ++
  instr_table_65c816_4x ++
  instr_table_65c816_5x ++
  instr_table_65c816_6x ++
  instr_table_65c816_7x ++
  instr_table_65c816_8x ++
  instr_table_65c816_9x ++
  instr_table_65c816_Ax ++
  instr_table_65c816_Bx ++
  instr_table_65c816_Cx ++
  instr_table_65c816_Dx ++
  instr_table_65c816_Ex ++
  instr_table_65c816_Fx

/-- The initialisation loop of `em_65816_init` (em_65816.c 936-969) on one table entry:
`m_extra` and `x_extra` from the mnemonic, `len` and `fmt` from the addressing mode. -/
def init_instr (instr : InstrType) : InstrType :=
  { instr with
    m_extra := if instr.mode ≠ AddrMode.IMPA then
        (if instr.mnemonic ∈ m1_ops then 1 else 0) + (if instr.mnemonic ∈ m2_ops then 2 else 0)
      else 0,
    x_extra := if instr.mode ≠ AddrMode.IMPA then
        (if instr.mnemonic ∈ x1_ops then 1 else 0)
      else 0,
    len := (addr_mode_table instr.mode).1,
    fmt := (addr_mode_table instr.mode).2 }

/-- The entry `instr_table[opcode]` once `em_65816_init` has run (`instr_table` then points
to `instr_table_65c816`, annotated in place).  The opcode is a bus byte, 0..255. -/
def instr_table (opcode : Int) : InstrType :=
  init_instr (List.getD instr_table_65c816 opcode.toNat
    (entry "???" 0 AddrMode.IMP 1 0 OpType.OTHER none))

/-! ## em_65816.c: helper methods -/

/-- `compare_FLAGS` (em_65816.c 217-259). -/
def compare_FLAGS (operand : Int) (s : State) : Int :=
  if s.N ≥ 0 ∧ s.N ≠ c_and (c_shr operand 7) 1 then 1
  else if s.V ≥ 0 ∧ s.V ≠ c_and (c_shr operand 6) 1 then 1
  else if (s.E = 0 ∧ s.MS ≥ 0) ∧ s.MS ≠ c_and (c_shr operand 5) 1 then 1
  else if (s.E = 0 ∧ s.XS ≥ 0) ∧ s.XS ≠ c_and (c_shr operand 4) 1 then 1
  else if s.D ≥ 0 ∧ s.D ≠ c_and (c_shr operand 3) 1 then 1
  else if s.I ≥ 0 ∧ s.I ≠ c_and (c_shr operand 2) 1 then 1
  else if s.Z ≥ 0 ∧ s.Z ≠ c_and (c_shr operand 1) 1 then 1
  else if s.C ≥ 0 ∧ s.C ≠ c_and (c_shr operand 0) 1 then 1
  else 0

/-- `check_FLAGS` (em_65816.c 261-263). -/
def check_FLAGS (operand : Int) (s : State) : State :=
  { s with failflag := c_or s.failflag (compare_FLAGS operand s) }

/-- `x_flag_updated` (em_65816.c 265-274); `if (XS)` is true for every non-zero `XS`,
the unknown value -1 included. -/
def x_flag_updated (s : State) : State :=
  { s with
    X := if s.XS ≠ 0 ∧ s.X ≥ 0 then c_and s.X 0x00ff else s.X,
    Y := if s.XS ≠ 0 ∧ s.Y ≥ 0 then c_and s.Y 0x00ff else s.Y }

/-- `set_FLAGS` (em_65816.c 276-291). -/
def set_FLAGS (operand : Int) (s : State) : State :=
  let s1 := { s with
    N := c_and (c_shr operand 7) 1,
    V := c_and (c_shr operand 6) 1,
    MS := if s.E = 0 then c_and (c_shr operand 5) 1 else 1,
    XS := if s.E = 0 then c_and (c_shr operand 4) 1 else 1 }
  let s2 := x_flag_updated s1
  { s2 with
    D := c_and (c_shr operand 3) 1,
    I := c_and (c_shr operand 2) 1,
    Z := c_and (c_shr operand 1) 1,
    C := c_and (c_shr operand 0) 1 }

/-- `set_NZ_unknown` (em_65816.c 293-296). -/
def set_NZ_unknown (s : State) : State := { s with N := -1, Z := -1 }

/-- `set_NZC_unknown` (em_65816.c 298-302). -/
def set_NZC_unknown (s : State) : State := { s with N := -1, Z := -1, C := -1 }

/-- `set_NVZC_unknown` (em_65816.c 304-309). -/
def set_NVZC_unknown (s : State) : State := { s with N := -1, V := -1, Z := -1, C := -1 }

/-- `set_NZ8` (em_65816.c 311-314). -/
def set_NZ8 (value : Int) (s : State) : State :=
  { s with N := c_and (c_shr value 7) 1, Z := c_bool (c_and value 0xff = 0) }

/-- `set_NZ16` (em_65816.c 316-319). -/
def set_NZ16 (value : Int) (s : State) : State :=
  { s with N := c_and (c_shr value 15) 1, Z := c_bool (c_and value 0xffff = 0) }

/-- `set_NZ_unknown_width` (em_65816.c 321-340). -/
def set_NZ_unknown_width (value : Int) (s : State) : State :=
  let s15 := c_and (c_shr value 15) 1
  let s7 := c_and (c_shr value 7) 1
  { s with
    N := if s7 = s15 then s7 else -1,
    Z := if c_and value 0xff00 = 0 then c_bool (c_and value 0xff = 0) else -1 }

/-- `set_NZ_XS` (em_65816.c 342-350). -/
def set_NZ_XS (value : Int) (s : State) : State :=
  if s.XS < 0 then set_NZ_unknown_width value s
  else if s.XS = 0 then set_NZ16 value s
  else set_NZ8 value s

/-- `set_NZ_MS` (em_65816.c 352-360). -/
def set_NZ_MS (value : Int) (s : State) : State :=
  if s.MS < 0 then set_NZ_unknown_width value s
  else if s.MS = 0 then set_NZ16 value s
  else set_NZ8 value s

/-- `set_NZ_AB` (em_65816.c 362-386); `A` and `B` are the parameters. -/
def set_NZ_AB (A B : Int) (s : State) : State :=
  if s.MS > 0 then
    (if A ≥ 0 then set_NZ8 A s else set_NZ_unknown s)
  else if s.MS = 0 then
    (if A ≥ 0 ∧ B ≥ 0 then set_NZ16 (c_shl B 8 + A) s else set_NZ_unknown s)
  else
    (if A ≥ 0 ∧ B ≥ 0 then set_NZ_unknown_width (c_shl B 8 + A) s else set_NZ_unknown s)

/-- `incSP` (em_65816.c 389-410). -/
def incSP (s : State) : State :=
  let SL := if s.SL ≥ 0 then c_and (s.SL + 1) 0xff else s.SL
  { s with
    SL := SL,
    SH := if s.E = 1 then 1
      else if s.E = 0 then
        (if s.SH ≥ 0 then
          (if SL < 0 then -1 else if SL = 0 then c_and (s.SH + 1) 0xff else s.SH)
        else s.SH)
      else -1 }

/-- `decSP` (em_65816.c 413-434). -/
def decSP (s : State) : State :=
  let SL := if s.SL ≥ 0 then c_and (s.SL - 1) 0xff else s.SL
  { s with
    SL := SL,
    SH := if s.E = 1 then 1
      else if s.E = 0 then
        (if s.SH ≥ 0 then
          (if SL < 0 then -1 else if SL = 0xff then c_and (s.SH - 1) 0xff else s.SH)
        else s.SH)
      else -1 }

/-- `pop8` (em_65816.c 437-444). -/
def pop8 (value : Int) (s : State) : State :=
  let s1 := incSP s
  if s1.SL ≥ 0 ∧ s1.SH ≥ 0 then
    memory_read (c_and value 0xff) (c_shl s1.SH 8 + s1.SL) mem_access_t.MEM_STACK s1
  else s1

/-- `pop8new` (em_65816.c 447-454). -/
def pop8new (value : Int) (s : State) : State :=
  let s1 := if s.SL ≥ 0 ∧ s.SH ≥ 0 then
      memory_read (c_and value 0xff) (c_and (c_shl s.SH 8 + s.SL + 1) 0xffff)
        mem_access_t.MEM_STACK s
    else s
  incSP s1

/-- `pop16` (em_65816.c 457-460). -/
def pop16 (value : Int) (s : State) : State :=
  pop8 (c_shr value 8) (pop8 value s)

/-- `pop16new` (em_65816.c 464-473). -/
def pop16new (value : Int) (s : State) : State :=
  let s1 := if s.SL ≥ 0 ∧ s.SH ≥ 0 then
      memory_read (c_and (c_shr value 8) 0xff) (c_and (c_shl s.SH 8 + s.SL + 2) 0xffff)
        mem_access_t.MEM_STACK
        (memory_read (c_and value 0xff) (c_and (c_shl s.SH 8 + s.SL + 1) 0xffff)
          mem_access_t.MEM_STACK s)
    else s
  incSP (incSP s1)

/-- `pop24new` (em_65816.c 476-487). -/
def pop24new (value : Int) (s : State) : State :=
  let s1 := if s.SL ≥ 0 ∧ s.SH ≥ 0 then
      memory_read (c_and (c_shr value 16) 0xff) (c_and (c_shl s.SH 8 + s.SL + 3) 0xffff)
        mem_access_t.MEM_STACK
        (memory_read (c_and (c_shr value 8) 0xff) (c_and (c_shl s.SH 8 + s.SL + 2) 0xffff)
          mem_access_t.MEM_STACK
          (memory_read (c_and value 0xff) (c_and (c_shl s.SH 8 + s.SL + 1) 0xffff)
            mem_access_t.MEM_STACK s))
    else s
  incSP (incSP (incSP s1))

/-- `push8` (em_65816.c 490-497). -/
def push8 (value : Int) (s : State) : State :=
  let s1 := if s.SL ≥ 0 ∧ s.SH ≥ 0 then
      memory_write (c_and value 0xff) (c_shl s.SH 8 + s.SL) mem_access_t.MEM_STACK s
    else s
  decSP s1

/-- `push16` (em_65816.c 500-503). -/
def push16 (value : Int) (s : State) : State :=
  push8 value (push8 (c_shr value 8) s)

/-- `push16new` (em_65816.c 506-515). -/
def push16new (value : Int) (s : State) : State :=
  let s1 := if s.SL ≥ 0 ∧ s.SH ≥ 0 then
      memory_write (c_and value 0xff) (c_and (c_shl s.SH 8 + s.SL - 1) 0xffff)
        mem_access_t.MEM_STACK
        (memory_write (c_and (c_shr value 8) 0xff) (c_shl s.SH 8 + s.SL)
          mem_access_t.MEM_STACK s)
    else s
  decSP (decSP s1)

/-- `popXS` (em_65816.c 517-526). -/
def popXS (value : Int) (s : State) : State :=
  if s.XS < 0 then { s with SL := -1, SH := -1 }
  else if s.XS = 0 then pop16 value s
  else pop8 value s

/-- `popMS` (em_65816.c 528-537). -/
def popMS (value : Int) (s : State) : State :=
  if s.MS < 0 then { s with SL := -1, SH := -1 }
  else if s.MS = 0 then pop16 value s
  else pop8 value s

/-- `pushXS` (em_65816.c 539-548). -/
def pushXS (value : Int) (s : State) : State :=
  if s.XS < 0 then { s with SL := -1, SH := -1 }
  else if s.XS = 0 then push16 value s
  else push8 value s

/-- `pushMS` (em_65816.c 550-559). -/
def pushMS (value : Int) (s : State) : State :=
  if s.MS < 0 then { s with SL := -1, SH := -1 }
  else if s.MS = 0 then push16 value s
  else push8 value s

/-- `emulation_mode_on` (em_65816.c 840-849). -/
def emulation_mode_on (s : State) : State :=
  let s1 := { s with
    failflag := if s.E = 0 then 1 else s.failflag,
    MS := 1,
    XS := 1 }
  let s2 := x_flag_updated s1
  { s2 with SH := 0x01, E := 1 }

/-- `emulation_mode_off` (em_65816.c 852-857). -/
def emulation_mode_off (s : State) : State :=
  { s with failflag := if s.E = 1 then 1 else s.failflag, E := 0 }

/-- `check_and_set_ms` (em_65816.c 859-868). -/
def check_and_set_ms (val : Int) (s : State) : State :=
  let s1 := { s with
    failflag := if s.MS ≥ 0 ∧ s.MS ≠ val then 1 else s.failflag,
    MS := val }
  if s1.MS = 0 then emulation_mode_off s1 else s1

/-- `check_and_set_xs` (em_65816.c 870-880). -/
def check_and_set_xs (val : Int) (s : State) : State :=
  let s1 := { s with
    failflag := if s.XS ≥ 0 ∧ s.XS ≠ val then 1 else s.failflag,
    XS := val }
  let s2 := x_flag_updated s1
  if s2.XS = 0 then emulation_mode_off s2 else s2

/-- `get_accumulator` (em_65816.c 883-894). -/
def get_accumulator (s : State) : Int :=
  if s.MS > 0 ∧ s.A ≥ 0 then s.A
  else if s.MS = 0 ∧ s.A ≥ 0 ∧ s.B ≥ 0 then c_shl s.B 8 + s.A
  else -1

/-- `interrupt` (em_65816.c 561-601). -/
def interrupt (sample_q : Int → sample_t) (num_cycles : Int) (instruction : instruction_t)
    (pc_offset : Int) (s : State) : State × instruction_t :=
  let s1 := if num_cycles = 7 then emulation_mode_on s else emulation_mode_off s
  let i : Int := if num_cycles = 7 then 2 else 3
  let pb := if num_cycles = 7 then s1.PB else (sample_q 2).data
  let pc := c_shl (sample_q i).data 8 + (sample_q (i + 1)).data
  let flags := (sample_q (i + 2)).data
  let vector := c_shl (sample_q (i + 4)).data 8 + (sample_q (i + 3)).data
  let instruction1 := { instruction with
    pb := if pb ≥ 0 then pb else instruction.pb,
    pc := c_and (pc - pc_offset) 0xffff }
  let s2 := if s1.E = 0 then push8 pb s1 else s1
  let s3 := push16 pc s2
  let s4 := push8 flags s3
  let s5 := check_FLAGS flags s4
  let s6 := set_FLAGS flags s5
  ({ s6 with I := 1, D := 0, PB := 0x00, PC := vector }, instruction1)

/-- `get_8bit_cycles` (em_65816.c 603-634). -/
def get_8bit_cycles (sample_q : Int → sample_t) (s : State) : Int :=
  let opcode := (sample_q 0).data
  let op1 := (sample_q 1).data
  let op2 := (sample_q 2).data
  let instr := instr_table opcode
  let cycle_count := instr.cycles
  let dpextra : Int :=
    if instr.mode.val ≤ AddrMode.ZP.val ∧ s.DP ≥ 0 ∧ c_and s.DP 0xff ≠ 0 then 1 else 0
  let cycle_count :=
    if (instr.mode = AddrMode.INDY ∧ instr.optype ≠ OpType.WRITEOP ∧ s.Y ≥ 0) ∧
        (let base := c_shl (sample_q (3 + dpextra)).data 8 + (sample_q (2 + dpextra)).data
         c_and base 0x1ff00 ≠ c_and (base + s.Y) 0x1ff00)
    then cycle_count + 1 else cycle_count
  let cycle_count :=
    if ((instr.mode = AddrMode.ABSX ∨ instr.mode = AddrMode.ABSY) ∧
          instr.optype = OpType.READOP) ∧
        (let index := if instr.mode = AddrMode.ABSX then s.X else s.Y
         index ≥ 0 ∧
          (let base := op1 + c_shl op2 8
           c_and base 0x1ff00 ≠ c_and (base + index) 0x1ff00))
    then cycle_count + 1 else cycle_count
  cycle_count + dpextra

/-- The `switch (opcode)` of `get_num_cycles` (em_65816.c 731-777): the value of `taken`. -/
def branch_taken (opcode : Int) (s : State) : Int :=
  if opcode = 0x10 then (if s.N ≥ 0 then c_bool (s.N = 0) else -1)
  else if opcode = 0x30 then (if s.N ≥ 0 then s.N else -1)
  else if opcode = 0x50 then (if s.V ≥ 0 then c_bool (s.V = 0) else -1)
  else if opcode = 0x70 then (if s.V ≥ 0 then s.V else -1)
  else if opcode = 0x80 then 1
  else if opcode = 0x90 then (if s.C ≥ 0 then c_bool (s.C = 0) else -1)
  else if opcode = 0xB0 then (if s.C ≥ 0 then s.C else -1)
  else if opcode = 0xD0 then (if s.Z ≥ 0 then c_bool (s.Z = 0) else -1)
  else if opcode = 0xF0 then (if s.Z ≥ 0 then s.Z else -1)
  else -1

/-- `get_num_cycles` (em_65816.c 636-804); -1 is the "unknown" result. -/
def get_num_cycles (sample_q : Int → sample_t) (intr_seen : Int) (s : State) : Int :=
  let opcode := (sample_q 0).data
  let op1 := (sample_q 1).data
  let op2 := (sample_q 2).data
  let instr := instr_table opcode
  let cycle_count := instr.cycles
  if intr_seen ≠ 0 ∨ opcode = 0x00 ∨ opcode = 0x02 then (if s.E = 0 then 8 else 7)
  else if instr.m_extra ≠ 0 ∧ ¬ (s.E = 0 ∧ s.MS = 0) ∧ ¬ (s.E > 0 ∨ s.MS > 0) then -1
  else
  let cycle_count :=
    if instr.m_extra ≠ 0 ∧ (s.E = 0 ∧ s.MS = 0) then cycle_count + instr.m_extra
    else cycle_count
  if instr.x_extra ≠ 0 ∧ ¬ (s.E = 0 ∧ s.XS = 0) ∧ ¬ (s.E > 0 ∨ s.XS > 0) then -1
  else
  let cycle_count :=
    if instr.x_extra ≠ 0 ∧ (s.E = 0 ∧ s.XS = 0) then cycle_count + instr.x_extra
    else cycle_count
  let dpextra : Int :=
    if instr.mode.val ≤ AddrMode.ZP.val ∧ s.DP ≥ 0 ∧ c_and s.DP 0xff ≠ 0 then 1 else 0
  if opcode = 0x40 ∧ s.E ≠ 0 ∧ s.E < 0 then -1
  else
  let cycle_count := if opcode = 0x40 ∧ s.E = 0 then cycle_count + 1 else cycle_count
  let cycle_count :=
    if (instr.mode = AddrMode.INDY ∧ instr.optype ≠ OpType.WRITEOP ∧ s.Y ≥ 0) ∧
        (let base := c_shl (sample_q (3 + dpextra)).data 8 + (sample_q (2 + dpextra)).data
         c_and base 0x1ff00 ≠ c_and (base + s.Y) 0x1ff00)
    then cycle_count + 1 else cycle_count
  let absidx : Prop := (instr.mode = AddrMode.ABSX ∨ instr.mode = AddrMode.ABSY) ∧
    instr.optype = OpType.READOP
  let index := if instr.mode = AddrMode.ABSX then s.X else s.Y
  let correction : Int :=
    if index ≥ 0 then
      (let base := op1 + c_shl op2 8
       if c_and base 0x1ff00 ≠ c_and (base + index) 0x1ff00 then 1 else 0)
    else -1
  if absidx ∧ ¬ (s.XS = 0 ∨ correction = 1) ∧ (s.XS < 0 ∨ correction < 0) then -1
  else
  let cycle_count :=
    if absidx ∧ (s.XS = 0 ∨ correction = 1) then cycle_count + 1 else cycle_count
  if c_and opcode 0x1f = 0x10 ∨ opcode = 0x80 then
    let taken := branch_taken opcode s
    let cycle_count := if opcode = 0x80 then cycle_count - 1 else cycle_count
    if taken < 0 then -1
    else if taken ≠ 0 then
      let cycle_count := cycle_count + 1
      let page_cross : Int :=
        if s.E > 0 ∧ s.PC ≥ 0 then
          (let target := (s.PC + 2) + to_int8 op1
           if c_and target 0xFF00 ≠ c_and (s.PC + 2) 0xff00 then 1 else 0)
        else if s.E = 0 then 0
        else -1
      if page_cross < 0 then -1 else cycle_count + page_cross + dpextra
    else cycle_count + dpextra
  else cycle_count + dpextra

/-- `count_cycles_without_sync` (em_65816.c 807-816). -/
def count_cycles_without_sync (sample_q : Int → sample_t) (intr_seen : Int) (s : State) : Int :=
  let num_cycles := get_num_cycles sample_q intr_seen s
  if num_cycles ≥ 0 then num_cycles else 1

/-! ## em_65816.c: 65816 specific instructions

An instruction function takes `(operand, ea)` and returns the value that should have been
written (or -1); here it also returns the new state. -/

/-- `op_PEA` (em_65816.c 1750-1754). -/
def op_PEA (operand ea : Int) (s : State) : State × Int :=
  (push16new ea s, -1)

/-- `op_PER` (em_65816.c 1757-1761). -/
def op_PER (operand ea : Int) (s : State) : State × Int :=
  (push16new ea s, -1)

/-- `op_PEI` (em_65816.c 1764-1768). -/
def op_PEI (operand ea : Int) (s : State) : State × Int :=
  (push16new operand s, -1)

/-- `op_PHB` (em_65816.c 1771-1780). -/
def op_PHB (operand ea : Int) (s : State) : State × Int :=
  let s1 := push8 operand s
  ({ s1 with
     failflag := if s1.DB ≥ 0 ∧ operand ≠ s1.DB then 1 else s1.failflag,
     DB := operand }, -1)

/-- `op_PHK` (em_65816.c 1783-1792). -/
def op_PHK (operand ea : Int) (s : State) : State × Int :=
  let s1 := push8 operand s
  ({ s1 with
     failflag := if s1.PB ≥ 0 ∧ operand ≠ s1.PB then 1 else s1.failflag,
     PB := operand }, -1)

/-- `op_PHD` (em_65816.c 1795-1804). -/
def op_PHD (operand ea : Int) (s : State) : State × Int :=
  let s1 := push16new operand s
  ({ s1 with
     failflag := if s1.DP ≥ 0 ∧ operand ≠ s1.DP then 1 else s1.failflag,
     DP := operand }, -1)

/-- `op_PLB` (em_65816.c 1807-1812). -/
def op_PLB (operand ea : Int) (s : State) : State × Int :=
  (pop8new operand (set_NZ8 operand { s with DB := operand }), -1)

/-- `op_PLD` (em_65816.c 1815-1820). -/
def op_PLD (operand ea : Int) (s : State) : State × Int :=
  (pop16new operand (set_NZ16 operand { s with DP := operand }), -1)

/-- `op_MV` (em_65816.c 1822-1871); the local `C` of the source is `cnt` here. -/
def op_MV (data sba dba dir : Int) (s : State) : State × Int :=
  let s1 := if s.X ≥ 0 then memory_read data (c_shl sba 16 + s.X) mem_access_t.MEM_DATA s
    else s
  let s2 := if s1.Y ≥ 0 then memory_write data (c_shl dba 16 + s1.Y) mem_access_t.MEM_DATA s1
    else s1
  let s3 :=
    if s2.A ≥ 0 ∧ s2.B ≥ 0 then
      let cnt := c_and (c_or (c_shl s2.B 8) s2.A - 1) 0xffff
      { s2 with
        A := c_and cnt 0xff,
        B := c_and (c_shr cnt 8) 0xff,
        X := if s2.XS > 0 then (if s2.X ≥ 0 then c_and (s2.X + dir) 0xff else s2.X)
          else if s2.XS = 0 then (if s2.X ≥ 0 then c_and (s2.X + dir) 0xffff else s2.X)
          else -1,
        Y := if s2.XS > 0 then (if s2.Y ≥ 0 then c_and (s2.Y + dir) 0xff else s2.Y)
          else if s2.XS = 0 then (if s2.Y ≥ 0 then c_and (s2.Y + dir) 0xffff else s2.Y)
          else -1,
        PC := if s2.PC ≥ 0 ∧ cnt ≠ 0xffff then s2.PC - 3 else s2.PC }
    else
      { s2 with A := -1, B := -1, X := -1, Y := -1, PC := -1 }
  ({ s3 with DB := dba }, -1)

/-- `op_MVP` (em_65816.c 1874-1876). -/
def op_MVP (operand ea : Int) (s : State) : State × Int :=
  op_MV operand (c_and (c_shr ea 8) 0xff) (c_and ea 0xff) (-1) s

/-- `op_MVN` (em_65816.c 1879-1881). -/
def op_MVN (operand ea : Int) (s : State) : State × Int :=
  op_MV operand (c_and (c_shr ea 8) 0xff) (c_and ea 0xff) 1 s

/-- `op_TCD` (em_65816.c 1884-1894). -/
def op_TCD (operand ea : Int) (s : State) : State × Int :=
  if s.B ≥ 0 ∧ s.A ≥ 0 then
    (set_NZ16 (c_shl s.B 8 + s.A) { s with DP := c_shl s.B 8 + s.A }, -1)
  else
    (set_NZ_unknown { s with DP := -1 }, -1)

/-- `op_TCS` (em_65816.c 1897-1907). -/
def op_TCS (operand ea : Int) (s : State) : State × Int :=
  ({ s with
     SH := if s.E = 1 then 1 else if s.E < 0 ∧ s.B ≠ 1 then -1 else s.B,
     SL := s.A }, -1)

/-- `op_TDC` (em_65816.c 1910-1922). -/
def op_TDC (operand ea : Int) (s : State) : State × Int :=
  if s.DP ≥ 0 then
    (set_NZ16 s.DP { s with A := c_and s.DP 0xff, B := c_and (c_shr s.DP 8) 0xff }, -1)
  else
    (set_NZ_unknown { s with A := -1, B := -1 }, -1)

/-- `op_TSC` (em_65816.c 1925-1935). -/
def op_TSC (operand ea : Int) (s : State) : State × Int :=
  let s1 := { s with A := s.SL, B := s.SH }
  if s1.B ≥ 0 ∧ s1.A ≥ 0 then (set_NZ16 (c_shl s1.B 8 + s1.A) s1, -1)
  else (set_NZ_unknown s1, -1)

/-- `op_TXY` (em_65816.c 1937-1947). -/
def op_TXY (operand ea : Int) (s : State) : State × Int :=
  if s.X ≥ 0 then (set_NZ_XS s.X { s with Y := s.X }, -1)
  else (set_NZ_unknown { s with Y := -1 }, -1)

/-- `op_TYX` (em_65816.c 1949-1959). -/
def op_TYX (operand ea : Int) (s : State) : State × Int :=
  if s.Y ≥ 0 then (set_NZ_XS s.Y { s with X := s.Y }, -1)
  else (set_NZ_unknown { s with X := -1 }, -1)

/-- `op_XBA` (em_65816.c 1962-1973). -/
def op_XBA (operand ea : Int) (s : State) : State × Int :=
  let s1 := { s with A := s.B, B := s.A }
  if s1.A ≥ 0 then (set_NZ8 s1.A s1, -1) else (set_NZ_unknown s1, -1)

/-- `op_XCE` (em_65816.c 1975-1989). -/
def op_XCE (operand ea : Int) (s : State) : State × Int :=
  let tmp := s.C
  let s1 := { s with C := s.E, E := tmp }
  if tmp < 0 then ({ s1 with MS := -1, XS := -1, E := -1 }, -1)
  else if tmp > 0 then (emulation_mode_on s1, -1)
  else (emulation_mode_off s1, -1)

/-- `repsep` (em_65816.c 1991-2019). -/
def repsep (operand val : Int) (s : State) : State :=
  let s1 := { s with
    N := if c_and operand 0x80 ≠ 0 then val else s.N,
    V := if c_and operand 0x40 ≠ 0 then val else s.V,
    MS := if s.E = 0 ∧ c_and operand 0x20 ≠ 0 then val else s.MS }
  let s2 := if s1.E = 0 ∧ c_and operand 0x10 ≠ 0 then x_flag_updated { s1 with XS := val }
    else s1
  { s2 with
    D := if c_and operand 0x08 ≠ 0 then val else s2.D,
    I := if c_and operand 0x04 ≠ 0 then val else s2.I,
    Z := if c_and operand 0x02 ≠ 0 then val else s2.Z,
    C := if c_and operand 0x01 ≠ 0 then val else s2.C }

/-- `op_REP` (em_65816.c 2022-2025). -/
def op_REP (operand ea : Int) (s : State) : State × Int :=
  (repsep operand 0 s, -1)

/-- `op_SEP` (em_65816.c 2027-2030). -/
def op_SEP (operand ea : Int) (s : State) : State × Int :=
  (repsep operand 1 s, -1)

/-- `op_JSL` (em_65816.c 2033-2038). -/
def op_JSL (operand ea : Int) (s : State) : State × Int :=
  (push16 operand (push8 (c_shr operand 16) s), -1)

/-- `op_RTL` (em_65816.c 2041-2048). -/
def op_RTL (operand ea : Int) (s : State) : State × Int :=
  let s1 := pop24new operand s
  ({ s1 with PC := c_and operand 0xffff, PB := c_and (c_shr operand 16) 0xff }, -1)

/-! ## em_65816.c: 65816/6502 instructions -/

/-- One iteration of the nibble loop of decimal `op_ADC` (em_65816.c 2061-2072) on the
locals `(tmp, C, V)`. -/
def adc_nibble (acc operand : Int) (st : Int × Int × Int) (bit : Nat) : Int × Int × Int :=
  let an := c_and (c_shr acc bit) 0xF
  let bn := c_and (c_shr operand bit) 0xF
  let rn := an + bn + st.2.1
  let V := c_bool (c_and (c_xor rn an) 8 ≠ 0 ∧ ¬ (c_and (c_xor bn an) 8 ≠ 0))
  if rn ≥ 10 then (c_or st.1 (c_shl (c_and (rn - 10) 0xF) bit), 1, V)
  else (c_or st.1 (c_shl rn bit), 0, V)

/-- The values of `bit` in `for (bit = 0; bit < (MS ? 8 : 16); bit += 4)`. -/
def nibble_bits (MS : Int) : List Nat := if MS ≠ 0 then [0, 4] else [0, 4, 8, 12]

/-- `op_ADC` (em_65816.c 2054-2101). -/
def op_ADC (operand ea : Int) (s : State) : State × Int :=
  let acc := get_accumulator s
  if acc ≥ 0 ∧ s.C ≥ 0 then
    let r : Int × Int × Int :=
      if s.D = 1 then
        (nibble_bits s.MS).foldl (adc_nibble acc operand) (0, s.C, s.V)
      else
        let tmp := acc + operand + s.C
        if s.MS > 0 then
          (tmp, c_and (c_shr tmp 8) 1,
            c_bool (c_and (c_xor acc operand) 0x80 = 0 ∧ c_and (c_xor acc tmp) 0x80 ≠ 0))
        else
          (tmp, c_and (c_shr tmp 16) 1,
            c_bool (c_and (c_xor acc operand) 0x8000 = 0 ∧ c_and (c_xor acc tmp) 0x8000 ≠ 0))
    let tmp := r.1
    let s1 := { s with
      C := r.2.1,
      V := r.2.2,
      A := c_and tmp 0xff,
      B := if s.MS > 0 then s.B else c_and (c_shr tmp 8) 0xff }
    (set_NZ_AB s1.A s1.B s1, -1)
  else
    (set_NVZC_unknown { s with A := -1, B := -1 }, -1)

/-- `op_AND` (em_65816.c 2103-2119). -/
def op_AND (operand ea : Int) (s : State) : State × Int :=
  let s1 := { s with
    A := if s.A ≥ 0 then c_and s.A (c_and operand 0xff) else s.A,
    B := if s.B ≥ 0 then
        (if s.MS = 0 then c_and s.B (c_shr operand 8) else if s.MS < 0 then -1 else s.B)
      else s.B }
  (set_NZ_AB s1.A s1.B s1, -1)

/-- `op_ASLA` (em_65816.c 2121-2150). -/
def op_ASLA (operand ea : Int) (s : State) : State × Int :=
  let s1 := { s with
    C := if s.MS > 0 ∧ s.A ≥ 0 then c_and (c_shr s.A 7) 1
      else if s.MS = 0 ∧ s.B ≥ 0 then c_and (c_shr s.B 7) 1
      else -1,
    B := if s.MS = 0 ∧ s.B ≥ 0 then
        (if s.A ≥ 0 then c_or (c_and (c_shl s.B 1) 0xfe) (c_and (c_shr s.A 7) 1) else -1)
      else if s.MS < 0 then -1 else s.B,
    A := if s.A ≥ 0 then c_and (c_shl s.A 1) 0xff else s.A }
  (set_NZ_AB s1.A s1.B s1, -1)

/-- `op_ASL` (em_65816.c 2152-2171). -/
def op_ASL (operand ea : Int) (s : State) : State × Int :=
  if s.MS > 0 then
    (set_NZ8 (c_and (c_shl operand 1) 0xff) { s with C := c_and (c_shr operand 7) 1 },
      c_and (c_shl operand 1) 0xff)
  else if s.MS = 0 then
    (set_NZ16 (c_and (c_shl operand 1) 0xffff) { s with C := c_and (c_shr operand 15) 1 },
      c_and (c_shl operand 1) 0xffff)
  else
    (set_NZ_unknown { s with C := -1 }, -1)

/-- `op_BCC` (em_65816.c 2173-2182). -/
def op_BCC (branch_taken ea : Int) (s : State) : State × Int :=
  if s.C ≥ 0 then
    ({ s with failflag := if s.C = branch_taken then 1 else s.failflag }, -1)
  else ({ s with C := 1 - branch_taken }, -1)

/-- `op_BCS` (em_65816.c 2184-2193). -/
def op_BCS (branch_taken ea : Int) (s : State) : State × Int :=
  if s.C ≥ 0 then
    ({ s with failflag := if s.C ≠ branch_taken then 1 else s.failflag }, -1)
  else ({ s with C := branch_taken }, -1)

/-- `op_BNE` (em_65816.c 2195-2204). -/
def op_BNE (branch_taken ea : Int) (s : State) : State × Int :=
  if s.Z ≥ 0 then
    ({ s with failflag := if s.Z = branch_taken then 1 else s.failflag }, -1)
  else ({ s with Z := 1 - branch_taken }, -1)

/-- `op_BEQ` (em_65816.c 2206-2215). -/
def op_BEQ (branch_taken ea : Int) (s : State) : State × Int :=
  if s.Z ≥ 0 then
    ({ s with failflag := if s.Z ≠ branch_taken then 1 else s.failflag }, -1)
  else ({ s with Z := branch_taken }, -1)

/-- `op_BPL` (em_65816.c 2217-2226). -/
def op_BPL (branch_taken ea : Int) (s : State) : State × Int :=
  if s.N ≥ 0 then
    ({ s with failflag := if s.N = branch_taken then 1 else s.failflag }, -1)
  else ({ s with N := 1 - branch_taken }, -1)

/-- `op_BMI` (em_65816.c 2228-2237). -/
def op_BMI (branch_taken ea : Int) (s : State) : State × Int :=
  if s.N ≥ 0 then
    ({ s with failflag := if s.N ≠ branch_taken then 1 else s.failflag }, -1)
  else ({ s with N := branch_taken }, -1)

/-- `op_BVC` (em_65816.c 2239-2248). -/
def op_BVC (branch_taken ea : Int) (s : State) : State × Int :=
  if s.V ≥ 0 then
    ({ s with failflag := if s.V = branch_taken then 1 else s.failflag }, -1)
  else ({ s with V := 1 - branch_taken }, -1)

/-- `op_BVS` (em_65816.c 2250-2259). -/
def op_BVS (branch_taken ea : Int) (s : State) : State × Int :=
  if s.V ≥ 0 then
    ({ s with failflag := if s.V ≠ branch_taken then 1 else s.failflag }, -1)
  else ({ s with V := branch_taken }, -1)

/-- `op_BIT_IMM` (em_65816.c 2261-2273). -/
def op_BIT_IMM (operand ea : Int) (s : State) : State × Int :=
  let acc := get_accumulator s
  ({ s with
     Z := if operand = 0 then 1
       else if acc ≥ 0 then c_bool (c_and acc operand = 0)
       else -1 }, -1)

/-- `op_BIT` (em_65816.c 2275-2291). -/
def op_BIT (operand ea : Int) (s : State) : State × Int :=
  let s1 := { s with
    N := if s.MS > 0 then c_and (c_shr operand 7) 1
      else if s.MS = 0 then c_and (c_shr operand 15) 1
      else -1,
    V := if s.MS > 0 then c_and (c_shr operand 6) 1
      else if s.MS = 0 then c_and (c_shr operand 14) 1
      else -1 }
  op_BIT_IMM operand ea s1

/-- `op_CLC` (em_65816.c 2293-2296). -/
def op_CLC (operand ea : Int) (s : State) : State × Int := ({ s with C := 0 }, -1)

/-- `op_CLD` (em_65816.c 2298-2301). -/
def op_CLD (operand ea : Int) (s : State) : State × Int := ({ s with D := 0 }, -1)

/-- `op_CLI` (em_65816.c 2303-2306). -/
def op_CLI (operand ea : Int) (s : State) : State × Int := ({ s with I := 0 }, -1)

/-- `op_CLV` (em_65816.c 2308-2311). -/
def op_CLV (operand ea : Int) (s : State) : State × Int := ({ s with V := 0 }, -1)

/-- `op_CMP` (em_65816.c 2313-2323). -/
def op_CMP (operand ea : Int) (s : State) : State × Int :=
  let acc := get_accumulator s
  if acc ≥ 0 then
    (set_NZ_MS (acc - operand) { s with C := c_bool (acc - operand ≥ 0) }, -1)
  else (set_NZC_unknown s, -1)

/-- `op_CPX` (em_65816.c 2325-2334). -/
def op_CPX (operand ea : Int) (s : State) : State × Int :=
  if s.X ≥ 0 then
    (set_NZ_XS (s.X - operand) { s with C := c_bool (s.X - operand ≥ 0) }, -1)
  else (set_NZC_unknown s, -1)

/-- `op_CPY` (em_65816.c 2336-2345). -/
def op_CPY (operand ea : Int) (s : State) : State × Int :=
  if s.Y ≥ 0 then
    (set_NZ_XS (s.Y - operand) { s with C := c_bool (s.Y - operand ≥ 0) }, -1)
  else (set_NZC_unknown s, -1)

/-- `op_DECA` (em_65816.c 2347-2365). -/
def op_DECA (operand ea : Int) (s : State) : State × Int :=
  let A := if s.A ≥ 0 then c_and (s.A - 1) 0xff else s.A
  let s1 := { s with
    A := A,
    B := if s.MS = 0 ∧ s.B ≥ 0 then
        (if A = 0xff then c_and (s.B - 1) 0xff else if A < 0 then -1 else s.B)
      else if s.MS < 0 then -1 else s.B }
  (set_NZ_AB s1.A s1.B s1, -1)

/-- `op_DEC` (em_65816.c 2367-2381). -/
def op_DEC (operand ea : Int) (s : State) : State × Int :=
  if s.MS > 0 then (set_NZ8 (c_and (operand - 1) 0xff) s, c_and (operand - 1) 0xff)
  else if s.MS = 0 then (set_NZ16 (c_and (operand - 1) 0xffff) s, c_and (operand - 1) 0xffff)
  else (set_NZ_unknown s, -1)

/-- `op_DEX` (em_65816.c 2383-2402). -/
def op_DEX (operand ea : Int) (s : State) : State × Int :=
  if s.X ≥ 0 then
    (if s.XS > 0 then
      (set_NZ8 (c_and (s.X - 1) 0xff) { s with X := c_and (s.X - 1) 0xff }, -1)
    else if s.XS = 0 then
      (set_NZ16 (c_and (s.X - 1) 0xffff) { s with X := c_and (s.X - 1) 0xffff }, -1)
    else (set_NZ_unknown { s with X := -1 }, -1))
  else (set_NZ_unknown s, -1)

/-- `op_DEY` (em_65816.c 2404-2423). -/
def op_DEY (operand ea : Int) (s : State) : State × Int :=
  if s.Y ≥ 0 then
    (if s.XS > 0 then
      (set_NZ8 (c_and (s.Y - 1) 0xff) { s with Y := c_and (s.Y - 1) 0xff }, -1)
    else if s.XS = 0 then
      (set_NZ16 (c_and (s.Y - 1) 0xffff) { s with Y := c_and (s.Y - 1) 0xffff }, -1)
    else (set_NZ_unknown { s with Y := -1 }, -1))
  else (set_NZ_unknown s, -1)

/-- `op_EOR` (em_65816.c 2425-2441). -/
def op_EOR (operand ea : Int) (s : State) : State × Int :=
  let s1 := { s with
    A := if s.A ≥ 0 then c_xor s.A (c_and operand 0xff) else s.A,
    B := if s.B ≥ 0 then
        (if s.MS = 0 then c_xor s.B (c_shr operand 8) else if s.MS < 0 then -1 else s.B)
      else s.B }
  (set_NZ_AB s1.A s1.B s1, -1)

/-- `op_INCA` (em_65816.c 2443-2461). -/
def op_INCA (operand ea : Int) (s : State) : State × Int :=
  let A := if s.A ≥ 0 then c_and (s.A + 1) 0xff else s.A
  let s1 := { s with
    A := A,
    B := if s.MS = 0 ∧ s.B ≥ 0 then
        (if A = 0x00 then c_and (s.B + 1) 0xff else if A < 0 then -1 else s.B)
      else if s.MS < 0 then -1 else s.B }
  (set_NZ_AB s1.A s1.B s1, -1)

/-- `op_INC` (em_65816.c 2463-2477). -/
def op_INC (operand ea : Int) (s : State) : State × Int :=
  if s.MS > 0 then (set_NZ8 (c_and (operand + 1) 0xff) s, c_and (operand + 1) 0xff)
  else if s.MS = 0 then (set_NZ16 (c_and (operand + 1) 0xffff) s, c_and (operand + 1) 0xffff)
  else (set_NZ_unknown s, -1)

/-- `op_INX` (em_65816.c 2479-2498). -/
def op_INX (operand ea : Int) (s : State) : State × Int :=
  if s.X ≥ 0 then
    (if s.XS > 0 then
      (set_NZ8 (c_and (s.X + 1) 0xff) { s with X := c_and (s.X + 1) 0xff }, -1)
    else if s.XS = 0 then
      (set_NZ16 (c_and (s.X + 1) 0xffff) { s with X := c_and (s.X + 1) 0xffff }, -1)
    else (set_NZ_unknown { s with X := -1 }, -1))
  else (set_NZ_unknown s, -1)

/-- `op_INY` (em_65816.c 2500-2519). -/
def op_INY (operand ea : Int) (s : State) : State × Int :=
  if s.Y ≥ 0 then
    (if s.XS > 0 then
      (set_NZ8 (c_and (s.Y + 1) 0xff) { s with Y := c_and (s.Y + 1) 0xff }, -1)
    else if s.XS = 0 then
      (set_NZ16 (c_and (s.Y + 1) 0xffff) { s with Y := c_and (s.Y + 1) 0xffff }, -1)
    else (set_NZ_unknown { s with Y := -1 }, -1))
  else (set_NZ_unknown s, -1)

/-- `op_JSR` (em_65816.c 2521-2525). -/
def op_JSR (operand ea : Int) (s : State) : State × Int :=
  (push16 operand s, -1)

/-- `op_JSR_new` (em_65816.c 2527-2531). -/
def op_JSR_new (operand ea : Int) (s : State) : State × Int :=
  (push16new operand s, -1)

/-- `op_LDA` (em_65816.c 2533-2540). -/
def op_LDA (operand ea : Int) (s : State) : State × Int :=
  let s1 := { s with
    A := c_and operand 0xff,
    B := if s.MS = 0 then c_and (c_shr operand 8) 0xff else s.B }
  (set_NZ_AB s1.A s1.B s1, -1)

/-- `op_LDX` (em_65816.c 2542-2546). -/
def op_LDX (operand ea : Int) (s : State) : State × Int :=
  (set_NZ_XS operand { s with X := operand }, -1)

/-- `op_LDY` (em_65816.c 2548-2552). -/
def op_LDY (operand ea : Int) (s : State) : State × Int :=
  (set_NZ_XS operand { s with Y := operand }, -1)

/-- `op_STA` (em_65816.c 2865-2887). -/
def op_STA (operand ea : Int) (s : State) : State × Int :=
  let oplo := c_and operand 0xff
  let ophi := c_and (c_shr operand 8) 0xff
  let s1 := { s with
    failflag := if s.A ≥ 0 ∧ oplo ≠ s.A then 1 else s.failflag,
    A := oplo }
  ({ s1 with
     failflag := if s1.MS = 0 ∧ s1.B ≥ 0 ∧ ophi ≠ s1.B then 1 else s1.failflag,
     B := if s1.MS < 0 then -1 else if s1.MS = 0 then ophi else s1.B }, operand)

/-- `op_STX` (em_65816.c 2889-2897). -/
def op_STX (operand ea : Int) (s : State) : State × Int :=
  ({ s with
     failflag := if s.X ≥ 0 ∧ operand ≠ s.X then 1 else s.failflag,
     X := operand }, operand)

/-- `op_STY` (em_65816.c 2899-2907). -/
def op_STY (operand ea : Int) (s : State) : State × Int :=
  ({ s with
     failflag := if s.Y ≥ 0 ∧ operand ≠ s.Y then 1 else s.failflag,
     Y := operand }, operand)

/-- `op_STZ` (em_65816.c 2909-2914). -/
def op_STZ (operand ea : Int) (s : State) : State × Int :=
  ({ s with failflag := if operand ≠ 0 then 1 else s.failflag }, operand)

/-- `op_LSRA` (em_65816.c 2554-2578). -/
def op_LSRA (operand ea : Int) (s : State) : State × Int :=
  let s1 := { s with
    C := if s.A ≥ 0 then c_and s.A 1 else -1,
    A := if s.MS > 0 ∧ s.A ≥ 0 then c_shr s.A 1
      else if s.MS = 0 ∧ s.A ≥ 0 ∧ s.B ≥ 0 then c_and (c_or (c_shr s.A 1) (c_shl s.B 7)) 0xff
      else -1,
    B := if s.MS = 0 ∧ s.B ≥ 0 then c_and (c_shr s.B 1) 0xff
      else if s.MS < 0 then -1 else s.B }
  (set_NZ_AB s1.A s1.B s1, -1)

/-- `op_LSR` (em_65816.c 2580-2597). -/
def op_LSR (operand ea : Int) (s : State) : State × Int :=
  let s1 := { s with C := c_and operand 1 }
  if s1.MS > 0 then (set_NZ8 (c_and (c_shr operand 1) 0xff) s1, c_and (c_shr operand 1) 0xff)
  else if s1.MS = 0 then
    (set_NZ16 (c_and (c_shr operand 1) 0xffff) s1, c_and (c_shr operand 1) 0xffff)
  else (set_NZ_unknown s1, -1)

/-- `op_ORA` (em_65816.c 2599-2615). -/
def op_ORA (operand ea : Int) (s : State) : State × Int :=
  let s1 := { s with
    A := if s.A ≥ 0 then c_or s.A (c_and operand 0xff) else s.A,
    B := if s.B ≥ 0 then
        (if s.MS = 0 then c_or s.B (c_shr operand 8) else if s.MS < 0 then -1 else s.B)
      else s.B }
  (set_NZ_AB s1.A s1.B s1, -1)

/-- `op_PHA` (em_65816.c 2617-2621). -/
def op_PHA (operand ea : Int) (s : State) : State × Int :=
  ((op_STA operand (-1) (pushMS operand s)).1, -1)

/-- `op_PHP` (em_65816.c 2623-2628). -/
def op_PHP (operand ea : Int) (s : State) : State × Int :=
  (set_FLAGS operand (check_FLAGS operand (push8 operand s)), -1)

/-- `op_PHX` (em_65816.c 2630-2634). -/
def op_PHX (operand ea : Int) (s : State) : State × Int :=
  ((op_STX operand (-1) (pushXS operand s)).1, -1)

/-- `op_PHY` (em_65816.c 2636-2640). -/
def op_PHY (operand ea : Int) (s : State) : State × Int :=
  ((op_STY operand (-1) (pushXS operand s)).1, -1)

/-- `op_PLA` (em_65816.c 2642-2652). -/
def op_PLA (operand ea : Int) (s : State) : State × Int :=
  let s1 := { s with
    A := c_and operand 0xff,
    B := if s.MS < 0 then -1 else if s.MS = 0 then c_shr operand 8 else s.B }
  (popMS operand (set_NZ_MS operand s1), -1)

/-- `op_PLP` (em_65816.c 2654-2658). -/
def op_PLP (operand ea : Int) (s : State) : State × Int :=
  (pop8 operand (set_FLAGS operand s), -1)

/-- `op_PLX` (em_65816.c 2660-2665). -/
def op_PLX (operand ea : Int) (s : State) : State × Int :=
  (popXS operand (set_NZ_XS operand { s with X := operand }), -1)

/-- `op_PLY` (em_65816.c 2667-2672). -/
def op_PLY (operand ea : Int) (s : State) : State × Int :=
  (popXS operand (set_NZ_XS operand { s with Y := operand }), -1)

/-- `op_ROLA` (em_65816.c 2674-2709). -/
def op_ROLA (operand ea : Int) (s : State) : State × Int :=
  let oldC := s.C
  let s1 := { s with
    C := if s.MS > 0 ∧ s.A ≥ 0 then c_and (c_shr s.A 7) 1
      else if s.MS = 0 ∧ s.B ≥ 0 then c_and (c_shr s.B 7) 1
      else -1,
    B := if s.MS = 0 ∧ s.B ≥ 0 then
        (if s.A ≥ 0 then c_or (c_and (c_shl s.B 1) 0xfe) (c_and (c_shr s.A 7) 1) else -1)
      else if s.MS < 0 then -1 else s.B,
    A := if s.A ≥ 0 then
        (if oldC ≥ 0 then c_and (c_or (c_shl s.A 1) oldC) 0xff else -1)
      else s.A }
  (set_NZ_AB s1.A s1.B s1, -1)

/-- `op_ROL` (em_65816.c 2711-2730). -/
def op_ROL (operand ea : Int) (s : State) : State × Int :=
  let oldC := s.C
  if s.MS > 0 then
    (set_NZ8 (c_and (c_or (c_shl operand 1) oldC) 0xff) { s with C := c_and (c_shr operand 7) 1 },
      c_and (c_or (c_shl operand 1) oldC) 0xff)
  else if s.MS = 0 then
    (set_NZ16 (c_and (c_or (c_shl operand 1) oldC) 0xffff)
        { s with C := c_and (c_shr operand 15) 1 },
      c_and (c_or (c_shl operand 1) oldC) 0xffff)
  else (set_NZ_unknown { s with C := -1 }, -1)

/-- `op_RORA` (em_65816.c 2732-2758). -/
def op_RORA (operand ea : Int) (s : State) : State × Int :=
  let oldC := s.C
  let s1 := { s with
    C := if s.A ≥ 0 then c_and s.A 1 else -1,
    A := if s.MS > 0 ∧ s.A ≥ 0 then c_and (c_or (c_shr s.A 1) (c_shl oldC 7)) 0xff
      else if s.MS = 0 ∧ s.A ≥ 0 ∧ s.B ≥ 0 then c_and (c_or (c_shr s.A 1) (c_shl s.B 7)) 0xff
      else -1,
    B := if s.MS = 0 ∧ s.B ≥ 0 ∧ oldC ≥ 0 then c_and (c_or (c_shr s.B 1) (c_shl oldC 7)) 0xff
      else if s.MS < 0 then -1 else s.B }
  (set_NZ_AB s1.A s1.B s1, -1)

/-- `op_ROR` (em_65816.c 2760-2778). -/
def op_ROR (operand ea : Int) (s : State) : State × Int :=
  let oldC := s.C
  if s.MS > 0 then
    (set_NZ8 (c_and (c_or (c_shr operand 1) (c_shl oldC 7)) 0xff) { s with C := c_and operand 1 },
      c_and (c_or (c_shr operand 1) (c_shl oldC 7)) 0xff)
  else if s.MS = 0 then
    (set_NZ16 (c_and (c_or (c_shr operand 1) (c_shl oldC 15)) 0xffff)
        { s with C := c_and operand 1 },
      c_and (c_or (c_shr operand 1) (c_shl oldC 15)) 0xffff)
  else (set_NZ_unknown { s with C := -1 }, -1)

/-- `op_RTS` (em_65816.c 2780-2787). -/
def op_RTS (operand ea : Int) (s : State) : State × Int :=
  let s1 := pop8 (c_shr operand 8) (pop8 operand s)
  ({ s1 with PC := c_and operand 0xffff }, -1)

/-- `op_RTI` (em_65816.c 2789-2799). -/
def op_RTI (operand ea : Int) (s : State) : State × Int :=
  let s1 := pop8 (c_shr operand 16) (pop8 (c_shr operand 8) (pop8 operand (set_FLAGS operand s)))
  (if s1.E = 0 then pop8 (c_shr operand 24) s1 else s1, -1)

/-- One iteration of the nibble loop of decimal `op_SBC` (em_65816.c 2808-2819) on the
locals `(tmp, C, V)`. -/
def sbc_nibble (acc operand : Int) (st : Int × Int × Int) (bit : Nat) : Int × Int × Int :=
  let an := c_and (c_shr acc bit) 0xF
  let bn := c_and (c_shr operand bit) 0xF
  let rn := an - bn - (1 - st.2.1)
  let V := c_bool (c_and (c_xor rn an) 8 ≠ 0 ∧ c_and (c_xor bn an) 8 ≠ 0)
  if rn < 0 then (c_or st.1 (c_shl (c_and (rn + 10) 0xF) bit), 0, V)
  else (c_or st.1 (c_shl rn bit), 1, V)

/-- `op_SBC` (em_65816.c 2801-2848). -/
def op_SBC (operand ea : Int) (s : State) : State × Int :=
  let acc := get_accumulator s
  if acc ≥ 0 ∧ s.C ≥ 0 then
    let r : Int × Int × Int :=
      if s.D = 1 then
        (nibble_bits s.MS).foldl (sbc_nibble acc operand) (0, s.C, s.V)
      else
        let tmp := acc - operand - (1 - s.C)
        if s.MS > 0 then
          (tmp, 1 - c_and (c_shr tmp 8) 1,
            c_bool (c_and (c_xor acc operand) 0x80 ≠ 0 ∧ c_and (c_xor acc tmp) 0x80 ≠ 0))
        else
          (tmp, 1 - c_and (c_shr tmp 16) 1,
            c_bool (c_and (c_xor acc operand) 0x8000 ≠ 0 ∧ c_and (c_xor acc tmp) 0x8000 ≠ 0))
    let tmp := r.1
    let s1 := { s with
      C := r.2.1,
      V := r.2.2,
      A := c_and tmp 0xff,
      B := if s.MS > 0 then s.B else c_and (c_shr tmp 8) 0xff }
    (set_NZ_AB s1.A s1.B s1, -1)
  else
    (set_NVZC_unknown { s with A := -1, B := -1 }, -1)

/-- `op_SEC` (em_65816.c 2850-2853). -/
def op_SEC (operand ea : Int) (s : State) : State × Int := ({ s with C := 1 }, -1)

/-- `op_SED` (em_65816.c 2855-2858). -/
def op_SED (operand ea : Int) (s : State) : State × Int := ({ s with D := 1 }, -1)

/-- `op_SEI` (em_65816.c 2860-2863). -/
def op_SEI (operand ea : Int) (s : State) : State × Int := ({ s with I := 1 }, -1)

/-- `op_TSB` (em_65816.c 2917-2926). -/
def op_TSB (operand ea : Int) (s : State) : State × Int :=
  let acc := get_accumulator s
  if acc ≥ 0 then ({ s with Z := c_bool (c_and acc operand = 0) }, c_or operand acc)
  else ({ s with Z := -1 }, -1)

/-- `op_TRB` (em_65816.c 2928-2937). -/
def op_TRB (operand ea : Int) (s : State) : State × Int :=
  let acc := get_accumulator s
  if acc ≥ 0 then ({ s with Z := c_bool (c_and acc operand = 0) }, c_and operand (c_not acc))
  else ({ s with Z := -1 }, -1)

/-- `transfer_88_16` (em_65816.c 2940-2953); `dst` is the assignment through the pointer. -/
def transfer_88_16 (srchi srclo : Int) (dst : Int → State → State) (s : State) : State :=
  if srclo ≥ 0 ∧ srchi ≥ 0 ∧ s.XS = 0 then
    set_NZ16 (c_shl srchi 8 + srclo) (dst (c_shl srchi 8 + srclo) s)
  else if srclo ≥ 0 ∧ s.XS = 1 then
    set_NZ8 srclo (dst srclo s)
  else
    set_NZ_unknown (dst (-1) s)

/-- `transfer_16_88` (em_65816.c 2956-2987); both callers pass `&B` and `&A`. -/
def transfer_16_88 (src : Int) (s : State) : State :=
  if s.MS = 0 then
    (if src ≥ 0 then
      set_NZ16 src { s with B := c_and (c_shr src 8) 0xff, A := c_and src 0xff }
    else set_NZ_unknown { s with B := -1, A := -1 })
  else if s.MS = 1 then
    (if src ≥ 0 then set_NZ8 src { s with A := c_and src 0xff }
    else set_NZ_unknown { s with A := -1 })
  else
    set_NZ_unknown { s with A := if src ≥ 0 then c_and src 0xff else -1, B := -1 }

/-- `op_TAX` (em_65816.c 2989-2992). -/
def op_TAX (operand ea : Int) (s : State) : State × Int :=
  (transfer_88_16 s.B s.A (fun v t => { t with X := v }) s, -1)

/-- `op_TAY` (em_65816.c 2994-2997). -/
def op_TAY (operand ea : Int) (s : State) : State × Int :=
  (transfer_88_16 s.B s.A (fun v t => { t with Y := v }) s, -1)

/-- `op_TSX` (em_65816.c 2999-3002). -/
def op_TSX (operand ea : Int) (s : State) : State × Int :=
  (transfer_88_16 s.SH s.SL (fun v t => { t with X := v }) s, -1)

/-- `op_TXA` (em_65816.c 3004-3007). -/
def op_TXA (operand ea : Int) (s : State) : State × Int :=
  (transfer_16_88 s.X s, -1)

/-- `op_TXS` (em_65816.c 3009-3024). -/
def op_TXS (operand ea : Int) (s : State) : State × Int :=
  let SH := if s.X ≥ 0 then c_and (c_shr s.X 8) 0xff else -1
  ({ s with
     SH := if s.E = 1 then 1 else if s.E < 0 ∧ SH ≠ 1 then -1 else SH,
     SL := if s.X ≥ 0 then c_and s.X 0xff else -1 }, -1)

/-- `op_TYA` (em_65816.c 3026-3029). -/
def op_TYA (operand ea : Int) (s : State) : State × Int :=
  (transfer_16_88 s.Y s, -1)

/-- The call `instr->emulate(operand, ea)` through the function pointer. -/
def call_emulate (f : emulate_fn) (operand ea : Int) (s : State) : State × Int :=
  match f with
  | emulate_fn.op_ORA => op_ORA operand ea s
  | emulate_fn.op_TSB => op_TSB operand ea s
  | emulate_fn.op_ASL => op_ASL operand ea s
  | emulate_fn.op_PHP => op_PHP operand ea s
  | emulate_fn.op_ASLA => op_ASLA operand ea s
  | emulate_fn.op_PHD => op_PHD operand ea s
  | emulate_fn.op_BPL => op_BPL operand ea s
  | emulate_fn.op_TRB => op_TRB operand ea s
  | emulate_fn.op_CLC => op_CLC operand ea s
  | emulate_fn.op_INCA => op_INCA operand ea s
  | emulate_fn.op_TCS => op_TCS operand ea s
  | emulate_fn.op_JSR => op_JSR operand ea s
  | emulate_fn.op_AND => op_AND operand ea s
  | emulate_fn.op_JSL => op_JSL operand ea s
  | emulate_fn.op_BIT => op_BIT operand ea s
  | emulate_fn.op_ROL => op_ROL operand ea s
  | emulate_fn.op_PLP => op_PLP operand ea s
  | emulate_fn.op_ROLA => op_ROLA operand ea s
  | emulate_fn.op_PLD => op_PLD operand ea s
  | emulate_fn.op_BMI => op_BMI operand ea s
  | emulate_fn.op_SEC => op_SEC operand ea s
  | emulate_fn.op_DECA => op_DECA operand ea s
  | emulate_fn.op_TSC => op_TSC operand ea s
  | emulate_fn.op_RTI => op_RTI operand ea s
  | emulate_fn.op_EOR => op_EOR operand ea s
  | emulate_fn.op_MVP => op_MVP operand ea s
  | emulate_fn.op_LSR => op_LSR operand ea s
  | emulate_fn.op_PHA => op_PHA operand ea s
  | emulate_fn.op_LSRA => op_LSRA operand ea s
  | emulate_fn.op_PHK => op_PHK operand ea s
  | emulate_fn.op_BVC => op_BVC operand ea s
  | emulate_fn.op_MVN => op_MVN operand ea s
  | emulate_fn.op_CLI => op_CLI operand ea s
  | emulate_fn.op_PHY => op_PHY operand ea s
  | emulate_fn.op_TCD => op_TCD operand ea s
  | emulate_fn.op_RTS => op_RTS operand ea s
  | emulate_fn.op_ADC => op_ADC operand ea s
  | emulate_fn.op_PER => op_PER operand ea s
  | emulate_fn.op_STZ => op_STZ operand ea s
  | emulate_fn.op_ROR => op_ROR operand ea s
  | emulate_fn.op_PLA => op_PLA operand ea s
  | emulate_fn.op_RORA => op_RORA operand ea s
  | emulate_fn.op_RTL => op_RTL operand ea s
  | emulate_fn.op_BVS => op_BVS operand ea s
  | emulate_fn.op_SEI => op_SEI operand ea s
  | emulate_fn.op_PLY => op_PLY operand ea s
  | emulate_fn.op_TDC => op_TDC operand ea s
  | emulate_fn.op_STA => op_STA operand ea s
  | emulate_fn.op_STY => op_STY operand ea s
  | emulate_fn.op_STX => op_STX operand ea s
  | emulate_fn.op_DEY => op_DEY operand ea s
  | emulate_fn.op_BIT_IMM => op_BIT_IMM operand ea s
  | emulate_fn.op_TXA => op_TXA operand ea s
  | emulate_fn.op_PHB => op_PHB operand ea s
  | emulate_fn.op_BCC => op_BCC operand ea s
  | emulate_fn.op_TYA => op_TYA operand ea s
  | emulate_fn.op_TXS => op_TXS operand ea s
  | emulate_fn.op_TXY => op_TXY operand ea s
  | emulate_fn.op_LDY => op_LDY operand ea s
  | emulate_fn.op_LDA => op_LDA operand ea s
  | emulate_fn.op_LDX => op_LDX operand ea s
  | emulate_fn.op_TAY => op_TAY operand ea s
  | emulate_fn.op_TAX => op_TAX operand ea s
  | emulate_fn.op_PLB => op_PLB operand ea s
  | emulate_fn.op_BCS => op_BCS operand ea s
  | emulate_fn.op_CLV => op_CLV operand ea s
  | emulate_fn.op_TSX => op_TSX operand ea s
  | emulate_fn.op_TYX => op_TYX operand ea s
  | emulate_fn.op_CPY => op_CPY operand ea s
  | emulate_fn.op_CMP => op_CMP operand ea s
  | emulate_fn.op_REP => op_REP operand ea s
  | emulate_fn.op_DEC => op_DEC operand ea s
  | emulate_fn.op_INY => op_INY operand ea s
  | emulate_fn.op_DEX => op_DEX operand ea s
  | emulate_fn.op_BNE => op_BNE operand ea s
  | emulate_fn.op_PEI => op_PEI operand ea s
  | emulate_fn.op_CLD => op_CLD operand ea s
  | emulate_fn.op_PHX => op_PHX operand ea s
  | emulate_fn.op_CPX => op_CPX operand ea s
  | emulate_fn.op_SBC => op_SBC operand ea s
  | emulate_fn.op_SEP => op_SEP operand ea s
  | emulate_fn.op_INC => op_INC operand ea s
  | emulate_fn.op_INX => op_INX operand ea s
  | emulate_fn.op_XBA => op_XBA operand ea s
  | emulate_fn.op_BEQ => op_BEQ operand ea s
  | emulate_fn.op_PEA => op_PEA operand ea s
  | emulate_fn.op_SED => op_SED operand ea s
  | emulate_fn.op_PLX => op_PLX operand ea s
  | emulate_fn.op_XCE => op_XCE operand ea s
  | emulate_fn.op_JSR_new => op_JSR_new operand ea s

/-! ## em_65816.c: public methods -/

/-- Modelled from the spec: the fields of `arguments_t` (`defs.h`) that `em_65816_init`
reads (spec 6.2); a negative value is "unspecified". -/
structure arguments_t where
  e_flag : Int := -1
  sp_reg : Int := -1
  pb_reg : Int := -1
  db_reg : Int := -1
  dp_reg : Int := -1
  ms_flag : Int := -1
  xs_flag : Int := -1
  deriving Repr

/-- `em_65816_init` (em_65816.c 900-935), for `cpu_type == CPU_65C816`: the register part.
The table annotation of lines 936-969 is `init_instr`. -/
def em_65816_init (args : arguments_t) (s : State) : State :=
  let s1 := if args.e_flag ≥ 0 then
      (let s0 := { s with E := c_and args.e_flag 1 }
       if s0.E ≠ 0 then emulation_mode_on s0 else emulation_mode_off s0)
    else s
  { s1 with
    SL := if args.sp_reg ≥ 0 then c_and args.sp_reg 0xff else s1.SL,
    SH := if args.sp_reg ≥ 0 then c_and (c_shr args.sp_reg 8) 0xff else s1.SH,
    PB := if args.pb_reg ≥ 0 then c_and args.pb_reg 0xff else s1.PB,
    DB := if args.db_reg ≥ 0 then c_and args.db_reg 0xff else s1.DB,
    DP := if args.dp_reg ≥ 0 then c_and args.dp_reg 0xffff else s1.DP,
    MS := if args.ms_flag ≥ 0 then c_and args.ms_flag 1 else s1.MS,
    XS := if args.xs_flag ≥ 0 then c_and args.xs_flag 1 else s1.XS }

/-- `em_65816_match_interrupt` (em_65816.c 972-1011). -/
def em_65816_match_interrupt (sample_q : Int → sample_t) (num_samples : Int) (s : State) : Int :=
  if num_samples < 7 then 0
  else if (sample_q 1).type = sample_type_t.OPCODE ∨ (sample_q 2).type = sample_type_t.OPCODE ∨
      (sample_q 3).type = sample_type_t.OPCODE ∨ (sample_q 4).type = sample_type_t.OPCODE ∨
      (sample_q 5).type = sample_type_t.OPCODE ∨ (sample_q 6).type = sample_type_t.OPCODE then 0
  else if (sample_q 0).rnw ≥ 0 then
    (if (sample_q 0).data = 0x00 ∨ (sample_q 0).data = 0x02 then 0
     else if (sample_q 2).rnw = 0 ∧ (sample_q 3).rnw = 0 ∧ (sample_q 4).rnw = 0 then 1
     else 0)
  else
    (if ((sample_q 2).data = c_and (c_shr s.PC 8) 0xff ∧ (sample_q 3).data = c_and s.PC 0xff) ∧
        c_and (sample_q 4).data 0x30 = 0x20 ∧
        compare_FLAGS (sample_q 4).data s = 0 then 1
     else 0)

/-- `em_65816_reset` (em_65816.c 1021-1044). -/
def em_65816_reset (sample_q : Int → sample_t) (num_cycles : Int) (instruction : instruction_t)
    (s : State) : State × instruction_t :=
  let s1 := { s with
    A := -1, X := -1, Y := -1, SH := -1, SL := -1,
    N := -1, V := -1, Z := -1, C := -1,
    I := 1, D := 0,
    B := -1, DP := 0, PB := 0,
    E := 1 }
  let s2 := emulation_mode_on s1
  ({ s2 with PC := c_shl (sample_q (num_cycles - 1)).data 8 + (sample_q (num_cycles - 2)).data },
    { instruction with pc := -1 })

/-- `em_65816_interrupt` (em_65816.c 1046-1048). -/
def em_65816_interrupt (sample_q : Int → sample_t) (num_cycles : Int)
    (instruction : instruction_t) (s : State) : State × instruction_t :=
  interrupt sample_q num_cycles instruction 0 s

/-! ### `em_65816_emulate`, in the order of the source -/

/-- The E-pin update (em_65816.c 1055-1068). -/
def emulate_e_pin (sample_q : Int → sample_t) (s : State) : State :=
  let new_E := (sample_q 0).e
  if new_E ≥ 0 ∧ s.E ≠ new_E then
    let s1 := { s with
      failflag := if s.E ≥ 0 then c_or s.failflag 1 else s.failflag,
      E := new_E }
    if s1.E ≠ 0 then emulation_mode_on s1 else emulation_mode_off s1
  else s

/-- Inference of MS from the instruction length (em_65816.c 1073-1077). -/
def emulate_infer_ms (sample_q : Int → sample_t) (num_cycles : Int) (s : State) : State :=
  let instr := instr_table (sample_q 0).data
  if s.MS < 0 ∧ instr.m_extra ≠ 0 then
    check_and_set_ms (if num_cycles > get_8bit_cycles sample_q s then 0 else 1) s
  else s

/-- Inference of XS from the instruction length (em_65816.c 1079-1083). -/
def emulate_infer_xs (sample_q : Int → sample_t) (num_cycles : Int) (s : State) : State :=
  let instr := instr_table (sample_q 0).data
  if s.XS < 0 ∧ instr.x_extra ≠ 0 then
    check_and_set_xs (if num_cycles > get_8bit_cycles sample_q s then 0 else 1) s
  else s

/-- The operand count (em_65816.c 1085-1092). -/
def emulate_opcount (instr : InstrType) (s : State) : Int :=
  (if instr.mode = AddrMode.IMM ∧
      ((instr.m_extra ≠ 0 ∧ s.MS = 0) ∨ (instr.x_extra ≠ 0 ∧ s.XS = 0)) then 1 else 0)
    + (instr.len - 1)

/-- Memory modelling of the instruction fetches (em_65816.c 1101-1114); `pc` is
post-incremented by each read that is made. -/
def emulate_fetch (opcode op1 op2 op3 opcount : Int) (s : State) : State :=
  if s.PB ≥ 0 ∧ s.PC ≥ 0 then
    let pc := c_shl s.PB 16 + s.PC
    let s1 := memory_read opcode pc mem_access_t.MEM_FETCH s
    let pc := pc + 1
    let s2 := if opcount ≥ 1 then memory_read op1 pc mem_access_t.MEM_INSTR s1 else s1
    let pc := if opcount ≥ 1 then pc + 1 else pc
    let s3 := if opcount ≥ 2 then memory_read op2 pc mem_access_t.MEM_INSTR s2 else s2
    let pc := if opcount ≥ 2 then pc + 1 else pc
    if opcount ≥ 3 then memory_read op3 pc mem_access_t.MEM_INSTR s3 else s3
  else s

/-- Memory modelling of the pointer indirection (em_65816.c 1153-1261). -/
def emulate_pointer (sample_q : Int → sample_t) (num_cycles : Int) (instr : InstrType)
    (op1 op2 dpextra : Int) (wrap : Prop) [Decidable wrap] (s : State) : State :=
  let rd (i : Int) (ea : Int) (t : State) : State :=
    memory_read (sample_q i).data ea mem_access_t.MEM_POINTER t
  match instr.mode with
  | AddrMode.INDY =>
    if s.DP ≥ 0 then
      (if wrap then
        rd (3 + dpextra) (c_and s.DP 0xFF00 + c_and (op1 + 1) 0xff)
          (rd (2 + dpextra) (c_and s.DP 0xFF00 + op1) s)
      else
        rd (3 + dpextra) (c_and (s.DP + op1 + 1) 0xffff)
          (rd (2 + dpextra) (c_and (s.DP + op1) 0xffff) s))
    else s
  | AddrMode.INDX =>
    if s.DP ≥ 0 ∧ s.X ≥ 0 then
      (if wrap then
        rd (4 + dpextra) (c_and s.DP 0xFF00 + c_and (op1 + s.X + 1) 0xff)
          (rd (3 + dpextra) (c_and s.DP 0xFF00 + c_and (op1 + s.X) 0xff) s)
      else
        let s1 := rd (3 + dpextra) (c_and (s.DP + op1 + s.X) 0xffff) s
        if s1.E ≠ 0 then
          rd (4 + dpextra)
            (c_and (s1.DP + op1 + s1.X) 0xff00 + c_and (s1.DP + op1 + s1.X + 1) 0xff) s1
        else
          rd (4 + dpextra) (c_and (s1.DP + op1 + s1.X + 1) 0xffff) s1)
    else s
  | AddrMode.IND =>
    if s.DP ≥ 0 then
      (if wrap then
        rd (3 + dpextra) (c_and s.DP 0xFF00 + c_and (op1 + 1) 0xff)
          (rd (2 + dpextra) (c_and s.DP 0xFF00 + op1) s)
      else
        rd (3 + dpextra) (c_and (s.DP + op1 + 1) 0xffff)
          (rd (2 + dpextra) (c_and (s.DP + op1) 0xffff) s))
    else s
  | AddrMode.ISY =>
    if s.SL ≥ 0 ∧ s.SH ≥ 0 then
      rd 4 (c_and (c_shl s.SH 8 + s.SL + op1 + 1) 0xffff)
        (rd 3 (c_and (c_shl s.SH 8 + s.SL + op1) 0xffff) s)
    else s
  | AddrMode.IDL =>
    if s.DP ≥ 0 then
      rd (4 + dpextra) (c_and (s.DP + op1 + 2) 0xffff)
        (rd (3 + dpextra) (c_and (s.DP + op1 + 1) 0xffff)
          (rd (2 + dpextra) (c_and (s.DP + op1) 0xffff) s))
    else s
  | AddrMode.IDLY =>
    if s.DP ≥ 0 then
      rd (4 + dpextra) (c_and (s.DP + op1 + 2) 0xffff)
        (rd (3 + dpextra) (c_and (s.DP + op1 + 1) 0xffff)
          (rd (2 + dpextra) (c_and (s.DP + op1) 0xffff) s))
    else s
  | AddrMode.IAL =>
    rd 5 (c_and (c_shl op2 8 + op1 + 2) 0xffff)
      (rd 4 (c_and (c_shl op2 8 + op1 + 1) 0xffff)
        (rd 3 (c_shl op2 8 + op1) s))
  | AddrMode.IND16 =>
    rd 4 (c_and (c_shl op2 8 + op1 + 1) 0xffff)
      (rd 3 (c_shl op2 8 + op1) s)
  | AddrMode.IND1X =>
    if s.PB ≥ 0 ∧ s.X ≥ 0 then
      rd (num_cycles - 1) (c_shl s.PB 16 + c_and (c_shl op2 8 + op1 + s.X + 1) 0xffff)
        (rd (num_cycles - 2) (c_shl s.PB 16 + c_and (c_shl op2 8 + op1 + s.X) 0xffff) s)
    else s
  | _ => s

/-- The conversion of an `int` to `uint32_t` (the type of the local `operand`). -/
def to_uint32 (x : Int) : Int := x % 4294967296

/-- The operand (em_65816.c 1263-1337), a `uint32_t`; for RTI the emulation mode is set from
the cycle count on the way. -/
def emulate_operand (sample_q : Int → sample_t) (num_cycles opcode op1 op2 : Int)
    (instr : InstrType) (s : State) : State × Int :=
  let d (i : Int) : Int := (sample_q i).data
  if instr.optype = OpType.RMWOP then
    (if s.E = 1 then (s, to_uint32 (d (num_cycles - 2)))
     else if s.MS = 0 then (s, to_uint32 (c_shl (d (num_cycles - 4)) 8 + d (num_cycles - 5)))
     else (s, to_uint32 (d (num_cycles - 3))))
  else if instr.optype = OpType.BRANCHOP then (s, to_uint32 (c_bool (num_cycles ≠ 2)))
  else if opcode = 0x20 then (s, to_uint32 (c_shl (d 4) 8 + d 5))
  else if opcode = 0xfc then (s, to_uint32 (c_shl (d 2) 8 + d 3))
  else if opcode = 0x22 then (s, to_uint32 (c_shl (d 3) 16 + c_shl (d 6) 8 + d 7))
  else if opcode = 0x40 then
    let operand := to_uint32 (c_shl (d 5) 16 + c_shl (d 4) 8 + d 3)
    (if num_cycles = 6 then (emulation_mode_on s, operand)
     else (emulation_mode_off s, to_uint32 (c_or operand (c_shl (d 6) 24))))
  else if opcode = 0x60 then (s, to_uint32 (c_shl (d 4) 8 + d 3))
  else if opcode = 0x6B then (s, to_uint32 (c_shl (d 5) 16 + c_shl (d 4) 8 + d 3))
  else if instr.mode = AddrMode.BM then (s, to_uint32 (d 3))
  else if instr.mode = AddrMode.IMM then (s, to_uint32 (c_shl op2 8 + op1))
  else if (instr.m_extra ≠ 0 ∧ s.MS = 0) ∨ (instr.x_extra ≠ 0 ∧ s.XS = 0) ∨
      opcode = 0x0B ∨ opcode = 0x2B ∨ opcode = 0xD4 then
    (if opcode = 0x48 ∨ opcode = 0x5A ∨ opcode = 0xDA ∨ opcode = 0x0B ∨ opcode = 0xD4 then
      (s, to_uint32 (d (num_cycles - 1) + c_shl (d (num_cycles - 2)) 8))
     else (s, to_uint32 (d (num_cycles - 2) + c_shl (d (num_cycles - 1)) 8)))
  else (s, to_uint32 (d (num_cycles - 1)))

/-- The value written back, `operand2` (em_65816.c 1339-1357). -/
def emulate_operand2 (sample_q : Int → sample_t) (num_cycles : Int) (instr : InstrType)
    (operand : Int) (s : State) : Int :=
  let d (i : Int) : Int := (sample_q i).data
  if instr.optype = OpType.RMWOP then
    (if s.E = 0 ∧ ((instr.m_extra ≠ 0 ∧ s.MS = 0) ∨ (instr.x_extra ≠ 0 ∧ s.XS = 0)) then
      c_shl (d (num_cycles - 2)) 8 + d (num_cycles - 1)
     else d (num_cycles - 1))
  else if instr.optype = OpType.WRITEOP then
    (if s.E = 0 ∧ ((instr.m_extra ≠ 0 ∧ s.MS = 0) ∨ (instr.x_extra ≠ 0 ∧ s.XS = 0)) then
      c_shl (d (num_cycles - 1)) 8 + d (num_cycles - 2)
     else d (num_cycles - 1))
  else to_int32 operand

/-- The effective address (em_65816.c 1359-1474); -1 when it is not known. -/
def emulate_ea (sample_q : Int → sample_t) (instr : InstrType) (op1 op2 op3 dpextra : Int)
    (wrap : Prop) [Decidable wrap] (s : State) : Int :=
  let d (i : Int) : Int := (sample_q i).data
  match instr.mode with
  | AddrMode.ZP => if s.DP ≥ 0 then c_and (s.DP + op1) 0xffff else -1
  | AddrMode.ZPX =>
    if s.X ≥ 0 ∧ s.DP ≥ 0 then
      (if wrap then c_and s.DP 0xff00 + c_and (op1 + s.X) 0xff
       else c_and (s.DP + op1 + s.X) 0xffff)
    else -1
  | AddrMode.ZPY =>
    if s.Y ≥ 0 ∧ s.DP ≥ 0 then
      (if wrap then c_and s.DP 0xff00 + c_and (op1 + s.Y) 0xff
       else c_and (s.DP + op1 + s.Y) 0xffff)
    else -1
  | AddrMode.INDY =>
    if s.Y ≥ 0 ∧ s.DB ≥ 0 then
      c_and (c_shl s.DB 16 + (c_shl (d (3 + dpextra)) 8 + d (2 + dpextra)) + s.Y) 0xffffff
    else -1
  | AddrMode.INDX =>
    if s.DB ≥ 0 then c_shl s.DB 16 + c_shl (d (4 + dpextra)) 8 + d (3 + dpextra) else -1
  | AddrMode.IND =>
    if s.DB ≥ 0 then c_shl s.DB 16 + c_shl (d (3 + dpextra)) 8 + d (2 + dpextra) else -1
  | AddrMode.ABS =>
    if s.DB ≥ 0 then c_shl s.DB 16 + c_shl op2 8 + op1 else -1
  | AddrMode.ABSX =>
    if s.X ≥ 0 ∧ s.DB ≥ 0 then c_and (c_shl s.DB 16 + c_shl op2 8 + op1 + s.X) 0xffffff
    else -1
  | AddrMode.ABSY =>
    if s.Y ≥ 0 ∧ s.DB ≥ 0 then c_and (c_shl s.DB 16 + c_shl op2 8 + op1 + s.Y) 0xffffff
    else -1
  | AddrMode.BRA =>
    if s.PC > 0 then c_and (s.PC + to_int8 op1 + 2) 0xffff else -1
  | AddrMode.SR =>
    if s.SL ≥ 0 ∧ s.SH ≥ 0 then c_and (c_shl s.SH 8 + s.SL + op1) 0xffff else -1
  | AddrMode.ISY =>
    if s.Y ≥ 0 ∧ s.DB ≥ 0 then
      c_and (c_shl s.DB 16 + c_shl (d 4) 8 + d 3 + s.Y) 0xffffff
    else -1
  | AddrMode.IDL =>
    c_shl (d (4 + dpextra)) 16 + c_shl (d (3 + dpextra)) 8 + d (2 + dpextra)
  | AddrMode.IDLY =>
    if s.Y ≥ 0 then
      c_and (c_shl (d (4 + dpextra)) 16 + c_shl (d (3 + dpextra)) 8 + d (2 + dpextra) + s.Y)
        0xffffff
    else -1
  | AddrMode.ABL => c_shl op3 16 + c_shl op2 8 + op1
  | AddrMode.ALX =>
    if s.X ≥ 0 then c_and (c_shl op3 16 + c_shl op2 8 + op1 + s.X) 0xffffff else -1
  | AddrMode.IAL => c_shl (d 5) 16 + c_shl (d 4) 8 + d 3
  | AddrMode.BRL =>
    if s.PC > 0 then c_and (s.PC + to_int16 (c_shl op2 8 + op1) + 3) 0xffff else -1
  | AddrMode.BM => c_shl op2 8 + op1
  | _ => -1

/-- The instruction function and the modelling of its data accesses
(em_65816.c 1476-1527). -/
def emulate_execute (instr : InstrType) (operand operand2 ea : Int) (s : State) : State :=
  match instr.emulate with
  | none => s
  | some f =>
    let isDP : Prop := instr.mode = AddrMode.ZP ∨ instr.mode = AddrMode.ZPX ∨
      instr.mode = AddrMode.ZPY
    let size := if instr.x_extra ≠ 0 then s.XS else if instr.m_extra ≠ 0 then s.MS else 1
    let s1 :=
      if ea ≥ 0 ∧ (instr.optype = OpType.READOP ∨ instr.optype = OpType.RMWOP) then
        let oplo := c_and operand 0xff
        let ophi := c_and (c_shr operand 8) 0xff
        if size = 0 then
          let t := memory_read oplo ea mem_access_t.MEM_DATA s
          if isDP then memory_read ophi (c_and (ea + 1) 0xffff) mem_access_t.MEM_DATA t
          else memory_read ophi (ea + 1) mem_access_t.MEM_DATA t
        else if size > 0 then memory_read oplo ea mem_access_t.MEM_DATA s
        else s
      else s
    let r := call_emulate f (to_int32 operand) ea s1
    let s2 := r.1
    let result := r.2
    if instr.optype = OpType.WRITEOP ∨ instr.optype = OpType.RMWOP then
      let s3 := { s2 with
        failflag := if result ≥ 0 ∧ result ≠ operand2 then c_or s2.failflag 1 else s2.failflag }
      if ea ≥ 0 then
        let s4 := memory_write (c_and operand2 0xff) ea mem_access_t.MEM_DATA s3
        if size = 0 then
          (if isDP then
            memory_write (c_and (c_shr operand2 8) 0xff) (c_and (ea + 1) 0xffff)
              mem_access_t.MEM_DATA s4
           else memory_write (c_and (c_shr operand2 8) 0xff) (ea + 1) mem_access_t.MEM_DATA s4)
        else s4
      else s3
    else s2

/-- The update of PC and PB (em_65816.c 1529-1560). -/
def emulate_update_pc (sample_q : Int → sample_t) (num_cycles opcode op1 op2 opcount ea : Int)
    (s : State) : State :=
  let d (i : Int) : Int := (sample_q i).data
  if opcode = 0x40 then
    { s with PC := c_or (d 4) (c_shl (d 5) 8), PB := if s.E = 0 then d 6 else s.PB }
  else if opcode = 0x6c ∨ opcode = 0x7c ∨ opcode = 0xfc then
    { s with PC := c_or (c_shl (d (num_cycles - 1)) 8) (d (num_cycles - 2)) }
  else if opcode = 0x20 ∨ opcode = 0x4c then
    { s with PC := c_shl op2 8 + op1 }
  else if opcode = 0x22 ∨ opcode = 0x5c ∨ opcode = 0xdc then
    { s with PB := c_and (c_shr ea 16) 0xff, PC := c_and ea 0xffff }
  else if s.PC < 0 then
    { s with PC := -1 }
  else if opcode = 0x80 ∨ opcode = 0x82 then
    { s with PC := ea }
  else if c_and opcode 0x1f = 0x10 ∧ num_cycles ≠ 2 then
    { s with PC := ea }
  else
    { s with PC := c_and (s.PC + opcount + 1) 0xffff }

/-- `em_65816_emulate` (em_65816.c 1050-1561). -/
def em_65816_emulate (sample_q : Int → sample_t) (num_cycles : Int)
    (instruction : instruction_t) (s : State) : State × instruction_t :=
  let opcode := (sample_q 0).data
  let s := emulate_e_pin sample_q s
  let instr := instr_table opcode
  let s := emulate_infer_ms sample_q num_cycles s
  let s := emulate_infer_xs sample_q num_cycles s
  let opcount := emulate_opcount instr s
  let op1 := if opcount < 1 then 0 else (sample_q 1).data
  let op2 := if opcount < 2 then 0
    else if opcode = 0xFC then (sample_q 4).data else (sample_q 2).data
  let op3 := if opcount < 3 then 0 else (sample_q (if opcode = 0x22 then 5 else 3)).data
  let s := emulate_fetch opcode op1 op2 op3 opcount s
  let instruction := { instruction with
    opcode := opcode, op1 := op1, op2 := op2, op3 := op3, opcount := opcount }
  if opcode = 0x00 ∨ opcode = 0x02 then
    interrupt sample_q num_cycles instruction 2 s
  else
    let instruction :=
      if opcode = 0x20 then
        { instruction with
          pc := c_and (c_shl (sample_q 4).data 8 + (sample_q 5).data - 2) 0xffff,
          pb := s.PB }
      else if opcode = 0x22 then
        { instruction with
          pc := c_and (c_shl (sample_q 6).data 8 + (sample_q 7).data - 3) 0xffff,
          pb := (sample_q 3).data }
      else
        { instruction with pc := s.PC, pb := s.PB }
    let dpextra : Int :=
      if instr.mode.val ≤ AddrMode.ZP.val ∧ s.DP ≥ 0 ∧ c_and s.DP 0xff ≠ 0 then 1 else 0
    let wrap : Prop := s.E ≠ 0 ∧ c_and s.DP 0xff = 0 ∧ instr.newop = 0
    let s := emulate_pointer sample_q num_cycles instr op1 op2 dpextra wrap s
    let r := emulate_operand sample_q num_cycles opcode op1 op2 instr s
    let s := r.1
    let operand := r.2
    let operand2 := emulate_operand2 sample_q num_cycles instr operand s
    let ea := emulate_ea sample_q instr op1 op2 op3 dpextra wrap s
    let s := emulate_execute instr operand operand2 ea s
    (emulate_update_pc sample_q num_cycles opcode op1 op2 opcount ea s, instruction)

/-! ### `em_65816_disassemble` and the `sprintf` it calls -/

/-- An argument of a `sprintf` call after the format: a string or an `int`. -/
inductive fmt_arg where
  | str (s : String)
  | int (v : Int)

/-- One upper-case hexadecimal digit. -/
def hex_digit (n : Nat) : Char := "0123456789ABCDEF".data.getD n '0'

/-- The digits of `n` in base `b` (2..16), most significant first, in front of `acc`; an
`unsigned int` has at most `fuel` = 10 of them. -/
def digits_aux (b : Nat) : Nat → Nat → List Char → List Char
  | 0, _, acc => acc
  | fuel + 1, n, acc =>
    if n < b then hex_digit n :: acc
    else digits_aux b fuel (n / b) (hex_digit (n % b) :: acc)

/-- The conversion `%0wX` of C `printf` applied to an `int` (printed as `unsigned int`). -/
def fmt_0X (w : Nat) (v : Int) : List Char :=
  let ds := digits_aux 16 10 (toU32 v) []
  List.replicate (w - ds.length) '0' ++ ds

/-- The conversion `%d` of C `printf`. -/
def fmt_d (v : Int) : List Char :=
  if v < 0 then '-' :: digits_aux 10 10 (-v).toNat [] else digits_aux 10 10 v.toNat []

/-- The argument `%k$` of a positional conversion (`k` is one digit, 1-based). -/
def fmt_nth (args : List fmt_arg) (k : Char) : Option fmt_arg := args.get? (k.toNat - 49)

/-- The loop of `sprintf` over the format; `fuel` bounds the number of characters read. -/
def sprintf_aux : Nat → List Char → List fmt_arg → List Char
  | 0, _, _ => []
  | fuel + 1, fmt, args =>
    match fmt with
    | [] => []
    | '%' :: k :: '$' :: 's' :: rest =>
      (match fmt_nth args k with
       | some (fmt_arg.str s) => s.data
       | _ => []) ++ sprintf_aux fuel rest args
    | '%' :: k :: '$' :: '0' :: '2' :: 'X' :: rest =>
      (match fmt_nth args k with
       | some (fmt_arg.int v) => fmt_0X 2 v
       | _ => []) ++ sprintf_aux fuel rest args
    | c :: rest => c :: sprintf_aux fuel rest args

/-- C `sprintf(buffer, fmt, args...)` for the formats of `addr_mode_table` and `fmt_imm16`:
the positional conversions `%k$s` and `%k$02X`, every other character copied. -/
def sprintf (fmt : List Char) (args : List fmt_arg) : List Char :=
  sprintf_aux fmt.length fmt args

/-- `fmt_imm16` (em_65816.c 128). -/
def fmt_imm16 : String := "%1$s #%3$02X%2$02X"

/-- The branch target text of `em_65816_disassemble` (em_65816.c 1587-1596, 1601-1610):
`offset` relative to an unknown pc, or the 16-bit target as four hex digits. -/
def branch_target (pc len offset : Int) : String :=
  if pc < 0 then
    (if offset < 0 then String.mk ("pc-".data ++ fmt_d (-offset))
     else String.mk ("pc+".data ++ fmt_d offset))
  else String.mk (fmt_0X 4 (c_and (pc + len + offset) 0xffff))

/-- The body of `em_65816_disassemble` (em_65816.c 1577-1650) once the table entry `instr` of
the opcode is looked up: the text written to `buffer` and the value returned, `numchars`. -/
def disassemble_entry (instr : InstrType) (instruction : instruction_t) : String × Int :=
  let op1 := instruction.op1
  let op2 := instruction.op2
  let op3 := instruction.op3
  let pc := instruction.pc
  let opcount := instruction.opcount
  let mnemonic := fmt_arg.str instr.mnemonic
  let fmt := instr.fmt.data
  let out (l : List Char) : String × Int := (String.mk l, l.length)
  match instr.mode with
  | AddrMode.IMP | AddrMode.IMPA => out (sprintf fmt [mnemonic])
  | AddrMode.BRA =>
    out (sprintf fmt [mnemonic, fmt_arg.str (branch_target pc 2 (to_int8 op1))])
  | AddrMode.BRL =>
    out (sprintf fmt [mnemonic, fmt_arg.str (branch_target pc 3 (to_int16 (c_shl op2 8 + op1)))])
  | AddrMode.IMM =>
    if opcount = 2 then
      out (sprintf fmt_imm16.data [mnemonic, fmt_arg.int op1, fmt_arg.int op2])
    else out (sprintf fmt [mnemonic, fmt_arg.int op1])
  | AddrMode.ZP | AddrMode.ZPX | AddrMode.ZPY | AddrMode.INDX | AddrMode.INDY | AddrMode.IND
  | AddrMode.SR | AddrMode.ISY | AddrMode.IDL | AddrMode.IDLY =>
    out (sprintf fmt [mnemonic, fmt_arg.int op1])
  | AddrMode.ABS | AddrMode.ABSX | AddrMode.ABSY | AddrMode.IND16 | AddrMode.IND1X
  | AddrMode.IAL | AddrMode.BM =>
    out (sprintf fmt [mnemonic, fmt_arg.int op1, fmt_arg.int op2])
  | AddrMode.ABL | AddrMode.ALX =>
    out (sprintf fmt [mnemonic, fmt_arg.int op1, fmt_arg.int op2, fmt_arg.int op3])

/-- `em_65816_disassemble` (em_65816.c 1563-1651): the entry of `instruction->opcode` is
looked up in `instr_table` and rendered. -/
def em_65816_disassemble (instruction : instruction_t) : String × Int :=
  disassemble_entry (instr_table instruction.opcode) instruction

/-! ### `em_65816_get_state` -/

/-- `OFFSET_B` (em_65816.c 77). -/
def OFFSET_B : Nat := 2

/-- `OFFSET_A` (em_65816.c 78). -/
def OFFSET_A : Nat := 4

/-- `OFFSET_X` (em_65816.c 79). -/
def OFFSET_X : Nat := 9

/-- `OFFSET_Y` (em_65816.c 80). -/
def OFFSET_Y : Nat := 16

/-- `OFFSET_SH` (em_65816.c 81). -/
def OFFSET_SH : Nat := 24

/-- `OFFSET_SL` (em_65816.c 82). -/
def OFFSET_SL : Nat := 26

/-- `OFFSET_N` (em_65816.c 83). -/
def OFFSET_N : Nat := 31

/-- `OFFSET_V` (em_65816.c 84). -/
def OFFSET_V : Nat := 35

/-- `OFFSET_MS` (em_65816.c 85). -/
def OFFSET_MS : Nat := 39

/-- `OFFSET_XS` (em_65816.c 86). -/
def OFFSET_XS : Nat := 43

/-- `OFFSET_D` (em_65816.c 87). -/
def OFFSET_D : Nat := 47

/-- `OFFSET_I` (em_65816.c 88). -/
def OFFSET_I : Nat := 51

/-- `OFFSET_Z` (em_65816.c 89). -/
def OFFSET_Z : Nat := 55

/-- `OFFSET_C` (em_65816.c 90). -/
def OFFSET_C : Nat := 59

/-- `OFFSET_E` (em_65816.c 91). -/
def OFFSET_E : Nat := 63

/-- `OFFSET_PB` (em_65816.c 92). -/
def OFFSET_PB : Nat := 68

/-- `OFFSET_DB` (em_65816.c 93). -/
def OFFSET_DB : Nat := 74

/-- `OFFSET_DP` (em_65816.c 94). -/
def OFFSET_DP : Nat := 80

/-- `OFFSET_END` (em_65816.c 95). -/
def OFFSET_END : Nat := 84

/-- `default_state` (em_65816.c 97). -/
def default_state : String :=
  "A=???? X=???? Y=???? SP=???? N=? V=? M=? X=? D=? I=? Z=? C=? E=? PB=?? DB=?? DP=????"

/-- A store of the characters `cs` through the pointer `buffer + offset`: the characters of the
buffer from `offset` on are overwritten, the others are kept. -/
def write_chars (buffer : List Char) (offset : Nat) (cs : List Char) : List Char :=
  buffer.take offset ++ cs ++ buffer.drop (offset + cs.length)

/-- The `char` stored by `buffer[OFFSET_x] = '0' + v`. -/
def flag_char (v : Int) : Char := Char.ofNat ((48 + v) % 256).toNat

/-- Modelled from the spec: `write_hex2` is defined outside `src/`; spec 6.3 says the dump is
fixed-width, so the model writes the two hexadecimal digits of the low byte of the value. -/
def write_hex2 (value : Int) : List Char :=
  [hex_digit (value / 16 % 16).toNat, hex_digit (value % 16).toNat]

/-- Modelled from the spec: `write_hex4` is defined outside `src/`; the model writes the four
hexadecimal digits of the low 16 bits of the value. -/
def write_hex4 (value : Int) : List Char :=
  [hex_digit (value / 4096 % 16).toNat, hex_digit (value / 256 % 16).toNat,
    hex_digit (value / 16 % 16).toNat, hex_digit (value % 16).toNat]

/-- `em_65816_get_state` (em_65816.c 1665-1722). The source files at hand do not define the
two hexadecimal writers, which are parameters: `hex2 v` and `hex4 v` are the characters that
`write_hex2(p, v)` and `write_hex4(p, v)` store from `p` on. The result is the contents of
the buffer and the offset of the returned pointer. -/
def em_65816_get_state (hex2 hex4 : Int → List Char) (s : State) : List Char × Nat :=
  let buffer := default_state.data
  let buffer := if s.B ≥ 0 then write_chars buffer OFFSET_B (hex2 s.B) else buffer
  let buffer := if s.A ≥ 0 then write_chars buffer OFFSET_A (hex2 s.A) else buffer
  let buffer := if s.X ≥ 0 then write_chars buffer OFFSET_X (hex4 s.X) else buffer
  let buffer := if s.Y ≥ 0 then write_chars buffer OFFSET_Y (hex4 s.Y) else buffer
  let buffer := if s.SH ≥ 0 then write_chars buffer OFFSET_SH (hex2 s.SH) else buffer
  let buffer := if s.SL ≥ 0 then write_chars buffer OFFSET_SL (hex2 s.SL) else buffer
  let buffer := if s.N ≥ 0 then write_chars buffer OFFSET_N [flag_char s.N] else buffer
  let buffer := if s.V ≥ 0 then write_chars buffer OFFSET_V [flag_char s.V] else buffer
  let buffer := if s.MS ≥ 0 then write_chars buffer OFFSET_MS [flag_char s.MS] else buffer
  let buffer := if s.XS ≥ 0 then write_chars buffer OFFSET_XS [flag_char s.XS] else buffer
  let buffer := if s.D ≥ 0 then write_chars buffer OFFSET_D [flag_char s.D] else buffer
  let buffer := if s.I ≥ 0 then write_chars buffer OFFSET_I [flag_char s.I] else buffer
  let buffer := if s.Z ≥ 0 then write_chars buffer OFFSET_Z [flag_char s.Z] else buffer
  let buffer := if s.C ≥ 0 then write_chars buffer OFFSET_C [flag_char s.C] else buffer
  let buffer := if s.E ≥ 0 then write_chars buffer OFFSET_E [flag_char s.E] else buffer
  let buffer := if s.PB ≥ 0 then write_chars buffer OFFSET_PB (hex2 s.PB) else buffer
  let buffer := if s.DB ≥ 0 then write_chars buffer OFFSET_DB (hex2 s.DB) else buffer
  let buffer := if s.DP ≥ 0 then write_chars buffer OFFSET_DP (hex4 s.DP) else buffer
  (buffer, OFFSET_END)

/-- `em_65816_get_and_clear_fail` (em_65816.c 1724-1728). -/
def em_65816_get_and_clear_fail (s : State) : State × Int :=
  ({ s with failflag := 0 }, s.failflag)

/-- A sample window holding the given data bytes from index 0 on, with no sync hint and no
R/W or E pin captured (data 0 beyond the end). -/
def bus (bytes : List Int) : Int → sample_t :=
  fun i => { data := if i < 0 then 0 else bytes.getD i.toNat 0 }

/-! ## Vocabulary of the statements -/

/-- Bit `k` of `x` (0 or 1). -/
def bit (x : Int) (k : Nat) : Int := x / 2 ^ k % 2

/-- The invariant of spec 3.4: `E = 1` implies `MS = 1`, `XS = 1` and `SH = 1`. -/
def emulation_invariant (s : State) : Prop :=
  s.E = 1 → s.MS = 1 ∧ s.XS = 1 ∧ s.SH = 1

instance (s : State) : Decidable (emulation_invariant s) := by
  unfold emulation_invariant; infer_instance

/-- The registers and flags that a load or store of the accumulator leaves alone: B, X, Y,
SL, SH, PC, PB, DB, DP, V, D, I, C, MS, XS and E of `t` are those of `s`. -/
def same_registers (s t : State) : Prop :=
  t.B = s.B ∧ t.X = s.X ∧ t.Y = s.Y ∧ t.SL = s.SL ∧ t.SH = s.SH ∧ t.PC = s.PC ∧
  t.PB = s.PB ∧ t.DB = s.DB ∧ t.DP = s.DP ∧
  t.V = s.V ∧ t.D = s.D ∧ t.I = s.I ∧ t.C = s.C ∧ t.MS = s.MS ∧ t.XS = s.XS ∧ t.E = s.E

instance (s t : State) : Decidable (same_registers s t) := by
  unfold same_registers; infer_instance

/-- The disassembly of `opcode` renders operand byte 1: with 8-bit immediates
(`opcount` not 2) there are two instruction records that differ in `op1` only and have
different texts. -/
def renders_op1 (opcode : Int) : Prop :=
  ∃ (ins : instruction_t) (v w : Int), ins.opcode = opcode ∧ ins.opcount ≠ 2 ∧
    (em_65816_disassemble { ins with op1 := v }).1 ≠
      (em_65816_disassemble { ins with op1 := w }).1

/-- The disassembly of `opcode` renders operand byte 2 (see `renders_op1`). -/
def renders_op2 (opcode : Int) : Prop :=
  ∃ (ins : instruction_t) (v w : Int), ins.opcode = opcode ∧ ins.opcount ≠ 2 ∧
    (em_65816_disassemble { ins with op2 := v }).1 ≠
      (em_65816_disassemble { ins with op2 := w }).1

/-- The disassembly of `opcode` renders operand byte 3 (see `renders_op1`). -/
def renders_op3 (opcode : Int) : Prop :=
  ∃ (ins : instruction_t) (v w : Int), ins.opcode = opcode ∧ ins.opcount ≠ 2 ∧
    (em_65816_disassemble { ins with op3 := v }).1 ≠
      (em_65816_disassemble { ins with op3 := w }).1

/-- The flags N, V, D, I, Z, C that are known in `s` equal their bits 7, 6, 3, 2, 1, 0 of the
P byte `p`. -/
def known_flags_agree (p : Int) (s : State) : Prop :=
  (s.N ≥ 0 → s.N = bit p 7) ∧ (s.V ≥ 0 → s.V = bit p 6) ∧ (s.D ≥ 0 → s.D = bit p 3) ∧
  (s.I ≥ 0 → s.I = bit p 2) ∧ (s.Z ≥ 0 → s.Z = bit p 1) ∧ (s.C ≥ 0 → s.C = bit p 0)

instance (p : Int) (s : State) : Decidable (known_flags_agree p s) := by
  unfold known_flags_agree; infer_instance

/-- A sample window with the R/W line captured: data bytes and rnw values from index 0 on. -/
def bus_rw (samples : List (Int × Int)) : Int → sample_t :=
  fun i => { data := if i < 0 then 0 else (samples.getD i.toNat (0, 1)).1,
             rnw := if i < 0 then 1 else (samples.getD i.toNat (0, 1)).2 }

/-- The value of a packed-BCD number of up to four digits (one decimal digit per nibble). -/
def bcd_dec (x : Int) : Int :=
  x % 16 + 10 * (x / 16 % 16) + 100 * (x / 256 % 16) + 1000 * (x / 4096 % 16)

/-- The packed-BCD encoding of a number below 10000. -/
def bcd_enc (v : Int) : Int :=
  v % 10 + 16 * (v / 10 % 10) + 256 * (v / 100 % 10) + 4096 * (v / 1000 % 10)

/-- Every one of the four low nibbles of `x` is a decimal digit. -/
def bcd_valid (x : Int) : Prop :=
  x % 16 ≤ 9 ∧ x / 16 % 16 ≤ 9 ∧ x / 256 % 16 ≤ 9 ∧ x / 4096 % 16 ≤ 9

instance (x : Int) : Decidable (bcd_valid x) := by
  unfold bcd_valid
  infer_instance

/-- The fields of the state dump: offset, width and value of every register and flag. -/
def state_fields (s : State) : List (Nat × Nat × Int) :=
  [(OFFSET_B, 2, s.B), (OFFSET_A, 2, s.A), (OFFSET_X, 4, s.X), (OFFSET_Y, 4, s.Y),
    (OFFSET_SH, 2, s.SH), (OFFSET_SL, 2, s.SL), (OFFSET_N, 1, s.N), (OFFSET_V, 1, s.V),
    (OFFSET_MS, 1, s.MS), (OFFSET_XS, 1, s.XS), (OFFSET_D, 1, s.D), (OFFSET_I, 1, s.I),
    (OFFSET_Z, 1, s.Z), (OFFSET_C, 1, s.C), (OFFSET_E, 1, s.E), (OFFSET_PB, 2, s.PB),
    (OFFSET_DB, 2, s.DB), (OFFSET_DP, 4, s.DP)]

/-- The flag columns of the state dump: offset and value of every flag. -/
def state_flags (s : State) : List (Nat × Int) :=
  [(OFFSET_N, s.N), (OFFSET_V, s.V), (OFFSET_MS, s.MS), (OFFSET_XS, s.XS), (OFFSET_D, s.D),
    (OFFSET_I, s.I), (OFFSET_Z, s.Z), (OFFSET_C, s.C), (OFFSET_E, s.E)]

/-- One guarded store of `em_65816_get_state`: the characters `w.2.1` are written at offset
`w.1` when the value `w.2.2` is known. -/
def cond_write (buffer : List Char) (w : Nat × List Char × Int) : List Char :=
  if w.2.2 ≥ 0 then write_chars buffer w.1 w.2.1 else buffer

/-- The guarded stores of `em_65816_get_state`, in program order. -/
def state_writes (hex2 hex4 : Int → List Char) (s : State) : List (Nat × List Char × Int) :=
  [(OFFSET_B, hex2 s.B, s.B), (OFFSET_A, hex2 s.A, s.A), (OFFSET_X, hex4 s.X, s.X),
    (OFFSET_Y, hex4 s.Y, s.Y), (OFFSET_SH, hex2 s.SH, s.SH), (OFFSET_SL, hex2 s.SL, s.SL),
    (OFFSET_N, [flag_char s.N], s.N), (OFFSET_V, [flag_char s.V], s.V),
    (OFFSET_MS, [flag_char s.MS], s.MS), (OFFSET_XS, [flag_char s.XS], s.XS),
    (OFFSET_D, [flag_char s.D], s.D), (OFFSET_I, [flag_char s.I], s.I),
    (OFFSET_Z, [flag_char s.Z], s.Z), (OFFSET_C, [flag_char s.C], s.C),
    (OFFSET_E, [flag_char s.E], s.E), (OFFSET_PB, hex2 s.PB, s.PB),
    (OFFSET_DB, hex2 s.DB, s.DB), (OFFSET_DP, hex4 s.DP, s.DP)]

/-- The handler pairs that `memory_init` installs, one for each machine (`init_default`,
`init_atom`, `init_mek6800d2`, `init_pet`, `init_beeb`, `init_master`, `init_elk`,
`init_blitter`). -/
def machine_handlers (s : State) : Prop :=
  (s.memory_read_fn = read_fn_t.memory_read_default ∧
    s.memory_write_fn = write_fn_t.memory_write_default) ∨
  (s.memory_read_fn = read_fn_t.memory_read_atom ∧
    s.memory_write_fn = write_fn_t.memory_write_atom) ∨
  (s.memory_read_fn = read_fn_t.memory_read_mek6800d2 ∧
    s.memory_write_fn = write_fn_t.memory_write_mek6800d2) ∨
  (s.memory_read_fn = read_fn_t.memory_read_pet ∧
    s.memory_write_fn = write_fn_t.memory_write_default) ∨
  (s.memory_read_fn = read_fn_t.memory_read_beeb ∧
    s.memory_write_fn = write_fn_t.memory_write_beeb) ∨
  (s.memory_read_fn = read_fn_t.memory_read_master ∧
    s.memory_write_fn = write_fn_t.memory_write_master) ∨
  (s.memory_read_fn = read_fn_t.memory_read_elk ∧
    s.memory_write_fn = write_fn_t.memory_write_elk) ∨
  (s.memory_read_fn = read_fn_t.memory_read_blitter ∧
    s.memory_write_fn = write_fn_t.memory_write_blitter)

instance (s : State) : Decidable (machine_handlers s) := by
  unfold machine_handlers; infer_instance

/-- A Master just after `memory_init` with 64K of memory, modelling enabled for every kind,
in native mode with the stack pointer at 0x9000, after a read of 0x11 at 0x9000 (sideways
ROM, bank 0). -/
def master_rom_stack : State :=
  memory_read 0x11 0x9000 mem_access_t.MEM_DATA
    { memory_set_modelling (fun _ => true) (memory_init_master 0x10000) with
      E := 0, SH := 0x90, SL := 0x00 }

/-- A Blitter just after `memory_init` with 16M of memory, modelling enabled for every kind,
in native mode with the stack pointer at 0xFE31, after: a write of 0x00 to 0xFFFE31 (boot
mode off), a read of 0x11 at 0x00FE31, and a write of 0x20 to 0xFFFE31 (boot mode on
again). -/
def blitter_boot_stack : State :=
  memory_write 0x20 0xFFFE31 mem_access_t.MEM_DATA
    (memory_read 0x11 0x00FE31 mem_access_t.MEM_DATA
      (memory_write 0x00 0xFFFE31 mem_access_t.MEM_DATA
        { memory_set_modelling (fun _ => true) (memory_init_blitter 0x1000000) with
          E := 0, SH := 0xFE, SL := 0x31 }))

/-! ## Lemmas: C integer operators -/

theorem toU32_of_nonneg {x : Int} (h0 : 0 ≤ x) (h1 : x < 4294967296) : (toU32 x : Int) = x := by
  unfold toU32
  rw [Int.emod_eq_of_lt h0 h1]
  exact Int.toNat_of_nonneg h0

theorem toU32_natCast {n : Nat} (h : n < 4294967296) : toU32 (n : Int) = n := by
  have := @toU32_of_nonneg (n : Int) (by omega) (by omega)
  exact_mod_cast this

theorem toU32_lt (x : Int) : toU32 x < 4294967296 := by
  unfold toU32
  have h1 := Int.emod_nonneg x (show (4294967296 : Int) ≠ 0 by decide)
  have h2 := Int.emod_lt_of_pos x (show (0 : Int) < 4294967296 by decide)
  omega

theorem toU32_cast (x : Int) : (toU32 x : Int) = x % 4294967296 := by
  unfold toU32
  exact Int.toNat_of_nonneg (Int.emod_nonneg x (by decide))

theorem ofU32_of_lt {n : Nat} (h : n < 2147483648) : ofU32 n = n := by
  unfold ofU32; rw [if_pos h]

/-- `x & (2^k - 1)` is `x mod 2^k` (for every `int` x, negative ones included). -/
theorem c_and_mask (x : Int) (k : Nat) (hk : k ≤ 31) :
    c_and x (2 ^ k - 1) = x % 2 ^ k := by
  have hpow : (2 : Nat) ^ k ≤ 2 ^ 31 := Nat.pow_le_pow_right (by decide) hk
  have hpos : 0 < (2 : Nat) ^ k := Nat.two_pow_pos k
  have hm : toU32 ((2 : Int) ^ k - 1) = 2 ^ k - 1 := by
    have : ((2 : Int) ^ k - 1) = ((2 ^ k - 1 : Nat) : Int) := by
      rw [Nat.cast_sub hpos]; push_cast; rfl
    rw [this]
    apply toU32_natCast
    have : (2:Nat)^31 = 2147483648 := by norm_num
    omega
  unfold c_and
  rw [hm, Nat.and_pow_two_sub_one_eq_mod]
  have hlt : toU32 x % 2 ^ k < 2147483648 := by
    have := Nat.mod_lt (toU32 x) hpos
    have : (2:Nat)^31 = 2147483648 := by norm_num
    omega
  rw [ofU32_of_lt hlt]
  push_cast
  rw [toU32_cast]
  apply Int.emod_emod_of_dvd
  have : (4294967296 : Int) = 2 ^ k * 2 ^ (32 - k) := by
    rw [← pow_add]
    have : k + (32 - k) = 32 := by omega
    rw [this]; norm_num
  rw [this]
  exact Dvd.intro _ rfl

theorem c_and_1 (x : Int) : c_and x 1 = x % 2 := by
  have := c_and_mask x 1 (by decide); simpa using this

theorem c_and_F (x : Int) : c_and x 0xF = x % 16 := by
  have := c_and_mask x 4 (by decide); simpa using this

theorem c_and_ff (x : Int) : c_and x 0xff = x % 256 := by
  have := c_and_mask x 8 (by decide); simpa using this

theorem c_and_ffff (x : Int) : c_and x 0xffff = x % 65536 := by
  have := c_and_mask x 16 (by decide); simpa using this

theorem c_and_ffffff (x : Int) : c_and x 0xffffff = x % 16777216 := by
  have := c_and_mask x 24 (by decide); simpa using this

theorem c_shr_eq (x : Int) (k : Nat) : c_shr x k = x / 2 ^ k := rfl

theorem c_shl_eq (x : Int) (k : Nat) : c_shl x k = x * 2 ^ k := rfl


theorem to_uint32_of_nonneg {x : Int} (h0 : 0 ≤ x) (h1 : x < 4294967296) : to_uint32 x = x := by
  unfold to_uint32; exact Int.emod_eq_of_lt h0 h1

theorem to_int32_of_nonneg {x : Int} (h0 : 0 ≤ x) (h1 : x < 2147483648) : to_int32 x = x := by
  unfold to_int32
  have h := @toU32_of_nonneg x h0 (by omega)
  have hlt : toU32 x < 2147483648 := by omega
  rw [ofU32_of_lt hlt, h]

/-- The value of bit `k` of `x`. -/
theorem c_bit_eq (x : Int) (k : Nat) : c_and (c_shr x k) 1 = x / 2 ^ k % 2 := by
  rw [c_and_1, c_shr_eq]

theorem c_xor_natCast {n p : Nat} (hn : n < 2147483648) (hp : p < 2147483648) :
    c_xor (n : Int) (p : Int) = ((n ^^^ p : Nat) : Int) := by
  unfold c_xor
  rw [toU32_natCast (by omega), toU32_natCast (by omega)]
  apply ofU32_of_lt
  have := @Nat.xor_lt_two_pow n p 31 (by norm_num; omega) (by norm_num; omega)
  norm_num at this; exact this

theorem c_and_pow_natCast {q : Nat} (hq : q < 2147483648) (k : Nat) (hk : k < 31) :
    c_and (q : Int) (2 ^ k) = (((q.testBit k).toNat * 2 ^ k : Nat) : Int) := by
  have hpow : (2 : Nat) ^ k < 2 ^ 31 := Nat.pow_lt_pow_right (by decide) hk
  have h31 : (2:Nat)^31 = 2147483648 := by norm_num
  unfold c_and
  have : ((2 : Int) ^ k) = ((2 ^ k : Nat) : Int) := by push_cast; rfl
  rw [this, toU32_natCast (by omega), toU32_natCast (by omega), Nat.and_two_pow]
  apply ofU32_of_lt
  cases q.testBit k <;> (simp; try omega)

/-- `((x ^ y) & 2^k) == 0` says that `x` and `y` agree in bit `k`. -/
theorem c_and_xor_pow_eq_zero {x y : Int} (hx0 : 0 ≤ x) (hx : x < 2147483648)
    (hy0 : 0 ≤ y) (hy : y < 2147483648) (k : Nat) (hk : k < 31) :
    c_and (c_xor x y) (2 ^ k) = 0 ↔ x / 2 ^ k % 2 = y / 2 ^ k % 2 := by
  obtain ⟨n, rfl⟩ := Int.eq_ofNat_of_zero_le hx0
  obtain ⟨p, rfl⟩ := Int.eq_ofNat_of_zero_le hy0
  have hn : n < 2147483648 := by omega
  have hp : p < 2147483648 := by omega
  rw [c_xor_natCast hn hp]
  have hq : n ^^^ p < 2147483648 := by
    have := @Nat.xor_lt_two_pow n p 31 (by norm_num; omega) (by norm_num; omega)
    norm_num at this; exact this
  rw [c_and_pow_natCast hq k hk, Nat.testBit_xor]
  have hpos : 0 < (2 : Nat) ^ k := Nat.two_pow_pos k
  have e1 : ((n : Int) / 2 ^ k % 2) = ((n / 2 ^ k % 2 : Nat) : Int) := by push_cast; rfl
  have e2 : ((p : Int) / 2 ^ k % 2) = ((p / 2 ^ k % 2 : Nat) : Int) := by push_cast; rfl
  rw [e1, e2]
  have t1 := @Nat.testBit_to_div_mod k n
  have t2 := @Nat.testBit_to_div_mod k p
  have m1 := Nat.mod_two_eq_zero_or_one (n / 2 ^ k)
  have m2 := Nat.mod_two_eq_zero_or_one (p / 2 ^ k)
  rw [t1, t2]
  rcases m1 with m1 | m1 <;> rcases m2 with m2 | m2 <;> simp [m1, m2]


/-! ## Lemmas: what the memory model leaves alone -/

/-- An assignment through a pointer changes the cells of one block and nothing else. -/
theorem write_ptr_frame (p : int_ptr) (d : Int) (s t : State) (h : write_ptr p d s = some t) :
    ∃ m sw ly hz an, t = { s with
      memory := m, swrom := sw, lynne := ly, hazel := hz, andy := an } := by
  unfold write_ptr at h
  split at h <;> split at h <;> first
    | (cases h; exact ⟨_, _, _, _, _, rfl⟩)
    | cases h

/-- The check of `*memptr` against `data` followed by the assignment, as the four read
handlers of the paged machines do it. -/
theorem check_write_frame (p : int_ptr) (d : Int) (s t : State)
    (h : (match read_ptr p s with
      | none => none
      | some v =>
        write_ptr p d (if v ≥ 0 ∧ v ≠ d then { s with failflag := c_or s.failflag 1 } else s)) =
      some t) :
    ∃ f m sw ly hz an, t = { s with
      failflag := f, memory := m, swrom := sw, lynne := ly, hazel := hz, andy := an } := by
  split at h
  · exact absurd h (by simp)
  · rename_i v _
    obtain ⟨m, sw, ly, hz, an, e⟩ := write_ptr_frame _ _ _ _ h
    by_cases c : v ≥ 0 ∧ v ≠ d
    · rw [if_pos c] at e
      exact ⟨_, m, sw, ly, hz, an, e⟩
    · rw [if_neg c] at e
      exact ⟨s.failflag, m, sw, ly, hz, an, e⟩

theorem read_result_frame (s : State) (r : Option State)
    (h : ∀ t, r = some t → ∃ f m sw ly hz an, t = { s with
      failflag := f, memory := m, swrom := sw, lynne := ly, hazel := hz, andy := an }) :
    ∃ f m sw ly hz an u, read_result s r = { s with
      failflag := f, memory := m, swrom := sw, lynne := ly, hazel := hz, andy := an,
      undefined := u } := by
  cases r with
  | none => exact ⟨_, _, _, _, _, _, _, rfl⟩
  | some t =>
    obtain ⟨f, m, sw, ly, hz, an, e⟩ := h t rfl
    exact ⟨f, m, sw, ly, hz, an, s.undefined, by rw [read_result, e]⟩

theorem memory_read_beeb_frame (data ea : Int) (s t : State)
    (h : memory_read_beeb data ea s = some t) :
    ∃ f m sw ly hz an, t = { s with
      failflag := f, memory := m, swrom := sw, lynne := ly, hazel := hz, andy := an } := by
  unfold memory_read_beeb at h
  split at h
  · exact check_write_frame _ _ _ _ h
  · cases h; exact ⟨_, _, _, _, _, _, rfl⟩

theorem memory_read_master_frame (data ea : Int) (s t : State)
    (h : memory_read_master data ea s = some t) :
    ∃ f m sw ly hz an, t = { s with
      failflag := f, memory := m, swrom := sw, lynne := ly, hazel := hz, andy := an } := by
  unfold memory_read_master at h
  split at h
  · exact check_write_frame _ _ _ _ h
  · cases h; exact ⟨_, _, _, _, _, _, rfl⟩

theorem memory_read_elk_frame (data ea : Int) (s t : State)
    (h : memory_read_elk data ea s = some t) :
    ∃ f m sw ly hz an, t = { s with
      failflag := f, memory := m, swrom := sw, lynne := ly, hazel := hz, andy := an } := by
  unfold memory_read_elk at h
  split at h
  · exact check_write_frame _ _ _ _ h
  · cases h; exact ⟨_, _, _, _, _, _, rfl⟩

theorem memory_read_blitter_frame (data ea : Int) (s t : State)
    (h : memory_read_blitter data ea s = some t) :
    ∃ f m sw ly hz an, t = { s with
      failflag := f, memory := m, swrom := sw, lynne := ly, hazel := hz, andy := an } := by
  unfold memory_read_blitter at h
  dsimp only at h
  split at h
  · exact check_write_frame _ _ _ _ h
  · cases h; exact ⟨_, _, _, _, _, _, rfl⟩

theorem call_read_fn_frame (data ea : Int) (s : State) :
    ∃ f m sw ly hz an u, call_read_fn data ea s = { s with
      failflag := f, memory := m, swrom := sw, lynne := ly, hazel := hz, andy := an,
      undefined := u } := by
  unfold call_read_fn
  split
  · exact ⟨_, _, _, _, _, _, _, rfl⟩
  · exact ⟨_, _, _, _, _, _, _, rfl⟩
  · exact ⟨_, _, _, _, _, _, _, rfl⟩
  · unfold memory_read_pet
    split
    · exact ⟨_, _, _, _, _, _, _, rfl⟩
    · exact ⟨_, _, _, _, _, _, _, rfl⟩
  · exact read_result_frame s _ (memory_read_beeb_frame data ea s)
  · exact read_result_frame s _ (memory_read_master_frame data ea s)
  · exact read_result_frame s _ (memory_read_elk_frame data ea s)
  · exact read_result_frame s _ (memory_read_blitter_frame data ea s)

/-- The part of a write handler of a paged machine before the assignment changes at most
the two latches and `boot_mode`; the assignment changes the cells of one block. -/
theorem write_result_frame (s s1 : State) (p : int_ptr) (d : Int)
    (h1 : ∃ r a b, s1 = { s with rom_latch := r, acccon_latch := a, boot_mode := b }) :
    ∃ m r a sw ly hz an b u,
      (write_result s (match write_ptr p d s1 with
        | none => none
        | some s2 => some (s2, 0))).1 =
      { s with
        memory := m, rom_latch := r, acccon_latch := a, swrom := sw, lynne := ly,
        hazel := hz, andy := an, boot_mode := b, undefined := u } := by
  obtain ⟨r, a, b, e1⟩ := h1
  cases hw : write_ptr p d s1 with
  | none => exact ⟨_, _, _, _, _, _, _, _, _, rfl⟩
  | some s2 =>
    obtain ⟨m, sw, ly, hz, an, e⟩ := write_ptr_frame _ _ _ _ hw
    refine ⟨m, r, a, sw, ly, hz, an, b, s.undefined, ?_⟩
    simp only [write_result]
    rw [e, e1]

theorem write_result_ignored_frame (s s1 : State) (c : Prop) [Decidable c] (p : int_ptr)
    (d : Int) (h1 : ∃ r a b, s1 = { s with rom_latch := r, acccon_latch := a, boot_mode := b }) :
    ∃ m r a sw ly hz an b u,
      (write_result s (if c then
        (match write_ptr p d s1 with
        | none => none
        | some s3 => some (s3, 0))
        else some (s1, 1))).1 =
      { s with
        memory := m, rom_latch := r, acccon_latch := a, swrom := sw, lynne := ly,
        hazel := hz, andy := an, boot_mode := b, undefined := u } := by
  by_cases h : c
  · rw [if_pos h]
    exact write_result_frame s s1 p d h1
  · rw [if_neg h]
    obtain ⟨r, a, b, e⟩ := h1
    refine ⟨s.memory, r, a, s.swrom, s.lynne, s.hazel, s.andy, b, s.undefined, ?_⟩
    simp only [write_result]
    rw [e]

theorem latch_frame (c : Prop) [Decidable c] (d : Int) (s : State) :
    ∃ r a b, (if c then set_rom_latch d s else s) =
      { s with rom_latch := r, acccon_latch := a, boot_mode := b } := by
  by_cases h : c
  · rw [if_pos h]; exact ⟨_, _, _, rfl⟩
  · rw [if_neg h]; exact ⟨_, _, _, rfl⟩

theorem call_write_fn_frame (data ea : Int) (s : State) :
    ∃ m r a sw ly hz an b u, (call_write_fn data ea s).1 =
      { s with
        memory := m, rom_latch := r, acccon_latch := a, swrom := sw, lynne := ly,
        hazel := hz, andy := an, boot_mode := b, undefined := u } := by
  unfold call_write_fn
  split
  · exact ⟨_, _, _, _, _, _, _, _, _, rfl⟩
  · exact ⟨_, _, _, _, _, _, _, _, _, rfl⟩
  · exact ⟨_, _, _, _, _, _, _, _, _, rfl⟩
  · unfold memory_write_beeb
    exact write_result_frame s _ _ _ (latch_frame _ _ s)
  · unfold memory_write_master
    dsimp only
    have h2 : ∃ r a b,
        (if ea = 0xfe34 then set_acccon_latch (c_and data 0xff)
          (if ea = 0xfe30 then set_rom_latch (c_and data 0x8f) s else s)
        else (if ea = 0xfe30 then set_rom_latch (c_and data 0x8f) s else s)) =
        { s with rom_latch := r, acccon_latch := a, boot_mode := b } := by
      obtain ⟨r, a, b, e⟩ := latch_frame (ea = 0xfe30) (c_and data 0x8f) s
      rw [e]
      by_cases h : ea = 0xfe34
      · rw [if_pos h]; exact ⟨_, _, _, rfl⟩
      · rw [if_neg h]; exact ⟨_, _, _, rfl⟩
    exact write_result_ignored_frame s _ _ _ _ h2
  · unfold memory_write_elk
    exact write_result_frame s _ _ _ (latch_frame _ _ s)
  · unfold memory_write_blitter
    dsimp only
    refine write_result_frame s _ _ _ ?_
    obtain ⟨r, a, b, e⟩ := latch_frame (remap_address_blitter ea s = 0xfffe30) (c_and data 0xf) s
    rw [e]
    by_cases h : remap_address_blitter ea s = 0xfffe31
    · rw [if_pos h]; exact ⟨_, _, _, rfl⟩
    · rw [if_neg h]; exact ⟨_, _, _, rfl⟩

/-- A read through `memory_read` changes at most `failflag`, `vdu_op`, the cells of the
blocks and the mark `undefined`. -/
theorem memory_read_frame (data ea : Int) (type : mem_access_t) (s : State) :
    ∃ f m v sw ly hz an u, memory_read data ea type s = { s with
      failflag := f, memory := m, vdu_op := v, swrom := sw, lynne := ly, hazel := hz,
      andy := an, undefined := u } := by
  have key : ∀ (s1 : State) (b : Bool), ∃ f m sw ly hz an u,
      (if b = true then call_read_fn data ea s1 else s1) = { s1 with
        failflag := f, memory := m, swrom := sw, lynne := ly, hazel := hz, andy := an,
        undefined := u } := by
    intro s1 b
    cases b
    · exact ⟨_, _, _, _, _, _, _, rfl⟩
    · exact call_read_fn_frame data ea s1
  obtain ⟨f, m, sw, ly, hz, an, u, h⟩ := key { s with
      vdu_op := if type = mem_access_t.MEM_FETCH then
          c_bool (c_and s.acccon_latch 0x08 = 0x00 ∧ c_and ea 0xffe000 = 0xc000)
        else s.vdu_op }
    (s.mem_model (if type = mem_access_t.MEM_FETCH then mem_access_t.MEM_INSTR else type))
  exact ⟨f, m, _, sw, ly, hz, an, u, h⟩

/-- A write through `memory_write` changes at most the cells of the blocks, the two latches,
`boot_mode` and the mark `undefined`. -/
theorem memory_write_frame (data ea : Int) (type : mem_access_t) (s : State) :
    ∃ m r a sw ly hz an b u, memory_write data ea type s = { s with
      memory := m, rom_latch := r, acccon_latch := a, swrom := sw, lynne := ly,
      hazel := hz, andy := an, boot_mode := b, undefined := u } := by
  unfold memory_write
  split
  · exact call_write_fn_frame data ea s
  · exact ⟨_, _, _, _, _, _, _, _, _, rfl⟩

@[simp] theorem memory_read_A (data ea : Int) (type : mem_access_t) (s : State) :
    (memory_read data ea type s).A = s.A := by
  obtain ⟨f, m, v, sw, ly, hz, an, u, h⟩ := memory_read_frame data ea type s
  rw [h]

@[simp] theorem memory_read_X (data ea : Int) (type : mem_access_t) (s : State) :
    (memory_read data ea type s).X = s.X := by
  obtain ⟨f, m, v, sw, ly, hz, an, u, h⟩ := memory_read_frame data ea type s
  rw [h]

@[simp] theorem memory_read_Y (data ea : Int) (type : mem_access_t) (s : State) :
    (memory_read data ea type s).Y = s.Y := by
  obtain ⟨f, m, v, sw, ly, hz, an, u, h⟩ := memory_read_frame data ea type s
  rw [h]

@[simp] theorem memory_read_SH (data ea : Int) (type : mem_access_t) (s : State) :
    (memory_read data ea type s).SH = s.SH := by
  obtain ⟨f, m, v, sw, ly, hz, an, u, h⟩ := memory_read_frame data ea type s
  rw [h]

@[simp] theorem memory_read_SL (data ea : Int) (type : mem_access_t) (s : State) :
    (memory_read data ea type s).SL = s.SL := by
  obtain ⟨f, m, v, sw, ly, hz, an, u, h⟩ := memory_read_frame data ea type s
  rw [h]

@[simp] theorem memory_read_PC (data ea : Int) (type : mem_access_t) (s : State) :
    (memory_read data ea type s).PC = s.PC := by
  obtain ⟨f, m, v, sw, ly, hz, an, u, h⟩ := memory_read_frame data ea type s
  rw [h]

@[simp] theorem memory_read_B (data ea : Int) (type : mem_access_t) (s : State) :
    (memory_read data ea type s).B = s.B := by
  obtain ⟨f, m, v, sw, ly, hz, an, u, h⟩ := memory_read_frame data ea type s
  rw [h]

@[simp] theorem memory_read_DP (data ea : Int) (type : mem_access_t) (s : State) :
    (memory_read data ea type s).DP = s.DP := by
  obtain ⟨f, m, v, sw, ly, hz, an, u, h⟩ := memory_read_frame data ea type s
  rw [h]

@[simp] theorem memory_read_DB (data ea : Int) (type : mem_access_t) (s : State) :
    (memory_read data ea type s).DB = s.DB := by
  obtain ⟨f, m, v, sw, ly, hz, an, u, h⟩ := memory_read_frame data ea type s
  rw [h]

@[simp] theorem memory_read_PB (data ea : Int) (type : mem_access_t) (s : State) :
    (memory_read data ea type s).PB = s.PB := by
  obtain ⟨f, m, v, sw, ly, hz, an, u, h⟩ := memory_read_frame data ea type s
  rw [h]

@[simp] theorem memory_read_N (data ea : Int) (type : mem_access_t) (s : State) :
    (memory_read data ea type s).N = s.N := by
  obtain ⟨f, m, v, sw, ly, hz, an, u, h⟩ := memory_read_frame data ea type s
  rw [h]

@[simp] theorem memory_read_V (data ea : Int) (type : mem_access_t) (s : State) :
    (memory_read data ea type s).V = s.V := by
  obtain ⟨f, m, v, sw, ly, hz, an, u, h⟩ := memory_read_frame data ea type s
  rw [h]

@[simp] theorem memory_read_D (data ea : Int) (type : mem_access_t) (s : State) :
    (memory_read data ea type s).D = s.D := by
  obtain ⟨f, m, v, sw, ly, hz, an, u, h⟩ := memory_read_frame data ea type s
  rw [h]

@[simp] theorem memory_read_I (data ea : Int) (type : mem_access_t) (s : State) :
    (memory_read data ea type s).I = s.I := by
  obtain ⟨f, m, v, sw, ly, hz, an, u, h⟩ := memory_read_frame data ea type s
  rw [h]

@[simp] theorem memory_read_Z (data ea : Int) (type : mem_access_t) (s : State) :
    (memory_read data ea type s).Z = s.Z := by
  obtain ⟨f, m, v, sw, ly, hz, an, u, h⟩ := memory_read_frame data ea type s
  rw [h]

@[simp] theorem memory_read_C (data ea : Int) (type : mem_access_t) (s : State) :
    (memory_read data ea type s).C = s.C := by
  obtain ⟨f, m, v, sw, ly, hz, an, u, h⟩ := memory_read_frame data ea type s
  rw [h]

@[simp] theorem memory_read_MS (data ea : Int) (type : mem_access_t) (s : State) :
    (memory_read data ea type s).MS = s.MS := by
  obtain ⟨f, m, v, sw, ly, hz, an, u, h⟩ := memory_read_frame data ea type s
  rw [h]

@[simp] theorem memory_read_XS (data ea : Int) (type : mem_access_t) (s : State) :
    (memory_read data ea type s).XS = s.XS := by
  obtain ⟨f, m, v, sw, ly, hz, an, u, h⟩ := memory_read_frame data ea type s
  rw [h]

@[simp] theorem memory_read_E (data ea : Int) (type : mem_access_t) (s : State) :
    (memory_read data ea type s).E = s.E := by
  obtain ⟨f, m, v, sw, ly, hz, an, u, h⟩ := memory_read_frame data ea type s
  rw [h]

@[simp] theorem memory_read_mem_model (data ea : Int) (type : mem_access_t) (s : State) :
    (memory_read data ea type s).mem_model = s.mem_model := by
  obtain ⟨f, m, v, sw, ly, hz, an, u, h⟩ := memory_read_frame data ea type s
  rw [h]

@[simp] theorem memory_read_rom_latch (data ea : Int) (type : mem_access_t) (s : State) :
    (memory_read data ea type s).rom_latch = s.rom_latch := by
  obtain ⟨f, m, v, sw, ly, hz, an, u, h⟩ := memory_read_frame data ea type s
  rw [h]

@[simp] theorem memory_read_acccon_latch (data ea : Int) (type : mem_access_t) (s : State) :
    (memory_read data ea type s).acccon_latch = s.acccon_latch := by
  obtain ⟨f, m, v, sw, ly, hz, an, u, h⟩ := memory_read_frame data ea type s
  rw [h]

@[simp] theorem memory_read_memory_read_fn (data ea : Int) (type : mem_access_t) (s : State) :
    (memory_read data ea type s).memory_read_fn = s.memory_read_fn := by
  obtain ⟨f, m, v, sw, ly, hz, an, u, h⟩ := memory_read_frame data ea type s
  rw [h]

@[simp] theorem memory_read_memory_write_fn (data ea : Int) (type : mem_access_t) (s : State) :
    (memory_read data ea type s).memory_write_fn = s.memory_write_fn := by
  obtain ⟨f, m, v, sw, ly, hz, an, u, h⟩ := memory_read_frame data ea type s
  rw [h]

@[simp] theorem memory_write_A (data ea : Int) (type : mem_access_t) (s : State) :
    (memory_write data ea type s).A = s.A := by
  obtain ⟨m, r, a, sw, ly, hz, an, b, u, h⟩ := memory_write_frame data ea type s
  rw [h]

@[simp] theorem memory_write_X (data ea : Int) (type : mem_access_t) (s : State) :
    (memory_write data ea type s).X = s.X := by
  obtain ⟨m, r, a, sw, ly, hz, an, b, u, h⟩ := memory_write_frame data ea type s
  rw [h]

@[simp] theorem memory_write_Y (data ea : Int) (type : mem_access_t) (s : State) :
    (memory_write data ea type s).Y = s.Y := by
  obtain ⟨m, r, a, sw, ly, hz, an, b, u, h⟩ := memory_write_frame data ea type s
  rw [h]

@[simp] theorem memory_write_SH (data ea : Int) (type : mem_access_t) (s : State) :
    (memory_write data ea type s).SH = s.SH := by
  obtain ⟨m, r, a, sw, ly, hz, an, b, u, h⟩ := memory_write_frame data ea type s
  rw [h]

@[simp] theorem memory_write_SL (data ea : Int) (type : mem_access_t) (s : State) :
    (memory_write data ea type s).SL = s.SL := by
  obtain ⟨m, r, a, sw, ly, hz, an, b, u, h⟩ := memory_write_frame data ea type s
  rw [h]

@[simp] theorem memory_write_PC (data ea : Int) (type : mem_access_t) (s : State) :
    (memory_write data ea type s).PC = s.PC := by
  obtain ⟨m, r, a, sw, ly, hz, an, b, u, h⟩ := memory_write_frame data ea type s
  rw [h]

@[simp] theorem memory_write_B (data ea : Int) (type : mem_access_t) (s : State) :
    (memory_write data ea type s).B = s.B := by
  obtain ⟨m, r, a, sw, ly, hz, an, b, u, h⟩ := memory_write_frame data ea type s
  rw [h]

@[simp] theorem memory_write_DP (data ea : Int) (type : mem_access_t) (s : State) :
    (memory_write data ea type s).DP = s.DP := by
  obtain ⟨m, r, a, sw, ly, hz, an, b, u, h⟩ := memory_write_frame data ea type s
  rw [h]

@[simp] theorem memory_write_DB (data ea : Int) (type : mem_access_t) (s : State) :
    (memory_write data ea type s).DB = s.DB := by
  obtain ⟨m, r, a, sw, ly, hz, an, b, u, h⟩ := memory_write_frame data ea type s
  rw [h]

@[simp] theorem memory_write_PB (data ea : Int) (type : mem_access_t) (s : State) :
    (memory_write data ea type s).PB = s.PB := by
  obtain ⟨m, r, a, sw, ly, hz, an, b, u, h⟩ := memory_write_frame data ea type s
  rw [h]

@[simp] theorem memory_write_N (data ea : Int) (type : mem_access_t) (s : State) :
    (memory_write data ea type s).N = s.N := by
  obtain ⟨m, r, a, sw, ly, hz, an, b, u, h⟩ := memory_write_frame data ea type s
  rw [h]

@[simp] theorem memory_write_V (data ea : Int) (type : mem_access_t) (s : State) :
    (memory_write data ea type s).V = s.V := by
  obtain ⟨m, r, a, sw, ly, hz, an, b, u, h⟩ := memory_write_frame data ea type s
  rw [h]

@[simp] theorem memory_write_D (data ea : Int) (type : mem_access_t) (s : State) :
    (memory_write data ea type s).D = s.D := by
  obtain ⟨m, r, a, sw, ly, hz, an, b, u, h⟩ := memory_write_frame data ea type s
  rw [h]

@[simp] theorem memory_write_I (data ea : Int) (type : mem_access_t) (s : State) :
    (memory_write data ea type s).I = s.I := by
  obtain ⟨m, r, a, sw, ly, hz, an, b, u, h⟩ := memory_write_frame data ea type s
  rw [h]

@[simp] theorem memory_write_Z (data ea : Int) (type : mem_access_t) (s : State) :
    (memory_write data ea type s).Z = s.Z := by
  obtain ⟨m, r, a, sw, ly, hz, an, b, u, h⟩ := memory_write_frame data ea type s
  rw [h]

@[simp] theorem memory_write_C (data ea : Int) (type : mem_access_t) (s : State) :
    (memory_write data ea type s).C = s.C := by
  obtain ⟨m, r, a, sw, ly, hz, an, b, u, h⟩ := memory_write_frame data ea type s
  rw [h]

@[simp] theorem memory_write_MS (data ea : Int) (type : mem_access_t) (s : State) :
    (memory_write data ea type s).MS = s.MS := by
  obtain ⟨m, r, a, sw, ly, hz, an, b, u, h⟩ := memory_write_frame data ea type s
  rw [h]

@[simp] theorem memory_write_XS (data ea : Int) (type : mem_access_t) (s : State) :
    (memory_write data ea type s).XS = s.XS := by
  obtain ⟨m, r, a, sw, ly, hz, an, b, u, h⟩ := memory_write_frame data ea type s
  rw [h]

@[simp] theorem memory_write_E (data ea : Int) (type : mem_access_t) (s : State) :
    (memory_write data ea type s).E = s.E := by
  obtain ⟨m, r, a, sw, ly, hz, an, b, u, h⟩ := memory_write_frame data ea type s
  rw [h]

@[simp] theorem memory_write_mem_model (data ea : Int) (type : mem_access_t) (s : State) :
    (memory_write data ea type s).mem_model = s.mem_model := by
  obtain ⟨m, r, a, sw, ly, hz, an, b, u, h⟩ := memory_write_frame data ea type s
  rw [h]

@[simp] theorem memory_write_memory_read_fn (data ea : Int) (type : mem_access_t) (s : State) :
    (memory_write data ea type s).memory_read_fn = s.memory_read_fn := by
  obtain ⟨m, r, a, sw, ly, hz, an, b, u, h⟩ := memory_write_frame data ea type s
  rw [h]

@[simp] theorem memory_write_memory_write_fn (data ea : Int) (type : mem_access_t) (s : State) :
    (memory_write data ea type s).memory_write_fn = s.memory_write_fn := by
  obtain ⟨m, r, a, sw, ly, hz, an, b, u, h⟩ := memory_write_frame data ea type s
  rw [h]

@[simp] theorem memory_write_failflag (data ea : Int) (type : mem_access_t) (s : State) :
    (memory_write data ea type s).failflag = s.failflag := by
  obtain ⟨m, r, a, sw, ly, hz, an, b, u, h⟩ := memory_write_frame data ea type s
  rw [h]

@[simp] theorem memory_write_vdu_op (data ea : Int) (type : mem_access_t) (s : State) :
    (memory_write data ea type s).vdu_op = s.vdu_op := by
  obtain ⟨m, r, a, sw, ly, hz, an, b, u, h⟩ := memory_write_frame data ea type s
  rw [h]

@[simp] theorem memory_read_memory_size (data ea : Int) (type : mem_access_t) (s : State) :
    (memory_read data ea type s).memory_size = s.memory_size := by
  obtain ⟨f, m, v, sw, ly, hz, an, u, h⟩ := memory_read_frame data ea type s
  rw [h]

@[simp] theorem memory_read_swrom_size (data ea : Int) (type : mem_access_t) (s : State) :
    (memory_read data ea type s).swrom_size = s.swrom_size := by
  obtain ⟨f, m, v, sw, ly, hz, an, u, h⟩ := memory_read_frame data ea type s
  rw [h]

@[simp] theorem memory_read_lynne_size (data ea : Int) (type : mem_access_t) (s : State) :
    (memory_read data ea type s).lynne_size = s.lynne_size := by
  obtain ⟨f, m, v, sw, ly, hz, an, u, h⟩ := memory_read_frame data ea type s
  rw [h]

@[simp] theorem memory_read_hazel_size (data ea : Int) (type : mem_access_t) (s : State) :
    (memory_read data ea type s).hazel_size = s.hazel_size := by
  obtain ⟨f, m, v, sw, ly, hz, an, u, h⟩ := memory_read_frame data ea type s
  rw [h]

@[simp] theorem memory_read_andy_size (data ea : Int) (type : mem_access_t) (s : State) :
    (memory_read data ea type s).andy_size = s.andy_size := by
  obtain ⟨f, m, v, sw, ly, hz, an, u, h⟩ := memory_read_frame data ea type s
  rw [h]

@[simp] theorem memory_read_boot_mode (data ea : Int) (type : mem_access_t) (s : State) :
    (memory_read data ea type s).boot_mode = s.boot_mode := by
  obtain ⟨f, m, v, sw, ly, hz, an, u, h⟩ := memory_read_frame data ea type s
  rw [h]

@[simp] theorem memory_write_memory_size (data ea : Int) (type : mem_access_t) (s : State) :
    (memory_write data ea type s).memory_size = s.memory_size := by
  obtain ⟨m, r, a, sw, ly, hz, an, b, u, h⟩ := memory_write_frame data ea type s
  rw [h]

@[simp] theorem memory_write_swrom_size (data ea : Int) (type : mem_access_t) (s : State) :
    (memory_write data ea type s).swrom_size = s.swrom_size := by
  obtain ⟨m, r, a, sw, ly, hz, an, b, u, h⟩ := memory_write_frame data ea type s
  rw [h]

@[simp] theorem memory_write_lynne_size (data ea : Int) (type : mem_access_t) (s : State) :
    (memory_write data ea type s).lynne_size = s.lynne_size := by
  obtain ⟨m, r, a, sw, ly, hz, an, b, u, h⟩ := memory_write_frame data ea type s
  rw [h]

@[simp] theorem memory_write_hazel_size (data ea : Int) (type : mem_access_t) (s : State) :
    (memory_write data ea type s).hazel_size = s.hazel_size := by
  obtain ⟨m, r, a, sw, ly, hz, an, b, u, h⟩ := memory_write_frame data ea type s
  rw [h]

@[simp] theorem memory_write_andy_size (data ea : Int) (type : mem_access_t) (s : State) :
    (memory_write data ea type s).andy_size = s.andy_size := by
  obtain ⟨m, r, a, sw, ly, hz, an, b, u, h⟩ := memory_write_frame data ea type s
  rw [h]

/-- A write through `memory_write`, field by field. -/
theorem memory_write_eta (data ea : Int) (type : mem_access_t) (s : State) :
    memory_write data ea type s = { s with
      memory := (memory_write data ea type s).memory,
      rom_latch := (memory_write data ea type s).rom_latch,
      acccon_latch := (memory_write data ea type s).acccon_latch,
      swrom := (memory_write data ea type s).swrom,
      lynne := (memory_write data ea type s).lynne,
      hazel := (memory_write data ea type s).hazel,
      andy := (memory_write data ea type s).andy,
      boot_mode := (memory_write data ea type s).boot_mode,
      undefined := (memory_write data ea type s).undefined } := by
  obtain ⟨m, r, a, sw, ly, hz, an, b, u, h⟩ := memory_write_frame data ea type s
  rw [h]

/-! ## Lemmas: the mode fields `E`, `MS`, `XS`, `SH` -/

@[simp] theorem set_NZ_unknown_E (s : State) : (set_NZ_unknown s).E = s.E := rfl

@[simp] theorem set_NZ_unknown_MS (s : State) : (set_NZ_unknown s).MS = s.MS := rfl

@[simp] theorem set_NZ_unknown_XS (s : State) : (set_NZ_unknown s).XS = s.XS := rfl

@[simp] theorem set_NZ_unknown_SH (s : State) : (set_NZ_unknown s).SH = s.SH := rfl

@[simp] theorem set_NZC_unknown_E (s : State) : (set_NZC_unknown s).E = s.E := rfl

@[simp] theorem set_NZC_unknown_MS (s : State) : (set_NZC_unknown s).MS = s.MS := rfl

@[simp] theorem set_NZC_unknown_XS (s : State) : (set_NZC_unknown s).XS = s.XS := rfl

@[simp] theorem set_NZC_unknown_SH (s : State) : (set_NZC_unknown s).SH = s.SH := rfl

@[simp] theorem set_NVZC_unknown_E (s : State) : (set_NVZC_unknown s).E = s.E := rfl

@[simp] theorem set_NVZC_unknown_MS (s : State) : (set_NVZC_unknown s).MS = s.MS := rfl

@[simp] theorem set_NVZC_unknown_XS (s : State) : (set_NVZC_unknown s).XS = s.XS := rfl

@[simp] theorem set_NVZC_unknown_SH (s : State) : (set_NVZC_unknown s).SH = s.SH := rfl

@[simp] theorem x_flag_updated_E (s : State) : (x_flag_updated s).E = s.E := rfl

@[simp] theorem x_flag_updated_MS (s : State) : (x_flag_updated s).MS = s.MS := rfl

@[simp] theorem x_flag_updated_XS (s : State) : (x_flag_updated s).XS = s.XS := rfl

@[simp] theorem x_flag_updated_SH (s : State) : (x_flag_updated s).SH = s.SH := rfl

@[simp] theorem set_NZ8_E (value : Int) (s : State) : (set_NZ8 value s).E = s.E := rfl

@[simp] theorem set_NZ8_MS (value : Int) (s : State) : (set_NZ8 value s).MS = s.MS := rfl

@[simp] theorem set_NZ8_XS (value : Int) (s : State) : (set_NZ8 value s).XS = s.XS := rfl

@[simp] theorem set_NZ8_SH (value : Int) (s : State) : (set_NZ8 value s).SH = s.SH := rfl

@[simp] theorem set_NZ16_E (value : Int) (s : State) : (set_NZ16 value s).E = s.E := rfl

@[simp] theorem set_NZ16_MS (value : Int) (s : State) : (set_NZ16 value s).MS = s.MS := rfl

@[simp] theorem set_NZ16_XS (value : Int) (s : State) : (set_NZ16 value s).XS = s.XS := rfl

@[simp] theorem set_NZ16_SH (value : Int) (s : State) : (set_NZ16 value s).SH = s.SH := rfl

@[simp] theorem set_NZ_unknown_width_E (value : Int) (s : State) : (set_NZ_unknown_width value s).E = s.E := rfl

@[simp] theorem set_NZ_unknown_width_MS (value : Int) (s : State) : (set_NZ_unknown_width value s).MS = s.MS := rfl

@[simp] theorem set_NZ_unknown_width_XS (value : Int) (s : State) : (set_NZ_unknown_width value s).XS = s.XS := rfl

@[simp] theorem set_NZ_unknown_width_SH (value : Int) (s : State) : (set_NZ_unknown_width value s).SH = s.SH := rfl

@[simp] theorem set_NZ_XS_E (value : Int) (s : State) : (set_NZ_XS value s).E = s.E := by
  unfold set_NZ_XS; split_ifs <;> rfl

@[simp] theorem set_NZ_XS_MS (value : Int) (s : State) : (set_NZ_XS value s).MS = s.MS := by
  unfold set_NZ_XS; split_ifs <;> rfl

@[simp] theorem set_NZ_XS_XS (value : Int) (s : State) : (set_NZ_XS value s).XS = s.XS := by
  unfold set_NZ_XS; split_ifs <;> rfl

@[simp] theorem set_NZ_XS_SH (value : Int) (s : State) : (set_NZ_XS value s).SH = s.SH := by
  unfold set_NZ_XS; split_ifs <;> rfl

@[simp] theorem set_NZ_MS_E (value : Int) (s : State) : (set_NZ_MS value s).E = s.E := by
  unfold set_NZ_MS; split_ifs <;> rfl

@[simp] theorem set_NZ_MS_MS (value : Int) (s : State) : (set_NZ_MS value s).MS = s.MS := by
  unfold set_NZ_MS; split_ifs <;> rfl

@[simp] theorem set_NZ_MS_XS (value : Int) (s : State) : (set_NZ_MS value s).XS = s.XS := by
  unfold set_NZ_MS; split_ifs <;> rfl

@[simp] theorem set_NZ_MS_SH (value : Int) (s : State) : (set_NZ_MS value s).SH = s.SH := by
  unfold set_NZ_MS; split_ifs <;> rfl

@[simp] theorem set_NZ_AB_E (A B : Int) (s : State) : (set_NZ_AB A B s).E = s.E := by
  unfold set_NZ_AB; split_ifs <;> rfl

@[simp] theorem set_NZ_AB_MS (A B : Int) (s : State) : (set_NZ_AB A B s).MS = s.MS := by
  unfold set_NZ_AB; split_ifs <;> rfl

@[simp] theorem set_NZ_AB_XS (A B : Int) (s : State) : (set_NZ_AB A B s).XS = s.XS := by
  unfold set_NZ_AB; split_ifs <;> rfl

@[simp] theorem set_NZ_AB_SH (A B : Int) (s : State) : (set_NZ_AB A B s).SH = s.SH := by
  unfold set_NZ_AB; split_ifs <;> rfl

@[simp] theorem check_FLAGS_E (operand : Int) (s : State) : (check_FLAGS operand s).E = s.E := rfl

@[simp] theorem check_FLAGS_MS (operand : Int) (s : State) : (check_FLAGS operand s).MS = s.MS := rfl

@[simp] theorem check_FLAGS_XS (operand : Int) (s : State) : (check_FLAGS operand s).XS = s.XS := rfl

@[simp] theorem check_FLAGS_SH (operand : Int) (s : State) : (check_FLAGS operand s).SH = s.SH := rfl

@[simp] theorem incSP_E (s : State) : (incSP s).E = s.E := rfl

@[simp] theorem incSP_MS (s : State) : (incSP s).MS = s.MS := rfl

@[simp] theorem incSP_XS (s : State) : (incSP s).XS = s.XS := rfl

@[simp] theorem decSP_E (s : State) : (decSP s).E = s.E := rfl

@[simp] theorem decSP_MS (s : State) : (decSP s).MS = s.MS := rfl

@[simp] theorem decSP_XS (s : State) : (decSP s).XS = s.XS := rfl

@[simp] theorem pop8_E (value : Int) (s : State) : (pop8 value s).E = s.E := by
  unfold pop8; simp only; split_ifs <;> simp

@[simp] theorem pop8_MS (value : Int) (s : State) : (pop8 value s).MS = s.MS := by
  unfold pop8; simp only; split_ifs <;> simp

@[simp] theorem pop8_XS (value : Int) (s : State) : (pop8 value s).XS = s.XS := by
  unfold pop8; simp only; split_ifs <;> simp

@[simp] theorem pop8new_E (value : Int) (s : State) : (pop8new value s).E = s.E := by
  unfold pop8new; simp only; split_ifs <;> simp

@[simp] theorem pop8new_MS (value : Int) (s : State) : (pop8new value s).MS = s.MS := by
  unfold pop8new; simp only; split_ifs <;> simp

@[simp] theorem pop8new_XS (value : Int) (s : State) : (pop8new value s).XS = s.XS := by
  unfold pop8new; simp only; split_ifs <;> simp

@[simp] theorem pop16_E (value : Int) (s : State) : (pop16 value s).E = s.E := by
  unfold pop16; simp

@[simp] theorem pop16_MS (value : Int) (s : State) : (pop16 value s).MS = s.MS := by
  unfold pop16; simp

@[simp] theorem pop16_XS (value : Int) (s : State) : (pop16 value s).XS = s.XS := by
  unfold pop16; simp

@[simp] theorem pop16new_E (value : Int) (s : State) : (pop16new value s).E = s.E := by
  unfold pop16new; simp only; split_ifs <;> simp

@[simp] theorem pop16new_MS (value : Int) (s : State) : (pop16new value s).MS = s.MS := by
  unfold pop16new; simp only; split_ifs <;> simp

@[simp] theorem pop16new_XS (value : Int) (s : State) : (pop16new value s).XS = s.XS := by
  unfold pop16new; simp only; split_ifs <;> simp

@[simp] theorem pop24new_E (value : Int) (s : State) : (pop24new value s).E = s.E := by
  unfold pop24new; simp only; split_ifs <;> simp

@[simp] theorem pop24new_MS (value : Int) (s : State) : (pop24new value s).MS = s.MS := by
  unfold pop24new; simp only; split_ifs <;> simp

@[simp] theorem pop24new_XS (value : Int) (s : State) : (pop24new value s).XS = s.XS := by
  unfold pop24new; simp only; split_ifs <;> simp

@[simp] theorem push8_E (value : Int) (s : State) : (push8 value s).E = s.E := by
  unfold push8; simp only; split_ifs <;> simp

@[simp] theorem push8_MS (value : Int) (s : State) : (push8 value s).MS = s.MS := by
  unfold push8; simp only; split_ifs <;> simp

@[simp] theorem push8_XS (value : Int) (s : State) : (push8 value s).XS = s.XS := by
  unfold push8; simp only; split_ifs <;> simp

@[simp] theorem push16_E (value : Int) (s : State) : (push16 value s).E = s.E := by
  unfold push16; simp

@[simp] theorem push16_MS (value : Int) (s : State) : (push16 value s).MS = s.MS := by
  unfold push16; simp

@[simp] theorem push16_XS (value : Int) (s : State) : (push16 value s).XS = s.XS := by
  unfold push16; simp

@[simp] theorem push16new_E (value : Int) (s : State) : (push16new value s).E = s.E := by
  unfold push16new; simp only; split_ifs <;> simp

@[simp] theorem push16new_MS (value : Int) (s : State) : (push16new value s).MS = s.MS := by
  unfold push16new; simp only; split_ifs <;> simp

@[simp] theorem push16new_XS (value : Int) (s : State) : (push16new value s).XS = s.XS := by
  unfold push16new; simp only; split_ifs <;> simp

@[simp] theorem popXS_E (value : Int) (s : State) : (popXS value s).E = s.E := by
  unfold popXS; split_ifs <;> simp

@[simp] theorem popXS_MS (value : Int) (s : State) : (popXS value s).MS = s.MS := by
  unfold popXS; split_ifs <;> simp

@[simp] theorem popXS_XS (value : Int) (s : State) : (popXS value s).XS = s.XS := by
  unfold popXS; split_ifs <;> simp

@[simp] theorem popMS_E (value : Int) (s : State) : (popMS value s).E = s.E := by
  unfold popMS; split_ifs <;> simp

@[simp] theorem popMS_MS (value : Int) (s : State) : (popMS value s).MS = s.MS := by
  unfold popMS; split_ifs <;> simp

@[simp] theorem popMS_XS (value : Int) (s : State) : (popMS value s).XS = s.XS := by
  unfold popMS; split_ifs <;> simp

@[simp] theorem pushXS_E (value : Int) (s : State) : (pushXS value s).E = s.E := by
  unfold pushXS; split_ifs <;> simp

@[simp] theorem pushXS_MS (value : Int) (s : State) : (pushXS value s).MS = s.MS := by
  unfold pushXS; split_ifs <;> simp

@[simp] theorem pushXS_XS (value : Int) (s : State) : (pushXS value s).XS = s.XS := by
  unfold pushXS; split_ifs <;> simp

@[simp] theorem pushMS_E (value : Int) (s : State) : (pushMS value s).E = s.E := by
  unfold pushMS; split_ifs <;> simp

@[simp] theorem pushMS_MS (value : Int) (s : State) : (pushMS value s).MS = s.MS := by
  unfold pushMS; split_ifs <;> simp

@[simp] theorem pushMS_XS (value : Int) (s : State) : (pushMS value s).XS = s.XS := by
  unfold pushMS; split_ifs <;> simp

@[simp] theorem incSP_SH_of_E (s : State) (hE : s.E = 1) : (incSP s).SH = 1 := by
  simp [incSP, hE]

@[simp] theorem decSP_SH_of_E (s : State) (hE : s.E = 1) : (decSP s).SH = 1 := by
  simp [decSP, hE]

@[simp] theorem pop8_SH_of_E (value : Int) (s : State) (hE : s.E = 1) : (pop8 value s).SH = 1 := by
  unfold pop8; simp only; split_ifs <;> simp [incSP_SH_of_E, hE]

@[simp] theorem pop8new_SH_of_E (value : Int) (s : State) (hE : s.E = 1) : (pop8new value s).SH = 1 := by
  unfold pop8new; simp only; split_ifs <;> simp [incSP_SH_of_E, hE]

@[simp] theorem pop16_SH_of_E (value : Int) (s : State) (hE : s.E = 1) : (pop16 value s).SH = 1 := by
  unfold pop16; simp [pop8_SH_of_E, hE]

@[simp] theorem pop16new_SH_of_E (value : Int) (s : State) (hE : s.E = 1) :
    (pop16new value s).SH = 1 := by
  unfold pop16new; simp only; split_ifs <;> simp [incSP_SH_of_E, hE]

@[simp] theorem pop24new_SH_of_E (value : Int) (s : State) (hE : s.E = 1) :
    (pop24new value s).SH = 1 := by
  unfold pop24new; simp only; split_ifs <;> simp [incSP_SH_of_E, hE]

@[simp] theorem push8_SH_of_E (value : Int) (s : State) (hE : s.E = 1) : (push8 value s).SH = 1 := by
  unfold push8; simp only; split_ifs <;> simp [decSP_SH_of_E, hE]

@[simp] theorem push16_SH_of_E (value : Int) (s : State) (hE : s.E = 1) : (push16 value s).SH = 1 := by
  unfold push16; simp [push8_SH_of_E, hE]

@[simp] theorem push16new_SH_of_E (value : Int) (s : State) (hE : s.E = 1) :
    (push16new value s).SH = 1 := by
  unfold push16new; simp only; split_ifs <;> simp [decSP_SH_of_E, hE]

@[simp] theorem popXS_SH_of_E (value : Int) (s : State) (hE : s.E = 1) (hXS : s.XS = 1) :
    (popXS value s).SH = 1 := by
  unfold popXS; simp [hXS, pop8_SH_of_E, hE]

@[simp] theorem popMS_SH_of_E (value : Int) (s : State) (hE : s.E = 1) (hMS : s.MS = 1) :
    (popMS value s).SH = 1 := by
  unfold popMS; simp [hMS, pop8_SH_of_E, hE]

@[simp] theorem pushXS_SH_of_E (value : Int) (s : State) (hE : s.E = 1) (hXS : s.XS = 1) :
    (pushXS value s).SH = 1 := by
  unfold pushXS; simp [hXS, push8_SH_of_E, hE]

@[simp] theorem pushMS_SH_of_E (value : Int) (s : State) (hE : s.E = 1) (hMS : s.MS = 1) :
    (pushMS value s).SH = 1 := by
  unfold pushMS; simp [hMS, push8_SH_of_E, hE]

@[simp] theorem set_FLAGS_E (operand : Int) (s : State) : (set_FLAGS operand s).E = s.E := rfl

@[simp] theorem set_FLAGS_SH (operand : Int) (s : State) : (set_FLAGS operand s).SH = s.SH := rfl

@[simp] theorem set_FLAGS_MS (operand : Int) (s : State) :
    (set_FLAGS operand s).MS = if s.E = 0 then c_and (c_shr operand 5) 1 else 1 := rfl

@[simp] theorem set_FLAGS_XS (operand : Int) (s : State) :
    (set_FLAGS operand s).XS = if s.E = 0 then c_and (c_shr operand 4) 1 else 1 := rfl

@[simp] theorem emulation_mode_on_E (s : State) : (emulation_mode_on s).E = 1 := rfl

@[simp] theorem emulation_mode_on_MS (s : State) : (emulation_mode_on s).MS = 1 := rfl

@[simp] theorem emulation_mode_on_XS (s : State) : (emulation_mode_on s).XS = 1 := rfl

@[simp] theorem emulation_mode_on_SH (s : State) : (emulation_mode_on s).SH = 1 := rfl

@[simp] theorem emulation_mode_off_E (s : State) : (emulation_mode_off s).E = 0 := rfl

@[simp] theorem emulation_mode_off_MS (s : State) : (emulation_mode_off s).MS = s.MS := rfl

@[simp] theorem emulation_mode_off_XS (s : State) : (emulation_mode_off s).XS = s.XS := rfl

@[simp] theorem emulation_mode_off_SH (s : State) : (emulation_mode_off s).SH = s.SH := rfl

@[simp] theorem op_STA_E (operand ea : Int) (s : State) :
    (op_STA operand ea s).1.E = s.E := rfl

@[simp] theorem op_STA_MS (operand ea : Int) (s : State) :
    (op_STA operand ea s).1.MS = s.MS := rfl

@[simp] theorem op_STA_XS (operand ea : Int) (s : State) :
    (op_STA operand ea s).1.XS = s.XS := rfl

@[simp] theorem op_STA_SH (operand ea : Int) (s : State) :
    (op_STA operand ea s).1.SH = s.SH := rfl

@[simp] theorem op_STX_E (operand ea : Int) (s : State) :
    (op_STX operand ea s).1.E = s.E := rfl

@[simp] theorem op_STX_MS (operand ea : Int) (s : State) :
    (op_STX operand ea s).1.MS = s.MS := rfl

@[simp] theorem op_STX_XS (operand ea : Int) (s : State) :
    (op_STX operand ea s).1.XS = s.XS := rfl

@[simp] theorem op_STX_SH (operand ea : Int) (s : State) :
    (op_STX operand ea s).1.SH = s.SH := rfl

@[simp] theorem op_STY_E (operand ea : Int) (s : State) :
    (op_STY operand ea s).1.E = s.E := rfl

@[simp] theorem op_STY_MS (operand ea : Int) (s : State) :
    (op_STY operand ea s).1.MS = s.MS := rfl

@[simp] theorem op_STY_XS (operand ea : Int) (s : State) :
    (op_STY operand ea s).1.XS = s.XS := rfl

@[simp] theorem op_STY_SH (operand ea : Int) (s : State) :
    (op_STY operand ea s).1.SH = s.SH := rfl

@[simp] theorem op_BIT_IMM_E (operand ea : Int) (s : State) :
    (op_BIT_IMM operand ea s).1.E = s.E := rfl

@[simp] theorem op_BIT_IMM_MS (operand ea : Int) (s : State) :
    (op_BIT_IMM operand ea s).1.MS = s.MS := rfl

@[simp] theorem op_BIT_IMM_XS (operand ea : Int) (s : State) :
    (op_BIT_IMM operand ea s).1.XS = s.XS := rfl

@[simp] theorem op_BIT_IMM_SH (operand ea : Int) (s : State) :
    (op_BIT_IMM operand ea s).1.SH = s.SH := rfl

@[simp] theorem op_MV_E (data sba dba dir : Int) (s : State) :
    (op_MV data sba dba dir s).1.E = s.E := by
  unfold op_MV; simp only; split_ifs <;> simp

@[simp] theorem transfer_16_88_E (src : Int) (s : State) :
    (transfer_16_88 src s).E = s.E := by
  unfold transfer_16_88; split_ifs <;> rfl

@[simp] theorem op_MV_MS (data sba dba dir : Int) (s : State) :
    (op_MV data sba dba dir s).1.MS = s.MS := by
  unfold op_MV; simp only; split_ifs <;> simp

@[simp] theorem transfer_16_88_MS (src : Int) (s : State) :
    (transfer_16_88 src s).MS = s.MS := by
  unfold transfer_16_88; split_ifs <;> rfl

@[simp] theorem op_MV_XS (data sba dba dir : Int) (s : State) :
    (op_MV data sba dba dir s).1.XS = s.XS := by
  unfold op_MV; simp only; split_ifs <;> simp

@[simp] theorem transfer_16_88_XS (src : Int) (s : State) :
    (transfer_16_88 src s).XS = s.XS := by
  unfold transfer_16_88; split_ifs <;> rfl

@[simp] theorem op_MV_SH (data sba dba dir : Int) (s : State) :
    (op_MV data sba dba dir s).1.SH = s.SH := by
  unfold op_MV; simp only; split_ifs <;> simp

@[simp] theorem transfer_16_88_SH (src : Int) (s : State) :
    (transfer_16_88 src s).SH = s.SH := by
  unfold transfer_16_88; split_ifs <;> rfl

@[simp] theorem transfer_88_16_E (srchi srclo : Int) (dst : Int → State → State) (s : State)
    (hd : ∀ v t, (dst v t).E = t.E) : (transfer_88_16 srchi srclo dst s).E = s.E := by
  unfold transfer_88_16; split_ifs <;> simp [hd]

@[simp] theorem transfer_88_16_MS (srchi srclo : Int) (dst : Int → State → State) (s : State)
    (hd : ∀ v t, (dst v t).MS = t.MS) : (transfer_88_16 srchi srclo dst s).MS = s.MS := by
  unfold transfer_88_16; split_ifs <;> simp [hd]

@[simp] theorem transfer_88_16_XS (srchi srclo : Int) (dst : Int → State → State) (s : State)
    (hd : ∀ v t, (dst v t).XS = t.XS) : (transfer_88_16 srchi srclo dst s).XS = s.XS := by
  unfold transfer_88_16; split_ifs <;> simp [hd]

@[simp] theorem transfer_88_16_SH (srchi srclo : Int) (dst : Int → State → State) (s : State)
    (hd : ∀ v t, (dst v t).SH = t.SH) : (transfer_88_16 srchi srclo dst s).SH = s.SH := by
  unfold transfer_88_16; split_ifs <;> simp [hd]

@[simp] theorem repsep_E (operand val : Int) (s : State) : (repsep operand val s).E = s.E := by
  unfold repsep; simp only; split_ifs <;> rfl

@[simp] theorem repsep_SH (operand val : Int) (s : State) : (repsep operand val s).SH = s.SH := by
  unfold repsep; simp only; split_ifs <;> rfl

theorem repsep_MS_of_E (operand val : Int) (s : State) (hE : s.E = 1) :
    (repsep operand val s).MS = s.MS := by
  unfold repsep; simp [hE]

theorem repsep_XS_of_E (operand val : Int) (s : State) (hE : s.E = 1) :
    (repsep operand val s).XS = s.XS := by
  unfold repsep; simp [hE]

/-! ## Lemmas: every instruction function preserves the invariant -/

theorem op_ORA_inv (operand ea : Int) (s : State) (h : emulation_invariant s) :
    emulation_invariant (op_ORA operand ea s).1 := by
  unfold emulation_invariant at h ⊢
  unfold op_ORA
  simp only []
  split_ifs <;> simp_all

theorem op_TSB_inv (operand ea : Int) (s : State) (h : emulation_invariant s) :
    emulation_invariant (op_TSB operand ea s).1 := by
  unfold emulation_invariant at h ⊢
  unfold op_TSB
  simp only []
  split_ifs <;> simp_all

theorem op_ASL_inv (operand ea : Int) (s : State) (h : emulation_invariant s) :
    emulation_invariant (op_ASL operand ea s).1 := by
  unfold emulation_invariant at h ⊢
  unfold op_ASL
  split_ifs <;> simp_all

theorem op_PHP_inv (operand ea : Int) (s : State) (h : emulation_invariant s) :
    emulation_invariant (op_PHP operand ea s).1 := by
  unfold emulation_invariant at h ⊢
  unfold op_PHP
  (try simp only [])
  simp_all

theorem op_ASLA_inv (operand ea : Int) (s : State) (h : emulation_invariant s) :
    emulation_invariant (op_ASLA operand ea s).1 := by
  unfold emulation_invariant at h ⊢
  unfold op_ASLA
  simp only []
  split_ifs <;> simp_all

theorem op_PHD_inv (operand ea : Int) (s : State) (h : emulation_invariant s) :
    emulation_invariant (op_PHD operand ea s).1 := by
  unfold emulation_invariant at h ⊢
  unfold op_PHD
  (try simp only [])
  simp_all

theorem op_BPL_inv (operand ea : Int) (s : State) (h : emulation_invariant s) :
    emulation_invariant (op_BPL operand ea s).1 := by
  unfold emulation_invariant at h ⊢
  unfold op_BPL
  split_ifs <;> simp_all

theorem op_TRB_inv (operand ea : Int) (s : State) (h : emulation_invariant s) :
    emulation_invariant (op_TRB operand ea s).1 := by
  unfold emulation_invariant at h ⊢
  unfold op_TRB
  simp only []
  split_ifs <;> simp_all

theorem op_CLC_inv (operand ea : Int) (s : State) (h : emulation_invariant s) :
    emulation_invariant (op_CLC operand ea s).1 := by
  unfold emulation_invariant at h ⊢
  unfold op_CLC
  (try simp only [])
  simp_all

theorem op_INCA_inv (operand ea : Int) (s : State) (h : emulation_invariant s) :
    emulation_invariant (op_INCA operand ea s).1 := by
  unfold emulation_invariant at h ⊢
  unfold op_INCA
  simp only []
  split_ifs <;> simp_all

theorem op_TCS_inv (operand ea : Int) (s : State) (h : emulation_invariant s) :
    emulation_invariant (op_TCS operand ea s).1 := by
  unfold emulation_invariant at h ⊢
  unfold op_TCS
  simp only []
  split_ifs <;> simp_all

theorem op_JSR_inv (operand ea : Int) (s : State) (h : emulation_invariant s) :
    emulation_invariant (op_JSR operand ea s).1 := by
  unfold emulation_invariant at h ⊢
  unfold op_JSR
  (try simp only [])
  simp_all

theorem op_AND_inv (operand ea : Int) (s : State) (h : emulation_invariant s) :
    emulation_invariant (op_AND operand ea s).1 := by
  unfold emulation_invariant at h ⊢
  unfold op_AND
  simp only []
  split_ifs <;> simp_all

theorem op_JSL_inv (operand ea : Int) (s : State) (h : emulation_invariant s) :
    emulation_invariant (op_JSL operand ea s).1 := by
  unfold emulation_invariant at h ⊢
  unfold op_JSL
  (try simp only [])
  simp_all

theorem op_BIT_inv (operand ea : Int) (s : State) (h : emulation_invariant s) :
    emulation_invariant (op_BIT operand ea s).1 := by
  unfold emulation_invariant at h ⊢
  unfold op_BIT
  simp only []
  split_ifs <;> simp_all

theorem op_ROL_inv (operand ea : Int) (s : State) (h : emulation_invariant s) :
    emulation_invariant (op_ROL operand ea s).1 := by
  unfold emulation_invariant at h ⊢
  unfold op_ROL
  simp only []
  split_ifs <;> simp_all

theorem op_PLP_inv (operand ea : Int) (s : State) (h : emulation_invariant s) :
    emulation_invariant (op_PLP operand ea s).1 := by
  unfold emulation_invariant at h ⊢
  unfold op_PLP
  (try simp only [])
  simp_all

theorem op_ROLA_inv (operand ea : Int) (s : State) (h : emulation_invariant s) :
    emulation_invariant (op_ROLA operand ea s).1 := by
  unfold emulation_invariant at h ⊢
  unfold op_ROLA
  simp only []
  split_ifs <;> simp_all

theorem op_PLD_inv (operand ea : Int) (s : State) (h : emulation_invariant s) :
    emulation_invariant (op_PLD operand ea s).1 := by
  unfold emulation_invariant at h ⊢
  unfold op_PLD
  (try simp only [])
  simp_all

theorem op_BMI_inv (operand ea : Int) (s : State) (h : emulation_invariant s) :
    emulation_invariant (op_BMI operand ea s).1 := by
  unfold emulation_invariant at h ⊢
  unfold op_BMI
  split_ifs <;> simp_all

theorem op_SEC_inv (operand ea : Int) (s : State) (h : emulation_invariant s) :
    emulation_invariant (op_SEC operand ea s).1 := by
  unfold emulation_invariant at h ⊢
  unfold op_SEC
  (try simp only [])
  simp_all

theorem op_DECA_inv (operand ea : Int) (s : State) (h : emulation_invariant s) :
    emulation_invariant (op_DECA operand ea s).1 := by
  unfold emulation_invariant at h ⊢
  unfold op_DECA
  simp only []
  split_ifs <;> simp_all

theorem op_TSC_inv (operand ea : Int) (s : State) (h : emulation_invariant s) :
    emulation_invariant (op_TSC operand ea s).1 := by
  unfold emulation_invariant at h ⊢
  unfold op_TSC
  simp only []
  split_ifs <;> simp_all

theorem op_RTI_inv (operand ea : Int) (s : State) (h : emulation_invariant s) :
    emulation_invariant (op_RTI operand ea s).1 := by
  unfold emulation_invariant at h ⊢
  unfold op_RTI
  simp only []
  split_ifs <;> simp_all

theorem op_EOR_inv (operand ea : Int) (s : State) (h : emulation_invariant s) :
    emulation_invariant (op_EOR operand ea s).1 := by
  unfold emulation_invariant at h ⊢
  unfold op_EOR
  simp only []
  split_ifs <;> simp_all

theorem op_MVP_inv (operand ea : Int) (s : State) (h : emulation_invariant s) :
    emulation_invariant (op_MVP operand ea s).1 := by
  unfold emulation_invariant at h ⊢
  unfold op_MVP
  simp_all

theorem op_LSR_inv (operand ea : Int) (s : State) (h : emulation_invariant s) :
    emulation_invariant (op_LSR operand ea s).1 := by
  unfold emulation_invariant at h ⊢
  unfold op_LSR
  simp only []
  split_ifs <;> simp_all

theorem op_PHA_inv (operand ea : Int) (s : State) (h : emulation_invariant s) :
    emulation_invariant (op_PHA operand ea s).1 := by
  unfold emulation_invariant at h ⊢
  unfold op_PHA
  (try simp only [])
  simp_all

theorem op_LSRA_inv (operand ea : Int) (s : State) (h : emulation_invariant s) :
    emulation_invariant (op_LSRA operand ea s).1 := by
  unfold emulation_invariant at h ⊢
  unfold op_LSRA
  simp only []
  split_ifs <;> simp_all

theorem op_PHK_inv (operand ea : Int) (s : State) (h : emulation_invariant s) :
    emulation_invariant (op_PHK operand ea s).1 := by
  unfold emulation_invariant at h ⊢
  unfold op_PHK
  (try simp only [])
  simp_all

theorem op_BVC_inv (operand ea : Int) (s : State) (h : emulation_invariant s) :
    emulation_invariant (op_BVC operand ea s).1 := by
  unfold emulation_invariant at h ⊢
  unfold op_BVC
  split_ifs <;> simp_all

theorem op_MVN_inv (operand ea : Int) (s : State) (h : emulation_invariant s) :
    emulation_invariant (op_MVN operand ea s).1 := by
  unfold emulation_invariant at h ⊢
  unfold op_MVN
  simp_all

theorem op_CLI_inv (operand ea : Int) (s : State) (h : emulation_invariant s) :
    emulation_invariant (op_CLI operand ea s).1 := by
  unfold emulation_invariant at h ⊢
  unfold op_CLI
  (try simp only [])
  simp_all

theorem op_PHY_inv (operand ea : Int) (s : State) (h : emulation_invariant s) :
    emulation_invariant (op_PHY operand ea s).1 := by
  unfold emulation_invariant at h ⊢
  unfold op_PHY
  (try simp only [])
  simp_all

theorem op_TCD_inv (operand ea : Int) (s : State) (h : emulation_invariant s) :
    emulation_invariant (op_TCD operand ea s).1 := by
  unfold emulation_invariant at h ⊢
  unfold op_TCD
  split_ifs <;> simp_all

theorem op_RTS_inv (operand ea : Int) (s : State) (h : emulation_invariant s) :
    emulation_invariant (op_RTS operand ea s).1 := by
  unfold emulation_invariant at h ⊢
  unfold op_RTS
  (try simp only [])
  simp_all

theorem op_ADC_inv (operand ea : Int) (s : State) (h : emulation_invariant s) :
    emulation_invariant (op_ADC operand ea s).1 := by
  unfold emulation_invariant at h ⊢
  unfold op_ADC
  simp only []
  split_ifs <;> simp_all

theorem op_PER_inv (operand ea : Int) (s : State) (h : emulation_invariant s) :
    emulation_invariant (op_PER operand ea s).1 := by
  unfold emulation_invariant at h ⊢
  unfold op_PER
  (try simp only [])
  simp_all

theorem op_STZ_inv (operand ea : Int) (s : State) (h : emulation_invariant s) :
    emulation_invariant (op_STZ operand ea s).1 := by
  unfold emulation_invariant at h ⊢
  unfold op_STZ
  (try simp only [])
  simp_all

theorem op_ROR_inv (operand ea : Int) (s : State) (h : emulation_invariant s) :
    emulation_invariant (op_ROR operand ea s).1 := by
  unfold emulation_invariant at h ⊢
  unfold op_ROR
  simp only []
  split_ifs <;> simp_all

theorem op_PLA_inv (operand ea : Int) (s : State) (h : emulation_invariant s) :
    emulation_invariant (op_PLA operand ea s).1 := by
  unfold emulation_invariant at h ⊢
  unfold op_PLA
  simp only []
  split_ifs <;> simp_all

theorem op_RORA_inv (operand ea : Int) (s : State) (h : emulation_invariant s) :
    emulation_invariant (op_RORA operand ea s).1 := by
  unfold emulation_invariant at h ⊢
  unfold op_RORA
  simp only []
  split_ifs <;> simp_all

theorem op_RTL_inv (operand ea : Int) (s : State) (h : emulation_invariant s) :
    emulation_invariant (op_RTL operand ea s).1 := by
  unfold emulation_invariant at h ⊢
  unfold op_RTL
  (try simp only [])
  simp_all

theorem op_BVS_inv (operand ea : Int) (s : State) (h : emulation_invariant s) :
    emulation_invariant (op_BVS operand ea s).1 := by
  unfold emulation_invariant at h ⊢
  unfold op_BVS
  split_ifs <;> simp_all

theorem op_SEI_inv (operand ea : Int) (s : State) (h : emulation_invariant s) :
    emulation_invariant (op_SEI operand ea s).1 := by
  unfold emulation_invariant at h ⊢
  unfold op_SEI
  (try simp only [])
  simp_all

theorem op_PLY_inv (operand ea : Int) (s : State) (h : emulation_invariant s) :
    emulation_invariant (op_PLY operand ea s).1 := by
  unfold emulation_invariant at h ⊢
  unfold op_PLY
  (try simp only [])
  simp_all

theorem op_TDC_inv (operand ea : Int) (s : State) (h : emulation_invariant s) :
    emulation_invariant (op_TDC operand ea s).1 := by
  unfold emulation_invariant at h ⊢
  unfold op_TDC
  split_ifs <;> simp_all

theorem op_STA_inv (operand ea : Int) (s : State) (h : emulation_invariant s) :
    emulation_invariant (op_STA operand ea s).1 := by
  unfold emulation_invariant at h ⊢
  unfold op_STA
  (try simp only [])
  simp_all

theorem op_STY_inv (operand ea : Int) (s : State) (h : emulation_invariant s) :
    emulation_invariant (op_STY operand ea s).1 := by
  unfold emulation_invariant at h ⊢
  unfold op_STY
  (try simp only [])
  simp_all

theorem op_STX_inv (operand ea : Int) (s : State) (h : emulation_invariant s) :
    emulation_invariant (op_STX operand ea s).1 := by
  unfold emulation_invariant at h ⊢
  unfold op_STX
  (try simp only [])
  simp_all

theorem op_DEY_inv (operand ea : Int) (s : State) (h : emulation_invariant s) :
    emulation_invariant (op_DEY operand ea s).1 := by
  unfold emulation_invariant at h ⊢
  unfold op_DEY
  split_ifs <;> simp_all

theorem op_BIT_IMM_inv (operand ea : Int) (s : State) (h : emulation_invariant s) :
    emulation_invariant (op_BIT_IMM operand ea s).1 := by
  unfold emulation_invariant at h ⊢
  unfold op_BIT_IMM
  (try simp only [])
  simp_all

theorem op_TXA_inv (operand ea : Int) (s : State) (h : emulation_invariant s) :
    emulation_invariant (op_TXA operand ea s).1 := by
  unfold emulation_invariant at h ⊢
  unfold op_TXA
  (try simp only [])
  simp_all

theorem op_PHB_inv (operand ea : Int) (s : State) (h : emulation_invariant s) :
    emulation_invariant (op_PHB operand ea s).1 := by
  unfold emulation_invariant at h ⊢
  unfold op_PHB
  (try simp only [])
  simp_all

theorem op_BCC_inv (operand ea : Int) (s : State) (h : emulation_invariant s) :
    emulation_invariant (op_BCC operand ea s).1 := by
  unfold emulation_invariant at h ⊢
  unfold op_BCC
  split_ifs <;> simp_all

theorem op_TYA_inv (operand ea : Int) (s : State) (h : emulation_invariant s) :
    emulation_invariant (op_TYA operand ea s).1 := by
  unfold emulation_invariant at h ⊢
  unfold op_TYA
  (try simp only [])
  simp_all

theorem op_TXS_inv (operand ea : Int) (s : State) (h : emulation_invariant s) :
    emulation_invariant (op_TXS operand ea s).1 := by
  unfold emulation_invariant at h ⊢
  unfold op_TXS
  simp only []
  split_ifs <;> simp_all

theorem op_TXY_inv (operand ea : Int) (s : State) (h : emulation_invariant s) :
    emulation_invariant (op_TXY operand ea s).1 := by
  unfold emulation_invariant at h ⊢
  unfold op_TXY
  split_ifs <;> simp_all

theorem op_LDY_inv (operand ea : Int) (s : State) (h : emulation_invariant s) :
    emulation_invariant (op_LDY operand ea s).1 := by
  unfold emulation_invariant at h ⊢
  unfold op_LDY
  (try simp only [])
  simp_all

theorem op_LDA_inv (operand ea : Int) (s : State) (h : emulation_invariant s) :
    emulation_invariant (op_LDA operand ea s).1 := by
  unfold emulation_invariant at h ⊢
  unfold op_LDA
  simp only []
  split_ifs <;> simp_all

theorem op_LDX_inv (operand ea : Int) (s : State) (h : emulation_invariant s) :
    emulation_invariant (op_LDX operand ea s).1 := by
  unfold emulation_invariant at h ⊢
  unfold op_LDX
  (try simp only [])
  simp_all

theorem op_TAY_inv (operand ea : Int) (s : State) (h : emulation_invariant s) :
    emulation_invariant (op_TAY operand ea s).1 := by
  unfold emulation_invariant at h ⊢
  unfold op_TAY
  simp_all

theorem op_TAX_inv (operand ea : Int) (s : State) (h : emulation_invariant s) :
    emulation_invariant (op_TAX operand ea s).1 := by
  unfold emulation_invariant at h ⊢
  unfold op_TAX
  simp_all

theorem op_PLB_inv (operand ea : Int) (s : State) (h : emulation_invariant s) :
    emulation_invariant (op_PLB operand ea s).1 := by
  unfold emulation_invariant at h ⊢
  unfold op_PLB
  (try simp only [])
  simp_all

theorem op_BCS_inv (operand ea : Int) (s : State) (h : emulation_invariant s) :
    emulation_invariant (op_BCS operand ea s).1 := by
  unfold emulation_invariant at h ⊢
  unfold op_BCS
  split_ifs <;> simp_all

theorem op_CLV_inv (operand ea : Int) (s : State) (h : emulation_invariant s) :
    emulation_invariant (op_CLV operand ea s).1 := by
  unfold emulation_invariant at h ⊢
  unfold op_CLV
  (try simp only [])
  simp_all

theorem op_TSX_inv (operand ea : Int) (s : State) (h : emulation_invariant s) :
    emulation_invariant (op_TSX operand ea s).1 := by
  unfold emulation_invariant at h ⊢
  unfold op_TSX
  simp_all

theorem op_TYX_inv (operand ea : Int) (s : State) (h : emulation_invariant s) :
    emulation_invariant (op_TYX operand ea s).1 := by
  unfold emulation_invariant at h ⊢
  unfold op_TYX
  split_ifs <;> simp_all

theorem op_CPY_inv (operand ea : Int) (s : State) (h : emulation_invariant s) :
    emulation_invariant (op_CPY operand ea s).1 := by
  unfold emulation_invariant at h ⊢
  unfold op_CPY
  split_ifs <;> simp_all

theorem op_CMP_inv (operand ea : Int) (s : State) (h : emulation_invariant s) :
    emulation_invariant (op_CMP operand ea s).1 := by
  unfold emulation_invariant at h ⊢
  unfold op_CMP
  simp only []
  split_ifs <;> simp_all

theorem op_REP_inv (operand ea : Int) (s : State) (h : emulation_invariant s) :
    emulation_invariant (op_REP operand ea s).1 := by
  unfold emulation_invariant at h ⊢
  unfold op_REP
  intro hE
  simp only [repsep_E] at hE
  simp only [repsep_MS_of_E _ _ _ hE, repsep_XS_of_E _ _ _ hE, repsep_SH]
  exact h hE

theorem op_DEC_inv (operand ea : Int) (s : State) (h : emulation_invariant s) :
    emulation_invariant (op_DEC operand ea s).1 := by
  unfold emulation_invariant at h ⊢
  unfold op_DEC
  split_ifs <;> simp_all

theorem op_INY_inv (operand ea : Int) (s : State) (h : emulation_invariant s) :
    emulation_invariant (op_INY operand ea s).1 := by
  unfold emulation_invariant at h ⊢
  unfold op_INY
  split_ifs <;> simp_all

theorem op_DEX_inv (operand ea : Int) (s : State) (h : emulation_invariant s) :
    emulation_invariant (op_DEX operand ea s).1 := by
  unfold emulation_invariant at h ⊢
  unfold op_DEX
  split_ifs <;> simp_all

theorem op_BNE_inv (operand ea : Int) (s : State) (h : emulation_invariant s) :
    emulation_invariant (op_BNE operand ea s).1 := by
  unfold emulation_invariant at h ⊢
  unfold op_BNE
  split_ifs <;> simp_all

theorem op_PEI_inv (operand ea : Int) (s : State) (h : emulation_invariant s) :
    emulation_invariant (op_PEI operand ea s).1 := by
  unfold emulation_invariant at h ⊢
  unfold op_PEI
  (try simp only [])
  simp_all

theorem op_CLD_inv (operand ea : Int) (s : State) (h : emulation_invariant s) :
    emulation_invariant (op_CLD operand ea s).1 := by
  unfold emulation_invariant at h ⊢
  unfold op_CLD
  (try simp only [])
  simp_all

theorem op_PHX_inv (operand ea : Int) (s : State) (h : emulation_invariant s) :
    emulation_invariant (op_PHX operand ea s).1 := by
  unfold emulation_invariant at h ⊢
  unfold op_PHX
  (try simp only [])
  simp_all

theorem op_CPX_inv (operand ea : Int) (s : State) (h : emulation_invariant s) :
    emulation_invariant (op_CPX operand ea s).1 := by
  unfold emulation_invariant at h ⊢
  unfold op_CPX
  split_ifs <;> simp_all

theorem op_SBC_inv (operand ea : Int) (s : State) (h : emulation_invariant s) :
    emulation_invariant (op_SBC operand ea s).1 := by
  unfold emulation_invariant at h ⊢
  unfold op_SBC
  simp only []
  split_ifs <;> simp_all

theorem op_SEP_inv (operand ea : Int) (s : State) (h : emulation_invariant s) :
    emulation_invariant (op_SEP operand ea s).1 := by
  unfold emulation_invariant at h ⊢
  unfold op_SEP
  intro hE
  simp only [repsep_E] at hE
  simp only [repsep_MS_of_E _ _ _ hE, repsep_XS_of_E _ _ _ hE, repsep_SH]
  exact h hE

theorem op_INC_inv (operand ea : Int) (s : State) (h : emulation_invariant s) :
    emulation_invariant (op_INC operand ea s).1 := by
  unfold emulation_invariant at h ⊢
  unfold op_INC
  split_ifs <;> simp_all

theorem op_INX_inv (operand ea : Int) (s : State) (h : emulation_invariant s) :
    emulation_invariant (op_INX operand ea s).1 := by
  unfold emulation_invariant at h ⊢
  unfold op_INX
  split_ifs <;> simp_all

theorem op_XBA_inv (operand ea : Int) (s : State) (h : emulation_invariant s) :
    emulation_invariant (op_XBA operand ea s).1 := by
  unfold emulation_invariant at h ⊢
  unfold op_XBA
  simp only []
  split_ifs <;> simp_all

theorem op_BEQ_inv (operand ea : Int) (s : State) (h : emulation_invariant s) :
    emulation_invariant (op_BEQ operand ea s).1 := by
  unfold emulation_invariant at h ⊢
  unfold op_BEQ
  split_ifs <;> simp_all

theorem op_PEA_inv (operand ea : Int) (s : State) (h : emulation_invariant s) :
    emulation_invariant (op_PEA operand ea s).1 := by
  unfold emulation_invariant at h ⊢
  unfold op_PEA
  (try simp only [])
  simp_all

theorem op_SED_inv (operand ea : Int) (s : State) (h : emulation_invariant s) :
    emulation_invariant (op_SED operand ea s).1 := by
  unfold emulation_invariant at h ⊢
  unfold op_SED
  (try simp only [])
  simp_all

theorem op_PLX_inv (operand ea : Int) (s : State) (h : emulation_invariant s) :
    emulation_invariant (op_PLX operand ea s).1 := by
  unfold emulation_invariant at h ⊢
  unfold op_PLX
  (try simp only [])
  simp_all

theorem op_XCE_inv (operand ea : Int) (s : State) (h : emulation_invariant s) :
    emulation_invariant (op_XCE operand ea s).1 := by
  unfold emulation_invariant at h ⊢
  unfold op_XCE
  simp only []
  split_ifs <;> simp_all

theorem op_JSR_new_inv (operand ea : Int) (s : State) (h : emulation_invariant s) :
    emulation_invariant (op_JSR_new operand ea s).1 := by
  unfold emulation_invariant at h ⊢
  unfold op_JSR_new
  (try simp only [])
  simp_all

/-! ## Lemmas: the invariant through the helpers and through `em_65816_emulate` -/

theorem inv_of_mode_eq (s t : State) (hE : t.E = s.E) (hMS : t.MS = s.MS) (hXS : t.XS = s.XS)
    (hSH : t.SH = s.SH) (h : emulation_invariant s) : emulation_invariant t := by
  unfold emulation_invariant at h ⊢
  rw [hE, hMS, hXS, hSH]
  exact h

theorem inv_ite (c : Prop) [Decidable c] (a b : State) (ha : emulation_invariant a)
    (hb : emulation_invariant b) : emulation_invariant (if c then a else b) := by
  split <;> assumption

theorem inv_ite_fst (c : Prop) [Decidable c] (a b : State × Int) (ha : emulation_invariant a.1)
    (hb : emulation_invariant b.1) : emulation_invariant (if c then a else b).1 := by
  split <;> assumption

theorem pop8_inv (value : Int) (s : State) (h : emulation_invariant s) :
    emulation_invariant (pop8 value s) := by
  unfold emulation_invariant at h ⊢
  simp_all

theorem pop8new_inv (value : Int) (s : State) (h : emulation_invariant s) :
    emulation_invariant (pop8new value s) := by
  unfold emulation_invariant at h ⊢
  simp_all

theorem pop16_inv (value : Int) (s : State) (h : emulation_invariant s) :
    emulation_invariant (pop16 value s) := by
  unfold emulation_invariant at h ⊢
  simp_all

theorem pop16new_inv (value : Int) (s : State) (h : emulation_invariant s) :
    emulation_invariant (pop16new value s) := by
  unfold emulation_invariant at h ⊢
  simp_all

theorem pop24new_inv (value : Int) (s : State) (h : emulation_invariant s) :
    emulation_invariant (pop24new value s) := by
  unfold emulation_invariant at h ⊢
  simp_all

theorem push8_inv (value : Int) (s : State) (h : emulation_invariant s) :
    emulation_invariant (push8 value s) := by
  unfold emulation_invariant at h ⊢
  simp_all

theorem push16_inv (value : Int) (s : State) (h : emulation_invariant s) :
    emulation_invariant (push16 value s) := by
  unfold emulation_invariant at h ⊢
  simp_all

theorem push16new_inv (value : Int) (s : State) (h : emulation_invariant s) :
    emulation_invariant (push16new value s) := by
  unfold emulation_invariant at h ⊢
  simp_all

theorem popXS_inv (value : Int) (s : State) (h : emulation_invariant s) :
    emulation_invariant (popXS value s) := by
  unfold emulation_invariant at h ⊢
  simp_all

theorem popMS_inv (value : Int) (s : State) (h : emulation_invariant s) :
    emulation_invariant (popMS value s) := by
  unfold emulation_invariant at h ⊢
  simp_all

theorem pushXS_inv (value : Int) (s : State) (h : emulation_invariant s) :
    emulation_invariant (pushXS value s) := by
  unfold emulation_invariant at h ⊢
  simp_all

theorem pushMS_inv (value : Int) (s : State) (h : emulation_invariant s) :
    emulation_invariant (pushMS value s) := by
  unfold emulation_invariant at h ⊢
  simp_all

theorem memory_read_inv (data ea : Int) (type : mem_access_t) (s : State)
    (h : emulation_invariant s) : emulation_invariant (memory_read data ea type s) :=
  inv_of_mode_eq s _ (by simp) (by simp) (by simp) (by simp) h

theorem memory_write_inv (data ea : Int) (type : mem_access_t) (s : State)
    (h : emulation_invariant s) : emulation_invariant (memory_write data ea type s) :=
  inv_of_mode_eq s _ (by simp) (by simp) (by simp) (by simp) h

theorem emulation_mode_on_inv (s : State) : emulation_invariant (emulation_mode_on s) := by
  unfold emulation_invariant
  simp

theorem emulation_mode_off_inv (s : State) : emulation_invariant (emulation_mode_off s) := by
  unfold emulation_invariant
  simp

theorem set_FLAGS_inv (operand : Int) (s : State) (h : emulation_invariant s) :
    emulation_invariant (set_FLAGS operand s) := by
  unfold emulation_invariant at h ⊢
  simp_all

theorem check_FLAGS_inv (operand : Int) (s : State) (h : emulation_invariant s) :
    emulation_invariant (check_FLAGS operand s) := h

theorem call_emulate_inv (f : emulate_fn) (operand ea : Int) (s : State)
    (h : emulation_invariant s) : emulation_invariant (call_emulate f operand ea s).1 := by
  cases f
  · exact op_ORA_inv operand ea s h
  · exact op_TSB_inv operand ea s h
  · exact op_ASL_inv operand ea s h
  · exact op_PHP_inv operand ea s h
  · exact op_ASLA_inv operand ea s h
  · exact op_PHD_inv operand ea s h
  · exact op_BPL_inv operand ea s h
  · exact op_TRB_inv operand ea s h
  · exact op_CLC_inv operand ea s h
  · exact op_INCA_inv operand ea s h
  · exact op_TCS_inv operand ea s h
  · exact op_JSR_inv operand ea s h
  · exact op_AND_inv operand ea s h
  · exact op_JSL_inv operand ea s h
  · exact op_BIT_inv operand ea s h
  · exact op_ROL_inv operand ea s h
  · exact op_PLP_inv operand ea s h
  · exact op_ROLA_inv operand ea s h
  · exact op_PLD_inv operand ea s h
  · exact op_BMI_inv operand ea s h
  · exact op_SEC_inv operand ea s h
  · exact op_DECA_inv operand ea s h
  · exact op_TSC_inv operand ea s h
  · exact op_RTI_inv operand ea s h
  · exact op_EOR_inv operand ea s h
  · exact op_MVP_inv operand ea s h
  · exact op_LSR_inv operand ea s h
  · exact op_PHA_inv operand ea s h
  · exact op_LSRA_inv operand ea s h
  · exact op_PHK_inv operand ea s h
  · exact op_BVC_inv operand ea s h
  · exact op_MVN_inv operand ea s h
  · exact op_CLI_inv operand ea s h
  · exact op_PHY_inv operand ea s h
  · exact op_TCD_inv operand ea s h
  · exact op_RTS_inv operand ea s h
  · exact op_ADC_inv operand ea s h
  · exact op_PER_inv operand ea s h
  · exact op_STZ_inv operand ea s h
  · exact op_ROR_inv operand ea s h
  · exact op_PLA_inv operand ea s h
  · exact op_RORA_inv operand ea s h
  · exact op_RTL_inv operand ea s h
  · exact op_BVS_inv operand ea s h
  · exact op_SEI_inv operand ea s h
  · exact op_PLY_inv operand ea s h
  · exact op_TDC_inv operand ea s h
  · exact op_STA_inv operand ea s h
  · exact op_STY_inv operand ea s h
  · exact op_STX_inv operand ea s h
  · exact op_DEY_inv operand ea s h
  · exact op_BIT_IMM_inv operand ea s h
  · exact op_TXA_inv operand ea s h
  · exact op_PHB_inv operand ea s h
  · exact op_BCC_inv operand ea s h
  · exact op_TYA_inv operand ea s h
  · exact op_TXS_inv operand ea s h
  · exact op_TXY_inv operand ea s h
  · exact op_LDY_inv operand ea s h
  · exact op_LDA_inv operand ea s h
  · exact op_LDX_inv operand ea s h
  · exact op_TAY_inv operand ea s h
  · exact op_TAX_inv operand ea s h
  · exact op_PLB_inv operand ea s h
  · exact op_BCS_inv operand ea s h
  · exact op_CLV_inv operand ea s h
  · exact op_TSX_inv operand ea s h
  · exact op_TYX_inv operand ea s h
  · exact op_CPY_inv operand ea s h
  · exact op_CMP_inv operand ea s h
  · exact op_REP_inv operand ea s h
  · exact op_DEC_inv operand ea s h
  · exact op_INY_inv operand ea s h
  · exact op_DEX_inv operand ea s h
  · exact op_BNE_inv operand ea s h
  · exact op_PEI_inv operand ea s h
  · exact op_CLD_inv operand ea s h
  · exact op_PHX_inv operand ea s h
  · exact op_CPX_inv operand ea s h
  · exact op_SBC_inv operand ea s h
  · exact op_SEP_inv operand ea s h
  · exact op_INC_inv operand ea s h
  · exact op_INX_inv operand ea s h
  · exact op_XBA_inv operand ea s h
  · exact op_BEQ_inv operand ea s h
  · exact op_PEA_inv operand ea s h
  · exact op_SED_inv operand ea s h
  · exact op_PLX_inv operand ea s h
  · exact op_XCE_inv operand ea s h
  · exact op_JSR_new_inv operand ea s h

theorem interrupt_tail_inv (flags pc vector : Int) (t : State) (h : emulation_invariant t) :
    emulation_invariant { set_FLAGS flags (check_FLAGS flags (push8 flags (push16 pc t))) with
      I := 1, D := 0, PB := 0x00, PC := vector } := by
  unfold emulation_invariant at h ⊢
  simp_all

theorem interrupt_inv (sample_q : Int → sample_t) (num_cycles : Int)
    (instruction : instruction_t) (pc_offset : Int) (s : State) :
    emulation_invariant (interrupt sample_q num_cycles instruction pc_offset s).1 := by
  unfold interrupt
  have h1 : emulation_invariant
      (if num_cycles = 7 then emulation_mode_on s else emulation_mode_off s) := by
    split
    · exact emulation_mode_on_inv s
    · exact emulation_mode_off_inv s
  generalize (if num_cycles = 7 then emulation_mode_on s else emulation_mode_off s) = s1 at h1 ⊢
  have h2 : ∀ pb, emulation_invariant (if s1.E = 0 then push8 pb s1 else s1) := by
    intro pb
    split
    · exact push8_inv _ _ h1
    · exact h1
  exact interrupt_tail_inv _ _ _ _ (h2 _)

theorem em_65816_interrupt_inv (sample_q : Int → sample_t) (num_cycles : Int)
    (instruction : instruction_t) (s : State) :
    emulation_invariant (em_65816_interrupt sample_q num_cycles instruction s).1 :=
  interrupt_inv sample_q num_cycles instruction 0 s

theorem em_65816_reset_inv (sample_q : Int → sample_t) (num_cycles : Int)
    (instruction : instruction_t) (s : State) :
    emulation_invariant (em_65816_reset sample_q num_cycles instruction s).1 := by
  unfold em_65816_reset
  exact emulation_mode_on_inv _

theorem emulate_e_pin_inv (sample_q : Int → sample_t) (s : State)
    (h : emulation_invariant s) : emulation_invariant (emulate_e_pin sample_q s) := by
  unfold emulate_e_pin
  simp only
  split
  · split
    · exact emulation_mode_on_inv _
    · exact emulation_mode_off_inv _
  · exact h

theorem check_and_set_ms_inv (val : Int) (s : State) (hv : val = 0 ∨ val = 1)
    (h : emulation_invariant s) : emulation_invariant (check_and_set_ms val s) := by
  unfold check_and_set_ms
  simp only
  split
  · exact emulation_mode_off_inv _
  · unfold emulation_invariant at h ⊢
    rcases hv with hv | hv
    · simp_all
    · simp_all

theorem check_and_set_xs_inv (val : Int) (s : State) (hv : val = 0 ∨ val = 1)
    (h : emulation_invariant s) : emulation_invariant (check_and_set_xs val s) := by
  unfold emulation_invariant at h ⊢
  unfold check_and_set_xs
  rcases hv with rfl | rfl
  · simp
  · simp
    simp_all

theorem emulate_infer_ms_inv (sample_q : Int → sample_t) (num_cycles : Int) (s : State)
    (h : emulation_invariant s) :
    emulation_invariant (emulate_infer_ms sample_q num_cycles s) := by
  unfold emulate_infer_ms
  simp only
  split
  · apply check_and_set_ms_inv _ _ _ h
    split
    · exact Or.inl rfl
    · exact Or.inr rfl
  · exact h

theorem emulate_infer_xs_inv (sample_q : Int → sample_t) (num_cycles : Int) (s : State)
    (h : emulation_invariant s) :
    emulation_invariant (emulate_infer_xs sample_q num_cycles s) := by
  unfold emulate_infer_xs
  simp only
  split
  · apply check_and_set_xs_inv _ _ _ h
    split
    · exact Or.inl rfl
    · exact Or.inr rfl
  · exact h

theorem emulate_fetch_inv (opcode op1 op2 op3 opcount : Int) (s : State)
    (h : emulation_invariant s) :
    emulation_invariant (emulate_fetch opcode op1 op2 op3 opcount s) := by
  unfold emulate_fetch
  simp only
  split_ifs <;> first | exact h | (unfold emulation_invariant at h ⊢; simp_all)

theorem emulate_pointer_inv (sample_q : Int → sample_t) (num_cycles : Int) (instr : InstrType)
    (op1 op2 dpextra : Int) (wrap : Prop) [Decidable wrap] (s : State)
    (h : emulation_invariant s) :
    emulation_invariant (emulate_pointer sample_q num_cycles instr op1 op2 dpextra wrap s) := by
  unfold emulate_pointer
  dsimp only
  split <;> (try split_ifs) <;>
    first
    | exact h
    | exact memory_read_inv _ _ _ _ h
    | exact memory_read_inv _ _ _ _ (memory_read_inv _ _ _ _ h)
    | exact memory_read_inv _ _ _ _ (memory_read_inv _ _ _ _ (memory_read_inv _ _ _ _ h))

theorem emulate_operand_inv (sample_q : Int → sample_t) (num_cycles opcode op1 op2 : Int)
    (instr : InstrType) (s : State) (h : emulation_invariant s) :
    emulation_invariant (emulate_operand sample_q num_cycles opcode op1 op2 instr s).1 := by
  unfold emulate_operand
  dsimp only
  repeat' first
    | exact h
    | exact emulation_mode_on_inv _
    | exact emulation_mode_off_inv _
    | apply inv_ite_fst

theorem emulate_execute_inv (instr : InstrType) (operand operand2 ea : Int) (s : State)
    (h : emulation_invariant s) :
    emulation_invariant (emulate_execute instr operand operand2 ea s) := by
  unfold emulate_execute
  split
  · exact h
  · rename_i f _
    dsimp only
    have hs1 : emulation_invariant
        (if ea ≥ 0 ∧ (instr.optype = OpType.READOP ∨ instr.optype = OpType.RMWOP) then
          if (if instr.x_extra ≠ 0 then s.XS else if instr.m_extra ≠ 0 then s.MS else 1) = 0 then
            if instr.mode = AddrMode.ZP ∨ instr.mode = AddrMode.ZPX ∨ instr.mode = AddrMode.ZPY then
              memory_read (c_and (c_shr operand 8) 0xff) (c_and (ea + 1) 0xffff)
                mem_access_t.MEM_DATA
                (memory_read (c_and operand 0xff) ea mem_access_t.MEM_DATA s)
            else
              memory_read (c_and (c_shr operand 8) 0xff) (ea + 1) mem_access_t.MEM_DATA
                (memory_read (c_and operand 0xff) ea mem_access_t.MEM_DATA s)
          else if (if instr.x_extra ≠ 0 then s.XS else if instr.m_extra ≠ 0 then s.MS else 1) > 0
            then memory_read (c_and operand 0xff) ea mem_access_t.MEM_DATA s
          else s
        else s) := by
      repeat' first
        | exact h
        | apply memory_read_inv
        | apply inv_ite
    generalize (if ea ≥ 0 ∧ (instr.optype = OpType.READOP ∨ instr.optype = OpType.RMWOP) then
          if (if instr.x_extra ≠ 0 then s.XS else if instr.m_extra ≠ 0 then s.MS else 1) = 0 then
            if instr.mode = AddrMode.ZP ∨ instr.mode = AddrMode.ZPX ∨ instr.mode = AddrMode.ZPY then
              memory_read (c_and (c_shr operand 8) 0xff) (c_and (ea + 1) 0xffff)
                mem_access_t.MEM_DATA
                (memory_read (c_and operand 0xff) ea mem_access_t.MEM_DATA s)
            else
              memory_read (c_and (c_shr operand 8) 0xff) (ea + 1) mem_access_t.MEM_DATA
                (memory_read (c_and operand 0xff) ea mem_access_t.MEM_DATA s)
          else if (if instr.x_extra ≠ 0 then s.XS else if instr.m_extra ≠ 0 then s.MS else 1) > 0
            then memory_read (c_and operand 0xff) ea mem_access_t.MEM_DATA s
          else s
        else s) = s1 at hs1 ⊢
    have hs2 := call_emulate_inv f (to_int32 operand) ea s1 hs1
    generalize call_emulate f (to_int32 operand) ea s1 = r at hs2 ⊢
    have hs3 : ∀ ff, emulation_invariant { r.1 with failflag := ff } := fun ff =>
      inv_of_mode_eq r.1 _ rfl rfl rfl rfl hs2
    repeat' first
      | exact hs2
      | exact hs3 _
      | apply memory_write_inv
      | apply inv_ite

theorem emulate_update_pc_inv (sample_q : Int → sample_t)
    (num_cycles opcode op1 op2 opcount ea : Int) (s : State) (h : emulation_invariant s) :
    emulation_invariant
      (emulate_update_pc sample_q num_cycles opcode op1 op2 opcount ea s) := by
  unfold emulate_update_pc
  simp only
  split_ifs <;> exact h

theorem em_65816_emulate_inv (sample_q : Int → sample_t) (num_cycles : Int)
    (instruction : instruction_t) (s : State) (h : emulation_invariant s) :
    emulation_invariant (em_65816_emulate sample_q num_cycles instruction s).1 := by
  unfold em_65816_emulate
  simp only
  split
  · exact interrupt_inv _ _ _ _ _
  · apply emulate_update_pc_inv
    apply emulate_execute_inv
    apply emulate_operand_inv
    apply emulate_pointer_inv
    apply emulate_fetch_inv
    apply emulate_infer_xs_inv
    apply emulate_infer_ms_inv
    exact emulate_e_pin_inv _ _ h

/-! ## Theorems: the memory model -/

theorem to_int8_of_lt {d : Int} (h0 : 0 ≤ d) (h1 : d < 128) : to_int8 d = d := by
  unfold to_int8
  have h : d % 256 = d := Int.emod_eq_of_lt h0 (by omega)
  rw [h, if_pos h1]

theorem to_int8_of_ge {d : Int} (h0 : 128 ≤ d) (h1 : d < 256) : to_int8 d = d - 256 := by
  unfold to_int8
  have h : d % 256 = d := Int.emod_eq_of_lt (by omega) h1
  rw [h, if_neg (by omega)]

/-- C1 (evaluation at the failing input): on the default machine with modelling enabled, a
read of 0x80 at 0x2000 from an unknown cell followed by a conflicting read of 0x00 at the same
address leaves the failure flag clear, because the `int8_t` cell stored 0x80 as -128, which
the second read takes for "unknown". -/
theorem memory_read_conflict_missed :
    modelled mem_access_t.MEM_DATA fresh_memory ∧ default_machine fresh_memory ∧
    fresh_memory.memory 0x2000 < 0 ∧
    (memory_read 0x80 0x2000 mem_access_t.MEM_DATA fresh_memory).memory 0x2000 = -128 ∧
    (memory_read 0x00 0x2000 mem_access_t.MEM_DATA
      (memory_read 0x80 0x2000 mem_access_t.MEM_DATA fresh_memory)).failflag = 0 := by
  decide

/-- C3 (evaluation at the failing input): on the default machine with modelling enabled,
`memory_write(0x80, 0x2000, MEM_DATA)` followed by `memory_read_raw(0x2000)` returns -128,
not 0x80: the `int8_t` cell cannot hold the bytes 128..255. -/
theorem memory_write_read_raw_high_byte :
    modelled mem_access_t.MEM_DATA fresh_memory ∧ default_machine fresh_memory ∧
    memory_read_raw 0x2000 (memory_write 0x80 0x2000 mem_access_t.MEM_DATA fresh_memory)
      = -128 := by
  decide

/-! ## Lemmas: single instructions through `em_65816_emulate` -/

@[simp] theorem instr_table_A9_mode : (instr_table 0xA9).mode = AddrMode.IMM := by
  decide

@[simp] theorem instr_table_A9_cycles : (instr_table 0xA9).cycles = 2 := by
  decide

@[simp] theorem instr_table_A9_newop : (instr_table 0xA9).newop = 0 := by
  decide

@[simp] theorem instr_table_A9_optype : (instr_table 0xA9).optype = OpType.OTHER := by
  decide

@[simp] theorem instr_table_A9_emulate : (instr_table 0xA9).emulate = some emulate_fn.op_LDA := by
  decide

@[simp] theorem instr_table_A9_len : (instr_table 0xA9).len = 2 := by
  decide

@[simp] theorem instr_table_A9_m_extra : (instr_table 0xA9).m_extra = 1 := by
  decide

@[simp] theorem instr_table_A9_x_extra : (instr_table 0xA9).x_extra = 0 := by
  decide

@[simp] theorem instr_table_8D_mode : (instr_table 0x8D).mode = AddrMode.ABS := by
  decide

@[simp] theorem instr_table_8D_cycles : (instr_table 0x8D).cycles = 4 := by
  decide

@[simp] theorem instr_table_8D_newop : (instr_table 0x8D).newop = 0 := by
  decide

@[simp] theorem instr_table_8D_optype : (instr_table 0x8D).optype = OpType.WRITEOP := by
  decide

@[simp] theorem instr_table_8D_emulate : (instr_table 0x8D).emulate = some emulate_fn.op_STA := by
  decide

@[simp] theorem instr_table_8D_len : (instr_table 0x8D).len = 3 := by
  decide

@[simp] theorem instr_table_8D_m_extra : (instr_table 0x8D).m_extra = 1 := by
  decide

@[simp] theorem instr_table_8D_x_extra : (instr_table 0x8D).x_extra = 0 := by
  decide

@[simp] theorem instr_table_C2_mode : (instr_table 0xC2).mode = AddrMode.IMM := by
  decide

@[simp] theorem instr_table_C2_cycles : (instr_table 0xC2).cycles = 3 := by
  decide

@[simp] theorem instr_table_C2_newop : (instr_table 0xC2).newop = 1 := by
  decide

@[simp] theorem instr_table_C2_optype : (instr_table 0xC2).optype = OpType.OTHER := by
  decide

@[simp] theorem instr_table_C2_emulate : (instr_table 0xC2).emulate = some emulate_fn.op_REP := by
  decide

@[simp] theorem instr_table_C2_len : (instr_table 0xC2).len = 2 := by
  decide

@[simp] theorem instr_table_C2_m_extra : (instr_table 0xC2).m_extra = 0 := by
  decide

@[simp] theorem instr_table_C2_x_extra : (instr_table 0xC2).x_extra = 0 := by
  decide

@[simp] theorem bus_e (l : List Int) (i : Int) : (bus l i).e = -1 := rfl
@[simp] theorem bus_rnw (l : List Int) (i : Int) : (bus l i).rnw = -1 := rfl
@[simp] theorem bus_data_0 (b0 : Int) (l : List Int) : (bus (b0 :: l) 0).data = b0 := rfl
@[simp] theorem bus_data_1 (b0 b1 : Int) (l : List Int) : (bus (b0 :: b1 :: l) 1).data = b1 := rfl
@[simp] theorem bus_data_2 (b0 b1 b2 : Int) (l : List Int) :
    (bus (b0 :: b1 :: b2 :: l) 2).data = b2 := rfl
@[simp] theorem bus_data_3 (b0 b1 b2 b3 : Int) (l : List Int) :
    (bus (b0 :: b1 :: b2 :: b3 :: l) 3).data = b3 := rfl

@[simp] theorem emulate_e_pin_bus (l : List Int) (s : State) : emulate_e_pin (bus l) s = s := by
  simp [emulate_e_pin]

theorem lda_imm8 (v : Int) (hv : 0 ≤ v ∧ v < 256) (s : State) (hMS : s.MS = -1 ∨ s.MS = 1)
    (hPC : s.PC = -1) (ins : instruction_t) :
    (em_65816_emulate (bus [0xA9, v]) 2 ins s).1 =
      { s with MS := 1, A := v, N := v / 2 ^ 7 % 2, Z := if v = 0 then 1 else 0 } := by
  obtain ⟨h0, h1⟩ := hv
  have hmod : v % 256 = v := Int.emod_eq_of_lt h0 h1
  have e2 : emulate_infer_ms (bus [0xA9, v]) 2 s = { s with MS := 1 } := by
    unfold emulate_infer_ms get_8bit_cycles check_and_set_ms
    rcases hMS with h | h
    · simp [h, AddrMode.val]
    · simp [h, AddrMode.val]
      cases s
      simp_all
  have e3 : ∀ t : State, emulate_infer_xs (bus [0xA9, v]) 2 t = t := by
    intro t
    simp [emulate_infer_xs]
  have hu : to_uint32 v = v := to_uint32_of_nonneg h0 (by omega)
  have hi : to_int32 v = v := to_int32_of_nonneg h0 (by omega)
  unfold em_65816_emulate
  simp only [bus_data_0, bus_data_1, emulate_e_pin_bus, e2, e3]
  simp [emulate_opcount, emulate_fetch, hPC, emulate_pointer, emulate_operand, emulate_operand2,
    emulate_ea, emulate_execute, emulate_update_pc, call_emulate, op_LDA, set_NZ_AB, set_NZ8,
    c_and_ff, c_bit_eq, c_shl_eq, c_bool, hu, hi, hmod, h0]

@[simp] theorem emulate_fetch_A (opcode op1 op2 op3 opcount : Int) (s : State) :
    (emulate_fetch opcode op1 op2 op3 opcount s).A = s.A := by
  unfold emulate_fetch
  split_ifs <;> simp

@[simp] theorem emulate_fetch_X (opcode op1 op2 op3 opcount : Int) (s : State) :
    (emulate_fetch opcode op1 op2 op3 opcount s).X = s.X := by
  unfold emulate_fetch
  split_ifs <;> simp

@[simp] theorem emulate_fetch_Y (opcode op1 op2 op3 opcount : Int) (s : State) :
    (emulate_fetch opcode op1 op2 op3 opcount s).Y = s.Y := by
  unfold emulate_fetch
  split_ifs <;> simp

@[simp] theorem emulate_fetch_SH (opcode op1 op2 op3 opcount : Int) (s : State) :
    (emulate_fetch opcode op1 op2 op3 opcount s).SH = s.SH := by
  unfold emulate_fetch
  split_ifs <;> simp

@[simp] theorem emulate_fetch_SL (opcode op1 op2 op3 opcount : Int) (s : State) :
    (emulate_fetch opcode op1 op2 op3 opcount s).SL = s.SL := by
  unfold emulate_fetch
  split_ifs <;> simp

@[simp] theorem emulate_fetch_PC (opcode op1 op2 op3 opcount : Int) (s : State) :
    (emulate_fetch opcode op1 op2 op3 opcount s).PC = s.PC := by
  unfold emulate_fetch
  split_ifs <;> simp

@[simp] theorem emulate_fetch_B (opcode op1 op2 op3 opcount : Int) (s : State) :
    (emulate_fetch opcode op1 op2 op3 opcount s).B = s.B := by
  unfold emulate_fetch
  split_ifs <;> simp

@[simp] theorem emulate_fetch_DP (opcode op1 op2 op3 opcount : Int) (s : State) :
    (emulate_fetch opcode op1 op2 op3 opcount s).DP = s.DP := by
  unfold emulate_fetch
  split_ifs <;> simp

@[simp] theorem emulate_fetch_DB (opcode op1 op2 op3 opcount : Int) (s : State) :
    (emulate_fetch opcode op1 op2 op3 opcount s).DB = s.DB := by
  unfold emulate_fetch
  split_ifs <;> simp

@[simp] theorem emulate_fetch_PB (opcode op1 op2 op3 opcount : Int) (s : State) :
    (emulate_fetch opcode op1 op2 op3 opcount s).PB = s.PB := by
  unfold emulate_fetch
  split_ifs <;> simp

@[simp] theorem emulate_fetch_N (opcode op1 op2 op3 opcount : Int) (s : State) :
    (emulate_fetch opcode op1 op2 op3 opcount s).N = s.N := by
  unfold emulate_fetch
  split_ifs <;> simp

@[simp] theorem emulate_fetch_V (opcode op1 op2 op3 opcount : Int) (s : State) :
    (emulate_fetch opcode op1 op2 op3 opcount s).V = s.V := by
  unfold emulate_fetch
  split_ifs <;> simp

@[simp] theorem emulate_fetch_D (opcode op1 op2 op3 opcount : Int) (s : State) :
    (emulate_fetch opcode op1 op2 op3 opcount s).D = s.D := by
  unfold emulate_fetch
  split_ifs <;> simp

@[simp] theorem emulate_fetch_I (opcode op1 op2 op3 opcount : Int) (s : State) :
    (emulate_fetch opcode op1 op2 op3 opcount s).I = s.I := by
  unfold emulate_fetch
  split_ifs <;> simp

@[simp] theorem emulate_fetch_Z (opcode op1 op2 op3 opcount : Int) (s : State) :
    (emulate_fetch opcode op1 op2 op3 opcount s).Z = s.Z := by
  unfold emulate_fetch
  split_ifs <;> simp

@[simp] theorem emulate_fetch_C (opcode op1 op2 op3 opcount : Int) (s : State) :
    (emulate_fetch opcode op1 op2 op3 opcount s).C = s.C := by
  unfold emulate_fetch
  split_ifs <;> simp

@[simp] theorem emulate_fetch_MS (opcode op1 op2 op3 opcount : Int) (s : State) :
    (emulate_fetch opcode op1 op2 op3 opcount s).MS = s.MS := by
  unfold emulate_fetch
  split_ifs <;> simp

@[simp] theorem emulate_fetch_XS (opcode op1 op2 op3 opcount : Int) (s : State) :
    (emulate_fetch opcode op1 op2 op3 opcount s).XS = s.XS := by
  unfold emulate_fetch
  split_ifs <;> simp

@[simp] theorem emulate_fetch_E (opcode op1 op2 op3 opcount : Int) (s : State) :
    (emulate_fetch opcode op1 op2 op3 opcount s).E = s.E := by
  unfold emulate_fetch
  split_ifs <;> simp

theorem sta_abs8 (v a : Int) (hv : 0 ≤ v ∧ v < 256) (ha : 0 ≤ a ∧ a < 65536) (s : State)
    (hMS : s.MS = 1) (hA : s.A = v) (hPC : s.PC = -1) (ins : instruction_t) :
    (em_65816_emulate (bus [0x8D, a % 256, a / 256, v]) 4 ins s).1 =
      (if 0 ≤ s.DB then memory_write v (s.DB * 65536 + a) mem_access_t.MEM_DATA s else s) := by
  obtain ⟨h0, h1⟩ := hv
  obtain ⟨ha0, ha1⟩ := ha
  have hmod : v % 256 = v := Int.emod_eq_of_lt h0 h1
  have hu : to_uint32 v = v := to_uint32_of_nonneg h0 (by omega)
  have hi : to_int32 v = v := to_int32_of_nonneg h0 (by omega)
  have hea : s.DB * 65536 + a / 256 * 256 + a % 256 = s.DB * 65536 + a := by
    omega
  have e2 : emulate_infer_ms (bus [0x8D, a % 256, a / 256, v]) 4 s = s := by
    simp [emulate_infer_ms, hMS]
  have e3 : ∀ t : State, emulate_infer_xs (bus [0x8D, a % 256, a / 256, v]) 4 t = t := by
    intro t
    simp [emulate_infer_xs]
  unfold em_65816_emulate
  simp only [bus_data_0, bus_data_1, bus_data_2, emulate_e_pin_bus, e2, e3]
  by_cases hDB : 0 ≤ s.DB
  · have hnn : 0 ≤ s.DB * 65536 + a := by omega
    rw [if_pos hDB, memory_write_eta v (s.DB * 65536 + a) mem_access_t.MEM_DATA s]
    cases s
    simp only at hMS hA hPC hea hDB hnn
    subst hMS hA hPC
    simp [emulate_opcount, emulate_fetch, emulate_pointer, emulate_operand,
      emulate_operand2, emulate_ea, emulate_execute, emulate_update_pc, call_emulate, op_STA,
      c_and_ff, c_shl_eq, hu, hi, hmod, h0, hDB, hea, hnn]
  · rw [if_neg hDB]
    cases s
    simp only at hMS hA hPC hea hDB
    subst hMS hA hPC
    simp [emulate_opcount, emulate_fetch, emulate_pointer, emulate_operand,
      emulate_operand2, emulate_ea, emulate_execute, emulate_update_pc, call_emulate, op_STA,
      c_and_ff, c_shl_eq, hu, hi, hmod, h0, hDB]

theorem rep_30 (s : State) (ins : instruction_t) (hE : s.E = 0) :
    (em_65816_emulate (bus [0xC2, 0x30]) 3 ins s).1.MS = 0 ∧
    (em_65816_emulate (bus [0xC2, 0x30]) 3 ins s).1.XS = 0 ∧
    (em_65816_emulate (bus [0xC2, 0x30]) 3 ins s).1.E = 0 ∧
    (em_65816_emulate (bus [0xC2, 0x30]) 3 ins s).1.PC =
      (if s.PC < 0 then -1 else (s.PC + 2) % 65536) := by
  have e2 : ∀ t : State, emulate_infer_ms (bus [0xC2, 0x30]) 3 t = t := by
    intro t
    simp [emulate_infer_ms]
  have e3 : ∀ t : State, emulate_infer_xs (bus [0xC2, 0x30]) 3 t = t := by
    intro t
    simp [emulate_infer_xs]
  have k1 : c_and 48 32 ≠ 0 := by decide
  have k2 : c_and 48 16 ≠ 0 := by decide
  have k3 : c_and 194 31 = 2 := by decide
  have hu : to_uint32 48 = 48 := by decide
  have hi : to_int32 48 = 48 := by decide
  unfold em_65816_emulate
  simp only [bus_data_0, bus_data_1, emulate_e_pin_bus, e2, e3]
  simp [emulate_opcount, emulate_pointer, emulate_operand,
    emulate_operand2, emulate_ea, emulate_execute, emulate_update_pc, call_emulate, op_REP,
    repsep, x_flag_updated, c_and_ffff, c_shl_eq, hu, hi, hE, k1, k2, k3]
  split_ifs <;> simp [add_assoc]

theorem lda_imm16 (v : Int) (hv : 0 ≤ v ∧ v < 65536) (s : State) (ins : instruction_t)
    (hMS : s.MS = 0) :
    (em_65816_emulate (bus [0xA9, v % 256, v / 256]) 3 ins s).2.opcount = 2 ∧
    (em_65816_emulate (bus [0xA9, v % 256, v / 256]) 3 ins s).2.pc = s.PC ∧
    (em_65816_emulate (bus [0xA9, v % 256, v / 256]) 3 ins s).1.A = v % 256 ∧
    (em_65816_emulate (bus [0xA9, v % 256, v / 256]) 3 ins s).1.B = v / 256 ∧
    (em_65816_emulate (bus [0xA9, v % 256, v / 256]) 3 ins s).1.N = v / 2 ^ 15 % 2 ∧
    (em_65816_emulate (bus [0xA9, v % 256, v / 256]) 3 ins s).1.Z = (if v = 0 then 1 else 0) ∧
    (em_65816_emulate (bus [0xA9, v % 256, v / 256]) 3 ins s).1.PC =
      (if s.PC < 0 then -1 else (s.PC + 3) % 65536) := by
  obtain ⟨h0, h1⟩ := hv
  have e2 : emulate_infer_ms (bus [0xA9, v % 256, v / 256]) 3 s = s := by
    simp [emulate_infer_ms, hMS]
  have e3 : ∀ t : State, emulate_infer_xs (bus [0xA9, v % 256, v / 256]) 3 t = t := by
    intro t
    simp [emulate_infer_xs]
  have hv' : v / 256 * 256 + v % 256 = v := by omega
  have hu : to_uint32 v = v := to_uint32_of_nonneg h0 (by omega)
  have hi : to_int32 v = v := to_int32_of_nonneg h0 (by omega)
  have k3 : c_and 169 31 = 9 := by decide
  have hlo : 0 ≤ v % 256 := by omega
  have hhi : 0 ≤ v / 256 := by omega
  have hhi2 : v / 256 % 256 = v / 256 := by omega
  have h16 : v % 65536 = v := by omega
  unfold em_65816_emulate
  simp only [bus_data_0, bus_data_1, bus_data_2, emulate_e_pin_bus, e2, e3]
  simp [emulate_opcount, emulate_pointer, emulate_operand,
    emulate_operand2, emulate_ea, emulate_execute, emulate_update_pc, call_emulate, op_LDA,
    set_NZ_AB, set_NZ16, c_bool, c_bit_eq, c_and_ff, c_shr_eq,
    c_and_ffff, c_shl_eq, hu, hi, hMS, k3, hv', hlo, hhi, hhi2, h16, c_and_1]
  split_ifs <;> simp [add_assoc]

/-! ## Lemmas: cycle prediction, interrupts and disassembly -/

@[simp] theorem instr_table_80_mode : (instr_table 0x80).mode = AddrMode.BRA := by
  decide

@[simp] theorem instr_table_80_cycles : (instr_table 0x80).cycles = 3 := by
  decide

@[simp] theorem instr_table_80_optype : (instr_table 0x80).optype = OpType.OTHER := by
  decide

@[simp] theorem instr_table_80_m_extra : (instr_table 0x80).m_extra = 0 := by
  decide

@[simp] theorem instr_table_80_x_extra : (instr_table 0x80).x_extra = 0 := by
  decide

@[simp] theorem instr_table_11_mode : (instr_table 0x11).mode = AddrMode.INDY := by
  decide

@[simp] theorem instr_table_11_cycles : (instr_table 0x11).cycles = 5 := by
  decide

@[simp] theorem instr_table_11_optype : (instr_table 0x11).optype = OpType.READOP := by
  decide

@[simp] theorem instr_table_11_m_extra : (instr_table 0x11).m_extra = 1 := by
  decide

@[simp] theorem instr_table_11_x_extra : (instr_table 0x11).x_extra = 0 := by
  decide

@[simp] theorem instr_table_31_mode : (instr_table 0x31).mode = AddrMode.INDY := by
  decide

@[simp] theorem instr_table_31_cycles : (instr_table 0x31).cycles = 5 := by
  decide

@[simp] theorem instr_table_31_optype : (instr_table 0x31).optype = OpType.READOP := by
  decide

@[simp] theorem instr_table_31_m_extra : (instr_table 0x31).m_extra = 1 := by
  decide

@[simp] theorem instr_table_31_x_extra : (instr_table 0x31).x_extra = 0 := by
  decide

@[simp] theorem instr_table_51_mode : (instr_table 0x51).mode = AddrMode.INDY := by
  decide

@[simp] theorem instr_table_51_cycles : (instr_table 0x51).cycles = 5 := by
  decide

@[simp] theorem instr_table_51_optype : (instr_table 0x51).optype = OpType.READOP := by
  decide

@[simp] theorem instr_table_51_m_extra : (instr_table 0x51).m_extra = 1 := by
  decide

@[simp] theorem instr_table_51_x_extra : (instr_table 0x51).x_extra = 0 := by
  decide

@[simp] theorem instr_table_71_mode : (instr_table 0x71).mode = AddrMode.INDY := by
  decide

@[simp] theorem instr_table_71_cycles : (instr_table 0x71).cycles = 5 := by
  decide

@[simp] theorem instr_table_71_optype : (instr_table 0x71).optype = OpType.READOP := by
  decide

@[simp] theorem instr_table_71_m_extra : (instr_table 0x71).m_extra = 1 := by
  decide

@[simp] theorem instr_table_71_x_extra : (instr_table 0x71).x_extra = 0 := by
  decide

@[simp] theorem instr_table_91_mode : (instr_table 0x91).mode = AddrMode.INDY := by
  decide

@[simp] theorem instr_table_91_cycles : (instr_table 0x91).cycles = 6 := by
  decide

@[simp] theorem instr_table_91_optype : (instr_table 0x91).optype = OpType.WRITEOP := by
  decide

@[simp] theorem instr_table_91_m_extra : (instr_table 0x91).m_extra = 1 := by
  decide

@[simp] theorem instr_table_91_x_extra : (instr_table 0x91).x_extra = 0 := by
  decide

@[simp] theorem instr_table_B1_mode : (instr_table 0xB1).mode = AddrMode.INDY := by
  decide

@[simp] theorem instr_table_B1_cycles : (instr_table 0xB1).cycles = 5 := by
  decide

@[simp] theorem instr_table_B1_optype : (instr_table 0xB1).optype = OpType.READOP := by
  decide

@[simp] theorem instr_table_B1_m_extra : (instr_table 0xB1).m_extra = 1 := by
  decide

@[simp] theorem instr_table_B1_x_extra : (instr_table 0xB1).x_extra = 0 := by
  decide

@[simp] theorem instr_table_D1_mode : (instr_table 0xD1).mode = AddrMode.INDY := by
  decide

@[simp] theorem instr_table_D1_cycles : (instr_table 0xD1).cycles = 5 := by
  decide

@[simp] theorem instr_table_D1_optype : (instr_table 0xD1).optype = OpType.READOP := by
  decide

@[simp] theorem instr_table_D1_m_extra : (instr_table 0xD1).m_extra = 1 := by
  decide

@[simp] theorem instr_table_D1_x_extra : (instr_table 0xD1).x_extra = 0 := by
  decide

@[simp] theorem instr_table_F1_mode : (instr_table 0xF1).mode = AddrMode.INDY := by
  decide

@[simp] theorem instr_table_F1_cycles : (instr_table 0xF1).cycles = 5 := by
  decide

@[simp] theorem instr_table_F1_optype : (instr_table 0xF1).optype = OpType.READOP := by
  decide

@[simp] theorem instr_table_F1_m_extra : (instr_table 0xF1).m_extra = 1 := by
  decide

@[simp] theorem instr_table_F1_x_extra : (instr_table 0xF1).x_extra = 0 := by
  decide

theorem land_shifted_mask (n j k : Nat) :
    n &&& ((2 ^ j - 1) * 2 ^ k) = (n / 2 ^ k % 2 ^ j) * 2 ^ k := by
  apply Nat.eq_of_testBit_eq
  intro i
  rw [Nat.testBit_and, Nat.mul_comm _ (2 ^ k), Nat.mul_comm _ (2 ^ k),
    Nat.testBit_mul_pow_two, Nat.testBit_mul_pow_two, Nat.testBit_two_pow_sub_one,
    Nat.testBit_mod_two_pow, ← Nat.shiftRight_eq_div_pow, Nat.testBit_shiftRight]
  by_cases h1 : k ≤ i
  · have e : k + (i - k) = i := by omega
    by_cases h2 : i - k < j <;> simp [h1, h2, e]
  · simp [h1]

/-- `x & m` for a mask `m` of `j` ones above `k` zeros keeps the bits `k .. k+j-1` of `x`. -/
theorem c_and_shifted_mask {x : Int} (hx0 : 0 ≤ x) (hx : x < 2147483648) (j k : Nat)
    (hjk : j + k ≤ 31) :
    c_and x ((2 ^ j - 1) * 2 ^ k) = (x / 2 ^ k % 2 ^ j) * 2 ^ k := by
  obtain ⟨n, rfl⟩ := Int.eq_ofNat_of_zero_le hx0
  have hn : n < 2147483648 := by omega
  have h31 : (2:Nat)^31 = 2147483648 := by norm_num
  have hmlt : (2 ^ j - 1) * 2 ^ k < 2 ^ 31 := by
    have h1 : (2:Nat) ^ j * 2 ^ k ≤ 2 ^ 31 := by
      rw [← pow_add]
      exact Nat.pow_le_pow_right (by decide) hjk
    have h2 : 0 < (2:Nat) ^ k := Nat.two_pow_pos k
    have h3 : 0 < (2:Nat) ^ j := Nat.two_pow_pos j
    have h4 : (2 ^ j - 1) * 2 ^ k < 2 ^ j * 2 ^ k :=
      Nat.mul_lt_mul_of_pos_right (by omega) h2
    omega
  have hm : ((2 : Int) ^ j - 1) * 2 ^ k = (((2 ^ j - 1) * 2 ^ k : Nat) : Int) := by
    rw [Nat.cast_mul, Nat.cast_sub (Nat.two_pow_pos j)]
    push_cast
    rfl
  unfold c_and
  rw [hm, toU32_natCast (by omega), toU32_natCast (by omega), land_shifted_mask]
  have hlt : n / 2 ^ k % 2 ^ j * 2 ^ k < 2147483648 := by
    rw [← land_shifted_mask]
    have := @Nat.and_le_right n ((2 ^ j - 1) * 2 ^ k)
    omega
  rw [ofU32_of_lt hlt]
  push_cast
  rfl

theorem c_and_1ff00 {x : Int} (hx0 : 0 ≤ x) (hx : x < 2147483648) :
    c_and x 0x1ff00 = (x / 256 % 512) * 256 := by
  have := c_and_shifted_mask hx0 hx 9 8 (by decide)
  norm_num at this
  exact this

theorem c_and_ff00 {x : Int} (hx0 : 0 ≤ x) (hx : x < 2147483648) :
    c_and x 0xff00 = (x / 256 % 256) * 256 := by
  have := c_and_shifted_mask hx0 hx 8 8 (by decide)
  norm_num at this
  exact this

theorem c_and_30 {x : Int} (hx0 : 0 ≤ x) (hx : x < 2147483648) :
    c_and x 0x30 = (x / 16 % 4) * 16 := by
  have := c_and_shifted_mask hx0 hx 2 4 (by decide)
  norm_num at this
  exact this

set_option maxRecDepth 1000000 in
theorem instr_table_65c816_length : instr_table_65c816.length = 256 := by
  decide

/-- A property checked on every entry of the table (with its index) holds of `instr_table n`
for every opcode `n` below 256. -/
theorem instr_table_of_enum (P : Nat → InstrType → Bool)
    (h : (List.enum instr_table_65c816).all (fun p => P p.1 (init_instr p.2)) = true)
    (n : Nat) (hn : n < 256) : P n (instr_table (n : Int)) = true := by
  have hlen : n < instr_table_65c816.length := by
    rw [instr_table_65c816_length]
    exact hn
  have hmem : (n, instr_table_65c816[n]) ∈ List.enum instr_table_65c816 := by
    rw [List.mk_mem_enum_iff_getElem?]
    exact List.getElem?_eq_getElem hlen
  have := List.all_eq_true.1 h _ hmem
  unfold instr_table
  rw [Int.toNat_ofNat, List.getD_eq_getElem _ _ hlen]
  exact this

set_option maxRecDepth 1000000 in
theorem indy_opcodes_enum : (List.enum instr_table_65c816).all (fun p =>
    decide ((init_instr p.2).mode = AddrMode.INDY →
      p.1 ∈ [0x11, 0x31, 0x51, 0x71, 0x91, 0xB1, 0xD1, 0xF1])) = true := by
  decide

theorem indy_opcodes_nat (n : Nat) (hn : n < 256)
    (hm : (instr_table (n : Int)).mode = AddrMode.INDY) :
    n ∈ [0x11, 0x31, 0x51, 0x71, 0x91, 0xB1, 0xD1, 0xF1] := by
  have := instr_table_of_enum
    (fun i e => decide (e.mode = AddrMode.INDY →
      i ∈ [0x11, 0x31, 0x51, 0x71, 0x91, 0xB1, 0xD1, 0xF1])) indy_opcodes_enum n hn
  exact of_decide_eq_true this hm

theorem indy_opcodes {opcode : Int} (h0 : 0 ≤ opcode) (h1 : opcode < 256)
    (hm : (instr_table opcode).mode = AddrMode.INDY) :
    opcode = 0x11 ∨ opcode = 0x31 ∨ opcode = 0x51 ∨ opcode = 0x71 ∨ opcode = 0x91 ∨
    opcode = 0xB1 ∨ opcode = 0xD1 ∨ opcode = 0xF1 := by
  obtain ⟨n, rfl⟩ := Int.eq_ofNat_of_zero_le h0
  have hn : n < 256 := by omega
  have := indy_opcodes_nat n hn hm
  simp only [List.mem_cons, List.mem_singleton, List.not_mem_nil, or_false] at this
  omega

theorem compare_FLAGS_emulation (p : Int) (s : State) (hE : s.E = 1) :
    compare_FLAGS p s = if known_flags_agree p s then 0 else 1 := by
  unfold compare_FLAGS known_flags_agree
  simp only [c_bit_eq, bit, hE]
  by_cases hN : s.N ≥ 0 ∧ s.N ≠ p / 2 ^ 7 % 2
  · rw [if_pos hN, if_neg]
    intro h
    exact hN.2 (h.1 hN.1)
  rw [if_neg hN]
  by_cases hV : s.V ≥ 0 ∧ s.V ≠ p / 2 ^ 6 % 2
  · rw [if_pos hV, if_neg]
    intro h
    exact hV.2 (h.2.1 hV.1)
  rw [if_neg hV, if_neg (by simp), if_neg (by simp)]
  by_cases hD : s.D ≥ 0 ∧ s.D ≠ p / 2 ^ 3 % 2
  · rw [if_pos hD, if_neg]
    intro h
    exact hD.2 (h.2.2.1 hD.1)
  rw [if_neg hD]
  by_cases hI : s.I ≥ 0 ∧ s.I ≠ p / 2 ^ 2 % 2
  · rw [if_pos hI, if_neg]
    intro h
    exact hI.2 (h.2.2.2.1 hI.1)
  rw [if_neg hI]
  by_cases hZ : s.Z ≥ 0 ∧ s.Z ≠ p / 2 ^ 1 % 2
  · rw [if_pos hZ, if_neg]
    intro h
    exact hZ.2 (h.2.2.2.2.1 hZ.1)
  rw [if_neg hZ]
  by_cases hC : s.C ≥ 0 ∧ s.C ≠ p / 2 ^ 0 % 2
  · rw [if_pos hC, if_neg]
    intro h
    exact hC.2 (h.2.2.2.2.2 hC.1)
  rw [if_neg hC, if_pos]
  refine ⟨?_, ?_, ?_, ?_, ?_, ?_⟩ <;> intro h <;> by_contra hne
  · exact hN ⟨h, hne⟩
  · exact hV ⟨h, hne⟩
  · exact hD ⟨h, hne⟩
  · exact hI ⟨h, hne⟩
  · exact hZ ⟨h, hne⟩
  · exact hC ⟨h, hne⟩

@[simp] theorem decSP_N (s : State) : (decSP s).N = s.N := rfl

@[simp] theorem push8_N (value : Int) (s : State) : (push8 value s).N = s.N := by
  unfold push8
  split_ifs <;> simp

@[simp] theorem push16_N (value : Int) (s : State) : (push16 value s).N = s.N := by
  unfold push16
  simp

@[simp] theorem decSP_V (s : State) : (decSP s).V = s.V := rfl

@[simp] theorem push8_V (value : Int) (s : State) : (push8 value s).V = s.V := by
  unfold push8
  split_ifs <;> simp

@[simp] theorem push16_V (value : Int) (s : State) : (push16 value s).V = s.V := by
  unfold push16
  simp

@[simp] theorem decSP_D (s : State) : (decSP s).D = s.D := rfl

@[simp] theorem push8_D (value : Int) (s : State) : (push8 value s).D = s.D := by
  unfold push8
  split_ifs <;> simp

@[simp] theorem push16_D (value : Int) (s : State) : (push16 value s).D = s.D := by
  unfold push16
  simp

@[simp] theorem decSP_I (s : State) : (decSP s).I = s.I := rfl

@[simp] theorem push8_I (value : Int) (s : State) : (push8 value s).I = s.I := by
  unfold push8
  split_ifs <;> simp

@[simp] theorem push16_I (value : Int) (s : State) : (push16 value s).I = s.I := by
  unfold push16
  simp

@[simp] theorem decSP_Z (s : State) : (decSP s).Z = s.Z := rfl

@[simp] theorem push8_Z (value : Int) (s : State) : (push8 value s).Z = s.Z := by
  unfold push8
  split_ifs <;> simp

@[simp] theorem push16_Z (value : Int) (s : State) : (push16 value s).Z = s.Z := by
  unfold push16
  simp

@[simp] theorem decSP_C (s : State) : (decSP s).C = s.C := rfl

@[simp] theorem push8_C (value : Int) (s : State) : (push8 value s).C = s.C := by
  unfold push8
  split_ifs <;> simp

@[simp] theorem push16_C (value : Int) (s : State) : (push16 value s).C = s.C := by
  unfold push16
  simp

@[simp] theorem decSP_failflag (s : State) : (decSP s).failflag = s.failflag := rfl

@[simp] theorem push8_failflag (value : Int) (s : State) : (push8 value s).failflag = s.failflag := by
  unfold push8
  split_ifs <;> simp

@[simp] theorem push16_failflag (value : Int) (s : State) : (push16 value s).failflag = s.failflag := by
  unfold push16
  simp

@[simp] theorem decSP_PC (s : State) : (decSP s).PC = s.PC := rfl

@[simp] theorem push8_PC (value : Int) (s : State) : (push8 value s).PC = s.PC := by
  unfold push8
  split_ifs <;> simp

@[simp] theorem push16_PC (value : Int) (s : State) : (push16 value s).PC = s.PC := by
  unfold push16
  simp

@[simp] theorem decSP_PB (s : State) : (decSP s).PB = s.PB := rfl

@[simp] theorem push8_PB (value : Int) (s : State) : (push8 value s).PB = s.PB := by
  unfold push8
  split_ifs <;> simp

@[simp] theorem push16_PB (value : Int) (s : State) : (push16 value s).PB = s.PB := by
  unfold push16
  simp

@[simp] theorem decSP_DB (s : State) : (decSP s).DB = s.DB := rfl

@[simp] theorem push8_DB (value : Int) (s : State) : (push8 value s).DB = s.DB := by
  unfold push8
  split_ifs <;> simp

@[simp] theorem push16_DB (value : Int) (s : State) : (push16 value s).DB = s.DB := by
  unfold push16
  simp

@[simp] theorem decSP_DP (s : State) : (decSP s).DP = s.DP := rfl

@[simp] theorem push8_DP (value : Int) (s : State) : (push8 value s).DP = s.DP := by
  unfold push8
  split_ifs <;> simp

@[simp] theorem push16_DP (value : Int) (s : State) : (push16 value s).DP = s.DP := by
  unfold push16
  simp

@[simp] theorem decSP_A (s : State) : (decSP s).A = s.A := rfl

@[simp] theorem push8_A (value : Int) (s : State) : (push8 value s).A = s.A := by
  unfold push8
  split_ifs <;> simp

@[simp] theorem push16_A (value : Int) (s : State) : (push16 value s).A = s.A := by
  unfold push16
  simp

@[simp] theorem decSP_B (s : State) : (decSP s).B = s.B := rfl

@[simp] theorem push8_B (value : Int) (s : State) : (push8 value s).B = s.B := by
  unfold push8
  split_ifs <;> simp

@[simp] theorem push16_B (value : Int) (s : State) : (push16 value s).B = s.B := by
  unfold push16
  simp

@[simp] theorem decSP_X (s : State) : (decSP s).X = s.X := rfl

@[simp] theorem push8_X (value : Int) (s : State) : (push8 value s).X = s.X := by
  unfold push8
  split_ifs <;> simp

@[simp] theorem push16_X (value : Int) (s : State) : (push16 value s).X = s.X := by
  unfold push16
  simp

@[simp] theorem decSP_Y (s : State) : (decSP s).Y = s.Y := rfl

@[simp] theorem push8_Y (value : Int) (s : State) : (push8 value s).Y = s.Y := by
  unfold push8
  split_ifs <;> simp

@[simp] theorem push16_Y (value : Int) (s : State) : (push16 value s).Y = s.Y := by
  unfold push16
  simp

theorem push8_SL (value : Int) (s : State) :
    (push8 value s).SL = if s.SL ≥ 0 then (s.SL - 1) % 256 else s.SL := by
  unfold push8 decSP
  split_ifs <;> simp_all [c_and_ff]

theorem push8_SL_of_known (value : Int) (s : State) (h : 0 ≤ s.SL) :
    (push8 value s).SL = (s.SL - 1) % 256 := by
  rw [push8_SL, if_pos h]

@[simp] theorem emulation_mode_on_N (s : State) : (emulation_mode_on s).N = s.N := rfl

@[simp] theorem emulation_mode_on_V (s : State) : (emulation_mode_on s).V = s.V := rfl

@[simp] theorem emulation_mode_on_D (s : State) : (emulation_mode_on s).D = s.D := rfl

@[simp] theorem emulation_mode_on_I (s : State) : (emulation_mode_on s).I = s.I := rfl

@[simp] theorem emulation_mode_on_Z (s : State) : (emulation_mode_on s).Z = s.Z := rfl

@[simp] theorem emulation_mode_on_C (s : State) : (emulation_mode_on s).C = s.C := rfl

@[simp] theorem emulation_mode_on_SL (s : State) : (emulation_mode_on s).SL = s.SL := rfl

@[simp] theorem emulation_mode_on_PC (s : State) : (emulation_mode_on s).PC = s.PC := rfl

@[simp] theorem emulation_mode_on_PB (s : State) : (emulation_mode_on s).PB = s.PB := rfl

@[simp] theorem emulation_mode_on_DB (s : State) : (emulation_mode_on s).DB = s.DB := rfl

@[simp] theorem emulation_mode_on_DP (s : State) : (emulation_mode_on s).DP = s.DP := rfl

@[simp] theorem emulation_mode_on_A (s : State) : (emulation_mode_on s).A = s.A := rfl

@[simp] theorem emulation_mode_on_B (s : State) : (emulation_mode_on s).B = s.B := rfl

@[simp] theorem emulation_mode_on_failflag (s : State) :
    (emulation_mode_on s).failflag = if s.E = 0 then 1 else s.failflag := rfl

@[simp] theorem check_FLAGS_N (operand : Int) (s : State) :
    (check_FLAGS operand s).N = s.N := rfl

@[simp] theorem check_FLAGS_V (operand : Int) (s : State) :
    (check_FLAGS operand s).V = s.V := rfl

@[simp] theorem check_FLAGS_D (operand : Int) (s : State) :
    (check_FLAGS operand s).D = s.D := rfl

@[simp] theorem check_FLAGS_I (operand : Int) (s : State) :
    (check_FLAGS operand s).I = s.I := rfl

@[simp] theorem check_FLAGS_Z (operand : Int) (s : State) :
    (check_FLAGS operand s).Z = s.Z := rfl

@[simp] theorem check_FLAGS_C (operand : Int) (s : State) :
    (check_FLAGS operand s).C = s.C := rfl

@[simp] theorem check_FLAGS_SL (operand : Int) (s : State) :
    (check_FLAGS operand s).SL = s.SL := rfl

@[simp] theorem check_FLAGS_PC (operand : Int) (s : State) :
    (check_FLAGS operand s).PC = s.PC := rfl

@[simp] theorem check_FLAGS_PB (operand : Int) (s : State) :
    (check_FLAGS operand s).PB = s.PB := rfl

@[simp] theorem check_FLAGS_DB (operand : Int) (s : State) :
    (check_FLAGS operand s).DB = s.DB := rfl

@[simp] theorem check_FLAGS_DP (operand : Int) (s : State) :
    (check_FLAGS operand s).DP = s.DP := rfl

@[simp] theorem check_FLAGS_A (operand : Int) (s : State) :
    (check_FLAGS operand s).A = s.A := rfl

@[simp] theorem check_FLAGS_B (operand : Int) (s : State) :
    (check_FLAGS operand s).B = s.B := rfl

@[simp] theorem check_FLAGS_X (operand : Int) (s : State) :
    (check_FLAGS operand s).X = s.X := rfl

@[simp] theorem check_FLAGS_Y (operand : Int) (s : State) :
    (check_FLAGS operand s).Y = s.Y := rfl

@[simp] theorem set_FLAGS_SL (operand : Int) (s : State) :
    (set_FLAGS operand s).SL = s.SL := rfl

@[simp] theorem set_FLAGS_failflag (operand : Int) (s : State) :
    (set_FLAGS operand s).failflag = s.failflag := rfl

@[simp] theorem set_FLAGS_PC (operand : Int) (s : State) :
    (set_FLAGS operand s).PC = s.PC := rfl

@[simp] theorem set_FLAGS_PB (operand : Int) (s : State) :
    (set_FLAGS operand s).PB = s.PB := rfl

@[simp] theorem set_FLAGS_DB (operand : Int) (s : State) :
    (set_FLAGS operand s).DB = s.DB := rfl

@[simp] theorem set_FLAGS_DP (operand : Int) (s : State) :
    (set_FLAGS operand s).DP = s.DP := rfl

@[simp] theorem set_FLAGS_A (operand : Int) (s : State) :
    (set_FLAGS operand s).A = s.A := rfl

@[simp] theorem set_FLAGS_B (operand : Int) (s : State) :
    (set_FLAGS operand s).B = s.B := rfl

theorem set_FLAGS_N (operand : Int) (s : State) :
    (set_FLAGS operand s).N = bit operand 7 := by
  unfold set_FLAGS x_flag_updated bit
  simp [c_bit_eq]

theorem set_FLAGS_V (operand : Int) (s : State) :
    (set_FLAGS operand s).V = bit operand 6 := by
  unfold set_FLAGS x_flag_updated bit
  simp [c_bit_eq]

theorem set_FLAGS_D (operand : Int) (s : State) :
    (set_FLAGS operand s).D = bit operand 3 := by
  unfold set_FLAGS x_flag_updated bit
  simp [c_bit_eq]

theorem set_FLAGS_I (operand : Int) (s : State) :
    (set_FLAGS operand s).I = bit operand 2 := by
  unfold set_FLAGS x_flag_updated bit
  simp [c_bit_eq]

theorem set_FLAGS_Z (operand : Int) (s : State) :
    (set_FLAGS operand s).Z = bit operand 1 := by
  unfold set_FLAGS x_flag_updated bit
  simp [c_bit_eq]

theorem set_FLAGS_C (operand : Int) (s : State) :
    (set_FLAGS operand s).C = bit operand 0 := by
  unfold set_FLAGS x_flag_updated bit
  simp [c_bit_eq]

@[simp] theorem bus_type (l : List Int) (i : Int) : (bus l i).type = sample_type_t.UNKNOWN := rfl

/-- `x | 0` is `x` for every `int` x. -/
theorem c_or_zero {x : Int} (h0 : -2147483648 ≤ x) (h1 : x < 2147483648) : c_or x 0 = x := by
  unfold c_or
  have hz : toU32 0 = 0 := by decide
  rw [hz, Nat.or_zero]
  unfold ofU32
  have hc := toU32_cast x
  split_ifs with h <;> omega

set_option maxRecDepth 1000000 in
theorem disassemble_op1_enum : (List.enum instr_table_65c816).all (fun p =>
    decide (2 ≤ (init_instr p.2).len →
      (disassemble_entry (init_instr p.2) { opcode := ((p.1 : Nat) : Int), op1 := 0 }).1 ≠
        (disassemble_entry (init_instr p.2) { opcode := ((p.1 : Nat) : Int), op1 := 1 }).1))
      = true := by
  decide

set_option maxRecDepth 1000000 in
theorem disassemble_op2_enum : (List.enum instr_table_65c816).all (fun p =>
    decide (3 ≤ (init_instr p.2).len →
      (disassemble_entry (init_instr p.2) { opcode := ((p.1 : Nat) : Int), op2 := 0 }).1 ≠
        (disassemble_entry (init_instr p.2) { opcode := ((p.1 : Nat) : Int), op2 := 1 }).1))
      = true := by
  decide

set_option maxRecDepth 1000000 in
theorem disassemble_op3_enum : (List.enum instr_table_65c816).all (fun p =>
    decide (4 ≤ (init_instr p.2).len →
      (disassemble_entry (init_instr p.2) { opcode := ((p.1 : Nat) : Int), op3 := 0 }).1 ≠
        (disassemble_entry (init_instr p.2) { opcode := ((p.1 : Nat) : Int), op3 := 1 }).1))
      = true := by
  decide

theorem disassemble_op1_nat (n : Nat) (hn : n < 256)
    (h : 2 ≤ (instr_table ((n : Nat) : Int)).len) :
    (em_65816_disassemble { opcode := ((n : Nat) : Int), op1 := 0 }).1 ≠
      (em_65816_disassemble { opcode := ((n : Nat) : Int), op1 := 1 }).1 :=
  of_decide_eq_true (instr_table_of_enum
    (fun i e => decide (2 ≤ e.len →
      (disassemble_entry e { opcode := ((i : Nat) : Int), op1 := 0 }).1 ≠
        (disassemble_entry e { opcode := ((i : Nat) : Int), op1 := 1 }).1))
    disassemble_op1_enum n hn) h

theorem disassemble_op2_nat (n : Nat) (hn : n < 256)
    (h : 3 ≤ (instr_table ((n : Nat) : Int)).len) :
    (em_65816_disassemble { opcode := ((n : Nat) : Int), op2 := 0 }).1 ≠
      (em_65816_disassemble { opcode := ((n : Nat) : Int), op2 := 1 }).1 :=
  of_decide_eq_true (instr_table_of_enum
    (fun i e => decide (3 ≤ e.len →
      (disassemble_entry e { opcode := ((i : Nat) : Int), op2 := 0 }).1 ≠
        (disassemble_entry e { opcode := ((i : Nat) : Int), op2 := 1 }).1))
    disassemble_op2_enum n hn) h

theorem disassemble_op3_nat (n : Nat) (hn : n < 256)
    (h : 4 ≤ (instr_table ((n : Nat) : Int)).len) :
    (em_65816_disassemble { opcode := ((n : Nat) : Int), op3 := 0 }).1 ≠
      (em_65816_disassemble { opcode := ((n : Nat) : Int), op3 := 1 }).1 :=
  of_decide_eq_true (instr_table_of_enum
    (fun i e => decide (4 ≤ e.len →
      (disassemble_entry e { opcode := ((i : Nat) : Int), op3 := 0 }).1 ≠
        (disassemble_entry e { opcode := ((i : Nat) : Int), op3 := 1 }).1))
    disassemble_op3_enum n hn) h

theorem instr_table_len (opcode : Int) :
    (instr_table opcode).len = (addr_mode_table (instr_table opcode).mode).1 := rfl

theorem disassemble_ignores_op1 (ins : instruction_t) (v w : Int)
    (h : (instr_table ins.opcode).len < 2) :
    (em_65816_disassemble { ins with op1 := v }).1 =
      (em_65816_disassemble { ins with op1 := w }).1 := by
  rw [instr_table_len] at h
  unfold em_65816_disassemble disassemble_entry
  simp only []
  cases hm : (instr_table ins.opcode).mode <;> rw [hm] at h <;>
    first
    | rfl
    | exact absurd h (by decide)

theorem disassemble_ignores_op2 (ins : instruction_t) (v w : Int) (hc : ins.opcount ≠ 2)
    (h : (instr_table ins.opcode).len < 3) :
    (em_65816_disassemble { ins with op2 := v }).1 =
      (em_65816_disassemble { ins with op2 := w }).1 := by
  rw [instr_table_len] at h
  unfold em_65816_disassemble disassemble_entry
  simp only []
  cases hm : (instr_table ins.opcode).mode <;> rw [hm] at h <;>
    first
    | rfl
    | exact absurd h (by decide)
    | simp [hc]

theorem disassemble_ignores_op3 (ins : instruction_t) (v w : Int)
    (h : (instr_table ins.opcode).len < 4) :
    (em_65816_disassemble { ins with op3 := v }).1 =
      (em_65816_disassemble { ins with op3 := w }).1 := by
  rw [instr_table_len] at h
  unfold em_65816_disassemble disassemble_entry
  simp only []
  cases hm : (instr_table ins.opcode).mode <;> rw [hm] at h <;>
    first
    | rfl
    | exact absurd h (by decide)

theorem emulate_opcount_not_IMM (instr : InstrType) (s : State) (h : instr.mode ≠ AddrMode.IMM) :
    emulate_opcount instr s = instr.len - 1 := by
  unfold emulate_opcount
  rw [if_neg (fun hc => h hc.1)]
  omega

theorem interrupt_opcount (sample_q : Int → sample_t) (num_cycles : Int)
    (instruction : instruction_t) (pc_offset : Int) (s : State) :
    (interrupt sample_q num_cycles instruction pc_offset s).2.opcount = instruction.opcount :=
  rfl

theorem em_65816_emulate_opcount (sample_q : Int → sample_t) (num_cycles : Int)
    (instruction : instruction_t) (s : State) :
    (em_65816_emulate sample_q num_cycles instruction s).2.opcount =
      emulate_opcount (instr_table (sample_q 0).data)
        (emulate_infer_xs sample_q num_cycles
          (emulate_infer_ms sample_q num_cycles (emulate_e_pin sample_q s))) := by
  unfold em_65816_emulate
  dsimp only
  split
  · rw [interrupt_opcount]
  · dsimp only
    split
    · rfl
    · split <;> rfl

/-! ## Lemmas: cycle bounds, decimal arithmetic and the state dump -/

/-- `(x & 2^k) != 0` says that bit `k` of `x` is 1. -/
theorem c_and_pow_ne_zero {x : Int} (hx0 : 0 ≤ x) (hx : x < 2147483648) (k : Nat) (hk : k < 31) :
    c_and x (2 ^ k) ≠ 0 ↔ bit x k = 1 := by
  have h := c_and_shifted_mask hx0 hx 1 k (by omega)
  have e : ((2 : Int) ^ 1 - 1) * 2 ^ k = 2 ^ k := by norm_num
  rw [e] at h
  rw [h]
  unfold bit
  have hpos : (0 : Int) < 2 ^ k := by positivity
  have h2 : x / 2 ^ k % 2 ^ 1 = x / 2 ^ k % 2 := by norm_num
  rw [h2]
  have hm := Int.emod_two_eq_zero_or_one (x / 2 ^ k)
  rcases hm with hm | hm
  · rw [hm]
    simp
  · rw [hm]
    simp

theorem c_and_1f (x : Int) : c_and x 0x1f = x % 32 := by
  have := c_and_mask x 5 (by decide); simpa using this

set_option maxRecDepth 1000000 in
theorem abs_indexed_enum : (List.enum instr_table_65c816).all (fun p =>
    decide ((init_instr p.2).mode = AddrMode.ABSX ∨ (init_instr p.2).mode = AddrMode.ABSY →
      p.1 ≠ 0 ∧ p.1 ≠ 2 ∧ p.1 ≠ 0x40 ∧ p.1 ≠ 0x80 ∧ p.1 % 32 ≠ 16 ∧
        1 ≤ (init_instr p.2).cycles)) = true := by
  decide

theorem abs_indexed_opcodes {opcode : Int} (h0 : 0 ≤ opcode) (h1 : opcode < 256)
    (hm : (instr_table opcode).mode = AddrMode.ABSX ∨
      (instr_table opcode).mode = AddrMode.ABSY) :
    opcode ≠ 0 ∧ opcode ≠ 2 ∧ opcode ≠ 0x40 ∧ opcode ≠ 0x80 ∧ c_and opcode 0x1f ≠ 0x10 ∧
      1 ≤ (instr_table opcode).cycles := by
  obtain ⟨n, rfl⟩ := Int.eq_ofNat_of_zero_le h0
  have hn : n < 256 := by omega
  have := of_decide_eq_true (instr_table_of_enum
    (fun i e => decide (e.mode = AddrMode.ABSX ∨ e.mode = AddrMode.ABSY →
      i ≠ 0 ∧ i ≠ 2 ∧ i ≠ 0x40 ∧ i ≠ 0x80 ∧ i % 32 ≠ 16 ∧ 1 ≤ e.cycles))
    abs_indexed_enum n hn) hm
  rw [c_and_1f]
  refine ⟨?_, ?_, ?_, ?_, ?_, this.2.2.2.2.2⟩ <;> omega

set_option maxRecDepth 1000000 in
theorem cycles_bound_enum : (List.enum instr_table_65c816).all (fun p =>
    decide (0 ≤ (init_instr p.2).m_extra ∧ 0 ≤ (init_instr p.2).x_extra ∧
      1 ≤ (init_instr p.2).cycles - (if p.1 = 0x80 then 1 else 0) ∧
      (init_instr p.2).cycles + (init_instr p.2).m_extra + (init_instr p.2).x_extra +
        (if (init_instr p.2).mode.val ≤ 7 then 1 else 0) +
        (if p.1 = 0x40 then 1 else 0) +
        (if (init_instr p.2).mode = AddrMode.INDY ∧
            (init_instr p.2).optype ≠ OpType.WRITEOP then 1 else 0) +
        (if ((init_instr p.2).mode = AddrMode.ABSX ∨ (init_instr p.2).mode = AddrMode.ABSY) ∧
            (init_instr p.2).optype = OpType.READOP then 1 else 0) +
        (if p.1 % 32 = 16 ∨ p.1 = 0x80 then 2 else 0) -
        (if p.1 = 0x80 then 1 else 0) ≤ 9)) = true := by
  decide

theorem cycles_bound {opcode : Int} (h0 : 0 ≤ opcode) (h1 : opcode < 256) :
    0 ≤ (instr_table opcode).m_extra ∧ 0 ≤ (instr_table opcode).x_extra ∧
      1 ≤ (instr_table opcode).cycles - (if opcode = 0x80 then 1 else 0) ∧
      (instr_table opcode).cycles + (instr_table opcode).m_extra +
        (instr_table opcode).x_extra +
        (if (instr_table opcode).mode.val ≤ 7 then 1 else 0) +
        (if opcode = 0x40 then 1 else 0) +
        (if (instr_table opcode).mode = AddrMode.INDY ∧
            (instr_table opcode).optype ≠ OpType.WRITEOP then 1 else 0) +
        (if ((instr_table opcode).mode = AddrMode.ABSX ∨
            (instr_table opcode).mode = AddrMode.ABSY) ∧
            (instr_table opcode).optype = OpType.READOP then 1 else 0) +
        (if opcode % 32 = 16 ∨ opcode = 0x80 then 2 else 0) -
        (if opcode = 0x80 then 1 else 0) ≤ 9 := by
  obtain ⟨n, rfl⟩ := Int.eq_ofNat_of_zero_le h0
  have hn : n < 256 := by omega
  have := of_decide_eq_true (instr_table_of_enum
    (fun i e => decide (0 ≤ e.m_extra ∧ 0 ≤ e.x_extra ∧
      1 ≤ e.cycles - (if i = 0x80 then 1 else 0) ∧
      e.cycles + e.m_extra + e.x_extra +
        (if e.mode.val ≤ 7 then 1 else 0) +
        (if i = 0x40 then 1 else 0) +
        (if e.mode = AddrMode.INDY ∧ e.optype ≠ OpType.WRITEOP then 1 else 0) +
        (if (e.mode = AddrMode.ABSX ∨ e.mode = AddrMode.ABSY) ∧
            e.optype = OpType.READOP then 1 else 0) +
        (if i % 32 = 16 ∨ i = 0x80 then 2 else 0) -
        (if i = 0x80 then 1 else 0) ≤ 9))
    cycles_bound_enum n hn)
  have e1 : ((n : Int) = 0x80) ↔ n = 0x80 := by omega
  have e2 : ((n : Int) = 0x40) ↔ n = 0x40 := by omega
  have e3 : ((n : Int) % 32 = 16) ↔ n % 32 = 16 := by omega
  simp only [e1, e2, e3]
  exact this

theorem get_num_cycles_range_aux (sample_q : Int → sample_t) (intr_seen : Int) (s : State)
    (hop : 0 ≤ (sample_q 0).data ∧ (sample_q 0).data < 256) :
    get_num_cycles sample_q intr_seen s = -1 ∨
      (1 ≤ get_num_cycles sample_q intr_seen s ∧ get_num_cycles sample_q intr_seen s ≤ 9) := by
  suffices h : ∀ r, r = get_num_cycles sample_q intr_seen s → r = -1 ∨ (1 ≤ r ∧ r ≤ 9) from
    h _ rfl
  intro r
  unfold get_num_cycles
  lift_lets
  intro opcode op1 op2 instr cc0 cc1 cc2 dpextra cc3 base1 cc4 absidx index base correction
    cc5 taken cc6 cc7 target page_cross hr
  obtain ⟨hm, hx, hlo, hhi⟩ : 0 ≤ instr.m_extra ∧ 0 ≤ instr.x_extra ∧
      1 ≤ instr.cycles - (if opcode = 0x80 then 1 else 0) ∧
      instr.cycles + instr.m_extra + instr.x_extra +
        (if instr.mode.val ≤ 7 then 1 else 0) +
        (if opcode = 0x40 then 1 else 0) +
        (if instr.mode = AddrMode.INDY ∧ instr.optype ≠ OpType.WRITEOP then 1 else 0) +
        (if (instr.mode = AddrMode.ABSX ∨ instr.mode = AddrMode.ABSY) ∧
            instr.optype = OpType.READOP then 1 else 0) +
        (if opcode % 32 = 16 ∨ opcode = 0x80 then 2 else 0) -
        (if opcode = 0x80 then 1 else 0) ≤ 9 := cycles_bound hop.1 hop.2
  have hzp : AddrMode.ZP.val = 7 := rfl
  have h0 : cc0 = instr.cycles := rfl
  clear_value instr opcode op1 op2
  revert hr
  have h1 : cc0 ≤ cc1 ∧ cc1 ≤ cc0 + instr.m_extra := by
    simp only [cc1]
    split_ifs <;> omega
  have h2 : cc1 ≤ cc2 ∧ cc2 ≤ cc1 + instr.x_extra := by
    simp only [cc2]
    split_ifs <;> omega
  have hdp : 0 ≤ dpextra ∧ dpextra ≤ (if instr.mode.val ≤ 7 then 1 else 0) := by
    simp only [dpextra, hzp]
    split_ifs <;> omega
  have h3 : cc2 ≤ cc3 ∧ cc3 ≤ cc2 + (if opcode = 0x40 then 1 else 0) := by
    simp only [cc3]
    split_ifs <;> omega
  have h4 : cc3 ≤ cc4 ∧ cc4 ≤ cc3 +
      (if instr.mode = AddrMode.INDY ∧ instr.optype ≠ OpType.WRITEOP then 1 else 0) := by
    simp only [cc4]
    split_ifs with a b
    · omega
    · exact absurd ⟨a.1.1, a.1.2.1⟩ b
    · omega
    · omega
  have h5 : cc4 ≤ cc5 ∧ cc5 ≤ cc4 +
      (if (instr.mode = AddrMode.ABSX ∨ instr.mode = AddrMode.ABSY) ∧
        instr.optype = OpType.READOP then 1 else 0) := by
    simp only [cc5]
    split_ifs with a b
    · omega
    · exact absurd a.1 b
    · omega
    · omega
  have h6 : cc6 = cc5 - (if opcode = 0x80 then 1 else 0) := by
    simp only [cc6]
    split_ifs <;> omega
  have h7 : cc7 = cc6 + 1 := rfl
  have hpc : page_cross ≤ 1 := by
    simp only [page_cross]
    split_ifs <;> omega
  clear_value cc0 cc1 cc2 cc3 cc4 cc5 cc6 cc7 dpextra page_cross taken correction
  generalize (if instr.mode.val ≤ 7 then (1 : Int) else 0) = i1 at hhi hdp
  generalize (if opcode = 0x40 then (1 : Int) else 0) = i2 at hhi h3
  generalize (if instr.mode = AddrMode.INDY ∧ instr.optype ≠ OpType.WRITEOP
    then (1 : Int) else 0) = i3 at hhi h4
  generalize (if (instr.mode = AddrMode.ABSX ∨ instr.mode = AddrMode.ABSY) ∧
    instr.optype = OpType.READOP then (1 : Int) else 0) = i4 at hhi h5
  have hL : 1 ≤ cc6 := by omega
  have hU : cc6 + dpextra + (if opcode % 32 = 16 ∨ opcode = 0x80 then 2 else 0) ≤ 9 := by
    omega
  have hL5 : 1 ≤ cc5 := by omega
  have hU5 : ¬ (opcode % 32 = 16 ∨ opcode = 0x80) → cc5 + dpextra ≤ 9 := by
    intro hb
    have e5 : cc6 = cc5 := by
      rw [h6, if_neg (fun h => hb (Or.inr h))]
      omega
    rw [if_neg hb] at hU
    omega
  have hd0 : 0 ≤ dpextra := hdp.1
  clear hhi hlo h0 h1 h2 h3 h4 h5 h6 hdp hm hx
  clear_value index base target base1
  intro hr
  rw [c_and_1f] at hr
  by_cases a1 : intr_seen ≠ 0 ∨ opcode = 0 ∨ opcode = 2
  · rw [if_pos a1] at hr
    by_cases a2 : s.E = 0
    · rw [if_pos a2] at hr
      omega
    · rw [if_neg a2] at hr
      omega
  rw [if_neg a1] at hr
  by_cases a3 : instr.m_extra ≠ 0 ∧ ¬ (s.E = 0 ∧ s.MS = 0) ∧ ¬ (s.E > 0 ∨ s.MS > 0)
  · rw [if_pos a3] at hr
    exact Or.inl hr
  rw [if_neg a3] at hr
  by_cases a4 : instr.x_extra ≠ 0 ∧ ¬ (s.E = 0 ∧ s.XS = 0) ∧ ¬ (s.E > 0 ∨ s.XS > 0)
  · rw [if_pos a4] at hr
    exact Or.inl hr
  rw [if_neg a4] at hr
  by_cases a5 : opcode = 64 ∧ s.E ≠ 0 ∧ s.E < 0
  · rw [if_pos a5] at hr
    exact Or.inl hr
  rw [if_neg a5] at hr
  by_cases a6 : absidx ∧ ¬ (s.XS = 0 ∨ correction = 1) ∧ (s.XS < 0 ∨ correction < 0)
  · rw [if_pos a6] at hr
    exact Or.inl hr
  rw [if_neg a6] at hr
  clear a1 a3 a4 a5 a6
  by_cases a7 : opcode % 32 = 16 ∨ opcode = 128
  · rw [if_pos a7] at hr hU
    by_cases a8 : taken < 0
    · rw [if_pos a8] at hr
      exact Or.inl hr
    rw [if_neg a8] at hr
    by_cases a9 : taken ≠ 0
    · rw [if_pos a9] at hr
      by_cases a10 : page_cross < 0
      · rw [if_pos a10] at hr
        exact Or.inl hr
      · rw [if_neg a10] at hr
        omega
    · rw [if_neg a9] at hr
      omega
  · rw [if_neg a7] at hr
    have := hU5 a7
    omega

theorem c_or_shifted {x y : Int} (k : Nat) (hx0 : 0 ≤ x) (hx : x < 2 ^ k) (hy0 : 0 ≤ y)
    (hsum : x + y * 2 ^ k < 2147483648) : c_or x (y * 2 ^ k) = x + y * 2 ^ k := by
  obtain ⟨n, rfl⟩ := Int.eq_ofNat_of_zero_le hx0
  obtain ⟨p, rfl⟩ := Int.eq_ofNat_of_zero_le hy0
  have hn : n < 2 ^ k := by exact_mod_cast hx
  have hs : n + p * 2 ^ k < 2147483648 := by exact_mod_cast hsum
  have e1 : ((p : Int) * 2 ^ k) = ((p * 2 ^ k : Nat) : Int) := by push_cast; rfl
  unfold c_or
  rw [e1, toU32_natCast (by omega), toU32_natCast (by omega), Nat.lor_comm,
    Nat.mul_comm p, ← Nat.mul_add_lt_is_or hn, ofU32_of_lt (by rw [Nat.mul_comm]; omega)]
  push_cast
  ring

theorem adc_nibble_step (acc operand tmp cin v : Int) (bit : Nat) (hbit : bit ≤ 12)
    (ha : 0 ≤ acc / 2 ^ bit % 16 ∧ acc / 2 ^ bit % 16 ≤ 9)
    (hb : 0 ≤ operand / 2 ^ bit % 16 ∧ operand / 2 ^ bit % 16 ≤ 9)
    (hc : 0 ≤ cin ∧ cin ≤ 1) (ht : 0 ≤ tmp ∧ tmp < 2 ^ bit) :
    (adc_nibble acc operand (tmp, cin, v) bit).1 =
      tmp + ((acc / 2 ^ bit % 16 + operand / 2 ^ bit % 16 + cin) % 10) * 2 ^ bit ∧
    (adc_nibble acc operand (tmp, cin, v) bit).2.1 =
      (acc / 2 ^ bit % 16 + operand / 2 ^ bit % 16 + cin) / 10 := by
  have hp : (2 : Int) ^ bit ≤ 2 ^ 12 := pow_le_pow_right₀ (by norm_num) hbit
  have hp0 : (0 : Int) < 2 ^ bit := by positivity
  unfold adc_nibble
  simp only [c_shr_eq, c_and_F, c_shl_eq]
  generalize acc / 2 ^ bit % 16 = an at *
  generalize operand / 2 ^ bit % 16 = bn at *
  by_cases h : an + bn + cin ≥ 10
  · rw [if_pos h]
    have e : (an + bn + cin - 10) % 16 = (an + bn + cin) % 10 := by omega
    have e0 : 0 ≤ (an + bn + cin) % 10 ∧ (an + bn + cin) % 10 ≤ 9 := by omega
    simp only [e]
    refine ⟨c_or_shifted bit ht.1 ht.2 e0.1 ?_, ?_⟩
    · nlinarith
    · show (1 : Int) = _
      omega
  · rw [if_neg h]
    have e : an + bn + cin = (an + bn + cin) % 10 := by omega
    have e0 : 0 ≤ (an + bn + cin) % 10 ∧ (an + bn + cin) % 10 ≤ 9 := by omega
    refine ⟨?_, ?_⟩
    · show c_or tmp ((an + bn + cin) * 2 ^ bit) = _
      rw [← e]
      refine c_or_shifted bit ht.1 ht.2 (by omega) ?_
      nlinarith
    · show (0 : Int) = _
      omega

theorem set_NZ_AB_A (A B : Int) (s : State) : (set_NZ_AB A B s).A = s.A := by
  unfold set_NZ_AB
  split_ifs <;> rfl

theorem set_NZ_AB_B (A B : Int) (s : State) : (set_NZ_AB A B s).B = s.B := by
  unfold set_NZ_AB
  split_ifs <;> rfl

theorem set_NZ_AB_C (A B : Int) (s : State) : (set_NZ_AB A B s).C = s.C := by
  unfold set_NZ_AB
  split_ifs <;> rfl

theorem adc_fold_two (acc operand c v : Int)
    (ha : acc % 16 ≤ 9 ∧ acc / 16 % 16 ≤ 9) (hb : operand % 16 ≤ 9 ∧ operand / 16 % 16 ≤ 9)
    (hc : 0 ≤ c ∧ c ≤ 1) :
    ([0, 4].foldl (adc_nibble acc operand) (0, c, v)).1 =
      (acc % 16 + operand % 16 + c) % 10 +
        16 * ((acc / 16 % 16 + operand / 16 % 16 + (acc % 16 + operand % 16 + c) / 10) % 10) ∧
    ([0, 4].foldl (adc_nibble acc operand) (0, c, v)).2.1 =
      (acc / 16 % 16 + operand / 16 % 16 + (acc % 16 + operand % 16 + c) / 10) / 10 := by
  have s1 := adc_nibble_step acc operand 0 c v 0 (by decide)
    (by norm_num; omega) (by norm_num; omega) hc (by norm_num)
  norm_num at s1
  have s2 := adc_nibble_step acc operand (adc_nibble acc operand (0, c, v) 0).1
    (adc_nibble acc operand (0, c, v) 0).2.1 (adc_nibble acc operand (0, c, v) 0).2.2 4
    (by decide) (by norm_num; omega) (by norm_num; omega)
    (by rw [s1.2]; omega) (by rw [s1.1]; norm_num; omega)
  norm_num at s2
  simp only [List.foldl]
  rw [s1.1, s1.2] at s2
  constructor
  · rw [s2.1]
    ring
  · rw [s2.2]

theorem adc_fold_four (acc operand c v : Int)
    (ha : acc % 16 ≤ 9 ∧ acc / 16 % 16 ≤ 9 ∧ acc / 256 % 16 ≤ 9 ∧ acc / 4096 % 16 ≤ 9)
    (hb : operand % 16 ≤ 9 ∧ operand / 16 % 16 ≤ 9 ∧ operand / 256 % 16 ≤ 9 ∧
      operand / 4096 % 16 ≤ 9)
    (hc : 0 ≤ c ∧ c ≤ 1) :
    ([0, 4, 8, 12].foldl (adc_nibble acc operand) (0, c, v)).1 =
      (acc % 16 + operand % 16 + c) % 10 +
        16 * ((acc / 16 % 16 + operand / 16 % 16 + (acc % 16 + operand % 16 + c) / 10) % 10) +
        256 * ((acc / 256 % 16 + operand / 256 % 16 +
          (acc / 16 % 16 + operand / 16 % 16 + (acc % 16 + operand % 16 + c) / 10) / 10) % 10) +
        4096 * ((acc / 4096 % 16 + operand / 4096 % 16 +
          (acc / 256 % 16 + operand / 256 % 16 +
            (acc / 16 % 16 + operand / 16 % 16 + (acc % 16 + operand % 16 + c) / 10) / 10) /
              10) % 10) ∧
    ([0, 4, 8, 12].foldl (adc_nibble acc operand) (0, c, v)).2.1 =
      (acc / 4096 % 16 + operand / 4096 % 16 +
        (acc / 256 % 16 + operand / 256 % 16 +
          (acc / 16 % 16 + operand / 16 % 16 + (acc % 16 + operand % 16 + c) / 10) / 10) /
            10) / 10 := by
  simp only [List.foldl]
  have s1 := adc_nibble_step acc operand 0 c v 0 (by decide)
    (by norm_num; omega) (by norm_num; omega) hc (by norm_num)
  norm_num at s1
  set st1 := adc_nibble acc operand (0, c, v) 0 with hst1
  have s2 := adc_nibble_step acc operand st1.1 st1.2.1 st1.2.2 4
    (by decide) (by norm_num; omega) (by norm_num; omega)
    (by rw [s1.2]; omega) (by rw [s1.1]; norm_num; omega)
  norm_num at s2
  rw [s1.1, s1.2] at s2
  set st2 := adc_nibble acc operand st1 4 with hst2
  have s3 := adc_nibble_step acc operand st2.1 st2.2.1 st2.2.2 8
    (by decide) (by norm_num; omega) (by norm_num; omega)
    (by rw [s2.2]; omega) (by rw [s2.1]; norm_num; omega)
  norm_num at s3
  rw [s2.1, s2.2] at s3
  set st3 := adc_nibble acc operand st2 8 with hst3
  have s4 := adc_nibble_step acc operand st3.1 st3.2.1 st3.2.2 12
    (by decide) (by norm_num; omega) (by norm_num; omega)
    (by rw [s3.2]; omega) (by rw [s3.1]; norm_num; omega)
  norm_num at s4
  rw [s3.1, s3.2] at s4
  constructor
  · rw [s4.1]
    ring
  · rw [s4.2]

theorem bcd_sum_two (a0 a1 m0 m1 c : Int) (h0 : 0 ≤ a0 ∧ a0 ≤ 9) (h1 : 0 ≤ a1 ∧ a1 ≤ 9)
    (k0 : 0 ≤ m0 ∧ m0 ≤ 9) (k1 : 0 ≤ m1 ∧ m1 ≤ 9) (hc : 0 ≤ c ∧ c ≤ 1) :
    (a0 + m0 + c) % 10 + 16 * ((a1 + m1 + (a0 + m0 + c) / 10) % 10) =
      bcd_enc ((a0 + 10 * a1 + (m0 + 10 * m1) + c) % 100) ∧
    (a1 + m1 + (a0 + m0 + c) / 10) / 10 =
      (if a0 + 10 * a1 + (m0 + 10 * m1) + c ≥ 100 then 1 else 0) := by
  unfold bcd_enc
  constructor
  · omega
  · split_ifs <;> omega

theorem bcd_sum_four (a0 a1 a2 a3 m0 m1 m2 m3 c : Int) (h0 : 0 ≤ a0 ∧ a0 ≤ 9)
    (h1 : 0 ≤ a1 ∧ a1 ≤ 9) (h2 : 0 ≤ a2 ∧ a2 ≤ 9) (h3 : 0 ≤ a3 ∧ a3 ≤ 9)
    (k0 : 0 ≤ m0 ∧ m0 ≤ 9) (k1 : 0 ≤ m1 ∧ m1 ≤ 9) (k2 : 0 ≤ m2 ∧ m2 ≤ 9)
    (k3 : 0 ≤ m3 ∧ m3 ≤ 9) (hc : 0 ≤ c ∧ c ≤ 1) :
    (a0 + m0 + c) % 10 + 16 * ((a1 + m1 + (a0 + m0 + c) / 10) % 10) +
        256 * ((a2 + m2 + (a1 + m1 + (a0 + m0 + c) / 10) / 10) % 10) +
        4096 * ((a3 + m3 + (a2 + m2 + (a1 + m1 + (a0 + m0 + c) / 10) / 10) / 10) % 10) =
      bcd_enc ((a0 + 10 * a1 + 100 * a2 + 1000 * a3 +
        (m0 + 10 * m1 + 100 * m2 + 1000 * m3) + c) % 10000) ∧
    (a3 + m3 + (a2 + m2 + (a1 + m1 + (a0 + m0 + c) / 10) / 10) / 10) / 10 =
      (if a0 + 10 * a1 + 100 * a2 + 1000 * a3 +
        (m0 + 10 * m1 + 100 * m2 + 1000 * m3) + c ≥ 10000 then 1 else 0) := by
  unfold bcd_enc
  constructor
  · omega
  · split_ifs <;> omega

theorem get_state_eq_foldl (hex2 hex4 : Int → List Char) (s : State) :
    em_65816_get_state hex2 hex4 s =
      ((state_writes hex2 hex4 s).foldl cond_write default_state.data, OFFSET_END) := rfl

theorem write_chars_length (b : List Char) (off : Nat) (cs : List Char)
    (h : off + cs.length ≤ b.length) : (write_chars b off cs).length = b.length := by
  unfold write_chars
  simp only [List.length_append, List.length_take, List.length_drop]
  omega

theorem write_chars_get (b : List Char) (off : Nat) (cs : List Char)
    (h : off + cs.length ≤ b.length) (i : Nat) :
    (write_chars b off cs)[i]? =
      if off ≤ i ∧ i < off + cs.length then cs[i - off]? else b[i]? := by
  unfold write_chars
  by_cases h1 : i < off
  · rw [if_neg (by omega), List.append_assoc, List.getElem?_append_left
      (by rw [List.length_take]; omega), List.getElem?_take_of_lt h1]
  · have ht : (List.take off b).length = off := by rw [List.length_take]; omega
    rw [List.append_assoc, List.getElem?_append_right (by omega), ht]
    by_cases h2 : i < off + cs.length
    · rw [if_pos ⟨by omega, h2⟩, List.getElem?_append_left (by omega)]
    · rw [if_neg (by omega), List.getElem?_append_right (by omega), List.getElem?_drop]
      congr 1
      omega

theorem cond_write_length (b : List Char) (w : Nat × List Char × Int)
    (h : w.1 + w.2.1.length ≤ b.length) : (cond_write b w).length = b.length := by
  unfold cond_write
  split_ifs
  · exact write_chars_length b w.1 w.2.1 h
  · rfl

theorem foldl_cond_write_length (l : List (Nat × List Char × Int)) :
    ∀ b : List Char, (∀ w ∈ l, w.1 + w.2.1.length ≤ b.length) →
      (l.foldl cond_write b).length = b.length := by
  induction l with
  | nil => intro b _; rfl
  | cons x xs ih =>
    intro b hb
    have hx := cond_write_length b x (hb x (List.mem_cons_self _ _))
    rw [List.foldl_cons, ih (cond_write b x) (fun w hw => by
      rw [hx]; exact hb w (List.mem_cons_of_mem _ hw)), hx]

theorem foldl_cond_write_unchanged (i : Nat) (l : List (Nat × List Char × Int)) :
    ∀ b : List Char, (∀ w ∈ l, w.1 + w.2.1.length ≤ b.length) →
      (∀ w ∈ l, w.1 ≤ i ∧ i < w.1 + w.2.1.length → w.2.2 < 0) →
      (l.foldl cond_write b)[i]? = b[i]? := by
  induction l with
  | nil => intro b _ _; rfl
  | cons x xs ih =>
    intro b hb hu
    have hx := cond_write_length b x (hb x (List.mem_cons_self _ _))
    rw [List.foldl_cons, ih (cond_write b x) (fun w hw => by
      rw [hx]; exact hb w (List.mem_cons_of_mem _ hw))
      (fun w hw => hu w (List.mem_cons_of_mem _ hw))]
    unfold cond_write
    split_ifs with hk
    · rw [write_chars_get b x.1 x.2.1 (hb x (List.mem_cons_self _ _)), if_neg]
      intro hc
      have := hu x (List.mem_cons_self _ _) hc
      omega
    · rfl

theorem foldl_cond_write_known (i : Nat) (w : Nat × List Char × Int) (hk : 0 ≤ w.2.2)
    (hc : w.1 ≤ i ∧ i < w.1 + w.2.1.length) (l : List (Nat × List Char × Int)) :
    ∀ b : List Char, (∀ x ∈ l, x.1 + x.2.1.length ≤ b.length) → w ∈ l →
      (∀ x ∈ l, x = w ∨ ¬ (x.1 ≤ i ∧ i < x.1 + x.2.1.length)) →
      (l.foldl cond_write b)[i]? = w.2.1[i - w.1]? := by
  induction l with
  | nil => intro b _ hm; exact absurd hm (List.not_mem_nil _)
  | cons x xs ih =>
    intro b hb hm hd
    have hx := cond_write_length b x (hb x (List.mem_cons_self _ _))
    have hb2 : ∀ y ∈ xs, y.1 + y.2.1.length ≤ (cond_write b x).length := fun y hy => by
      rw [hx]; exact hb y (List.mem_cons_of_mem _ hy)
    have hd2 : ∀ y ∈ xs, y = w ∨ ¬ (y.1 ≤ i ∧ i < y.1 + y.2.1.length) :=
      fun y hy => hd y (List.mem_cons_of_mem _ hy)
    rw [List.foldl_cons]
    by_cases hin : w ∈ xs
    · exact ih (cond_write b x) hb2 hin hd2
    · have hxw : x = w := by
        rcases List.mem_cons.mp hm with h | h
        · exact h.symm
        · exact absurd h hin
      rw [foldl_cond_write_unchanged i xs (cond_write b x) hb2 (fun y hy hcy => by
        rcases hd2 y hy with h | h
        · exact absurd (h ▸ hy) hin
        · exact absurd hcy h)]
      subst hxw
      unfold cond_write
      rw [if_pos hk, write_chars_get b x.1 x.2.1 (hb x (List.mem_cons_self _ _)), if_pos hc]

theorem pairwise_cover_unique {α : Type} (off width : α → Nat) (i : Nat) (l : List α)
    (hp : l.Pairwise (fun a b => off a + width a ≤ off b)) :
    ∀ a ∈ l, ∀ b ∈ l, off a ≤ i ∧ i < off a + width a → off b ≤ i ∧ i < off b + width b →
      a = b := by
  induction l with
  | nil => intro a ha; exact absurd ha (List.not_mem_nil _)
  | cons x xs ih =>
    rw [List.pairwise_cons] at hp
    intro a ha b hb ca cb
    rcases List.mem_cons.mp ha with ea | ma <;> rcases List.mem_cons.mp hb with eb | mb
    · rw [ea, eb]
    · rw [ea] at ca
      have := hp.1 b mb
      omega
    · rw [eb] at cb
      have := hp.1 a ma
      omega
    · exact ih hp.2 a ma b mb ca cb

theorem state_fields_pairwise (s : State) :
    (state_fields s).Pairwise (fun a b => a.1 + a.2.1 ≤ b.1) := by
  simp [state_fields, OFFSET_B, OFFSET_A, OFFSET_X, OFFSET_Y, OFFSET_SH, OFFSET_SL, OFFSET_N,
    OFFSET_V, OFFSET_MS, OFFSET_XS, OFFSET_D, OFFSET_I, OFFSET_Z, OFFSET_C, OFFSET_E,
    OFFSET_PB, OFFSET_DB, OFFSET_DP]

theorem state_writes_pairwise (hex2 hex4 : Int → List Char) (h2 : ∀ v, (hex2 v).length = 2)
    (h4 : ∀ v, (hex4 v).length = 4) (s : State) :
    (state_writes hex2 hex4 s).Pairwise (fun a b => a.1 + a.2.1.length ≤ b.1) := by
  simp [state_writes, h2, h4, OFFSET_B, OFFSET_A, OFFSET_X, OFFSET_Y, OFFSET_SH, OFFSET_SL,
    OFFSET_N, OFFSET_V, OFFSET_MS, OFFSET_XS, OFFSET_D, OFFSET_I, OFFSET_Z, OFFSET_C, OFFSET_E,
    OFFSET_PB, OFFSET_DB, OFFSET_DP]

theorem state_writes_fields (hex2 hex4 : Int → List Char) (h2 : ∀ v, (hex2 v).length = 2)
    (h4 : ∀ v, (hex4 v).length = 4) (s : State) :
    (state_writes hex2 hex4 s).map (fun w => (w.1, w.2.1.length, w.2.2)) = state_fields s := by
  simp [state_writes, state_fields, h2, h4]

theorem state_writes_bounds (hex2 hex4 : Int → List Char) (h2 : ∀ v, (hex2 v).length = 2)
    (h4 : ∀ v, (hex4 v).length = 4) (s : State) :
    ∀ w ∈ state_writes hex2 hex4 s, w.1 + w.2.1.length ≤ default_state.data.length := by
  have hl : default_state.data.length = 84 := by decide
  rw [hl]
  simp [state_writes, h2, h4, OFFSET_B, OFFSET_A, OFFSET_X, OFFSET_Y, OFFSET_SH, OFFSET_SL,
    OFFSET_N, OFFSET_V, OFFSET_MS, OFFSET_XS, OFFSET_D, OFFSET_I, OFFSET_Z, OFFSET_C, OFFSET_E,
    OFFSET_PB, OFFSET_DB, OFFSET_DP]

theorem state_flags_writes (hex2 hex4 : Int → List Char) (s : State) :
    ∀ f ∈ state_flags s, (f.1, [flag_char f.2], f.2) ∈ state_writes hex2 hex4 s := by
  simp [state_flags, state_writes]

theorem state_fields_template (s : State) :
    ∀ f ∈ state_fields s, ∀ j, j < f.2.1 → default_state.data[f.1 + j]? = some '?' := by
  intro f hf j hj
  simp only [state_fields, List.mem_cons, List.mem_singleton, List.not_mem_nil, or_false]
    at hf
  rcases hf with h | h | h | h | h | h | h | h | h | h | h | h | h | h | h | h | h | h <;>
    subst h <;> dsimp only at hj ⊢ <;> interval_cases j <;> decide

theorem get_state_unchanged (hex2 hex4 : Int → List Char) (h2 : ∀ v, (hex2 v).length = 2)
    (h4 : ∀ v, (hex4 v).length = 4) (s : State) (i : Nat)
    (hu : ∀ f ∈ state_fields s, f.1 ≤ i ∧ i < f.1 + f.2.1 → f.2.2 < 0) :
    (em_65816_get_state hex2 hex4 s).1[i]? = default_state.data[i]? := by
  rw [get_state_eq_foldl]
  refine foldl_cond_write_unchanged i _ _ (state_writes_bounds hex2 hex4 h2 h4 s) ?_
  intro w hw hc
  refine hu (w.1, w.2.1.length, w.2.2) ?_ hc
  rw [← state_writes_fields hex2 hex4 h2 h4 s]
  exact List.mem_map_of_mem _ hw

/-! ## Lemmas: bit patterns, the stack and the width helper -/

theorem c_and_zero (x : Int) : c_and x 0 = 0 := by
  unfold c_and
  have h0 : toU32 0 = 0 := rfl
  rw [h0, Nat.and_zero]
  rfl

theorem toU32_ofU32 {n : Nat} (h : n < 4294967296) : toU32 (ofU32 n) = n := by
  unfold ofU32
  split_ifs
  · exact toU32_natCast h
  · have hc := toU32_cast ((n : Int) - 4294967296)
    omega

/-- `((x ^ y) & 2^k) == 0` says that `x` and `y` agree in bit `k`, for negative values of
`int` too (bits of the two's complement pattern). -/
theorem c_and_xor_pow_pattern (x y : Int) (k : Nat) (hk : k < 31) :
    c_and (c_xor x y) (2 ^ k) = 0 ↔ toU32 x / 2 ^ k % 2 = toU32 y / 2 ^ k % 2 := by
  have hx := toU32_lt x
  have hy := toU32_lt y
  have hq : toU32 x ^^^ toU32 y < 4294967296 := by
    have := @Nat.xor_lt_two_pow (toU32 x) (toU32 y) 32 (by norm_num; omega) (by norm_num; omega)
    norm_num at this; exact this
  have hpow : (2 : Nat) ^ k < 2 ^ 31 := Nat.pow_lt_pow_right (by decide) hk
  have h31 : (2 : Nat) ^ 31 = 2147483648 := by norm_num
  have e : ((2 : Int) ^ k) = ((2 ^ k : Nat) : Int) := by push_cast; rfl
  unfold c_and c_xor
  rw [toU32_ofU32 hq, e, toU32_natCast (by omega), Nat.and_two_pow,
    ofU32_of_lt (by cases (toU32 x ^^^ toU32 y).testBit k <;> (simp; try omega)),
    Nat.testBit_xor, @Nat.testBit_to_div_mod k (toU32 x), @Nat.testBit_to_div_mod k (toU32 y)]
  have m1 := Nat.mod_two_eq_zero_or_one (toU32 x / 2 ^ k)
  have m2 := Nat.mod_two_eq_zero_or_one (toU32 y / 2 ^ k)
  have hpos : 0 < (2 : Nat) ^ k := Nat.two_pow_pos k
  rcases m1 with m1 | m1 <;> rcases m2 with m2 | m2 <;> simp [m1, m2]

theorem c_and_xor_80 (x y : Int) :
    c_and (c_xor x y) 0x80 = 0 ↔ x / 128 % 2 = y / 128 % 2 := by
  have h := c_and_xor_pow_pattern x y 7 (by decide)
  have cx := toU32_cast x
  have cy := toU32_cast y
  have e : ((2 : Int) ^ 7) = 0x80 := by norm_num
  rw [e] at h
  rw [h]
  norm_num
  omega

theorem c_and_xor_8000 (x y : Int) :
    c_and (c_xor x y) 0x8000 = 0 ↔ x / 32768 % 2 = y / 32768 % 2 := by
  have h := c_and_xor_pow_pattern x y 15 (by decide)
  have cx := toU32_cast x
  have cy := toU32_cast y
  have e : ((2 : Int) ^ 15) = 0x8000 := by norm_num
  rw [e] at h
  rw [h]
  norm_num
  omega

theorem c_xor_mask {m : Int} (n : Nat) (hn : n ≤ 30) (h0 : 0 ≤ m) (h1 : m < 2 ^ n) :
    c_xor m (2 ^ n - 1) = 2 ^ n - 1 - m := by
  obtain ⟨p, rfl⟩ := Int.eq_ofNat_of_zero_le h0
  have hp : p < 2 ^ n := by exact_mod_cast h1
  have hpow : (2 : Nat) ^ n ≤ 2 ^ 30 := Nat.pow_le_pow_right (by decide) hn
  have h30 : (2 : Nat) ^ 30 = 1073741824 := by norm_num
  have hpos : 0 < (2 : Nat) ^ n := Nat.two_pow_pos n
  have e : ((2 : Int) ^ n - 1) = ((2 ^ n - 1 : Nat) : Int) := by
    rw [Nat.cast_sub hpos]
    push_cast
    rfl
  have key : p ^^^ (2 ^ n - 1) = 2 ^ n - (p + 1) := by
    apply Nat.eq_of_testBit_eq
    intro i
    rw [Nat.testBit_xor, Nat.testBit_two_pow_sub_one, Nat.testBit_two_pow_sub_succ hp]
    by_cases hi : i < n
    · simp [hi]
    · have : p.testBit i = false := by
        apply Nat.testBit_lt_two_pow
        calc p < 2 ^ n := hp
          _ ≤ 2 ^ i := Nat.pow_le_pow_right (by decide) (by omega)
      simp [hi, this]
  have key2 : 2 ^ n - (p + 1) = (2 ^ n - 1) - p := by omega
  rw [e, c_xor_natCast (by omega) (by omega), key, key2, Nat.cast_sub (by omega)]

theorem c_bool_congr {p q : Prop} [Decidable p] [Decidable q] (h : p ↔ q) :
    c_bool p = c_bool q := by
  unfold c_bool
  exact if_congr h rfl rfl

theorem to_int8_zero : to_int8 0 = 0 := by decide

/-- A byte stored through an `int *` is read back through it. -/
theorem load_int_store_int (cells : Int → Int) (off v : Int) (hv : 0 ≤ v ∧ v < 256) :
    load_int (store_int cells off v) off = v := by
  obtain ⟨h0, h1⟩ := hv
  have hu : (toU32 v : Int) = v := toU32_of_nonneg h0 (by omega)
  have e0 : v % 256 = v := by omega
  have e1 : v / 256 % 256 = 0 := by omega
  have e2 : v / 65536 % 256 = 0 := by omega
  have e3 : v / 16777216 % 256 = 0 := by omega
  have n1 : ¬ off + 1 = off := by omega
  have n2 : ¬ off + 2 = off := by omega
  have n3 : ¬ off + 3 = off := by omega
  have n4 : ¬ off + 2 = off + 1 := by omega
  have n5 : ¬ off + 3 = off + 1 := by omega
  have n6 : ¬ off + 3 = off + 2 := by omega
  have k : to_int8 v % 256 = v := by
    unfold to_int8
    split_ifs <;> omega
  unfold load_int store_int
  simp only [if_true, n1, n2, n3, n4, n5, n6, if_false, hu, e0, e1, e2, e3, to_int8_zero, k]
  have : (v + 256 * (0 % 256) + 65536 * (0 % 256) + 16777216 * (0 % 256)) = v := by omega
  rw [this]
  unfold ofU32
  have hn : v.toNat < 2147483648 := by omega
  rw [if_pos hn]
  omega

/-- A byte written through a pointer is read back through it. -/
theorem read_ptr_write_ptr (p : int_ptr) (v : Int) (hv : 0 ≤ v ∧ v < 256) (s t : State)
    (h : write_ptr p v s = some t) : read_ptr p t = some v := by
  unfold write_ptr at h
  unfold read_ptr
  split at h <;> rename_i hb <;> split at h <;> rename_i hin <;> first
    | (cases h; simp only [hb, hin, and_self, if_true, load_int_store_int _ _ _ hv])
    | cases h

/-- The check and the assignment of a read handler, after a write of the same byte through
the same pointer: no mismatch is raised. -/
theorem check_write_after_write (p : int_ptr) (v : Int) (t t1 : State)
    (hr : read_ptr p t = some v)
    (h : (match read_ptr p t with
      | none => none
      | some x =>
        write_ptr p v (if x ≥ 0 ∧ x ≠ v then { t with failflag := c_or t.failflag 1 } else t)) =
      some t1) :
    t1.failflag = t.failflag := by
  rw [hr] at h
  have c : ¬ (v ≥ 0 ∧ v ≠ v) := fun a => a.2 rfl
  simp only [if_neg c] at h
  obtain ⟨m, sw, ly, hz, an, e⟩ := write_ptr_frame _ _ _ _ h
  rw [e]

theorem beeb_round_trip (v ea : Int) (hv : 0 ≤ v ∧ v < 256) (s x t1 : State) (r a b : Int)
    (hw : memory_write_beeb v ea s = some (x, r))
    (hr : memory_read_beeb v ea { x with SL := a, SH := b } = some t1) :
    t1.failflag = s.failflag := by
  unfold memory_write_beeb at hw
  unfold memory_read_beeb at hr
  by_cases hwin : ea < 0xfc00 ∨ ea ≥ 0xff00
  · have hne : ¬ ea = 0xfe30 := by omega
    simp only [if_neg hne] at hw
    rw [if_pos hwin] at hr
    cases h3 : write_ptr (get_memptr_beeb ea s) v s with
    | none => rw [h3] at hw; cases hw
    | some s3 =>
      rw [h3] at hw
      cases hw
      obtain ⟨m, sw, ly, hz, an, e⟩ := write_ptr_frame _ _ _ _ h3
      have hp : get_memptr_beeb ea { x with SL := a, SH := b } = get_memptr_beeb ea s := by
        rw [e]; rfl
      have hrd : read_ptr (get_memptr_beeb ea s) { x with SL := a, SH := b } = some v :=
        read_ptr_write_ptr _ v hv s x h3
      dsimp only at hr
      rw [hp] at hr
      rw [check_write_after_write _ v _ t1 hrd hr, e]
  · rw [if_neg hwin] at hr
    cases hr
    cases h3 : write_ptr (get_memptr_beeb ea (if ea = 0xfe30 then set_rom_latch (c_and v 0xf) s
        else s)) v (if ea = 0xfe30 then set_rom_latch (c_and v 0xf) s else s) with
    | none => simp only [h3] at hw; cases hw
    | some s3 =>
      simp only [h3] at hw
      cases hw
      obtain ⟨m, sw, ly, hz, an, e⟩ := write_ptr_frame _ _ _ _ h3
      rw [e]
      split_ifs <;> rfl

theorem elk_round_trip (v ea : Int) (hv : 0 ≤ v ∧ v < 256) (s x t1 : State) (r a b : Int)
    (hw : memory_write_elk v ea s = some (x, r))
    (hr : memory_read_elk v ea { x with SL := a, SH := b } = some t1) :
    t1.failflag = s.failflag := by
  unfold memory_write_elk at hw
  unfold memory_read_elk at hr
  by_cases hwin : ea < 0xfc00 ∨ ea ≥ 0xff00
  · have hne : ¬ ea = 0xfe05 := by omega
    simp only [if_neg hne] at hw
    rw [if_pos hwin] at hr
    cases h3 : write_ptr (get_memptr_elk ea s) v s with
    | none => rw [h3] at hw; cases hw
    | some s3 =>
      rw [h3] at hw
      cases hw
      obtain ⟨m, sw, ly, hz, an, e⟩ := write_ptr_frame _ _ _ _ h3
      have hp : get_memptr_elk ea { x with SL := a, SH := b } = get_memptr_elk ea s := by
        rw [e]; rfl
      have hrd : read_ptr (get_memptr_elk ea s) { x with SL := a, SH := b } = some v :=
        read_ptr_write_ptr _ v hv s x h3
      dsimp only at hr
      rw [hp] at hr
      rw [check_write_after_write _ v _ t1 hrd hr, e]
  · rw [if_neg hwin] at hr
    cases hr
    cases h3 : write_ptr (get_memptr_elk ea (if ea = 0xfe05 then set_rom_latch (c_and v 0xf) s
        else s)) v (if ea = 0xfe05 then set_rom_latch (c_and v 0xf) s else s) with
    | none => simp only [h3] at hw; cases hw
    | some s3 =>
      simp only [h3] at hw
      cases hw
      obtain ⟨m, sw, ly, hz, an, e⟩ := write_ptr_frame _ _ _ _ h3
      rw [e]
      split_ifs <;> rfl

theorem master_round_trip (v ea : Int) (hv : 0 ≤ v ∧ v < 256) (s x t1 : State) (a b : Int)
    (hw : memory_write_master v ea s = some (x, 0))
    (hr : memory_read_master v ea { x with SL := a, SH := b } = some t1) :
    t1.failflag = s.failflag := by
  unfold memory_write_master at hw
  dsimp only at hw
  generalize hs2 : (if ea = 0xfe34 then set_acccon_latch (c_and v 0xff)
      (if ea = 0xfe30 then set_rom_latch (c_and v 0x8f) s else s)
    else (if ea = 0xfe30 then set_rom_latch (c_and v 0x8f) s else s)) = s2 at hw
  have hf2 : s2.failflag = s.failflag := by
    rw [← hs2]
    split_ifs <;> rfl
  split at hw
  · cases h3 : write_ptr (get_memptr_master ea s2) v s2 with
    | none => rw [h3] at hw; cases hw
    | some s3 =>
      rw [h3] at hw
      cases hw
      obtain ⟨m, sw, ly, hz, an, e⟩ := write_ptr_frame _ _ _ _ h3
      unfold memory_read_master at hr
      by_cases hwin : ea < 0xfc00 ∨ ea ≥ 0xff00
      · rw [if_pos hwin] at hr
        have hp : get_memptr_master ea { x with SL := a, SH := b } =
            get_memptr_master ea s2 := by
          rw [e]; rfl
        have hrd : read_ptr (get_memptr_master ea s2) { x with SL := a, SH := b } = some v :=
          read_ptr_write_ptr _ v hv s2 x h3
        dsimp only at hr
        rw [hp] at hr
        rw [check_write_after_write _ v _ t1 hrd hr, e]
        exact hf2
      · rw [if_neg hwin] at hr
        cases hr
        rw [e]
        exact hf2
  · cases hw

theorem blitter_round_trip (v ea : Int) (hv : 0 ≤ v ∧ v < 256) (s x t1 : State) (r a b : Int)
    (hw : memory_write_blitter v ea s = some (x, r)) (hbm : x.boot_mode = s.boot_mode)
    (hr : memory_read_blitter v ea { x with SL := a, SH := b } = some t1) :
    t1.failflag = s.failflag := by
  unfold memory_write_blitter at hw
  unfold memory_read_blitter at hr
  have hre : remap_address_blitter ea { x with SL := a, SH := b } =
      remap_address_blitter ea s := by
    unfold remap_address_blitter
    show (if x.boot_mode ≠ 0 ∧ c_and ea 0xff0000 = 0 then c_or ea 0xff0000 else ea) = _
    rw [hbm]
  dsimp only at hw hr
  rw [hre] at hr
  generalize remap_address_blitter ea s = ea1 at hw hr
  by_cases hwin : ea1 < 0xfffc00 ∨ ea1 ≥ 0xffff00
  · have hne : ¬ ea1 = 0xfffe30 := by omega
    have hne1 : ¬ ea1 = 0xfffe31 := by omega
    simp only [if_neg hne, if_neg hne1] at hw
    rw [if_pos hwin] at hr
    cases h3 : write_ptr (get_memptr_blitter ea1 s) v s with
    | none => rw [h3] at hw; cases hw
    | some s3 =>
      rw [h3] at hw
      cases hw
      obtain ⟨m, sw, ly, hz, an, e⟩ := write_ptr_frame _ _ _ _ h3
      have hp : get_memptr_blitter ea1 { x with SL := a, SH := b } =
          get_memptr_blitter ea1 s := by
        rw [e]; rfl
      have hrd : read_ptr (get_memptr_blitter ea1 s) { x with SL := a, SH := b } = some v :=
        read_ptr_write_ptr _ v hv s x h3
      rw [hp] at hr
      rw [check_write_after_write _ v _ t1 hrd hr, e]
  · rw [if_neg hwin] at hr
    cases hr
    generalize hs2 : (if ea1 = 0xfffe31 then
        { (if ea1 = 0xfffe30 then set_rom_latch (c_and v 0xf) s else s) with
          boot_mode := c_and v 0x20 }
      else (if ea1 = 0xfffe30 then set_rom_latch (c_and v 0xf) s else s)) = s2 at hw
    have hf2 : s2.failflag = s.failflag := by
      rw [← hs2]
      split_ifs <;> rfl
    cases h3 : write_ptr (get_memptr_blitter ea1 s2) v s2 with
    | none => rw [h3] at hw; cases hw
    | some s3 =>
      rw [h3] at hw
      cases hw
      obtain ⟨m, sw, ly, hz, an, e⟩ := write_ptr_frame _ _ _ _ h3
      rw [e]
      exact hf2

theorem call_write_fn_cell (d ea : Int) (s : State)
    (hw : s.memory_write_fn = write_fn_t.memory_write_default ∨
      s.memory_write_fn = write_fn_t.memory_write_atom ∨
      s.memory_write_fn = write_fn_t.memory_write_mek6800d2) :
    (call_write_fn d ea s).1.memory ea = to_int8 d := by
  unfold call_write_fn
  rcases hw with h | h | h <;> rw [h] <;>
    simp [memory_write_default, memory_write_atom, memory_write_mek6800d2, store]

theorem call_read_fn_same_byte (d ea : Int) (hd : 0 ≤ d ∧ d < 256) (t : State)
    (hr : t.memory_read_fn = read_fn_t.memory_read_default ∨
      t.memory_read_fn = read_fn_t.memory_read_atom ∨
      t.memory_read_fn = read_fn_t.memory_read_mek6800d2 ∨
      t.memory_read_fn = read_fn_t.memory_read_pet)
    (hcell : t.memory ea = to_int8 d) : (call_read_fn d ea t).failflag = t.failflag := by
  have hc : ¬ (t.memory ea ≥ 0 ∧ t.memory ea ≠ d) := by
    rw [hcell]
    by_cases h : d < 128
    · rw [to_int8_of_lt hd.1 h]
      exact fun a => a.2 rfl
    · rw [to_int8_of_ge (by omega) hd.2]
      intro a
      omega
  unfold call_read_fn
  rcases hr with h | h | h | h <;> rw [h]
  · simp [memory_read_default, hc]
  · simp [memory_read_atom, hc]
  · simp [memory_read_mek6800d2, hc]
  · show (memory_read_pet d ea t).failflag = t.failflag
    unfold memory_read_pet
    split_ifs <;> rfl

/-- The write and the read of a paged machine, put together: when the write is not ignored,
leaves `boot_mode` alone and no access is outside a block, the read raises no mismatch. -/
theorem paged_round_trip (s : State) (a b : Int) (w : Option (State × Int))
    (R : State → Option State)
    (hrt : ∀ x t1, w = some (x, 0) → x.boot_mode = s.boot_mode →
      R { x with SL := a, SH := b } = some t1 → t1.failflag = s.failflag)
    (hRu : ∀ t t1, R t = some t1 → t1.undefined = t.undefined)
    (hst : (write_result s w).2 = 0)
    (hbm : (write_result s w).1.boot_mode = s.boot_mode)
    (hud : (read_result { (write_result s w).1 with SL := a, SH := b }
      (R { (write_result s w).1 with SL := a, SH := b })).undefined = false) :
    (read_result { (write_result s w).1 with SL := a, SH := b }
      (R { (write_result s w).1 with SL := a, SH := b })).failflag = s.failflag := by
  cases w with
  | none =>
    exfalso
    simp only [write_result] at hud
    cases hR : R { ({ s with undefined := true } : State) with SL := a, SH := b } with
    | none =>
      rw [hR] at hud
      simp [read_result] at hud
    | some t1 =>
      rw [hR] at hud
      have := hRu _ _ hR
      simp only [read_result] at hud
      rw [hud] at this
      exact absurd this (by simp)
  | some p =>
    obtain ⟨x, r⟩ := p
    simp only [write_result] at hst hbm hud ⊢
    subst hst
    cases hR : R { x with SL := a, SH := b } with
    | none =>
      rw [hR] at hud
      simp [read_result] at hud
    | some t1 => exact hrt x t1 rfl hbm hR

theorem frame_undefined {t t1 : State}
    (h : ∃ f m sw ly hz an, t1 = { t with
      failflag := f, memory := m, swrom := sw, lynne := ly, hazel := hz, andy := an }) :
    t1.undefined = t.undefined := by
  obtain ⟨f, m, sw, ly, hz, an, e⟩ := h
  rw [e]

/-- Write then read of a byte at one address, through the handlers of one machine, the
stack pointer having moved in between: the read raises no mismatch when the write was not
ignored, left `boot_mode` alone, and no access was outside a block. -/
theorem write_then_read_machine (v ea : Int) (hv : 0 ≤ v ∧ v < 256) (s : State) (a b : Int)
    (hm : machine_handlers s)
    (hst : (call_write_fn v ea s).2 = 0)
    (hbm : (call_write_fn v ea s).1.boot_mode = s.boot_mode)
    (hud : (call_read_fn v ea
      { (call_write_fn v ea s).1 with SL := a, SH := b }).undefined = false) :
    (call_read_fn v ea { (call_write_fn v ea s).1 with SL := a, SH := b }).failflag =
      s.failflag := by
  have hfn : ({ (call_write_fn v ea s).1 with SL := a, SH := b } : State).memory_read_fn =
      s.memory_read_fn := by
    obtain ⟨m, r, a', sw, ly, hz, an, b', u, e⟩ := call_write_fn_frame v ea s
    rw [e]
  have hff : ({ (call_write_fn v ea s).1 with SL := a, SH := b } : State).failflag =
      s.failflag := by
    obtain ⟨m, r, a', sw, ly, hz, an, b', u, e⟩ := call_write_fn_frame v ea s
    rw [e]
  have direct : ∀ (_ : s.memory_read_fn = read_fn_t.memory_read_default ∨
        s.memory_read_fn = read_fn_t.memory_read_atom ∨
        s.memory_read_fn = read_fn_t.memory_read_mek6800d2 ∨
        s.memory_read_fn = read_fn_t.memory_read_pet)
      (_ : s.memory_write_fn = write_fn_t.memory_write_default ∨
        s.memory_write_fn = write_fn_t.memory_write_atom ∨
        s.memory_write_fn = write_fn_t.memory_write_mek6800d2),
      (call_read_fn v ea { (call_write_fn v ea s).1 with SL := a, SH := b }).failflag =
        s.failflag := by
    intro hr hw
    rw [call_read_fn_same_byte v ea hv { (call_write_fn v ea s).1 with SL := a, SH := b }
      (by rw [hfn]; exact hr) (call_write_fn_cell v ea s hw), hff]
  rcases hm with h | h | h | h | h | h | h | h
  · exact direct (Or.inl h.1) (Or.inl h.2)
  · exact direct (Or.inr (Or.inl h.1)) (Or.inr (Or.inl h.2))
  · exact direct (Or.inr (Or.inr (Or.inl h.1))) (Or.inr (Or.inr h.2))
  · exact direct (Or.inr (Or.inr (Or.inr h.1))) (Or.inl h.2)
  · have ew : call_write_fn v ea s = write_result s (memory_write_beeb v ea s) := by
      unfold call_write_fn; rw [h.2]
    have er : ∀ t : State, t.memory_read_fn = s.memory_read_fn →
        call_read_fn v ea t = read_result t (memory_read_beeb v ea t) := by
      intro t ht
      unfold call_read_fn; rw [ht, h.1]
    rw [er _ hfn] at hud ⊢
    rw [ew] at hst hbm hud ⊢
    exact paged_round_trip s a b _ (memory_read_beeb v ea)
      (fun x t1 hw _ hr => beeb_round_trip v ea hv s x t1 0 a b hw hr)
      (fun t t1 hr => frame_undefined (memory_read_beeb_frame v ea t t1 hr)) hst hbm hud
  · have ew : call_write_fn v ea s = write_result s (memory_write_master v ea s) := by
      unfold call_write_fn; rw [h.2]
    have er : ∀ t : State, t.memory_read_fn = s.memory_read_fn →
        call_read_fn v ea t = read_result t (memory_read_master v ea t) := by
      intro t ht
      unfold call_read_fn; rw [ht, h.1]
    rw [er _ hfn] at hud ⊢
    rw [ew] at hst hbm hud ⊢
    exact paged_round_trip s a b _ (memory_read_master v ea)
      (fun x t1 hw _ hr => master_round_trip v ea hv s x t1 a b hw hr)
      (fun t t1 hr => frame_undefined (memory_read_master_frame v ea t t1 hr)) hst hbm hud
  · have ew : call_write_fn v ea s = write_result s (memory_write_elk v ea s) := by
      unfold call_write_fn; rw [h.2]
    have er : ∀ t : State, t.memory_read_fn = s.memory_read_fn →
        call_read_fn v ea t = read_result t (memory_read_elk v ea t) := by
      intro t ht
      unfold call_read_fn; rw [ht, h.1]
    rw [er _ hfn] at hud ⊢
    rw [ew] at hst hbm hud ⊢
    exact paged_round_trip s a b _ (memory_read_elk v ea)
      (fun x t1 hw _ hr => elk_round_trip v ea hv s x t1 0 a b hw hr)
      (fun t t1 hr => frame_undefined (memory_read_elk_frame v ea t t1 hr)) hst hbm hud
  · have ew : call_write_fn v ea s = write_result s (memory_write_blitter v ea s) := by
      unfold call_write_fn; rw [h.2]
    have er : ∀ t : State, t.memory_read_fn = s.memory_read_fn →
        call_read_fn v ea t = read_result t (memory_read_blitter v ea t) := by
      intro t ht
      unfold call_read_fn; rw [ht, h.1]
    rw [er _ hfn] at hud ⊢
    rw [ew] at hst hbm hud ⊢
    exact paged_round_trip s a b _ (memory_read_blitter v ea)
      (fun x t1 hw hb hr => blitter_round_trip v ea hv s x t1 0 a b hw hb hr)
      (fun t t1 hr => frame_undefined (memory_read_blitter_frame v ea t t1 hr)) hst hbm hud

theorem memory_write_modelled (d ea : Int) (type : mem_access_t) (s : State)
    (h : s.mem_model type = true) : memory_write d ea type s = (call_write_fn d ea s).1 := by
  unfold memory_write
  rw [if_pos h]

theorem memory_write_unmodelled (d ea : Int) (type : mem_access_t) (s : State)
    (h : ¬ s.mem_model type = true) : memory_write d ea type s = s := by
  unfold memory_write
  rw [if_neg h]

theorem memory_read_stack_modelled (d ea : Int) (t : State)
    (h : t.mem_model mem_access_t.MEM_STACK = true) :
    memory_read d ea mem_access_t.MEM_STACK t = call_read_fn d ea t := by
  unfold memory_read
  simp only [show ¬ (mem_access_t.MEM_STACK = mem_access_t.MEM_FETCH) by decide, if_false]
  rw [if_pos h]

theorem memory_read_stack_unmodelled (d ea : Int) (t : State)
    (h : ¬ t.mem_model mem_access_t.MEM_STACK = true) :
    memory_read d ea mem_access_t.MEM_STACK t = t := by
  unfold memory_read
  simp only [show ¬ (mem_access_t.MEM_STACK = mem_access_t.MEM_FETCH) by decide, if_false]
  rw [if_neg h]

/-- The stack pointer after `decSP` and `incSP`: only SL and SH can differ. -/
theorem incSP_decSP_frame (y : State) :
    incSP (decSP y) = { y with SL := (incSP (decSP y)).SL, SH := (incSP (decSP y)).SH } :=
  rfl

set_option maxRecDepth 1000000 in
theorem width_opcodes_enum : (List.enum instr_table_65c816).all (fun p =>
    decide ((init_instr p.2).m_extra ≠ 0 ∨ (init_instr p.2).x_extra ≠ 0 →
      p.1 ≠ 0 ∧ p.1 ≠ 2 ∧ p.1 ≠ 0x40 ∧ p.1 ≠ 0x80 ∧ p.1 % 32 ≠ 16)) = true := by
  decide

theorem width_opcodes {opcode : Int} (h0 : 0 ≤ opcode) (h1 : opcode < 256)
    (hm : (instr_table opcode).m_extra ≠ 0 ∨ (instr_table opcode).x_extra ≠ 0) :
    opcode ≠ 0 ∧ opcode ≠ 2 ∧ opcode ≠ 0x40 ∧ opcode ≠ 0x80 ∧ c_and opcode 0x1f ≠ 0x10 := by
  obtain ⟨n, rfl⟩ := Int.eq_ofNat_of_zero_le h0
  have hn : n < 256 := by omega
  have := of_decide_eq_true (instr_table_of_enum
    (fun i e => decide (e.m_extra ≠ 0 ∨ e.x_extra ≠ 0 →
      i ≠ 0 ∧ i ≠ 2 ∧ i ≠ 0x40 ∧ i ≠ 0x80 ∧ i % 32 ≠ 16))
    width_opcodes_enum n hn) hm
  rw [c_and_1f]
  refine ⟨?_, ?_, ?_, ?_, ?_⟩ <;> omega

theorem get_8bit_cycles_of_regs (sample_q : Int → sample_t) (s t : State) (hDP : t.DP = s.DP)
    (hX : t.X = s.X) (hY : t.Y = s.Y) : get_8bit_cycles sample_q t = get_8bit_cycles sample_q s := by
  unfold get_8bit_cycles
  simp only [hDP, hX, hY]

theorem get_num_cycles_emulation (sample_q : Int → sample_t) (s : State)
    (hop : 0 ≤ (sample_q 0).data ∧ (sample_q 0).data < 256)
    (hx : (instr_table (sample_q 0).data).m_extra ≠ 0 ∨
      (instr_table (sample_q 0).data).x_extra ≠ 0)
    (hE : s.E = 1) (hMS : s.MS = 1) (hXS : s.XS = 1)
    (hk : get_num_cycles sample_q 0 s ≠ -1) :
    get_num_cycles sample_q 0 s = get_8bit_cycles sample_q s := by
  obtain ⟨n0, n2, n40, n80, nb⟩ := width_opcodes hop.1 hop.2 hx
  have hbr : ¬ (c_and (sample_q 0).data 0x1f = 0x10 ∨ (sample_q 0).data = 0x80) := by
    rintro (h | h)
    · exact nb h
    · exact n80 h
  revert hk
  unfold get_num_cycles get_8bit_cycles
  simp only [hE, hMS, hXS]
  rw [if_neg (by simp [n0, n2]), if_neg (by simp), if_neg (by simp), if_neg (by simp [n40])]
  simp only [n40, false_and, if_false, if_neg hbr, show ¬ ((1 : Int) = 0) by decide,
    and_false, false_or, show ¬ ((1 : Int) < 0) by decide]
  generalize (instr_table (sample_q 0).data) = instr
  by_cases ha : (instr.mode = AddrMode.ABSX ∨ instr.mode = AddrMode.ABSY) ∧
      instr.optype = OpType.READOP
  · simp only [ha, true_and]
    by_cases hi : (if instr.mode = AddrMode.ABSX then s.X else s.Y) ≥ 0
    · simp only [hi, if_true, true_and]
      split_ifs <;> simp_all
    · simp only [hi, if_false, false_and]
      simp
  · simp only [ha, false_and, if_false]
    intro _
    trivial

/-! ## Theorems: the tracker -/

/-- C4: the predicate `E = 1 → MS = 1 ∧ XS = 1 ∧ SH = 1` is an invariant of the tracker. From
a state where it holds it holds again after every instruction function (for every operand and
effective address), after every push and pop helper, after the interrupt handler, after
reset, after the E-pin reconciliation, after the MS and XS inference steps, and after a whole
`em_65816_emulate` step, whatever the samples hold. -/
theorem emulation_invariant_preserved (s : State) (h : emulation_invariant s) :
    (∀ f operand ea, emulation_invariant (call_emulate f operand ea s).1) ∧
    (∀ value,
      emulation_invariant (push8 value s) ∧ emulation_invariant (push16 value s) ∧
      emulation_invariant (push16new value s) ∧ emulation_invariant (pushXS value s) ∧
      emulation_invariant (pushMS value s) ∧ emulation_invariant (pop8 value s) ∧
      emulation_invariant (pop8new value s) ∧ emulation_invariant (pop16 value s) ∧
      emulation_invariant (pop16new value s) ∧ emulation_invariant (pop24new value s) ∧
      emulation_invariant (popXS value s) ∧ emulation_invariant (popMS value s)) ∧
    (∀ sample_q num_cycles instruction pc_offset,
      emulation_invariant (interrupt sample_q num_cycles instruction pc_offset s).1) ∧
    (∀ sample_q num_cycles instruction,
      emulation_invariant (em_65816_interrupt sample_q num_cycles instruction s).1 ∧
      emulation_invariant (em_65816_reset sample_q num_cycles instruction s).1 ∧
      emulation_invariant (em_65816_emulate sample_q num_cycles instruction s).1) ∧
    (∀ sample_q, emulation_invariant (emulate_e_pin sample_q s)) ∧
    (∀ sample_q num_cycles,
      emulation_invariant (emulate_infer_ms sample_q num_cycles s) ∧
      emulation_invariant (emulate_infer_xs sample_q num_cycles s)) :=
  ⟨fun f operand ea => call_emulate_inv f operand ea s h,
   fun value =>
    ⟨push8_inv value s h, push16_inv value s h, push16new_inv value s h, pushXS_inv value s h,
     pushMS_inv value s h, pop8_inv value s h, pop8new_inv value s h, pop16_inv value s h,
     pop16new_inv value s h, pop24new_inv value s h, popXS_inv value s h, popMS_inv value s h⟩,
   fun sample_q num_cycles instruction pc_offset =>
    interrupt_inv sample_q num_cycles instruction pc_offset s,
   fun sample_q num_cycles instruction =>
    ⟨em_65816_interrupt_inv sample_q num_cycles instruction s,
     em_65816_reset_inv sample_q num_cycles instruction s,
     em_65816_emulate_inv sample_q num_cycles instruction s h⟩,
   fun sample_q => emulate_e_pin_inv sample_q s h,
   fun sample_q num_cycles =>
    ⟨emulate_infer_ms_inv sample_q num_cycles s h, emulate_infer_xs_inv sample_q num_cycles s h⟩⟩

/-- Witness of C4: the state with E = MS = XS = SH = 1 satisfies the invariant, and it holds
again after XCE, after SEP #$30 and after a whole emulated PLP. -/
theorem emulation_invariant_preserved_witness :
    emulation_invariant ({ E := 1, MS := 1, XS := 1, SH := 1 } : State) ∧
    emulation_invariant
      (call_emulate emulate_fn.op_XCE 0 (-1) { E := 1, MS := 1, XS := 1, SH := 1 }).1 ∧
    emulation_invariant
      (call_emulate emulate_fn.op_SEP 0x30 (-1) { E := 1, MS := 1, XS := 1, SH := 1 }).1 ∧
    emulation_invariant
      (em_65816_emulate (bus [0x28, 0x00, 0x00, 0x00]) 4 {}
        { E := 1, MS := 1, XS := 1, SH := 1 }).1 :=
  ⟨by decide,
   (emulation_invariant_preserved _ (by decide)).1 _ _ _,
   (emulation_invariant_preserved _ (by decide)).1 _ _ _,
   ((emulation_invariant_preserved _ (by decide)).2.2.2.1 _ _ _).2.2⟩

/-- C5: for a C flag that is 0, 1 or unknown and any E flag, `op_XCE` leaves in C the former
E and in E the former C. -/
theorem op_XCE_swaps (operand ea : Int) (s : State) (hC : s.C = -1 ∨ s.C = 0 ∨ s.C = 1) :
    (op_XCE operand ea s).1.C = s.E ∧ (op_XCE operand ea s).1.E = s.C := by
  unfold op_XCE
  rcases hC with hC | hC | hC <;> simp [hC, emulation_mode_on, emulation_mode_off, x_flag_updated]

/-- Witness of C5: C = 1 and E = 0 before, C = 0 and E = 1 after. -/
theorem op_XCE_swaps_witness :
    (op_XCE 0 (-1) { C := 1, E := 0 }).1.C = 0 ∧ (op_XCE 0 (-1) { C := 1, E := 0 }).1.E = 1 :=
  op_XCE_swaps 0 (-1) { C := 1, E := 0 } (by decide)

/-- C6: in emulation mode (E = 1, MS = XS = 1) each of `op_PHP`, `op_PLP` and `op_RTI` leaves
MS = 1 and XS = 1 for every operand, hence for every P byte in 0..255 whatever its bits 5
and 4 are. -/
theorem p_byte_keeps_widths (operand ea : Int) (s : State) (hE : s.E = 1) (hMS : s.MS = 1)
    (hXS : s.XS = 1) :
    ((op_PHP operand ea s).1.MS = 1 ∧ (op_PHP operand ea s).1.XS = 1) ∧
    ((op_PLP operand ea s).1.MS = 1 ∧ (op_PLP operand ea s).1.XS = 1) ∧
    ((op_RTI operand ea s).1.MS = 1 ∧ (op_RTI operand ea s).1.XS = 1) := by
  unfold op_PHP op_PLP op_RTI
  simp only []
  refine ⟨?_, ?_, ?_⟩
  · simp [hE]
  · simp [hE]
  · have hE1 : (pop8 (c_shr operand 16) (pop8 (c_shr operand 8)
        (pop8 operand (set_FLAGS operand s)))).E ≠ 0 := by simp [hE]
    rw [if_neg hE1]
    simp [hE]

/-- Witness of C6: the P byte 0x00 (bits 5 and 4 clear) in emulation mode. -/
theorem p_byte_keeps_widths_witness :
    ((op_PHP 0x00 (-1) { E := 1, MS := 1, XS := 1, SH := 1 }).1.MS = 1 ∧
      (op_PHP 0x00 (-1) { E := 1, MS := 1, XS := 1, SH := 1 }).1.XS = 1) ∧
    ((op_PLP 0x00 (-1) { E := 1, MS := 1, XS := 1, SH := 1 }).1.MS = 1 ∧
      (op_PLP 0x00 (-1) { E := 1, MS := 1, XS := 1, SH := 1 }).1.XS = 1) ∧
    ((op_RTI 0x00 (-1) { E := 1, MS := 1, XS := 1, SH := 1 }).1.MS = 1 ∧
      (op_RTI 0x00 (-1) { E := 1, MS := 1, XS := 1, SH := 1 }).1.XS = 1) :=
  p_byte_keeps_widths 0x00 (-1) { E := 1, MS := 1, XS := 1, SH := 1 } rfl rfl rfl

/-- C7: with MS = 1 and a known A = v (a byte), `op_STA` of v returns v, leaves the failure
flag as it was and leaves A = v; a following `op_LDA` of v leaves A = v; and after either
hook B, X, Y, SL, SH, PC, PB, DB, DP and the flags V, D, I, C, MS, XS, E are what they were
before. -/
theorem op_STA_op_LDA_round_trip (v ea ea2 : Int) (s : State) (hMS : s.MS = 1)
    (hv : 0 ≤ v ∧ v < 256) (hA : s.A = v) :
    (op_STA v ea s).2 = v ∧
    (op_STA v ea s).1.failflag = s.failflag ∧
    (op_STA v ea s).1.A = v ∧
    (op_LDA v ea2 (op_STA v ea s).1).1.A = v ∧
    same_registers s (op_STA v ea s).1 ∧
    same_registers s (op_LDA v ea2 (op_STA v ea s).1).1 := by
  have hmod : v % 256 = v := Int.emod_eq_of_lt hv.1 hv.2
  have hsta : (op_STA v ea s).1 = s := by
    unfold op_STA
    simp only [c_and_ff, hmod, hMS, hA]
    cases s
    simp_all
  refine ⟨rfl, by rw [hsta], by rw [hsta]; exact hA, ?_, by rw [hsta]; simp [same_registers], ?_⟩
  · rw [hsta]
    unfold op_LDA set_NZ_AB
    simp [c_and_ff, hmod, hMS, hv.1, set_NZ8]
  · rw [hsta]
    unfold op_LDA set_NZ_AB same_registers
    simp [c_and_ff, hmod, hMS, hv.1, set_NZ8]

/-- Witness of C7: A = 0x42 with MS = 1. -/
theorem op_STA_op_LDA_round_trip_witness :
    (op_STA 0x42 0x2000 { A := 0x42, MS := 1 }).2 = 0x42 ∧
    (op_STA 0x42 0x2000 { A := 0x42, MS := 1 }).1.failflag = 0 ∧
    (op_STA 0x42 0x2000 { A := 0x42, MS := 1 }).1.A = 0x42 ∧
    (op_LDA 0x42 0x2000 (op_STA 0x42 0x2000 { A := 0x42, MS := 1 }).1).1.A = 0x42 ∧
    same_registers { A := 0x42, MS := 1 } (op_STA 0x42 0x2000 { A := 0x42, MS := 1 }).1 ∧
    same_registers { A := 0x42, MS := 1 }
      (op_LDA 0x42 0x2000 (op_STA 0x42 0x2000 { A := 0x42, MS := 1 }).1).1 :=
  op_STA_op_LDA_round_trip 0x42 0x2000 0x2000 { A := 0x42, MS := 1 } rfl (by decide) rfl

/-- C8 (counterexample): from E = 1 with everything else unknown and an empty shadow with
modelling enabled, after LDA #$42 and STA $2000 the shadow at 0x2000 is still unknown (-1),
not 0x42: DB is unknown, so the store has no effective address and no write is modelled. -/
theorem lda_sta_shadow_unknown :
    memory_read_raw 0x2000
      (em_65816_emulate (bus [0x8D, 0x00, 0x20, 0x42]) 4 {}
        (em_65816_emulate (bus [0xA9, 0x42]) 2 {} { fresh_memory with E := 1 }).1).1 = -1 ∧
    memory_read_raw 0x2000
      (em_65816_emulate (bus [0x8D, 0x00, 0x20, 0x42]) 4 {}
        (em_65816_emulate (bus [0xA9, 0x42]) 2 {} { fresh_memory with E := 1 }).1).1 ≠ 0x42 := by
  have h1 := lda_imm8 0x42 (by decide) { fresh_memory with E := 1 } (Or.inl rfl) rfl {}
  have h2 := sta_abs8 0x42 0x2000 (by decide) (by decide)
    (em_65816_emulate (bus [0xA9, 0x42]) 2 {} { fresh_memory with E := 1 }).1
    (by rw [h1]) (by rw [h1]) (by rw [h1]; rfl) {}
  have h3 : memory_read_raw 0x2000
      (em_65816_emulate (bus [0x8D, 0x00, 0x20, 0x42]) 4 {}
        (em_65816_emulate (bus [0xA9, 0x42]) 2 {} { fresh_memory with E := 1 }).1).1 = -1 := by
    have e : bus [0x8D, 0x00, 0x20, 0x42] = bus [0x8D, 0x2000 % 256, 0x2000 / 256, 0x42] := by
      norm_num
    rw [e, h2, h1]
    rfl
  exact ⟨h3, by rw [h3]; decide⟩

/-- C8 (amended): from E = 1 with DB known (a byte b), every other register and flag unknown
and an empty shadow with modelling enabled, for every byte v and 16-bit address a: after
LDA #v, A = v, Z = 1 exactly when v = 0, N = bit 7 of v and the failure flag is clear; after
STA a the shadow cell at b * 65536 + a holds v, for v in 0..127, and the failure flag is
still clear. -/
theorem lda_sta_shadow_known_bank (v a b : Int) (hv : 0 ≤ v ∧ v < 256)
    (ha : 0 ≤ a ∧ a < 65536) (hb : 0 ≤ b ∧ b < 256) :
    (em_65816_emulate (bus [0xA9, v]) 2 {} { fresh_memory with E := 1, DB := b }).1.A = v ∧
    (em_65816_emulate (bus [0xA9, v]) 2 {} { fresh_memory with E := 1, DB := b }).1.Z =
      (if v = 0 then 1 else 0) ∧
    (em_65816_emulate (bus [0xA9, v]) 2 {} { fresh_memory with E := 1, DB := b }).1.N =
      bit v 7 ∧
    (em_65816_emulate (bus [0xA9, v]) 2 {}
      { fresh_memory with E := 1, DB := b }).1.failflag = 0 ∧
    (v < 128 →
      memory_read_raw (b * 65536 + a)
        (em_65816_emulate (bus [0x8D, a % 256, a / 256, v]) 4 {}
          (em_65816_emulate (bus [0xA9, v]) 2 {} { fresh_memory with E := 1, DB := b }).1).1 =
        v) ∧
    (em_65816_emulate (bus [0x8D, a % 256, a / 256, v]) 4 {}
      (em_65816_emulate (bus [0xA9, v]) 2 {}
        { fresh_memory with E := 1, DB := b }).1).1.failflag = 0 := by
  have h1 := lda_imm8 v hv { fresh_memory with E := 1, DB := b } (Or.inl rfl) rfl {}
  have h2 := sta_abs8 v a hv ha
    (em_65816_emulate (bus [0xA9, v]) 2 {} { fresh_memory with E := 1, DB := b }).1
    (by rw [h1]) (by rw [h1]) (by rw [h1]; rfl) {}
  rw [h2, h1]
  have hDB : (0 : Int) ≤ ({ ({ fresh_memory with E := 1, DB := b } : State) with
      MS := 1, A := v, N := v / 2 ^ 7 % 2, Z := if v = 0 then 1 else 0 } : State).DB := hb.1
  rw [if_pos hDB]
  refine ⟨rfl, rfl, rfl, rfl, ?_, ?_⟩
  · intro h
    simp [memory_read_raw, memory_write, call_write_fn, memory_write_default, store,
      fresh_memory, memory_set_modelling, init_default, to_int8_of_lt hv.1 h]
  · simp [memory_write, call_write_fn, memory_write_default, fresh_memory,
      memory_set_modelling, init_default]

/-- Witness of C8 (amended): v = 0x42, a = 0x2000, bank 0. -/
theorem lda_sta_shadow_known_bank_witness :
    memory_read_raw (0 * 65536 + 0x2000)
      (em_65816_emulate (bus [0x8D, 0x2000 % 256, 0x2000 / 256, 0x42]) 4 {}
        (em_65816_emulate (bus [0xA9, 0x42]) 2 {} { fresh_memory with E := 1, DB := 0 }).1).1 =
      0x42 :=
  (lda_sta_shadow_known_bank 0x42 0x2000 0 (by decide) (by decide) (by decide)).2.2.2.2.1
    (by decide)

/-- C9: 8-bit binary ADC is exact. With MS = 1, D = 0, a known A = a (a byte) and a known
carry c, for every operand byte m, `op_ADC` leaves A = (a + m + c) mod 256, C = 1 exactly when
a + m + c ≥ 256, V = 1 exactly when a and m have the same bit 7 and the result has a different
one, Z = 1 exactly when the new A is 0, N = bit 7 of the new A, and B as it was. -/
theorem op_ADC_binary_8bit (a m c ea : Int) (s : State) (hMS : s.MS = 1) (hD : s.D = 0)
    (hA : s.A = a) (hC : s.C = c) (ha : 0 ≤ a ∧ a < 256) (hm : 0 ≤ m ∧ m < 256)
    (hc : c = 0 ∨ c = 1) :
    (op_ADC m ea s).1.A = (a + m + c) % 256 ∧
    (op_ADC m ea s).1.C = (if a + m + c ≥ 256 then 1 else 0) ∧
    (op_ADC m ea s).1.V =
      (if bit a 7 = bit m 7 ∧ bit ((a + m + c) % 256) 7 ≠ bit a 7 then 1 else 0) ∧
    (op_ADC m ea s).1.Z = (if (a + m + c) % 256 = 0 then 1 else 0) ∧
    (op_ADC m ea s).1.N = bit ((a + m + c) % 256) 7 ∧
    (op_ADC m ea s).1.B = s.B := by
  obtain ⟨ha0, ha1⟩ := ha
  obtain ⟨hm0, hm1⟩ := hm
  have hc0 : 0 ≤ c := by rcases hc with h | h <;> omega
  have hc1 : c ≤ 1 := by rcases hc with h | h <;> omega
  have hacc : get_accumulator s = a := by
    unfold get_accumulator
    rw [if_pos ⟨by omega, by omega⟩, hA]
  have hx1 : c_and (c_xor a m) 0x80 = 0 ↔ a / 2 ^ 7 % 2 = m / 2 ^ 7 % 2 :=
    c_and_xor_pow_eq_zero ha0 (by omega) hm0 (by omega) 7 (by decide)
  have hx2 : c_and (c_xor a (a + m + c)) 0x80 = 0 ↔
      a / 2 ^ 7 % 2 = (a + m + c) / 2 ^ 7 % 2 :=
    c_and_xor_pow_eq_zero ha0 (by omega) (by omega) (by omega) 7 (by decide)
  have hmm : 0 ≤ (a + m + c) % 256 := Int.emod_nonneg _ (by decide)
  have hb : ((a + m + c) % 256) / 2 ^ 7 % 2 = (a + m + c) / 2 ^ 7 % 2 := by
    norm_num
    omega
  have hcarry : (a + m + c) / 2 ^ 8 % 2 = (if a + m + c ≥ 256 then 1 else 0) := by
    norm_num
    split_ifs <;> omega
  unfold op_ADC
  simp only [hacc, hC]
  rw [if_pos ⟨by omega, hc0⟩]
  have hD1 : ¬ s.D = 1 := by omega
  have hMS1 : s.MS > 0 := by omega
  simp only [if_neg hD1, if_pos hMS1]
  unfold set_NZ_AB
  simp only [hMS1, if_true, c_and_ff, hmm, ge_iff_le]
  unfold set_NZ8
  simp only [c_bit_eq, c_and_ff, bit, c_bool]
  refine ⟨trivial, hcarry, ?_, ?_, trivial, trivial⟩
  · refine if_congr (and_congr hx1 ?_) rfl rfl
    rw [Ne, Ne, hx2, hb]
    exact ⟨fun h e => h e.symm, fun h e => h e.symm⟩
  · simp [Int.emod_emod_of_dvd]

/-- Witness of C9: 0x80 + 0x80 with carry clear gives A = 0x00, C = 1, V = 1, Z = 1, N = 0. -/
theorem op_ADC_binary_8bit_witness :
    (op_ADC 0x80 (-1) { A := 0x80, C := 0, D := 0, MS := 1 }).1.A = (0x80 + 0x80 + 0) % 256 ∧
    (op_ADC 0x80 (-1) { A := 0x80, C := 0, D := 0, MS := 1 }).1.C =
      (if (0x80 : Int) + 0x80 + 0 ≥ 256 then 1 else 0) ∧
    (op_ADC 0x80 (-1) { A := 0x80, C := 0, D := 0, MS := 1 }).1.V =
      (if bit 0x80 7 = bit 0x80 7 ∧ bit ((0x80 + 0x80 + 0) % 256) 7 ≠ bit 0x80 7
        then 1 else 0) ∧
    (op_ADC 0x80 (-1) { A := 0x80, C := 0, D := 0, MS := 1 }).1.Z =
      (if ((0x80 : Int) + 0x80 + 0) % 256 = 0 then 1 else 0) ∧
    (op_ADC 0x80 (-1) { A := 0x80, C := 0, D := 0, MS := 1 }).1.N =
      bit ((0x80 + 0x80 + 0) % 256) 7 ∧
    (op_ADC 0x80 (-1) { A := 0x80, C := 0, D := 0, MS := 1 }).1.B = -1 :=
  op_ADC_binary_8bit 0x80 0x80 0 (-1) { A := 0x80, C := 0, D := 0, MS := 1 } rfl rfl rfl rfl
    (by decide) (by decide) (by decide)

/-- C10: under E = 0, emulating REP #$30 leaves MS = 0 and XS = 0; then for every 16-bit value
v, emulating LDA #v (bus A9 lo hi, 3 cycles) gives an instruction record with 2 operand bytes,
A = v & 0xFF, B = v >> 8, N = bit 15 of v, Z = 1 exactly when v = 0, and a PC that was known
before the REP is known after the LDA and is the PC before the LDA advanced by 3 (as a 16-bit
register, modulo 0x10000). -/
theorem rep_lda_16bit (v : Int) (s : State) (ins ins2 : instruction_t) (hE : s.E = 0)
    (hPC : 0 ≤ s.PC) (hv : 0 ≤ v ∧ v < 65536) :
    (em_65816_emulate (bus [0xC2, 0x30]) 3 ins s).1.MS = 0 ∧
    (em_65816_emulate (bus [0xC2, 0x30]) 3 ins s).1.XS = 0 ∧
    (em_65816_emulate (bus [0xA9, v % 256, v / 256]) 3 ins2
      (em_65816_emulate (bus [0xC2, 0x30]) 3 ins s).1).2.opcount = 2 ∧
    (em_65816_emulate (bus [0xA9, v % 256, v / 256]) 3 ins2
      (em_65816_emulate (bus [0xC2, 0x30]) 3 ins s).1).1.A = c_and v 0xFF ∧
    (em_65816_emulate (bus [0xA9, v % 256, v / 256]) 3 ins2
      (em_65816_emulate (bus [0xC2, 0x30]) 3 ins s).1).1.B = c_shr v 8 ∧
    (em_65816_emulate (bus [0xA9, v % 256, v / 256]) 3 ins2
      (em_65816_emulate (bus [0xC2, 0x30]) 3 ins s).1).1.N = bit v 15 ∧
    (em_65816_emulate (bus [0xA9, v % 256, v / 256]) 3 ins2
      (em_65816_emulate (bus [0xC2, 0x30]) 3 ins s).1).1.Z = (if v = 0 then 1 else 0) ∧
    0 ≤ (em_65816_emulate (bus [0xA9, v % 256, v / 256]) 3 ins2
      (em_65816_emulate (bus [0xC2, 0x30]) 3 ins s).1).1.PC ∧
    (em_65816_emulate (bus [0xA9, v % 256, v / 256]) 3 ins2
      (em_65816_emulate (bus [0xC2, 0x30]) 3 ins s).1).1.PC =
      ((em_65816_emulate (bus [0xC2, 0x30]) 3 ins s).1.PC + 3) % 65536 := by
  obtain ⟨r1, r2, _, r4⟩ := rep_30 s ins hE
  obtain ⟨l1, _, l3, l4, l5, l6, l7⟩ :=
    lda_imm16 v hv (em_65816_emulate (bus [0xC2, 0x30]) 3 ins s).1 ins2 r1
  rw [if_neg (by omega)] at r4
  have hpc : ¬ (em_65816_emulate (bus [0xC2, 0x30]) 3 ins s).1.PC < 0 := by
    rw [r4]
    omega
  rw [if_neg hpc] at l7
  refine ⟨r1, r2, l1, ?_, ?_, l5, l6, ?_, l7⟩
  · rw [l3, c_and_ff]
  · rw [l4]
    rfl
  · rw [l7]
    omega

/-- Witness of C10: v = 0x1234 from PC = 0x1000 gives A = 0x34, B = 0x12, Z = 0, N = 0. -/
theorem rep_lda_16bit_witness :
    (em_65816_emulate (bus [0xA9, 0x1234 % 256, 0x1234 / 256]) 3 {}
      (em_65816_emulate (bus [0xC2, 0x30]) 3 {} { E := 0, PC := 0x1000 }).1).1.A = 0x34 ∧
    (em_65816_emulate (bus [0xA9, 0x1234 % 256, 0x1234 / 256]) 3 {}
      (em_65816_emulate (bus [0xC2, 0x30]) 3 {} { E := 0, PC := 0x1000 }).1).1.B = 0x12 ∧
    (em_65816_emulate (bus [0xA9, 0x1234 % 256, 0x1234 / 256]) 3 {}
      (em_65816_emulate (bus [0xC2, 0x30]) 3 {} { E := 0, PC := 0x1000 }).1).1.N = 0 ∧
    (em_65816_emulate (bus [0xA9, 0x1234 % 256, 0x1234 / 256]) 3 {}
      (em_65816_emulate (bus [0xC2, 0x30]) 3 {} { E := 0, PC := 0x1000 }).1).1.Z = 0 :=
  ⟨(rep_lda_16bit 0x1234 { E := 0, PC := 0x1000 } {} {} rfl (by decide)
      (by decide)).2.2.2.1.trans (by decide),
   (rep_lda_16bit 0x1234 { E := 0, PC := 0x1000 } {} {} rfl (by decide)
      (by decide)).2.2.2.2.1.trans (by decide),
   (rep_lda_16bit 0x1234 { E := 0, PC := 0x1000 } {} {} rfl (by decide)
      (by decide)).2.2.2.2.2.1.trans (by decide),
   (rep_lda_16bit 0x1234 { E := 0, PC := 0x1000 } {} {} rfl (by decide)
      (by decide)).2.2.2.2.2.2.1.trans (by decide)⟩

/-- C11: leaving emulation mode reveals nothing new. From E = 1, MS = XS = 1 and C = 0,
`op_XCE` leaves E = 0, MS = 1 and XS = 1, leaves SH, SL, A, B, X and Y as they were and leaves
the failure flag as it was; a following `op_REP` then clears MS exactly when bit 5 of its
operand is set and XS exactly when bit 4 is set, and leaves them at 1 otherwise. -/
theorem op_XCE_leaves_emulation (operand ea : Int) (s : State) (hE : s.E = 1)
    (hMS : s.MS = 1) (hXS : s.XS = 1) (hC : s.C = 0) :
    (op_XCE operand ea s).1.E = 0 ∧
    (op_XCE operand ea s).1.MS = 1 ∧ (op_XCE operand ea s).1.XS = 1 ∧
    (op_XCE operand ea s).1.SH = s.SH ∧ (op_XCE operand ea s).1.SL = s.SL ∧
    (op_XCE operand ea s).1.A = s.A ∧ (op_XCE operand ea s).1.B = s.B ∧
    (op_XCE operand ea s).1.X = s.X ∧ (op_XCE operand ea s).1.Y = s.Y ∧
    (op_XCE operand ea s).1.failflag = s.failflag ∧
    (∀ p ea2, (op_REP p ea2 (op_XCE operand ea s).1).1.MS =
        (if c_and p 0x20 ≠ 0 then 0 else 1) ∧
      (op_REP p ea2 (op_XCE operand ea s).1).1.XS = (if c_and p 0x10 ≠ 0 then 0 else 1)) := by
  have hx : (op_XCE operand ea s).1 = { s with C := 1, E := 0 } := by
    unfold op_XCE emulation_mode_off
    simp [hC, hE]
  rw [hx]
  refine ⟨rfl, hMS, hXS, rfl, rfl, rfl, rfl, rfl, rfl, rfl, ?_⟩
  intro p ea2
  unfold op_REP repsep x_flag_updated
  constructor
  · by_cases h : c_and p 0x20 = 0 <;> by_cases h2 : c_and p 0x10 = 0 <;> simp [h, h2, hMS]
  · by_cases h2 : c_and p 0x10 = 0 <;> simp [h2, hXS]

/-- Witness of C11: the emulation-mode state with C = 0. -/
theorem op_XCE_leaves_emulation_witness :
    (op_XCE 0 (-1) { E := 1, MS := 1, XS := 1, SH := 1, C := 0 }).1.E = 0 ∧
    (op_XCE 0 (-1) { E := 1, MS := 1, XS := 1, SH := 1, C := 0 }).1.MS = 1 ∧
    (op_XCE 0 (-1) { E := 1, MS := 1, XS := 1, SH := 1, C := 0 }).1.XS = 1 :=
  ⟨(op_XCE_leaves_emulation 0 (-1) { E := 1, MS := 1, XS := 1, SH := 1, C := 0 }
      rfl rfl rfl rfl).1,
   (op_XCE_leaves_emulation 0 (-1) { E := 1, MS := 1, XS := 1, SH := 1, C := 0 }
      rfl rfl rfl rfl).2.1,
   (op_XCE_leaves_emulation 0 (-1) { E := 1, MS := 1, XS := 1, SH := 1, C := 0 }
      rfl rfl rfl rfl).2.2.1⟩

/-- C12: for BRA (0x80) with offset byte 0xFE and no interrupt seen, `get_num_cycles` returns
3 when E = 0; when E = 1 and PC is known (0..0xFFFF) it returns 3 if PC, the branch target,
is in the page of PC + 2 and 4 if not, which is the case exactly when the low byte of PC is
0xFE or 0xFF. -/
theorem get_num_cycles_BRA_loop (sample_q : Int → sample_t) (s : State)
    (h0 : (sample_q 0).data = 0x80) (h1 : (sample_q 1).data = 0xFE) :
    (s.E = 0 → get_num_cycles sample_q 0 s = 3) ∧
    (s.E = 1 → 0 ≤ s.PC → s.PC < 65536 →
      get_num_cycles sample_q 0 s = (if s.PC / 256 = (s.PC + 2) / 256 then 3 else 4) ∧
      (s.PC / 256 = (s.PC + 2) / 256 ↔ s.PC % 256 < 254)) := by
  have k1 : c_and 128 31 = 0 := by decide
  have k2 : to_int8 254 = -2 := by decide
  constructor
  · intro hE
    unfold get_num_cycles branch_taken
    simp [h0, h1, hE, AddrMode.val, k1]
  · intro hE hpc0 hpc1
    have e1 : c_and s.PC 0xFF00 = (s.PC / 256 % 256) * 256 := c_and_ff00 hpc0 (by omega)
    have e2 : c_and (s.PC + 2) 0xff00 = ((s.PC + 2) / 256 % 256) * 256 :=
      c_and_ff00 (by omega) (by omega)
    have hiff : s.PC / 256 = (s.PC + 2) / 256 ↔ s.PC % 256 < 254 := by omega
    refine ⟨?_, hiff⟩
    unfold get_num_cycles branch_taken
    simp only [h0, h1, k2]
    have e3 : s.PC + 2 + -2 = s.PC := by omega
    simp [hE, AddrMode.val, k1, hpc0, e3, e1, e2]
    by_cases hp : s.PC % 256 < 254
    · have a1 : s.PC / 256 = (s.PC + 2) / 256 := hiff.2 hp
      simp [← a1]
    · have a1 : ¬ s.PC / 256 = (s.PC + 2) / 256 := fun h => hp (hiff.1 h)
      have a2 : ¬ s.PC / 256 % 256 = (s.PC + 2) / 256 % 256 := by omega
      simp [a1, a2]

/-- Witness of C12: PC = 0x10FE in emulation mode gives 4 cycles. -/
theorem get_num_cycles_BRA_loop_witness :
    get_num_cycles (bus [0x80, 0xFE]) 0 { E := 1, MS := 1, XS := 1, SH := 1, PC := 0x10FE } =
      (if (0x10FE : Int) / 256 = (0x10FE + 2) / 256 then 3 else 4) :=
  ((get_num_cycles_BRA_loop (bus [0x80, 0xFE])
    { E := 1, MS := 1, XS := 1, SH := 1, PC := 0x10FE } rfl rfl).2 rfl
      (by decide) (by decide)).1

/-- C13: for every read-type (d),Y opcode (mode INDY, not a store), with no interrupt seen,
E = 1, DP unknown or page-aligned and Y known, `get_num_cycles` returns the base cycle count of
the table plus 1 exactly when adding Y to the pointer made of samples 2 (low byte) and 3 (high
byte) changes its page, and the base count otherwise; and for the store STA (d),Y (0x91) the
result is the same for every value of Y, in every state and for either value of the interrupt
argument. -/
theorem get_num_cycles_INDY (sample_q : Int → sample_t) (s : State) (opcode : Int)
    (hop : 0 ≤ opcode ∧ opcode < 256) (h0 : (sample_q 0).data = opcode)
    (hmode : (instr_table opcode).mode = AddrMode.INDY)
    (hlo : 0 ≤ (sample_q 2).data ∧ (sample_q 2).data < 256)
    (hhi : 0 ≤ (sample_q 3).data ∧ (sample_q 3).data < 256) :
    ((instr_table opcode).optype ≠ OpType.WRITEOP → s.E = 1 →
      (s.DP < 0 ∨ c_and s.DP 0xff = 0) → 0 ≤ s.Y → s.Y < 65536 →
      get_num_cycles sample_q 0 s = (instr_table opcode).cycles +
        (if ((sample_q 2).data + 256 * (sample_q 3).data + s.Y) / 256 ≠
            ((sample_q 2).data + 256 * (sample_q 3).data) / 256 then 1 else 0)) ∧
    (opcode = 0x91 → ∀ intr_seen y,
      get_num_cycles sample_q intr_seen { s with Y := y } =
        get_num_cycles sample_q intr_seen s) := by
  constructor
  · intro hopt hE hDP hY0 hY1
    have hdp : ¬ (s.DP ≥ 0 ∧ c_and s.DP 0xff ≠ 0) := by
      rintro ⟨a, b⟩
      rcases hDP with h | h
      · omega
      · exact b h
    obtain ⟨l0, l1⟩ := hlo
    obtain ⟨g0, g1⟩ := hhi
    have e1 : c_and ((sample_q 3).data * 256 + (sample_q 2).data) 0x1ff00 =
        (((sample_q 3).data * 256 + (sample_q 2).data) / 256 % 512) * 256 :=
      c_and_1ff00 (by omega) (by omega)
    have e2 : c_and ((sample_q 3).data * 256 + (sample_q 2).data + s.Y) 0x1ff00 =
        (((sample_q 3).data * 256 + (sample_q 2).data + s.Y) / 256 % 512) * 256 :=
      c_and_1ff00 (by omega) (by omega)
    have hiff : ((sample_q 3).data * 256 + (sample_q 2).data) / 256 % 512 * 256 =
          ((sample_q 3).data * 256 + (sample_q 2).data + s.Y) / 256 % 512 * 256 ↔
        ((sample_q 2).data + 256 * (sample_q 3).data + s.Y) / 256 =
          ((sample_q 2).data + 256 * (sample_q 3).data) / 256 := by
      omega
    have k : ∀ o : Int, o = 0x11 ∨ o = 0x31 ∨ o = 0x51 ∨ o = 0x71 ∨ o = 0xB1 ∨ o = 0xD1 ∨
        o = 0xF1 → o ≠ 0 ∧ o ≠ 2 ∧ o ≠ 0x40 ∧ o ≠ 0x80 ∧ c_and o 0x1f ≠ 0x10 := by
      intro o ho
      rcases ho with h | h | h | h | h | h | h <;> subst h <;> decide
    have hne : opcode ≠ 0x91 := by
      intro h
      subst h
      exact hopt (by simp)
    have hcases : opcode = 0x11 ∨ opcode = 0x31 ∨ opcode = 0x51 ∨ opcode = 0x71 ∨
        opcode = 0xB1 ∨ opcode = 0xD1 ∨ opcode = 0xF1 := by
      have := indy_opcodes hop.1 hop.2 hmode
      omega
    obtain ⟨-, -, -, -, nb⟩ := k opcode hcases
    unfold get_num_cycles
    simp only [h0]
    rcases hcases with h | h | h | h | h | h | h <;> subst h <;>
      simp [hE, AddrMode.val, hdp, hY0, c_shl_eq, e1, e2, hiff, nb] <;>
      split_ifs <;> rfl
  · intro hop91 intr_seen y
    subst hop91
    have k91 : c_and 145 31 ≠ 16 := by decide
    unfold get_num_cycles
    simp only [h0]
    simp [AddrMode.val, k91]

/-- Witness of C13: LDA (d),Y with the pointer 0x20FF and Y = 1 crosses a page. -/
theorem get_num_cycles_INDY_witness :
    get_num_cycles (bus [0xB1, 0x10, 0xFF, 0x20]) 0
        { E := 1, MS := 1, XS := 1, SH := 1, Y := 1 } =
      (instr_table 0xB1).cycles +
        (if ((bus [0xB1, 0x10, 0xFF, 0x20] 2).data +
              256 * (bus [0xB1, 0x10, 0xFF, 0x20] 3).data + 1) / 256 ≠
            ((bus [0xB1, 0x10, 0xFF, 0x20] 2).data +
              256 * (bus [0xB1, 0x10, 0xFF, 0x20] 3).data) / 256 then 1 else 0) :=
  (get_num_cycles_INDY (bus [0xB1, 0x10, 0xFF, 0x20])
    { E := 1, MS := 1, XS := 1, SH := 1, Y := 1 } 0xB1 (by decide) rfl (by decide)
    (by decide) (by decide)).1 (by decide) rfl (by decide) (by decide) (by decide)

/-- C14 (evaluation at the failing input): for LDA (d),Y (0xB1) in emulation mode with Y
unknown and the pointer 0x20FF on the bus, `get_num_cycles` returns 5, not the unknown
sentinel -1, although the count depends on Y: it is 5 for Y = 0 and 6 for Y = 1. -/
theorem get_num_cycles_INDY_unknown_Y :
    get_num_cycles (bus [0xB1, 0x10, 0xFF, 0x20]) 0
      { E := 1, MS := 1, XS := 1, SH := 1, Y := -1 } = 5 ∧
    get_num_cycles (bus [0xB1, 0x10, 0xFF, 0x20]) 0
      { E := 1, MS := 1, XS := 1, SH := 1, Y := 0 } = 5 ∧
    get_num_cycles (bus [0xB1, 0x10, 0xFF, 0x20]) 0
      { E := 1, MS := 1, XS := 1, SH := 1, Y := 1 } = 6 := by
  decide

/-- C15: for every opcode 0..255 of the table, the declared length `len` is the length of its
addressing mode in `addr_mode_table`; with 8-bit immediates the text of `em_65816_disassemble`
renders operand byte 1 exactly when 2 ≤ len, operand byte 2 exactly when 3 ≤ len and operand
byte 3 exactly when 4 ≤ len, so that 1 plus the number of operand bytes rendered is len; and
for every opcode whose mode is not immediate the instruction record built by
`em_65816_emulate` has opcount = len - 1, in every state and for every sample window. -/
theorem disassembly_length (opcode : Int) (h0 : 0 ≤ opcode) (h1 : opcode < 256) :
    (instr_table opcode).len = (addr_mode_table (instr_table opcode).mode).1 ∧
    (1 ≤ (instr_table opcode).len ∧ (instr_table opcode).len ≤ 4) ∧
    (renders_op1 opcode ↔ 2 ≤ (instr_table opcode).len) ∧
    (renders_op2 opcode ↔ 3 ≤ (instr_table opcode).len) ∧
    (renders_op3 opcode ↔ 4 ≤ (instr_table opcode).len) ∧
    ((instr_table opcode).mode ≠ AddrMode.IMM →
      ∀ (sample_q : Int → sample_t) (num_cycles : Int) (instruction : instruction_t)
        (s : State), (sample_q 0).data = opcode →
        (em_65816_emulate sample_q num_cycles instruction s).2.opcount =
          (instr_table opcode).len - 1) := by
  obtain ⟨n, rfl⟩ := Int.eq_ofNat_of_zero_le h0
  have hn : n < 256 := by omega
  refine ⟨rfl, ?_, ?_, ?_, ?_, ?_⟩
  · rw [instr_table_len]
    cases (instr_table (n : Int)).mode <;> decide
  · constructor
    · rintro ⟨ins, v, w, hop, -, hne⟩
      by_contra hlt
      exact hne (disassemble_ignores_op1 ins v w (by rw [hop]; omega))
    · intro hlen
      exact ⟨{ opcode := (n : Int), op1 := 0 }, 0, 1, rfl, (show (0 : Int) ≠ 2 by decide),
        disassemble_op1_nat n hn hlen⟩
  · constructor
    · rintro ⟨ins, v, w, hop, hc, hne⟩
      by_contra hlt
      exact hne (disassemble_ignores_op2 ins v w hc (by rw [hop]; omega))
    · intro hlen
      exact ⟨{ opcode := (n : Int), op2 := 0 }, 0, 1, rfl, (show (0 : Int) ≠ 2 by decide),
        disassemble_op2_nat n hn hlen⟩
  · constructor
    · rintro ⟨ins, v, w, hop, -, hne⟩
      by_contra hlt
      exact hne (disassemble_ignores_op3 ins v w (by rw [hop]; omega))
    · intro hlen
      exact ⟨{ opcode := (n : Int), op3 := 0 }, 0, 1, rfl, (show (0 : Int) ≠ 2 by decide),
        disassemble_op3_nat n hn hlen⟩
  · intro hmode sample_q num_cycles instruction s hq
    rw [em_65816_emulate_opcount, hq]
    exact emulate_opcount_not_IMM _ _ hmode

/-- Witness of C15: STA abs (0x8D) has length 3 and its disassembly renders two operand
bytes. -/
theorem disassembly_length_witness :
    (instr_table 0x8D).len = (addr_mode_table (instr_table 0x8D).mode).1 ∧
    (renders_op2 0x8D ↔ 3 ≤ (instr_table 0x8D).len) ∧
    (renders_op3 0x8D ↔ 4 ≤ (instr_table 0x8D).len) :=
  ⟨(disassembly_length 0x8D (by decide) (by decide)).1,
   (disassembly_length 0x8D (by decide) (by decide)).2.2.2.1,
   (disassembly_length 0x8D (by decide) (by decide)).2.2.2.2.1⟩

/-- C16: interrupt recognition by data. Given at least 7 samples, none of samples 1..6 marked
OPCODE, the R/W line unknown, E = 1 and a known PC (0..0xFFFF), `em_65816_match_interrupt`
returns 1 exactly when sample 2 is the high byte of PC, sample 3 is its low byte, sample 4 (a
byte) has bit 5 = 1 and bit 4 = 0, and every known flag among N, V, D, I, Z, C equals its bit
7, 6, 3, 2, 1, 0 of sample 4; it returns 0 otherwise. -/
theorem match_interrupt_by_data (sample_q : Int → sample_t) (num_samples : Int) (s : State)
    (hn : 7 ≤ num_samples)
    (hty : ∀ i, 1 ≤ i → i ≤ 6 → (sample_q i).type ≠ sample_type_t.OPCODE)
    (hrnw : (sample_q 0).rnw < 0) (hE : s.E = 1) (hPC : 0 ≤ s.PC ∧ s.PC < 65536)
    (hp : 0 ≤ (sample_q 4).data ∧ (sample_q 4).data < 256) :
    (em_65816_match_interrupt sample_q num_samples s = 1 ↔
      (sample_q 2).data = s.PC / 256 ∧ (sample_q 3).data = s.PC % 256 ∧
      bit (sample_q 4).data 5 = 1 ∧ bit (sample_q 4).data 4 = 0 ∧
      known_flags_agree (sample_q 4).data s) ∧
    (em_65816_match_interrupt sample_q num_samples s = 0 ∨
      em_65816_match_interrupt sample_q num_samples s = 1) := by
  have t1 := hty 1 (by decide) (by decide)
  have t2 := hty 2 (by decide) (by decide)
  have t3 := hty 3 (by decide) (by decide)
  have t4 := hty 4 (by decide) (by decide)
  have t5 := hty 5 (by decide) (by decide)
  have t6 := hty 6 (by decide) (by decide)
  have e30 : c_and (sample_q 4).data 0x30 = ((sample_q 4).data / 16 % 4) * 16 :=
    c_and_30 hp.1 (by omega)
  have hbits : ((sample_q 4).data / 16 % 4) * 16 = 0x20 ↔
      bit (sample_q 4).data 5 = 1 ∧ bit (sample_q 4).data 4 = 0 := by
    unfold bit
    norm_num
    omega
  have hpch : c_and (c_shr s.PC 8) 0xff = s.PC / 256 := by
    rw [c_and_ff, c_shr_eq]
    norm_num
    omega
  unfold em_65816_match_interrupt
  rw [if_neg (by omega), if_neg (by simp [t1, t2, t3, t4, t5, t6]), if_neg (by omega)]
  rw [compare_FLAGS_emulation _ _ hE, e30, hpch, c_and_ff]
  by_cases hk : known_flags_agree (sample_q 4).data s
  · simp only [hk, if_true, and_true]
    by_cases hc : ((sample_q 2).data = s.PC / 256 ∧ (sample_q 3).data = s.PC % 256) ∧
        (sample_q 4).data / 16 % 4 * 16 = 0x20
    · rw [if_pos hc]
      exact ⟨⟨fun _ => ⟨hc.1.1, hc.1.2, (hbits.1 hc.2).1, (hbits.1 hc.2).2⟩, fun _ => rfl⟩,
        Or.inr rfl⟩
    · rw [if_neg hc]
      refine ⟨⟨fun h => absurd h (by decide), fun h => ?_⟩, Or.inl rfl⟩
      exact absurd ⟨⟨h.1, h.2.1⟩, hbits.2 ⟨h.2.2.1, h.2.2.2⟩⟩ hc
  · simp only [hk, if_false, and_false]
    rw [if_neg (by simp)]
    exact ⟨⟨fun h => absurd h (by decide), fun h => absurd h (by simp)⟩, Or.inl rfl⟩

/-- Witness of C16: PC = 0x1234 on the bus followed by the P byte 0x20, all flags unknown. -/
theorem match_interrupt_by_data_witness :
    em_65816_match_interrupt (bus [0xEA, 0x00, 0x12, 0x34, 0x20, 0x00, 0x80]) 7
      { E := 1, MS := 1, XS := 1, SH := 1, PC := 0x1234 } = 1 ↔
      ((bus [0xEA, 0x00, 0x12, 0x34, 0x20, 0x00, 0x80] 2).data = 0x1234 / 256 ∧
       (bus [0xEA, 0x00, 0x12, 0x34, 0x20, 0x00, 0x80] 3).data = 0x1234 % 256 ∧
       bit (bus [0xEA, 0x00, 0x12, 0x34, 0x20, 0x00, 0x80] 4).data 5 = 1 ∧
       bit (bus [0xEA, 0x00, 0x12, 0x34, 0x20, 0x00, 0x80] 4).data 4 = 0 ∧
       known_flags_agree (bus [0xEA, 0x00, 0x12, 0x34, 0x20, 0x00, 0x80] 4).data
         { E := 1, MS := 1, XS := 1, SH := 1, PC := 0x1234 }) :=
  (match_interrupt_by_data (bus [0xEA, 0x00, 0x12, 0x34, 0x20, 0x00, 0x80]) 7
    { E := 1, MS := 1, XS := 1, SH := 1, PC := 0x1234 } (by decide)
    (fun i _ _ => by simp) (by decide) rfl (by decide) (by decide)).1

/-- C17: a 7-cycle interrupt entry handled in emulation mode (E = 1, SL known) with the P byte
p = sample 4. After `em_65816_interrupt`: I = 1, D = 0, PB = 0, PC = sample 5 + 256 * sample 6,
N, V, Z, C are bits 7, 6, 1, 0 of p, MS = XS = 1, SH = 1, SL has decreased by 3 modulo 256,
and the failure flag (an `int`) is what it was when every known flag among N, V, D, I, Z, C agrees with
p, and has bit 0 set otherwise. -/
theorem interrupt_emulation_mode (sample_q : Int → sample_t) (instruction : instruction_t)
    (s : State) (hE : s.E = 1) (hSL : 0 ≤ s.SL)
    (hff : -2147483648 ≤ s.failflag ∧ s.failflag < 2147483648) :
    (em_65816_interrupt sample_q 7 instruction s).1.I = 1 ∧
    (em_65816_interrupt sample_q 7 instruction s).1.D = 0 ∧
    (em_65816_interrupt sample_q 7 instruction s).1.PB = 0 ∧
    (em_65816_interrupt sample_q 7 instruction s).1.PC =
      (sample_q 5).data + 256 * (sample_q 6).data ∧
    (em_65816_interrupt sample_q 7 instruction s).1.N = bit (sample_q 4).data 7 ∧
    (em_65816_interrupt sample_q 7 instruction s).1.V = bit (sample_q 4).data 6 ∧
    (em_65816_interrupt sample_q 7 instruction s).1.Z = bit (sample_q 4).data 1 ∧
    (em_65816_interrupt sample_q 7 instruction s).1.C = bit (sample_q 4).data 0 ∧
    (em_65816_interrupt sample_q 7 instruction s).1.MS = 1 ∧
    (em_65816_interrupt sample_q 7 instruction s).1.XS = 1 ∧
    (em_65816_interrupt sample_q 7 instruction s).1.SH = 1 ∧
    (em_65816_interrupt sample_q 7 instruction s).1.SL = (s.SL - 3) % 256 ∧
    (em_65816_interrupt sample_q 7 instruction s).1.failflag =
      (if known_flags_agree (sample_q 4).data s then s.failflag else c_or s.failflag 1) := by
  have hkf : ∀ t : State, t.N = s.N → t.V = s.V → t.D = s.D → t.I = s.I → t.Z = s.Z →
      t.C = s.C → (known_flags_agree (sample_q 4).data t ↔
        known_flags_agree (sample_q 4).data s) := by
    intro t h1 h2 h3 h4 h5 h6
    unfold known_flags_agree
    rw [h1, h2, h3, h4, h5, h6]
  unfold em_65816_interrupt interrupt
  simp only [if_true]
  have h1 : (emulation_mode_on s).E ≠ 0 := by simp
  rw [if_neg h1]
  have e : (2 : Int) + 2 = 4 := rfl
  rw [e]
  generalize hpc : c_shl (sample_q 2).data 8 + (sample_q (2 + 1)).data = pc
  refine ⟨trivial, trivial, trivial, ?_, set_FLAGS_N _ _, set_FLAGS_V _ _, set_FLAGS_Z _ _,
    set_FLAGS_C _ _, ?_, ?_, ?_, ?_, ?_⟩
  · show c_shl (sample_q 6).data 8 + (sample_q 5).data = _
    rw [c_shl_eq]
    norm_num
    omega
  · simp
  · simp
  · simp
  · simp only [set_FLAGS_SL, check_FLAGS_SL]
    unfold push16
    rw [push8_SL_of_known, push8_SL_of_known, push8_SL_of_known]
    · simp only [emulation_mode_on_SL]
      omega
    · simpa using hSL
    · rw [push8_SL_of_known _ _ (by simpa using hSL)]
      exact Int.emod_nonneg _ (by decide)
    · rw [push8_SL_of_known, push8_SL_of_known _ _ (by simpa using hSL)]
      · exact Int.emod_nonneg _ (by decide)
      · rw [push8_SL_of_known _ _ (by simpa using hSL)]
        exact Int.emod_nonneg _ (by decide)
  · simp only [set_FLAGS_failflag]
    unfold check_FLAGS
    simp only []
    rw [compare_FLAGS_emulation _ _ (by simp)]
    have hk := hkf (push8 (sample_q 4).data (push16 pc (emulation_mode_on s)))
      (by simp) (by simp) (by simp) (by simp) (by simp) (by simp)
    simp only [push8_failflag, push16_failflag, emulation_mode_on_failflag, hE]
    by_cases hh : known_flags_agree (sample_q 4).data s
    · rw [if_pos (hk.2 hh), if_pos hh]
      exact c_or_zero hff.1 hff.2
    · rw [if_neg (fun h => hh (hk.1 h)), if_neg hh]
      simp

/-- Witness of C17: an interrupt entry with SL = 0xFF and the P byte 0x21. -/
theorem interrupt_emulation_mode_witness :
    (em_65816_interrupt (bus [0xEA, 0x00, 0x12, 0x34, 0x21, 0x00, 0x80]) 7 {}
      { E := 1, MS := 1, XS := 1, SH := 1, SL := 0xFF }).1.SL = (0xFF - 3) % 256 ∧
    (em_65816_interrupt (bus [0xEA, 0x00, 0x12, 0x34, 0x21, 0x00, 0x80]) 7 {}
      { E := 1, MS := 1, XS := 1, SH := 1, SL := 0xFF }).1.PC =
      (bus [0xEA, 0x00, 0x12, 0x34, 0x21, 0x00, 0x80] 5).data +
        256 * (bus [0xEA, 0x00, 0x12, 0x34, 0x21, 0x00, 0x80] 6).data :=
  ⟨(interrupt_emulation_mode (bus [0xEA, 0x00, 0x12, 0x34, 0x21, 0x00, 0x80]) {}
      { E := 1, MS := 1, XS := 1, SH := 1, SL := 0xFF } rfl (by decide)
      (by decide)).2.2.2.2.2.2.2.2.2.2.2.1,
   (interrupt_emulation_mode (bus [0xEA, 0x00, 0x12, 0x34, 0x21, 0x00, 0x80]) {}
      { E := 1, MS := 1, XS := 1, SH := 1, SL := 0xFF } rfl (by decide)
      (by decide)).2.2.2.1⟩

/-- C18: interrupt recognition with the R/W line observed. With fewer than 7 samples
`em_65816_match_interrupt` returns 0. Given at least 7 samples, none of samples 1..6 marked
OPCODE and the rnw of sample 0 known, it returns 1 exactly when the opcode byte (sample 0) is
neither 0x00 nor 0x02 and samples 2, 3 and 4 are all writes (rnw = 0), and 0 otherwise, in
every state. -/
theorem match_interrupt_by_rnw (sample_q : Int → sample_t) (num_samples : Int) (s : State) :
    (num_samples < 7 → em_65816_match_interrupt sample_q num_samples s = 0) ∧
    (7 ≤ num_samples →
      (∀ i, 1 ≤ i → i ≤ 6 → (sample_q i).type ≠ sample_type_t.OPCODE) →
      (sample_q 0).rnw ≥ 0 →
      (em_65816_match_interrupt sample_q num_samples s = 1 ↔
        ((sample_q 0).data ≠ 0x00 ∧ (sample_q 0).data ≠ 0x02) ∧
        (sample_q 2).rnw = 0 ∧ (sample_q 3).rnw = 0 ∧ (sample_q 4).rnw = 0) ∧
      (em_65816_match_interrupt sample_q num_samples s = 0 ∨
        em_65816_match_interrupt sample_q num_samples s = 1)) := by
  constructor
  · intro hn
    unfold em_65816_match_interrupt
    rw [if_pos hn]
  · intro hn hty hrnw
    have t1 := hty 1 (by decide) (by decide)
    have t2 := hty 2 (by decide) (by decide)
    have t3 := hty 3 (by decide) (by decide)
    have t4 := hty 4 (by decide) (by decide)
    have t5 := hty 5 (by decide) (by decide)
    have t6 := hty 6 (by decide) (by decide)
    unfold em_65816_match_interrupt
    rw [if_neg (by omega), if_neg (by simp [t1, t2, t3, t4, t5, t6]), if_pos hrnw]
    by_cases hop : (sample_q 0).data = 0x00 ∨ (sample_q 0).data = 0x02
    · rw [if_pos hop]
      refine ⟨⟨fun h => absurd h (by decide), fun h => ?_⟩, Or.inl rfl⟩
      rcases hop with h0 | h0
      · exact absurd h0 h.1.1
      · exact absurd h0 h.1.2
    · rw [if_neg hop]
      have hop2 : (sample_q 0).data ≠ 0x00 ∧ (sample_q 0).data ≠ 0x02 :=
        ⟨fun h => hop (Or.inl h), fun h => hop (Or.inr h)⟩
      by_cases hw : (sample_q 2).rnw = 0 ∧ (sample_q 3).rnw = 0 ∧ (sample_q 4).rnw = 0
      · rw [if_pos hw]
        exact ⟨⟨fun _ => ⟨hop2, hw⟩, fun _ => rfl⟩, Or.inr rfl⟩
      · rw [if_neg hw]
        exact ⟨⟨fun h => absurd h (by decide), fun h => absurd h.2 hw⟩, Or.inl rfl⟩

/-- Witness of C18: a NOP followed by three writes in cycles 2, 3 and 4. -/
theorem match_interrupt_by_rnw_witness :
    em_65816_match_interrupt
        (bus_rw [(0xEA, 1), (0x00, 1), (0x12, 0), (0x34, 0), (0x20, 0), (0x00, 1), (0x80, 1)])
        7 {} = 1 ↔
      ((bus_rw [(0xEA, 1), (0x00, 1), (0x12, 0), (0x34, 0), (0x20, 0), (0x00, 1),
          (0x80, 1)] 0).data ≠ 0x00 ∧
        (bus_rw [(0xEA, 1), (0x00, 1), (0x12, 0), (0x34, 0), (0x20, 0), (0x00, 1),
          (0x80, 1)] 0).data ≠ 0x02) ∧
      (bus_rw [(0xEA, 1), (0x00, 1), (0x12, 0), (0x34, 0), (0x20, 0), (0x00, 1),
        (0x80, 1)] 2).rnw = 0 ∧
      (bus_rw [(0xEA, 1), (0x00, 1), (0x12, 0), (0x34, 0), (0x20, 0), (0x00, 1),
        (0x80, 1)] 3).rnw = 0 ∧
      (bus_rw [(0xEA, 1), (0x00, 1), (0x12, 0), (0x34, 0), (0x20, 0), (0x00, 1),
        (0x80, 1)] 4).rnw = 0 :=
  ((match_interrupt_by_rnw
    (bus_rw [(0xEA, 1), (0x00, 1), (0x12, 0), (0x34, 0), (0x20, 0), (0x00, 1), (0x80, 1)])
    7 {}).2 (by decide) (fun i _ _ => by simp [bus_rw]) (by decide)).1

/-- C19: for every prior state and every sample window of n cycles, after `em_65816_reset`
A, B, X, Y, SL, N, V, Z and C are unknown (-1); I = 1, D = 0, DP = 0, PB = 0 and E = 1 with
MS = 1, XS = 1 and SH = 1; PC = sample[n-2] + 256 * sample[n-1]; the failure flag is what it
was before, whatever E was; and the instruction record has its pc unknown. -/
theorem reset_state (sample_q : Int → sample_t) (num_cycles : Int)
    (instruction : instruction_t) (s : State) :
    (em_65816_reset sample_q num_cycles instruction s).1.A = -1 ∧
    (em_65816_reset sample_q num_cycles instruction s).1.B = -1 ∧
    (em_65816_reset sample_q num_cycles instruction s).1.X = -1 ∧
    (em_65816_reset sample_q num_cycles instruction s).1.Y = -1 ∧
    (em_65816_reset sample_q num_cycles instruction s).1.SL = -1 ∧
    (em_65816_reset sample_q num_cycles instruction s).1.N = -1 ∧
    (em_65816_reset sample_q num_cycles instruction s).1.V = -1 ∧
    (em_65816_reset sample_q num_cycles instruction s).1.Z = -1 ∧
    (em_65816_reset sample_q num_cycles instruction s).1.C = -1 ∧
    (em_65816_reset sample_q num_cycles instruction s).1.I = 1 ∧
    (em_65816_reset sample_q num_cycles instruction s).1.D = 0 ∧
    (em_65816_reset sample_q num_cycles instruction s).1.DP = 0 ∧
    (em_65816_reset sample_q num_cycles instruction s).1.PB = 0 ∧
    (em_65816_reset sample_q num_cycles instruction s).1.E = 1 ∧
    (em_65816_reset sample_q num_cycles instruction s).1.MS = 1 ∧
    (em_65816_reset sample_q num_cycles instruction s).1.XS = 1 ∧
    (em_65816_reset sample_q num_cycles instruction s).1.SH = 1 ∧
    (em_65816_reset sample_q num_cycles instruction s).1.PC =
      (sample_q (num_cycles - 2)).data + 256 * (sample_q (num_cycles - 1)).data ∧
    (em_65816_reset sample_q num_cycles instruction s).1.failflag = s.failflag ∧
    (em_65816_reset sample_q num_cycles instruction s).2.pc = -1 := by
  unfold em_65816_reset emulation_mode_on x_flag_updated
  simp [c_shl_eq]
  omega

/-- C20 (evaluation at the failing inputs): `em_65816_init` with e_flag = 1 and ms_flag = 0
leaves E = 1 with MS = 0; with e_flag = 1 and xs_flag = 0 it leaves E = 1 with XS = 0; with
e_flag = 1 and sp_reg = 0x02FF it leaves E = 1 with SH = 2. With e_flag = 1 alone the
invariant is established. -/
theorem init_breaks_invariant :
    (em_65816_init { e_flag := 1, ms_flag := 0 } {}).E = 1 ∧
    (em_65816_init { e_flag := 1, ms_flag := 0 } {}).MS = 0 ∧
    (em_65816_init { e_flag := 1, xs_flag := 0 } {}).E = 1 ∧
    (em_65816_init { e_flag := 1, xs_flag := 0 } {}).XS = 0 ∧
    (em_65816_init { e_flag := 1, sp_reg := 0x02FF } {}).E = 1 ∧
    (em_65816_init { e_flag := 1, sp_reg := 0x02FF } {}).SH = 2 ∧
    ¬ emulation_invariant (em_65816_init { e_flag := 1, ms_flag := 0 } {}) ∧
    emulation_invariant (em_65816_init { e_flag := 1 } {}) := by
  decide

/-- C21 (counterexample): `op_STX` of the bus value 0x42 with X known to be 0x10 sets the
failure flag and leaves X = 0x42, not 0x10; `op_STA` (MS = 1) and `op_STY` do the same. -/
theorem store_mismatch_overwrites :
    (op_STX 0x42 (-1) { X := 0x10 }).1.failflag = 1 ∧
    (op_STX 0x42 (-1) { X := 0x10 }).1.X ≠ 0x10 ∧
    (op_STA 0x42 (-1) { A := 0x10, MS := 1 }).1.A ≠ 0x10 ∧
    (op_STY 0x42 (-1) { Y := 0x10 }).1.Y ≠ 0x10 := by
  decide

/-- C21 (amended): for `op_STA` (MS = 1), `op_STX` and `op_STY` with an observed bus byte v:
when the tracked register is known and differs from v the hook sets the failure flag and the
register takes the observed value v; when the register is unknown the hook adopts v and
leaves the failure flag as it was. -/
theorem store_adopts_observed (v ea : Int) (s : State) (hv : 0 ≤ v ∧ v < 256)
    (hMS : s.MS = 1) :
    ((0 ≤ s.A ∧ s.A ≠ v → (op_STA v ea s).1.failflag = 1 ∧ (op_STA v ea s).1.A = v) ∧
     (s.A < 0 → (op_STA v ea s).1.failflag = s.failflag ∧ (op_STA v ea s).1.A = v)) ∧
    ((0 ≤ s.X ∧ s.X ≠ v → (op_STX v ea s).1.failflag = 1 ∧ (op_STX v ea s).1.X = v) ∧
     (s.X < 0 → (op_STX v ea s).1.failflag = s.failflag ∧ (op_STX v ea s).1.X = v)) ∧
    ((0 ≤ s.Y ∧ s.Y ≠ v → (op_STY v ea s).1.failflag = 1 ∧ (op_STY v ea s).1.Y = v) ∧
     (s.Y < 0 → (op_STY v ea s).1.failflag = s.failflag ∧ (op_STY v ea s).1.Y = v)) := by
  have hmod : v % 256 = v := Int.emod_eq_of_lt hv.1 hv.2
  refine ⟨⟨?_, ?_⟩, ⟨?_, ?_⟩, ⟨?_, ?_⟩⟩
  · rintro ⟨h0, hne⟩
    unfold op_STA
    simp [c_and_ff, hmod, hMS, h0, Ne.symm hne]
  · intro h
    unfold op_STA
    have h' : ¬ 0 ≤ s.A := by omega
    simp [c_and_ff, hmod, hMS, h']
  · rintro ⟨h0, hne⟩
    unfold op_STX
    simp [h0, Ne.symm hne]
  · intro h
    unfold op_STX
    have h' : ¬ 0 ≤ s.X := by omega
    simp [h']
  · rintro ⟨h0, hne⟩
    unfold op_STY
    simp [h0, Ne.symm hne]
  · intro h
    unfold op_STY
    have h' : ¬ 0 ≤ s.Y := by omega
    simp [h']

/-- Witness of C21 (amended): the bus value 0x42 against A = 0x10 with MS = 1. -/
theorem store_adopts_observed_witness :
    (op_STA 0x42 (-1) { A := 0x10, MS := 1 }).1.failflag = 1 ∧
    (op_STA 0x42 (-1) { A := 0x10, MS := 1 }).1.A = 0x42 :=
  (store_adopts_observed 0x42 (-1) { A := 0x10, MS := 1 } (by decide) rfl).1.1 (by decide)

/-- C22 (as stated, refuted): ASL abs,X (0x1E) in native mode with a 16-bit accumulator is
predicted to take 9 cycles, and `count_cycles_without_sync` reports 9, more than 8. -/
theorem get_num_cycles_exceeds_eight :
    get_num_cycles (bus [0x1E, 0x00, 0x20, 0x00, 0x00, 0x00, 0x00, 0x00, 0x00]) 0
        { E := 0, MS := 0, XS := 0 } = 9 ∧
      count_cycles_without_sync (bus [0x1E, 0x00, 0x20, 0x00, 0x00, 0x00, 0x00, 0x00, 0x00]) 0
        { E := 0, MS := 0, XS := 0 } = 9 := by
  set_option maxRecDepth 100000 in
  decide

/-- C22 (amended): for every opcode 0..255 in the first sample, every sample window, every
register and flag state and every value of intr_seen, `get_num_cycles` returns either the
unknown sentinel -1 or a value between 1 and 9, and `count_cycles_without_sync` reports a
value between 1 and 9, so a sample window of depth 9 always covers the reported count. -/
theorem get_num_cycles_at_most_nine (sample_q : Int → sample_t) (intr_seen : Int) (s : State)
    (hop : 0 ≤ (sample_q 0).data ∧ (sample_q 0).data < 256) :
    (get_num_cycles sample_q intr_seen s = -1 ∨
      (1 ≤ get_num_cycles sample_q intr_seen s ∧ get_num_cycles sample_q intr_seen s ≤ 9)) ∧
    (1 ≤ count_cycles_without_sync sample_q intr_seen s ∧
      count_cycles_without_sync sample_q intr_seen s ≤ 9) := by
  have h := get_num_cycles_range_aux sample_q intr_seen s hop
  refine ⟨h, ?_⟩
  unfold count_cycles_without_sync
  simp only []
  split_ifs with hc
  · omega
  · omega

/-- Witness of C22 (amended): the window of ASL abs,X in native mode with 16-bit registers. -/
theorem get_num_cycles_at_most_nine_witness :
    (get_num_cycles (bus [0x1E, 0x00, 0x20, 0x00, 0x00, 0x00, 0x00, 0x00, 0x00]) 0
        { E := 0, MS := 0, XS := 0 } = -1 ∨
      (1 ≤ get_num_cycles (bus [0x1E, 0x00, 0x20, 0x00, 0x00, 0x00, 0x00, 0x00, 0x00]) 0
          { E := 0, MS := 0, XS := 0 } ∧
        get_num_cycles (bus [0x1E, 0x00, 0x20, 0x00, 0x00, 0x00, 0x00, 0x00, 0x00]) 0
          { E := 0, MS := 0, XS := 0 } ≤ 9)) ∧
    (1 ≤ count_cycles_without_sync
        (bus [0x1E, 0x00, 0x20, 0x00, 0x00, 0x00, 0x00, 0x00, 0x00]) 0
        { E := 0, MS := 0, XS := 0 } ∧
      count_cycles_without_sync (bus [0x1E, 0x00, 0x20, 0x00, 0x00, 0x00, 0x00, 0x00, 0x00]) 0
        { E := 0, MS := 0, XS := 0 } ≤ 9) :=
  get_num_cycles_at_most_nine (bus [0x1E, 0x00, 0x20, 0x00, 0x00, 0x00, 0x00, 0x00, 0x00]) 0
    { E := 0, MS := 0, XS := 0 } (by decide)

/-- C23: whatever two and four characters the hexadecimal writers store, `em_65816_get_state`
returns offset 84 and leaves 84 characters in the buffer; with every register and flag
unknown these are the template; every unknown register or flag shows `?` in every column
of its field; a known flag that is 0 or 1 shows that digit at its column; and every column
that is not in the field of a known value holds the character of the template. -/
theorem get_state_template (hex2 hex4 : Int → List Char) (h2 : ∀ v, (hex2 v).length = 2)
    (h4 : ∀ v, (hex4 v).length = 4) (s : State) :
    (em_65816_get_state hex2 hex4 s).2 = 84 ∧
    (em_65816_get_state hex2 hex4 s).1.length = 84 ∧
    ((∀ f ∈ state_fields s, f.2.2 < 0) →
      String.mk (em_65816_get_state hex2 hex4 s).1 =
        "A=???? X=???? Y=???? SP=???? N=? V=? M=? X=? D=? I=? Z=? C=? E=? PB=?? DB=?? DP=????") ∧
    (∀ f ∈ state_fields s, f.2.2 < 0 → ∀ j, j < f.2.1 →
      (em_65816_get_state hex2 hex4 s).1[f.1 + j]? = some '?') ∧
    (∀ f ∈ state_flags s,
      (f.2 = 0 → (em_65816_get_state hex2 hex4 s).1[f.1]? = some '0') ∧
      (f.2 = 1 → (em_65816_get_state hex2 hex4 s).1[f.1]? = some '1')) ∧
    (∀ i, (∀ f ∈ state_fields s, f.1 ≤ i ∧ i < f.1 + f.2.1 → f.2.2 < 0) →
      (em_65816_get_state hex2 hex4 s).1[i]? = default_state.data[i]?) := by
  have hb := state_writes_bounds hex2 hex4 h2 h4 s
  have hl : default_state.data.length = 84 := by decide
  refine ⟨rfl, ?_, ?_, ?_, ?_, ?_⟩
  · rw [get_state_eq_foldl]
    exact (foldl_cond_write_length _ _ hb).trans hl
  · intro hu
    have : (em_65816_get_state hex2 hex4 s).1 = default_state.data :=
      List.ext_getElem? (fun i =>
        get_state_unchanged hex2 hex4 h2 h4 s i (fun f hf _ => hu f hf))
    rw [this]
    rfl
  · intro f hf hv j hj
    rw [get_state_unchanged hex2 hex4 h2 h4 s (f.1 + j) (fun g hg hc => by
      have := pairwise_cover_unique (fun a : Nat × Nat × Int => a.1) (fun a => a.2.1)
        (f.1 + j) (state_fields s) (state_fields_pairwise s) f hf g hg
        ⟨Nat.le_add_right _ _, Nat.add_lt_add_left hj _⟩ hc
      rw [← this]
      exact hv)]
    exact state_fields_template s f hf j hj
  · intro f hf
    have hw := state_flags_writes hex2 hex4 s f hf
    have hp := state_writes_pairwise hex2 hex4 h2 h4 s
    have key : 0 ≤ f.2 → (em_65816_get_state hex2 hex4 s).1[f.1]? = some (flag_char f.2) := by
      intro hk
      rw [get_state_eq_foldl]
      have := foldl_cond_write_known f.1 (f.1, [flag_char f.2], f.2) hk
        ⟨le_refl _, by simp⟩ (state_writes hex2 hex4 s) default_state.data hb hw
        (fun x hx => by
          by_cases hc : x.1 ≤ f.1 ∧ f.1 < x.1 + x.2.1.length
          · left
            exact pairwise_cover_unique (fun a : Nat × List Char × Int => a.1)
              (fun a => a.2.1.length) f.1 _ hp x hx _ hw hc ⟨le_refl _, by simp⟩
          · right
            exact hc)
      rw [this]
      simp
    constructor
    · intro h0
      rw [key (by omega), h0]
      rfl
    · intro h1
      rw [key (by omega), h1]
      rfl
  · intro i hu
    exact get_state_unchanged hex2 hex4 h2 h4 s i hu

/-- Witness of C23: with the modelled hexadecimal writers and a state where only A, N and E are
known, the dump has 84 characters and differs from the template in the fields of A, N
and E only. -/
theorem get_state_template_witness :
    (em_65816_get_state write_hex2 write_hex4 { A := 0x12, N := 1, E := 0 }).2 = 84 ∧
    (em_65816_get_state write_hex2 write_hex4 { A := 0x12, N := 1, E := 0 }).1.length = 84 ∧
    (em_65816_get_state write_hex2 write_hex4 { A := 0x12, N := 1, E := 0 }).1[OFFSET_N]? =
      some '1' ∧
    (em_65816_get_state write_hex2 write_hex4 { A := 0x12, N := 1, E := 0 }).1[OFFSET_E]? =
      some '0' ∧
    String.mk (em_65816_get_state write_hex2 write_hex4 { A := 0x12, N := 1, E := 0 }).1 =
      "A=??12 X=???? Y=???? SP=???? N=1 V=? M=? X=? D=? I=? Z=? C=? E=0 PB=?? DB=?? DP=????" :=
  ⟨(get_state_template write_hex2 write_hex4 (fun _ => rfl) (fun _ => rfl)
      { A := 0x12, N := 1, E := 0 }).1,
    (get_state_template write_hex2 write_hex4 (fun _ => rfl) (fun _ => rfl)
      { A := 0x12, N := 1, E := 0 }).2.1,
    ((get_state_template write_hex2 write_hex4 (fun _ => rfl) (fun _ => rfl)
      { A := 0x12, N := 1, E := 0 }).2.2.2.2.1 (OFFSET_N, 1) (by decide)).2 rfl,
    ((get_state_template write_hex2 write_hex4 (fun _ => rfl) (fun _ => rfl)
      { A := 0x12, N := 1, E := 0 }).2.2.2.2.1 (OFFSET_E, 0) (by decide)).1 rfl,
    by decide⟩

/-- C24 (evaluation at the failing input): a BRA (0x80) with offset 0x10 emulated at the known
PC = 0 leaves PC unknown (-1), not 0x0012, and so does a taken BNE (0xD0, 3 cycles); at
PC = 1 the same BRA gives PC = 0x0013. -/
theorem branch_at_pc_zero :
    (em_65816_emulate (bus [0x80, 0x10, 0x00]) 3 {}
      { E := 1, MS := 1, XS := 1, SH := 1, PC := 0 }).1.PC = -1 ∧
    (em_65816_emulate (bus [0xD0, 0x10, 0x00]) 3 {}
      { E := 1, MS := 1, XS := 1, SH := 1, PC := 0 }).1.PC = -1 ∧
    (em_65816_emulate (bus [0x80, 0x10, 0x00]) 3 {}
      { E := 1, MS := 1, XS := 1, SH := 1, PC := 1 }).1.PC = 0x0013 := by
  set_option maxRecDepth 100000 in
  decide

/-- C25 (evaluation at the failing input): MVN (0x54) emulated at the known PC = 1 with the
counter B:A = 0x0005 leaves PC unknown (-1), not 1; at PC = 3 it leaves PC = 3, and with the
counter 0 at PC = 1 it leaves PC = 4. -/
theorem block_move_at_low_pc :
    (em_65816_emulate (bus [0x54, 0x02, 0x01, 0xAA, 0xAA, 0x00, 0x00]) 7 {}
      { E := 0, MS := 0, XS := 0, A := 0x05, B := 0x00, PC := 1 }).1.PC = -1 ∧
    (em_65816_emulate (bus [0x54, 0x02, 0x01, 0xAA, 0xAA, 0x00, 0x00]) 7 {}
      { E := 0, MS := 0, XS := 0, A := 0x05, B := 0x00, PC := 3 }).1.PC = 3 ∧
    (em_65816_emulate (bus [0x54, 0x02, 0x01, 0xAA, 0xAA, 0x00, 0x00]) 7 {}
      { E := 0, MS := 0, XS := 0, A := 0x00, B := 0x00, PC := 1 }).1.PC = 4 := by
  set_option maxRecDepth 100000 in
  decide

/-- C26: decimal ADC is a BCD addition at both widths. With D = 1, a known carry c and an
accumulator a and operand m that are valid packed BCD: in 8-bit mode (MS = 1, A = a) `op_ADC`
leaves in A the packed-BCD encoding of (dec a + dec m + c) mod 100 and C = 1 exactly when
dec a + dec m + c ≥ 100 (B is left as it was); in 16-bit mode (MS = 0, B:A = a) it leaves in
B:A the packed-BCD encoding of the sum mod 10000 and C = 1 exactly when the sum ≥ 10000. -/
theorem op_ADC_decimal (a m c ea : Int) (s : State) (hD : s.D = 1) (hC : s.C = c)
    (hc : c = 0 ∨ c = 1) (ha : bcd_valid a) (hm : bcd_valid m) :
    (s.MS = 1 → s.A = a → 0 ≤ a ∧ a < 256 → 0 ≤ m ∧ m < 256 →
      (op_ADC m ea s).1.A = bcd_enc ((bcd_dec a + bcd_dec m + c) % 100) ∧
      (op_ADC m ea s).1.C = (if bcd_dec a + bcd_dec m + c ≥ 100 then 1 else 0) ∧
      (op_ADC m ea s).1.B = s.B) ∧
    (s.MS = 0 → s.A = a % 256 → s.B = a / 256 → 0 ≤ a ∧ a < 65536 → 0 ≤ m ∧ m < 65536 →
      (op_ADC m ea s).1.A = bcd_enc ((bcd_dec a + bcd_dec m + c) % 10000) % 256 ∧
      (op_ADC m ea s).1.B = bcd_enc ((bcd_dec a + bcd_dec m + c) % 10000) / 256 ∧
      (op_ADC m ea s).1.C = (if bcd_dec a + bcd_dec m + c ≥ 10000 then 1 else 0)) := by
  have hc01 : 0 ≤ c ∧ c ≤ 1 := by rcases hc with h | h <;> omega
  obtain ⟨va0, va1, va2, va3⟩ := ha
  obtain ⟨vm0, vm1, vm2, vm3⟩ := hm
  constructor
  · intro hMS hA ha hm
    have hacc : get_accumulator s = a := by
      unfold get_accumulator
      rw [if_pos ⟨by omega, by omega⟩, hA]
    have hf := adc_fold_two a m c s.V ⟨va0, va1⟩ ⟨vm0, vm1⟩ hc01
    have hs := bcd_sum_two (a % 16) (a / 16 % 16) (m % 16) (m / 16 % 16) c
      (by omega) (by omega) (by omega) (by omega) hc01
    have hda : bcd_dec a = a % 16 + 10 * (a / 16 % 16) := by
      unfold bcd_dec
      omega
    have hdm : bcd_dec m = m % 16 + 10 * (m / 16 % 16) := by
      unfold bcd_dec
      omega
    rw [hda, hdm, ← hs.1, ← hs.2]
    have hlt : 0 ≤ (a % 16 + m % 16 + c) % 10 +
        16 * ((a / 16 % 16 + m / 16 % 16 + (a % 16 + m % 16 + c) / 10) % 10) ∧
        (a % 16 + m % 16 + c) % 10 +
        16 * ((a / 16 % 16 + m / 16 % 16 + (a % 16 + m % 16 + c) / 10) % 10) < 256 := by
      omega
    unfold op_ADC
    simp only [hacc, hC]
    rw [if_pos ⟨by omega, hc01.1⟩]
    have hMS1 : s.MS > 0 := by omega
    have hn : nibble_bits s.MS = [0, 4] := by
      unfold nibble_bits
      rw [if_pos (by omega)]
    simp only [hD, if_true, hn, set_NZ_AB_A, set_NZ_AB_B, set_NZ_AB_C, hMS1, hf.1, hf.2,
      c_and_ff]
    exact ⟨Int.emod_eq_of_lt hlt.1 hlt.2, trivial, trivial⟩
  · intro hMS hA hB ha hm
    have hacc : get_accumulator s = a := by
      unfold get_accumulator
      rw [if_neg (by omega), if_pos ⟨hMS, by omega, by omega⟩, hA, hB, c_shl_eq]
      norm_num
      omega
    have hf := adc_fold_four a m c s.V ⟨va0, va1, va2, va3⟩ ⟨vm0, vm1, vm2, vm3⟩ hc01
    have hs := bcd_sum_four (a % 16) (a / 16 % 16) (a / 256 % 16) (a / 4096 % 16)
      (m % 16) (m / 16 % 16) (m / 256 % 16) (m / 4096 % 16) c
      (by omega) (by omega) (by omega) (by omega) (by omega) (by omega) (by omega) (by omega)
      hc01
    have hda : bcd_dec a + bcd_dec m + c =
        a % 16 + 10 * (a / 16 % 16) + 100 * (a / 256 % 16) + 1000 * (a / 4096 % 16) +
        (m % 16 + 10 * (m / 16 % 16) + 100 * (m / 256 % 16) + 1000 * (m / 4096 % 16)) + c := by
      unfold bcd_dec
      rfl
    rw [hda, ← hs.1, ← hs.2]
    unfold op_ADC
    simp only [hacc, hC]
    rw [if_pos ⟨by omega, hc01.1⟩]
    have hMS1 : ¬ s.MS > 0 := by omega
    have hn : nibble_bits s.MS = [0, 4, 8, 12] := by
      unfold nibble_bits
      rw [if_neg (by omega)]
    simp only [hD, if_true, hn, set_NZ_AB_A, set_NZ_AB_B, set_NZ_AB_C, hMS1, if_false, hf.1,
      hf.2, c_and_ff, c_shr_eq]
    refine ⟨trivial, ?_, trivial⟩
    norm_num
    omega

/-- Witness of C26: 0x58 + 0x46 + 1 = 0x05 carry 1 in 8-bit mode; 0x9999 + 0x0001 = 0x0000
carry 1 in 16-bit mode. -/
theorem op_ADC_decimal_witness :
    ((op_ADC 0x46 (-1) { A := 0x58, C := 1, D := 1, MS := 1 }).1.A =
        bcd_enc ((bcd_dec 0x58 + bcd_dec 0x46 + 1) % 100) ∧
      (op_ADC 0x46 (-1) { A := 0x58, C := 1, D := 1, MS := 1 }).1.C =
        (if bcd_dec 0x58 + bcd_dec 0x46 + 1 ≥ 100 then 1 else 0) ∧
      (op_ADC 0x46 (-1) { A := 0x58, C := 1, D := 1, MS := 1 }).1.B = -1) ∧
    ((op_ADC 0x0001 (-1) { A := 0x99, B := 0x99, C := 0, D := 1, MS := 0 }).1.A =
        bcd_enc ((bcd_dec 0x9999 + bcd_dec 0x0001 + 0) % 10000) % 256 ∧
      (op_ADC 0x0001 (-1) { A := 0x99, B := 0x99, C := 0, D := 1, MS := 0 }).1.B =
        bcd_enc ((bcd_dec 0x9999 + bcd_dec 0x0001 + 0) % 10000) / 256 ∧
      (op_ADC 0x0001 (-1) { A := 0x99, B := 0x99, C := 0, D := 1, MS := 0 }).1.C =
        (if bcd_dec 0x9999 + bcd_dec 0x0001 + 0 ≥ 10000 then 1 else 0)) :=
  ⟨(op_ADC_decimal 0x58 0x46 1 (-1) { A := 0x58, C := 1, D := 1, MS := 1 } rfl rfl
      (by decide) (by decide) (by decide)).1 rfl rfl (by decide) (by decide),
    (op_ADC_decimal 0x9999 0x0001 0 (-1) { A := 0x99, B := 0x99, C := 0, D := 1, MS := 0 }
      rfl rfl (by decide) (by decide) (by decide)).2 rfl (by decide) (by decide) (by decide)
      (by decide)⟩

/-- C27: for a read opcode in abs,X or abs,Y mode with no interrupt seen and no m_extra or
x_extra contribution pending, with operand bytes op1, op2, base = op1 + 256 * op2 and the
index register (X or Y) below 0x10000 when known: with XS = 0 `get_num_cycles` returns the base
count plus 1 whatever the index is; with XS = 1 and a known index it returns the base count
plus 1 exactly when base + index is in another 256-byte page than base; and it returns -1
exactly when XS is not 0, no page crossing is known, and XS or the index is unknown. -/
theorem get_num_cycles_abs_indexed (sample_q : Int → sample_t) (s : State) (opcode : Int)
    (hop : 0 ≤ opcode ∧ opcode < 256) (h0 : (sample_q 0).data = opcode)
    (hmode : (instr_table opcode).mode = AddrMode.ABSX ∨
      (instr_table opcode).mode = AddrMode.ABSY)
    (hopt : (instr_table opcode).optype = OpType.READOP)
    (hm : (instr_table opcode).m_extra = 0 ∨ s.E > 0 ∨ s.MS > 0)
    (hx : (instr_table opcode).x_extra = 0 ∨ s.E > 0 ∨ s.XS > 0)
    (h1 : 0 ≤ (sample_q 1).data ∧ (sample_q 1).data < 256)
    (h2 : 0 ≤ (sample_q 2).data ∧ (sample_q 2).data < 256)
    (index : Int)
    (hindex : index = if (instr_table opcode).mode = AddrMode.ABSX then s.X else s.Y)
    (hidx : index < 65536) :
    (s.XS = 0 → get_num_cycles sample_q 0 s = (instr_table opcode).cycles + 1) ∧
    (s.XS = 1 → 0 ≤ index →
      get_num_cycles sample_q 0 s = (instr_table opcode).cycles +
        (if ((sample_q 1).data + 256 * (sample_q 2).data + index) / 256 ≠
            ((sample_q 1).data + 256 * (sample_q 2).data) / 256 then 1 else 0)) ∧
    (get_num_cycles sample_q 0 s = -1 ↔
      s.XS ≠ 0 ∧
      ¬ (0 ≤ index ∧ ((sample_q 1).data + 256 * (sample_q 2).data + index) / 256 ≠
          ((sample_q 1).data + 256 * (sample_q 2).data) / 256) ∧
      (s.XS < 0 ∨ index < 0)) := by
  obtain ⟨n0, n2, n40, n80, nb, hc⟩ := abs_indexed_opcodes hop.1 hop.2 hmode
  have hval : ¬ (instr_table opcode).mode.val ≤ AddrMode.ZP.val := by
    rcases hmode with h | h <;> rw [h] <;> decide
  have hni : (instr_table opcode).mode ≠ AddrMode.INDY := by
    rcases hmode with h | h <;> rw [h] <;> decide
  have hm1 : ¬ ((instr_table opcode).m_extra ≠ 0 ∧ ¬ (s.E = 0 ∧ s.MS = 0) ∧
      ¬ (s.E > 0 ∨ s.MS > 0)) := by
    rintro ⟨a, -, c⟩
    rcases hm with h | h | h
    · exact a h
    · exact c (Or.inl h)
    · exact c (Or.inr h)
  have hm2 : ¬ ((instr_table opcode).m_extra ≠ 0 ∧ (s.E = 0 ∧ s.MS = 0)) := by
    rintro ⟨a, b, c⟩
    rcases hm with h | h | h
    · exact a h
    · omega
    · omega
  have hx1 : ¬ ((instr_table opcode).x_extra ≠ 0 ∧ ¬ (s.E = 0 ∧ s.XS = 0) ∧
      ¬ (s.E > 0 ∨ s.XS > 0)) := by
    rintro ⟨a, -, c⟩
    rcases hx with h | h | h
    · exact a h
    · exact c (Or.inl h)
    · exact c (Or.inr h)
  have hx2 : ¬ ((instr_table opcode).x_extra ≠ 0 ∧ (s.E = 0 ∧ s.XS = 0)) := by
    rintro ⟨a, b, c⟩
    rcases hx with h | h | h
    · exact a h
    · omega
    · omega
  have key : get_num_cycles sample_q 0 s =
      (if s.XS = 0 ∨ (0 ≤ index ∧
          ((sample_q 1).data + 256 * (sample_q 2).data + index) / 256 ≠
            ((sample_q 1).data + 256 * (sample_q 2).data) / 256)
        then (instr_table opcode).cycles + 1
        else if s.XS < 0 ∨ index < 0 then -1 else (instr_table opcode).cycles) := by
    have hbr : ¬ (c_and opcode 0x1f = 0x10 ∨ opcode = 0x80) := by
      rintro (h | h)
      · exact nb h
      · exact n80 h
    have habs : ((instr_table opcode).mode = AddrMode.ABSX ∨
        (instr_table opcode).mode = AddrMode.ABSY) ∧
        (instr_table opcode).optype = OpType.READOP := ⟨hmode, hopt⟩
    have hdp : ¬ ((instr_table opcode).mode.val ≤ AddrMode.ZP.val ∧ s.DP ≥ 0 ∧
        c_and s.DP 0xff ≠ 0) := fun h => hval h.1
    unfold get_num_cycles
    simp only [h0, ← hindex]
    rw [if_neg (by simp [n0, n2]), if_neg hm1, if_neg hx1, if_neg (by simp [n40])]
    simp only [if_neg hm2, if_neg hx2, if_neg hdp, hni, false_and, if_false, n40, habs,
      true_and, if_neg hbr, add_zero]
    by_cases hi : 0 ≤ index
    · have e1 : c_and ((sample_q 1).data + c_shl (sample_q 2).data 8) 0x1ff00 =
          (((sample_q 1).data + 256 * (sample_q 2).data) / 256 % 512) * 256 := by
        rw [c_shl_eq, c_and_1ff00 (by norm_num; omega) (by norm_num; omega)]
        norm_num
        omega
      have e2 : c_and ((sample_q 1).data + c_shl (sample_q 2).data 8 + index) 0x1ff00 =
          (((sample_q 1).data + 256 * (sample_q 2).data + index) / 256 % 512) * 256 := by
        rw [c_shl_eq, c_and_1ff00 (by norm_num; omega) (by norm_num; omega)]
        norm_num
        omega
      simp only [e1, e2, ge_iff_le, hi, if_true, true_and]
      by_cases hcr : ((sample_q 1).data + 256 * (sample_q 2).data + index) / 256 =
          ((sample_q 1).data + 256 * (sample_q 2).data) / 256
      · have hh : ¬ (((sample_q 1).data + 256 * (sample_q 2).data) / 256 % 512 * 256 ≠
            ((sample_q 1).data + 256 * (sample_q 2).data + index) / 256 % 512 * 256) := by
          omega
        simp only [hh, if_false, hcr, ne_eq, not_true_eq_false, or_false]
        by_cases hxs : s.XS = 0
        · simp [hxs]
        · have : ¬ index < 0 := by omega
          simp [hxs, this]
      · have hh : ((sample_q 1).data + 256 * (sample_q 2).data) / 256 % 512 * 256 ≠
            ((sample_q 1).data + 256 * (sample_q 2).data + index) / 256 % 512 * 256 := by
          omega
        simp [hh, hcr]
    · have hi' : index < 0 := by omega
      simp only [ge_iff_le, hi, if_false, false_and, or_false]
      by_cases hxs : s.XS = 0
      · simp [hxs]
      · simp [hxs, hi']
  rw [key]
  refine ⟨?_, ?_, ?_⟩
  · intro hxs
    simp [hxs]
  · intro hxs hi
    have h10 : ¬ s.XS = 0 := by omega
    have h11 : ¬ s.XS < 0 := by omega
    have h12 : ¬ index < 0 := by omega
    by_cases hcr : ((sample_q 1).data + 256 * (sample_q 2).data + index) / 256 =
        ((sample_q 1).data + 256 * (sample_q 2).data) / 256
    · simp [h10, h11, h12, hi, hcr]
    · simp [h10, hi, hcr]
  · by_cases hA : s.XS = 0 ∨ (0 ≤ index ∧
          ((sample_q 1).data + 256 * (sample_q 2).data + index) / 256 ≠
            ((sample_q 1).data + 256 * (sample_q 2).data) / 256)
    · rw [if_pos hA]
      constructor
      · intro h
        omega
      · rintro ⟨a, b, -⟩
        rcases hA with h | h
        · exact absurd h a
        · exact absurd h b
    · rw [if_neg hA]
      have hA1 : s.XS ≠ 0 := fun h => hA (Or.inl h)
      have hA2 : ¬ (0 ≤ index ∧
          ((sample_q 1).data + 256 * (sample_q 2).data + index) / 256 ≠
            ((sample_q 1).data + 256 * (sample_q 2).data) / 256) := fun h => hA (Or.inr h)
      by_cases hB : s.XS < 0 ∨ index < 0
      · rw [if_pos hB]
        exact ⟨fun _ => ⟨hA1, hA2, hB⟩, fun _ => rfl⟩
      · rw [if_neg hB]
        constructor
        · intro h
          omega
        · rintro ⟨-, -, c⟩
          exact absurd c hB

/-- Witness of C27: LDA abs,X (0xBD) at base 0x20FF with X = 1 and XS = 1 crosses a page. -/
theorem get_num_cycles_abs_indexed_witness :
    get_num_cycles (bus [0xBD, 0xFF, 0x20, 0x00]) 0
        { E := 1, MS := 1, XS := 1, SH := 1, X := 1 } =
      (instr_table 0xBD).cycles +
        (if ((bus [0xBD, 0xFF, 0x20, 0x00] 1).data +
              256 * (bus [0xBD, 0xFF, 0x20, 0x00] 2).data + 1) / 256 ≠
            ((bus [0xBD, 0xFF, 0x20, 0x00] 1).data +
              256 * (bus [0xBD, 0xFF, 0x20, 0x00] 2).data) / 256 then 1 else 0) :=
  (get_num_cycles_abs_indexed (bus [0xBD, 0xFF, 0x20, 0x00])
    { E := 1, MS := 1, XS := 1, SH := 1, X := 1 } 0xBD (by decide) rfl (by decide)
    (by decide) (by decide) (by decide) (by decide) (by decide) 1 (by decide)
    (by decide)).2.1 rfl (by decide)

/-- C28: the pointer reads of (direct,X) in emulation mode with a non-zero low byte of DP. For
a known DP (0..0xFFFF, low byte not 0), an operand byte op1 and a known X, the pointer stage of
emulate (with the extra DP cycle, so the pointer bytes are samples 4 and 5) reads the pointer
low byte at a = (DP + op1 + X) mod 0x10000 and then the pointer high byte at the address of
the same 256-byte page whose low byte is the low byte of a plus 1 modulo 256; both addresses
are below 0x10000. -/
theorem indx_pointer_reads (sample_q : Int → sample_t) (num_cycles : Int) (instr : InstrType)
    (op1 op2 : Int) (s : State) (hmode : instr.mode = AddrMode.INDX) (hE : s.E = 1)
    (hDP : 0 ≤ s.DP ∧ s.DP < 65536) (hlow : c_and s.DP 0xff ≠ 0)
    (hop1 : 0 ≤ op1 ∧ op1 < 256) (hX : 0 ≤ s.X ∧ s.X < 65536) :
    emulate_pointer sample_q num_cycles instr op1 op2 1
        (s.E ≠ 0 ∧ c_and s.DP 0xff = 0 ∧ instr.newop = 0) s =
      memory_read (sample_q 5).data
        (((s.DP + op1 + s.X) % 65536) / 256 * 256 + ((s.DP + op1 + s.X) % 65536 % 256 + 1) % 256)
        mem_access_t.MEM_POINTER
        (memory_read (sample_q 4).data ((s.DP + op1 + s.X) % 65536)
          mem_access_t.MEM_POINTER s) ∧
    (s.DP + op1 + s.X) % 65536 < 65536 ∧
    ((s.DP + op1 + s.X) % 65536) / 256 * 256 + ((s.DP + op1 + s.X) % 65536 % 256 + 1) % 256
      < 65536 := by
  obtain ⟨d0, d1⟩ := hDP
  obtain ⟨o0, o1⟩ := hop1
  obtain ⟨x0, x1⟩ := hX
  refine ⟨?_, by omega, by omega⟩
  have hw : ¬ (s.E ≠ 0 ∧ c_and s.DP 0xff = 0 ∧ instr.newop = 0) := fun h => hlow h.2.1
  have e1 : c_and (s.DP + op1 + s.X) 0xff00 = ((s.DP + op1 + s.X) / 256 % 256) * 256 :=
    c_and_ff00 (by omega) (by omega)
  have e2 : ((s.DP + op1 + s.X) / 256 % 256) * 256 + (s.DP + op1 + s.X + 1) % 256 =
      ((s.DP + op1 + s.X) % 65536) / 256 * 256 +
        ((s.DP + op1 + s.X) % 65536 % 256 + 1) % 256 := by
    omega
  unfold emulate_pointer
  simp only [hmode]
  rw [if_pos ⟨by omega, by omega⟩, if_neg hw]
  simp only [memory_read_E, memory_read_DP, memory_read_X, hE]
  rw [if_pos (by decide), c_and_ffff, e1, c_and_ff, e2]
  rfl

/-- Witness of C28: DP = 0x011A, X = 0xEE, op1 = 0xF7 gives the reads at 0x02FF and then at
0x0200. -/
theorem indx_pointer_reads_witness :
    emulate_pointer (bus [0xA1, 0xF7, 0x00, 0x00, 0x34, 0x12, 0x00]) 7 (instr_table 0xA1)
        0xF7 0 1 ((1 : Int) ≠ 0 ∧ c_and 0x011A 0xff = 0 ∧ (instr_table 0xA1).newop = 0)
        { E := 1, MS := 1, XS := 1, SH := 1, DP := 0x011A, X := 0xEE } =
      memory_read (bus [0xA1, 0xF7, 0x00, 0x00, 0x34, 0x12, 0x00] 5).data
        (((0x011A + 0xF7 + 0xEE) % 65536) / 256 * 256 +
          ((0x011A + 0xF7 + 0xEE) % 65536 % 256 + 1) % 256)
        mem_access_t.MEM_POINTER
        (memory_read (bus [0xA1, 0xF7, 0x00, 0x00, 0x34, 0x12, 0x00] 4).data
          ((0x011A + 0xF7 + 0xEE) % 65536) mem_access_t.MEM_POINTER
          { E := 1, MS := 1, XS := 1, SH := 1, DP := 0x011A, X := 0xEE }) ∧
    ((0x011A : Int) + 0xF7 + 0xEE) % 65536 = 0x02FF ∧
    (((0x011A : Int) + 0xF7 + 0xEE) % 65536) / 256 * 256 +
      ((0x011A + 0xF7 + 0xEE) % 65536 % 256 + 1) % 256 = 0x0200 :=
  ⟨(indx_pointer_reads (bus [0xA1, 0xF7, 0x00, 0x00, 0x34, 0x12, 0x00]) 7 (instr_table 0xA1)
      0xF7 0 { E := 1, MS := 1, XS := 1, SH := 1, DP := 0x011A, X := 0xEE }
      (by decide) rfl (by decide) (by decide) (by decide) (by decide)).1,
    by decide, by decide⟩

/-- C29: for every operand mask m in 0..255, `op_REP` (resp. `op_SEP`) sets to 0 (resp. 1)
those of N, V, D, I, Z, C whose bit 7, 6, 3, 2, 1, 0 is set in m and leaves the others as they
were; with E = 1 it leaves MS and XS as they were; with E = 0 it sets MS and XS for bits 5 and
4; `op_REP` never changes X and Y, and `op_SEP` with E = 0 and bit 4 set replaces known X and
Y by their low bytes and changes them in no other case. -/
theorem rep_sep_masks (m ea : Int) (s : State) (hm : 0 ≤ m ∧ m < 256) :
    ((op_REP m ea s).1.N = (if bit m 7 = 1 then 0 else s.N) ∧
     (op_REP m ea s).1.V = (if bit m 6 = 1 then 0 else s.V) ∧
     (op_REP m ea s).1.D = (if bit m 3 = 1 then 0 else s.D) ∧
     (op_REP m ea s).1.I = (if bit m 2 = 1 then 0 else s.I) ∧
     (op_REP m ea s).1.Z = (if bit m 1 = 1 then 0 else s.Z) ∧
     (op_REP m ea s).1.C = (if bit m 0 = 1 then 0 else s.C) ∧
     (op_REP m ea s).1.X = s.X ∧ (op_REP m ea s).1.Y = s.Y ∧
     (s.E = 1 → (op_REP m ea s).1.MS = s.MS ∧ (op_REP m ea s).1.XS = s.XS) ∧
     (s.E = 0 → (op_REP m ea s).1.MS = (if bit m 5 = 1 then 0 else s.MS) ∧
       (op_REP m ea s).1.XS = (if bit m 4 = 1 then 0 else s.XS))) ∧
    ((op_SEP m ea s).1.N = (if bit m 7 = 1 then 1 else s.N) ∧
     (op_SEP m ea s).1.V = (if bit m 6 = 1 then 1 else s.V) ∧
     (op_SEP m ea s).1.D = (if bit m 3 = 1 then 1 else s.D) ∧
     (op_SEP m ea s).1.I = (if bit m 2 = 1 then 1 else s.I) ∧
     (op_SEP m ea s).1.Z = (if bit m 1 = 1 then 1 else s.Z) ∧
     (op_SEP m ea s).1.C = (if bit m 0 = 1 then 1 else s.C) ∧
     (s.E = 1 → (op_SEP m ea s).1.MS = s.MS ∧ (op_SEP m ea s).1.XS = s.XS ∧
       (op_SEP m ea s).1.X = s.X ∧ (op_SEP m ea s).1.Y = s.Y) ∧
     (s.E = 0 → (op_SEP m ea s).1.MS = (if bit m 5 = 1 then 1 else s.MS) ∧
       (op_SEP m ea s).1.XS = (if bit m 4 = 1 then 1 else s.XS) ∧
       (op_SEP m ea s).1.X = (if bit m 4 = 1 ∧ 0 ≤ s.X then s.X % 256 else s.X) ∧
       (op_SEP m ea s).1.Y = (if bit m 4 = 1 ∧ 0 ≤ s.Y then s.Y % 256 else s.Y))) := by
  have hb : ∀ k : Nat, k < 31 → (c_and m (2 ^ k) ≠ 0 ↔ bit m k = 1) :=
    fun k hk => c_and_pow_ne_zero hm.1 (by omega) k hk
  have b7 : c_and m 0x80 ≠ 0 ↔ bit m 7 = 1 := hb 7 (by decide)
  have b6 : c_and m 0x40 ≠ 0 ↔ bit m 6 = 1 := hb 6 (by decide)
  have b5 : c_and m 0x20 ≠ 0 ↔ bit m 5 = 1 := hb 5 (by decide)
  have b4 : c_and m 0x10 ≠ 0 ↔ bit m 4 = 1 := hb 4 (by decide)
  have b3 : c_and m 0x08 ≠ 0 ↔ bit m 3 = 1 := hb 3 (by decide)
  have b2 : c_and m 0x04 ≠ 0 ↔ bit m 2 = 1 := hb 2 (by decide)
  have b1 : c_and m 0x02 ≠ 0 ↔ bit m 1 = 1 := hb 1 (by decide)
  have b0 : c_and m 0x01 ≠ 0 ↔ bit m 0 = 1 := hb 0 (by decide)
  unfold op_REP op_SEP repsep x_flag_updated
  simp only [b7, b6, b5, b4, b3, b2, b1, b0, c_and_ff]
  refine ⟨⟨?_, ?_, ?_, ?_, ?_, ?_, ?_, ?_, ?_, ?_⟩, ⟨?_, ?_, ?_, ?_, ?_, ?_, ?_, ?_⟩⟩
  all_goals first
    | (intro hE
       by_cases h4 : bit m 4 = 1 <;> simp [hE, h4])
    | (by_cases hE : s.E = 0 <;> by_cases h4 : bit m 4 = 1 <;> simp [hE, h4])

/-- Witness of C29: REP #$30 in native mode clears MS and XS. -/
theorem rep_sep_masks_witness :
    (op_REP 0x30 (-1) { E := 0, MS := 1, XS := 1 }).1.MS =
      (if bit 0x30 5 = 1 then 0 else 1) ∧
    (op_REP 0x30 (-1) { E := 0, MS := 1, XS := 1 }).1.XS =
      (if bit 0x30 4 = 1 then 0 else 1) :=
  (rep_sep_masks 0x30 (-1) { E := 0, MS := 1, XS := 1 } (by decide)).1.2.2.2.2.2.2.2.2.2 rfl

/-- C30: after `op_TCS` SL is A, and after `op_TXS` SL is the low byte of X (unknown when X
is); with E = 1 SH is 1 whatever the source is; with E = 0 SH is the source high byte (B,
resp. bits 8..15 of X, which is X >> 8 for X below 0x10000), unknown when the source is; with
E unknown SH is 1 when the source high byte is 1 and unknown otherwise. -/
theorem transfer_to_stack_pointer (operand ea : Int) (s : State) :
    ((op_TCS operand ea s).1.SL = s.A ∧
     (s.E = 1 → (op_TCS operand ea s).1.SH = 1) ∧
     (s.E = 0 → (op_TCS operand ea s).1.SH = s.B) ∧
     (s.E < 0 → (op_TCS operand ea s).1.SH = (if s.B = 1 then 1 else -1))) ∧
    ((op_TXS operand ea s).1.SL = (if 0 ≤ s.X then c_and s.X 0xFF else -1) ∧
     (s.E = 1 → (op_TXS operand ea s).1.SH = 1) ∧
     (s.E = 0 → (op_TXS operand ea s).1.SH =
        (if 0 ≤ s.X then c_and (c_shr s.X 8) 0xff else -1)) ∧
     (s.E = 0 → 0 ≤ s.X → s.X < 65536 → (op_TXS operand ea s).1.SH = c_shr s.X 8) ∧
     (s.E < 0 → (op_TXS operand ea s).1.SH =
        (if 0 ≤ s.X ∧ c_and (c_shr s.X 8) 0xff = 1 then 1 else -1))) := by
  unfold op_TCS op_TXS
  refine ⟨⟨rfl, ?_, ?_, ?_⟩, ⟨rfl, ?_, ?_, ?_, ?_⟩⟩
  · intro hE
    simp [hE]
  · intro hE
    simp [hE]
  · intro hE
    have h1 : s.E ≠ 1 := by omega
    by_cases hB : s.B = 1 <;> simp [hE, h1, hB]
  · intro hE
    simp [hE]
  · intro hE
    simp [hE]
  · intro hE h0 h1
    have e : c_and (c_shr s.X 8) 0xff = c_shr s.X 8 := by
      rw [c_and_ff, c_shr_eq]
      norm_num
      omega
    simp [hE, h0, e]
  · intro hE
    have h1 : s.E ≠ 1 := by omega
    by_cases hX : 0 ≤ s.X
    · by_cases hB : c_and (c_shr s.X 8) 0xff = 1 <;> simp [hE, h1, hX, hB]
    · simp [hE, h1, hX]

/-- Witness of C30: X = 0x02FF in emulation mode gives SH = 1. -/
theorem transfer_to_stack_pointer_witness :
    (op_TXS 0 (-1) { E := 1, MS := 1, XS := 1, SH := 1, X := 0x02FF }).1.SH = 1 :=
  (transfer_to_stack_pointer 0 (-1)
    { E := 1, MS := 1, XS := 1, SH := 1, X := 0x02FF }).2.2.1 rfl

/-- C31: the unknown-width flag rule agrees with both widths. For every v in 0..0xFFFF: when
`set_NZ_unknown_width v` leaves N known it is the N of `set_NZ8 v` and of `set_NZ16 v`; when it
leaves Z known it is the Z of `set_NZ8 v` and of `set_NZ16 v`; and when v has no high-byte bit
set Z is known and is 1 exactly when the low byte of v is 0. -/
theorem set_NZ_unknown_width_sound (v : Int) (s : State) (hv : 0 ≤ v ∧ v < 65536) :
    (0 ≤ (set_NZ_unknown_width v s).N →
      (set_NZ_unknown_width v s).N = (set_NZ8 v s).N ∧
      (set_NZ_unknown_width v s).N = (set_NZ16 v s).N) ∧
    (0 ≤ (set_NZ_unknown_width v s).Z →
      (set_NZ_unknown_width v s).Z = (set_NZ8 v s).Z ∧
      (set_NZ_unknown_width v s).Z = (set_NZ16 v s).Z) ∧
    (v / 256 = 0 →
      0 ≤ (set_NZ_unknown_width v s).Z ∧
      (set_NZ_unknown_width v s).Z = (if v % 256 = 0 then 1 else 0)) := by
  obtain ⟨h0, h1⟩ := hv
  have e : c_and v 0xff00 = (v / 256 % 256) * 256 := c_and_ff00 h0 (by omega)
  unfold set_NZ_unknown_width set_NZ8 set_NZ16
  simp only [c_bit_eq, c_and_ff, c_and_ffff, e, c_bool]
  refine ⟨?_, ?_, ?_⟩
  · intro h
    split_ifs at h ⊢ with a
    · exact ⟨rfl, a⟩
    · omega
  · intro h
    split_ifs at h ⊢ <;> omega
  · intro h
    have a : v / 256 % 256 * 256 = 0 := by omega
    rw [if_pos a]
    split_ifs <;> omega

/-- Witness of C31: v = 0x0080 has no high-byte bit; N is unknown (bits 7 and 15 differ) and
Z is known to be 0. -/
theorem set_NZ_unknown_width_sound_witness :
    0 ≤ (set_NZ_unknown_width 0x0080 {}).Z ∧
    (set_NZ_unknown_width 0x0080 {}).Z = (if (0x0080 : Int) % 256 = 0 then 1 else 0) :=
  (set_NZ_unknown_width_sound 0x0080 {} (by decide)).2.2 (by decide)

/-- C32 (counterexample): with MS = 1 and A unknown, `op_AND` with operand 0 leaves A, Z and N
unknown (-1): A is not 0. -/
theorem op_AND_zero_unknown :
    (op_AND 0 (-1) { MS := 1 }).1.A = -1 ∧ (op_AND 0 (-1) { MS := 1 }).1.A ≠ 0 ∧
    (op_AND 0 (-1) { MS := 1 }).1.Z = -1 ∧ (op_AND 0 (-1) { MS := 1 }).1.N = -1 := by
  decide

/-- C32 (amended): in 8-bit mode (MS = 1) `op_AND` with operand 0 yields A = 0, Z = 1 and
N = 0 when A was known before; when A was unknown it stays unknown and Z and N become
unknown. -/
theorem op_AND_zero (ea : Int) (s : State) (hMS : s.MS = 1) :
    (0 ≤ s.A → (op_AND 0 ea s).1.A = 0 ∧ (op_AND 0 ea s).1.Z = 1 ∧ (op_AND 0 ea s).1.N = 0) ∧
    (s.A < 0 → (op_AND 0 ea s).1.A = s.A ∧ (op_AND 0 ea s).1.Z = -1 ∧
      (op_AND 0 ea s).1.N = -1) := by
  have z : c_and (0 : Int) 0xff = 0 := by decide
  constructor
  · intro hA
    unfold op_AND set_NZ_AB
    simp [hMS, hA, z, c_and_zero, set_NZ8, c_bool]
    decide
  · intro hA
    have hA' : ¬ s.A ≥ 0 := by omega
    unfold op_AND set_NZ_AB
    simp [hMS, hA', set_NZ_unknown]

/-- Witness of C32 (amended): A = 0x5A and operand 0 give A = 0, Z = 1, N = 0. -/
theorem op_AND_zero_witness :
    (op_AND 0 (-1) { MS := 1, A := 0x5A }).1.A = 0 ∧
    (op_AND 0 (-1) { MS := 1, A := 0x5A }).1.Z = 1 ∧
    (op_AND 0 (-1) { MS := 1, A := 0x5A }).1.N = 0 :=
  (op_AND_zero (-1) { MS := 1, A := 0x5A } rfl).1 (by decide)

/-- C34 (evaluation at the failing input): with D unknown, MS = 1, A = 0x09 and C = 0,
`op_ADC` of 0x01 leaves A = 0x0A, C = 0, V = 0, Z = 0 and N = 0, all known, although D = 0
gives 0x0A and D = 1 gives 0x10; with A = 0x10 and C = 1, `op_SBC` of 0x01 leaves A = 0x0F
known although D = 1 gives 0x09. -/
theorem op_ADC_unknown_D_known_result :
    ((op_ADC 0x01 (-1) { MS := 1, A := 0x09, C := 0 }).1.A = 0x0A ∧
      (op_ADC 0x01 (-1) { MS := 1, A := 0x09, C := 0 }).1.C = 0 ∧
      (op_ADC 0x01 (-1) { MS := 1, A := 0x09, C := 0 }).1.V = 0 ∧
      (op_ADC 0x01 (-1) { MS := 1, A := 0x09, C := 0 }).1.Z = 0 ∧
      (op_ADC 0x01 (-1) { MS := 1, A := 0x09, C := 0 }).1.N = 0) ∧
    ((op_ADC 0x01 (-1) { MS := 1, A := 0x09, C := 0, D := 0 }).1.A = 0x0A ∧
      (op_ADC 0x01 (-1) { MS := 1, A := 0x09, C := 0, D := 1 }).1.A = 0x10) ∧
    ((op_SBC 0x01 (-1) { MS := 1, A := 0x10, C := 1 }).1.A = 0x0F ∧
      (op_SBC 0x01 (-1) { MS := 1, A := 0x10, C := 1, D := 0 }).1.A = 0x0F ∧
      (op_SBC 0x01 (-1) { MS := 1, A := 0x10, C := 1, D := 1 }).1.A = 0x09) := by
  decide

/-- C35 (evaluation at the failing input): on the Beeb machine after `memory_init` with a
64 KiB memory, a write of 0x34 to 0xFE30 selects bank 4; with bank 4 selected the read of a
byte at 0x8000 goes through `swrom + (4 << 14)`, byte offset 0x40000 of the block of 0x40000
bytes that `init_ram` allocated, so it is outside the block (and so is the read at 0xBFFF with
bank 15), while with banks 1 and 2 the read of 0x11 at 0x9000 in bank 1, of 0x22 in bank 2
and again of 0x11 in bank 1 stay inside it and leave the failure flag 0; a read in the I/O
window leaves the failure flag 0. -/
theorem beeb_swrom_out_of_block :
    (memory_write_beeb 0x34 0xFE30 (memory_init_beeb 0x10000)).map (fun r => r.1.rom_latch) =
      some 4 ∧
    (get_memptr_beeb 0x8000 { (memory_init_beeb 0x10000) with rom_latch := 4 }).offset =
      (memory_init_beeb 0x10000).swrom_size ∧
    Option.isNone ((memory_write_beeb 0x34 0xFE30 (memory_init_beeb 0x10000)).bind
      (fun r => memory_read_beeb 0x12 0x8000 r.1)) = true ∧
    Option.isNone ((memory_write_beeb 0x0F 0xFE30 (memory_init_beeb 0x10000)).bind
      (fun r => memory_read_beeb 0x12 0xBFFF r.1)) = true ∧
    ((((((memory_write_beeb 1 0xFE30 (memory_init_beeb 0x10000)).bind
      (fun r => memory_read_beeb 0x11 0x9000 r.1)).bind
      (fun t => memory_write_beeb 2 0xFE30 t)).bind
      (fun r => memory_read_beeb 0x22 0x9000 r.1)).bind
      (fun t => memory_write_beeb 1 0xFE30 t)).bind
      (fun r => memory_read_beeb 0x11 0x9000 r.1)).map (fun t => t.failflag) = some 0 ∧
    (memory_read_beeb 0x55 0xFE30 (memory_init_beeb 0x10000)).map (fun t => t.failflag) =
      some 0 := by
  decide

/-- C36: binary SBC is ADC of the complemented operand. With D = 0, a known carry and a known
accumulator, `op_SBC m` gives the same state (so the same A, B, N, V, Z and C) and the same
result as `op_ADC (m XOR 0xFF)` when MS = 1 (A and m bytes) and as `op_ADC (m XOR 0xFFFF)` when
MS = 0 (A and B bytes, m in 0..0xFFFF). -/
theorem op_SBC_is_op_ADC_complement (m ea : Int) (s : State) (hD : s.D = 0)
    (hC : s.C = 0 ∨ s.C = 1) (hA : 0 ≤ s.A ∧ s.A < 256) :
    (s.MS = 1 → 0 ≤ m ∧ m < 256 → op_SBC m ea s = op_ADC (c_xor m 0xFF) ea s) ∧
    (s.MS = 0 → 0 ≤ s.B ∧ s.B < 256 → 0 ≤ m ∧ m < 65536 →
      op_SBC m ea s = op_ADC (c_xor m 0xFFFF) ea s) := by
  obtain ⟨a0, a1⟩ := hA
  have hc0 : 0 ≤ s.C := by rcases hC with h | h <;> omega
  have hc1 : s.C ≤ 1 := by rcases hC with h | h <;> omega
  have hD1 : ¬ s.D = 1 := by omega
  constructor
  · intro hMS hm
    have hacc : get_accumulator s = s.A := by
      unfold get_accumulator
      rw [if_pos ⟨by omega, by omega⟩]
    have hx : c_xor m 0xFF = 255 - m := by
      have := c_xor_mask 8 (by decide) hm.1 (by norm_num; exact hm.2)
      norm_num at this
      exact this
    have hMS1 : s.MS > 0 := by omega
    have eA : (s.A + (255 - m) + s.C) % 256 = (s.A - m - (1 - s.C)) % 256 := by omega
    have eC : (s.A + (255 - m) + s.C) / 2 ^ 8 % 2 = 1 - (s.A - m - (1 - s.C)) / 2 ^ 8 % 2 := by
      norm_num
      omega
    have eV : c_bool (c_and (c_xor s.A (255 - m)) 0x80 = 0 ∧
          c_and (c_xor s.A (s.A + (255 - m) + s.C)) 0x80 ≠ 0) =
        c_bool (c_and (c_xor s.A m) 0x80 ≠ 0 ∧
          c_and (c_xor s.A (s.A - m - (1 - s.C))) 0x80 ≠ 0) := by
      apply c_bool_congr
      rw [Ne, Ne, Ne, c_and_xor_80, c_and_xor_80, c_and_xor_80, c_and_xor_80]
      constructor
      · rintro ⟨p, q⟩
        exact ⟨by omega, by omega⟩
      · rintro ⟨p, q⟩
        exact ⟨by omega, by omega⟩
    unfold op_SBC op_ADC
    simp only [hacc, hx, if_neg hD1, if_pos hMS1, c_and_ff, c_bit_eq, eA, eC, eV]
  · intro hMS hB hm
    have hacc : get_accumulator s = 256 * s.B + s.A := by
      unfold get_accumulator
      rw [if_neg (by omega), if_pos ⟨hMS, by omega, by omega⟩, c_shl_eq]
      norm_num
      ring
    have hx : c_xor m 0xFFFF = 65535 - m := by
      have := c_xor_mask 16 (by decide) hm.1 (by norm_num; exact hm.2)
      norm_num at this
      exact this
    have hMS1 : ¬ s.MS > 0 := by omega
    generalize hacc' : 256 * s.B + s.A = acc at hacc
    have hr : 0 ≤ acc ∧ acc < 65536 := by omega
    have eA : (acc + (65535 - m) + s.C) % 256 = (acc - m - (1 - s.C)) % 256 := by omega
    have eB : (acc + (65535 - m) + s.C) / 2 ^ 8 % 256 =
        (acc - m - (1 - s.C)) / 2 ^ 8 % 256 := by
      norm_num
      omega
    have eC : (acc + (65535 - m) + s.C) / 2 ^ 16 % 2 =
        1 - (acc - m - (1 - s.C)) / 2 ^ 16 % 2 := by
      norm_num
      omega
    have eV : c_bool (c_and (c_xor acc (65535 - m)) 0x8000 = 0 ∧
          c_and (c_xor acc (acc + (65535 - m) + s.C)) 0x8000 ≠ 0) =
        c_bool (c_and (c_xor acc m) 0x8000 ≠ 0 ∧
          c_and (c_xor acc (acc - m - (1 - s.C))) 0x8000 ≠ 0) := by
      apply c_bool_congr
      rw [Ne, Ne, Ne, c_and_xor_8000, c_and_xor_8000, c_and_xor_8000, c_and_xor_8000]
      constructor
      · rintro ⟨p, q⟩
        exact ⟨by omega, by omega⟩
      · rintro ⟨p, q⟩
        exact ⟨by omega, by omega⟩
    unfold op_SBC op_ADC
    simp only [hacc, hx, if_neg hD1, if_neg hMS1, c_and_ff, c_bit_eq, c_shr_eq, c_and_1, eA, eB,
      eC, eV]

/-- Witness of C36: 0x50 - 0x70 with carry set in 8-bit mode, and 0x1000 - 0x2001 with carry
clear in 16-bit mode. -/
theorem op_SBC_is_op_ADC_complement_witness :
    op_SBC 0x70 (-1) { MS := 1, D := 0, C := 1, A := 0x50 } =
      op_ADC (c_xor 0x70 0xFF) (-1) { MS := 1, D := 0, C := 1, A := 0x50 } ∧
    op_SBC 0x2001 (-1) { MS := 0, D := 0, C := 0, A := 0x00, B := 0x10 } =
      op_ADC (c_xor 0x2001 0xFFFF) (-1) { MS := 0, D := 0, C := 0, A := 0x00, B := 0x10 } :=
  ⟨(op_SBC_is_op_ADC_complement 0x70 (-1) { MS := 1, D := 0, C := 1, A := 0x50 } rfl
      (Or.inr rfl) (by decide)).1 rfl (by decide),
    (op_SBC_is_op_ADC_complement 0x2001 (-1) { MS := 0, D := 0, C := 0, A := 0x00, B := 0x10 }
      rfl (Or.inl rfl) (by decide)).2 rfl (by decide) (by decide)⟩

/-- C37: `set_FLAGS` takes MS and XS from bits 5 and 4 of the P byte when E is 0; for every
other E, the unknown value included, it sets MS = 1 and XS = 1 and replaces known X and Y by
their low bytes, whatever the byte is; so `op_PLP` and `op_PHP` executed with E not 0 (E unknown
included) end with MS = 1 and XS = 1. -/
theorem set_FLAGS_widths (operand ea : Int) (s : State) :
    (s.E = 0 → (set_FLAGS operand s).MS = bit operand 5 ∧
      (set_FLAGS operand s).XS = bit operand 4) ∧
    (s.E ≠ 0 → (set_FLAGS operand s).MS = 1 ∧ (set_FLAGS operand s).XS = 1 ∧
      (set_FLAGS operand s).X = (if 0 ≤ s.X then s.X % 256 else s.X) ∧
      (set_FLAGS operand s).Y = (if 0 ≤ s.Y then s.Y % 256 else s.Y)) ∧
    (s.E ≠ 0 → (op_PLP operand ea s).1.MS = 1 ∧ (op_PLP operand ea s).1.XS = 1) ∧
    (s.E ≠ 0 → (op_PHP operand ea s).1.MS = 1 ∧ (op_PHP operand ea s).1.XS = 1) := by
  refine ⟨?_, ?_, ?_, ?_⟩
  · intro hE
    rw [set_FLAGS_MS, set_FLAGS_XS, if_pos hE, if_pos hE, c_bit_eq, c_bit_eq]
    exact ⟨rfl, rfl⟩
  · intro hE
    rw [set_FLAGS_MS, set_FLAGS_XS, if_neg hE, if_neg hE]
    refine ⟨rfl, rfl, ?_, ?_⟩
    · unfold set_FLAGS x_flag_updated
      simp [hE, c_and_ff]
    · unfold set_FLAGS x_flag_updated
      simp [hE, c_and_ff]
  · intro hE
    unfold op_PLP
    simp [hE]
  · intro hE
    unfold op_PHP
    simp [hE]

/-- Witness of C37: PLP of the byte 0x00 with E unknown ends with MS = 1 and XS = 1. -/
theorem set_FLAGS_widths_witness :
    (op_PLP 0x00 (-1) {}).1.MS = 1 ∧ (op_PLP 0x00 (-1) {}).1.XS = 1 :=
  (set_FLAGS_widths 0x00 (-1) {}).2.2.1 (by decide)

/-- C38 (counterexample): on the Master in native mode with the stack pointer at 0x9000, in
sideways ROM, where the shadow holds 0x11: `push8 0x22` is ignored by `memory_write_master`
(the address is not writeable, the result is 1 and nothing is stored), so `pop8 0x22` after it
reads at the address of the push, 0x9000, finds 0x11 and sets the failure flag, which was
clear before the push. On the Blitter with the stack pointer at 0xFE31 and boot mode on,
`push8 0x00` is stored at 0xFFFE31 and switches boot mode off, so `pop8 0x00` reads at
0x00FE31, finds 0x11 and sets the failure flag. In both cases SL and SH are restored and no
access is outside a block. -/
theorem push8_pop8_mismatch :
    (master_rom_stack.failflag = 0 ∧
      (call_write_fn 0x22 0x9000 master_rom_stack).2 = 1 ∧
      (push8 0x22 master_rom_stack).swrom (4 * 0x1000) = 0x11 ∧
      (pop8 0x22 (push8 0x22 master_rom_stack)).failflag = 1 ∧
      (pop8 0x22 (push8 0x22 master_rom_stack)).SH = 0x90 ∧
      (pop8 0x22 (push8 0x22 master_rom_stack)).SL = 0x00 ∧
      (pop8 0x22 (push8 0x22 master_rom_stack)).undefined = false) ∧
    (blitter_boot_stack.failflag = 0 ∧
      blitter_boot_stack.boot_mode = 0x20 ∧
      (call_write_fn 0x00 0xFE31 blitter_boot_stack).2 = 0 ∧
      (push8 0x00 blitter_boot_stack).boot_mode = 0 ∧
      (push8 0x00 blitter_boot_stack).memory 0xFFFE31 = 0x00 ∧
      (push8 0x00 blitter_boot_stack).memory 0x00FE31 = 0x11 ∧
      (pop8 0x00 (push8 0x00 blitter_boot_stack)).failflag = 1 ∧
      (pop8 0x00 (push8 0x00 blitter_boot_stack)).SH = 0xFE ∧
      (pop8 0x00 (push8 0x00 blitter_boot_stack)).SL = 0x31 ∧
      (pop8 0x00 (push8 0x00 blitter_boot_stack)).undefined = false) := by
  decide

/-- C38 (amended): the stack round trip. With E known (0 or 1), SL and SH known bytes and
SH = 1 when E = 1, for every byte v: `push8 v` writes v at SH:SL and then decrements the
stack pointer; `pop8 v` after it reads v at that same address and restores SL and SH; with
the handlers of any one machine the pop leaves the failure flag as it was before the push,
provided the write handler does not ignore the byte (result 0), the push leaves `boot_mode`
as it was and no access is outside its block; after the push SH is 1 and SL is SL - 1 modulo
256 in emulation mode, and SH:SL is SH:SL - 1 modulo 0x10000 in native mode. -/
theorem push8_pop8_round_trip (v : Int) (s : State) (hv : 0 ≤ v ∧ v < 256)
    (hE : s.E = 0 ∨ s.E = 1) (hSL : 0 ≤ s.SL ∧ s.SL < 256) (hSH : 0 ≤ s.SH ∧ s.SH < 256)
    (hinv : s.E = 1 → s.SH = 1) :
    push8 v s = decSP (memory_write v (256 * s.SH + s.SL) mem_access_t.MEM_STACK s) ∧
    pop8 v (push8 v s) =
      memory_read v (256 * s.SH + s.SL) mem_access_t.MEM_STACK (incSP (push8 v s)) ∧
    (pop8 v (push8 v s)).SL = s.SL ∧
    (pop8 v (push8 v s)).SH = s.SH ∧
    (machine_handlers s → (call_write_fn v (256 * s.SH + s.SL) s).2 = 0 →
      (push8 v s).boot_mode = s.boot_mode → (pop8 v (push8 v s)).undefined = false →
      (pop8 v (push8 v s)).failflag = s.failflag) ∧
    (s.E = 1 → (push8 v s).SH = 1 ∧ (push8 v s).SL = (s.SL - 1) % 256) ∧
    (s.E = 0 → 256 * (push8 v s).SH + (push8 v s).SL = (256 * s.SH + s.SL - 1) % 65536) := by
  obtain ⟨l0, l1⟩ := hSL
  obtain ⟨h0, h1⟩ := hSH
  have hd : c_and v 0xff = v := by
    rw [c_and_ff]
    exact Int.emod_eq_of_lt hv.1 hv.2
  have hea : c_shl s.SH 8 + s.SL = 256 * s.SH + s.SL := by
    rw [c_shl_eq]
    norm_num
    ring
  have hpush : push8 v s =
      decSP (memory_write v (256 * s.SH + s.SL) mem_access_t.MEM_STACK s) := by
    unfold push8
    simp only [hd, hea]
    rw [if_pos ⟨by omega, by omega⟩]
  have e2 : (push8 v s).E = s.E := push8_E v s
  have sl2 : (push8 v s).SL = (s.SL - 1) % 256 := by
    rw [hpush]
    unfold decSP
    simp [c_and_ff, l0]
  have sh2 : (push8 v s).SH =
      (if s.E = 1 then 1 else if s.SL = 0 then (s.SH - 1) % 256 else s.SH) := by
    rw [hpush]
    unfold decSP
    have hl : ¬ ((s.SL - 1) % 256 < 0) := by omega
    rcases hE with e | e
    · have k : ((s.SL - 1) % 256 = 255) ↔ s.SL = 0 := by omega
      simp [c_and_ff, l0, h0, e, hl, k]
    · simp [e]
  have e3 : (incSP (push8 v s)).E = s.E := by
    rw [incSP_E, e2]
  have sl3 : (incSP (push8 v s)).SL = s.SL := by
    unfold incSP
    have : (0 : Int) ≤ (s.SL - 1) % 256 := by omega
    simp only [sl2, c_and_ff, ge_iff_le, this, if_true]
    omega
  have sh3 : (incSP (push8 v s)).SH = s.SH := by
    unfold incSP
    have a : (0 : Int) ≤ (s.SL - 1) % 256 := by omega
    have b : ((s.SL - 1) % 256 + 1) % 256 = s.SL := by omega
    simp only [sl2, sh2, e2, c_and_ff, ge_iff_le, a, if_true, b]
    rcases hE with e | e
    · have n1 : ¬ s.E = 1 := by omega
      have n2 : ¬ s.SL < 0 := by omega
      simp only [e, n1, if_false, if_true, n2]
      by_cases z : s.SL = 0
      · have p : (0 : Int) ≤ (s.SH - 1) % 256 := by omega
        simp only [z, if_true, p]
        omega
      · simp [z, h0]
    · simp only [e, if_true]
      exact (hinv e).symm
  have hpop : pop8 v (push8 v s) =
      memory_read v (256 * s.SH + s.SL) mem_access_t.MEM_STACK (incSP (push8 v s)) := by
    unfold pop8
    simp only [sl3, sh3, hd, hea]
    rw [if_pos ⟨by omega, by omega⟩]
  refine ⟨hpush, hpop, ?_, ?_, ?_, ?_, ?_⟩
  · rw [hpop, memory_read_SL, sl3]
  · rw [hpop, memory_read_SH, sh3]
  · intro hm hst hbm hud
    rw [hpop] at hud ⊢
    rw [hpush] at hbm hud ⊢
    by_cases hk : s.mem_model mem_access_t.MEM_STACK = true
    · rw [memory_write_modelled _ _ _ _ hk] at hbm hud ⊢
      have hmm : (incSP (decSP (call_write_fn v (256 * s.SH + s.SL) s).1)).mem_model
          mem_access_t.MEM_STACK = true := by
        obtain ⟨m, r, a', sw, ly, hz, an, b', u, e⟩ :=
          call_write_fn_frame v (256 * s.SH + s.SL) s
        rw [e]
        exact hk
      rw [memory_read_stack_modelled _ _ _ hmm] at hud ⊢
      rw [incSP_decSP_frame] at hud ⊢
      exact write_then_read_machine v _ hv s _ _ hm hst hbm hud
    · rw [memory_write_unmodelled _ _ _ _ hk]
      rw [memory_read_stack_unmodelled _ _ _ (show ¬ (incSP (decSP s)).mem_model
        mem_access_t.MEM_STACK = true from hk)]
      rfl
  · intro e
    exact ⟨by rw [sh2, if_pos e], sl2⟩
  · intro e
    have n1 : ¬ s.E = 1 := by omega
    rw [sh2, sl2, if_neg n1]
    split_ifs <;> omega

/-- Witness of C38 (amended): a push and pop of 0x42 at SH:SL = 01:00 in emulation mode on
the default machine, and at SH:SL = 01:FF on the Master, where the address is writeable. -/
theorem push8_pop8_round_trip_witness :
    ((pop8 0x42 (push8 0x42 { fresh_memory with E := 1, SH := 1, SL := 0 })).SL = 0 ∧
      (pop8 0x42 (push8 0x42 { fresh_memory with E := 1, SH := 1, SL := 0 })).SH = 1 ∧
      (pop8 0x42 (push8 0x42 { fresh_memory with E := 1, SH := 1, SL := 0 })).failflag = 0 ∧
      (push8 0x42 { fresh_memory with E := 1, SH := 1, SL := 0 }).SL = 0xFF) ∧
    (pop8 0x42 (push8 0x42 { master_rom_stack with E := 1, SH := 1, SL := 0xFF })).failflag =
      0 :=
  ⟨⟨(push8_pop8_round_trip 0x42 { fresh_memory with E := 1, SH := 1, SL := 0 } (by decide)
      (Or.inr rfl) (by decide) (by decide) (fun _ => rfl)).2.2.1,
    (push8_pop8_round_trip 0x42 { fresh_memory with E := 1, SH := 1, SL := 0 } (by decide)
      (Or.inr rfl) (by decide) (by decide) (fun _ => rfl)).2.2.2.1,
    (push8_pop8_round_trip 0x42 { fresh_memory with E := 1, SH := 1, SL := 0 } (by decide)
      (Or.inr rfl) (by decide) (by decide) (fun _ => rfl)).2.2.2.2.1
      (by decide) (by decide) (by decide) (by decide),
    ((push8_pop8_round_trip 0x42 { fresh_memory with E := 1, SH := 1, SL := 0 } (by decide)
      (Or.inr rfl) (by decide) (by decide) (fun _ => rfl)).2.2.2.2.2.1 rfl).2⟩,
    (push8_pop8_round_trip 0x42 { master_rom_stack with E := 1, SH := 1, SL := 0xFF }
      (by decide) (Or.inr rfl) (by decide) (by decide) (fun _ => rfl)).2.2.2.2.1
      (by decide) (by decide) (by decide) (by decide)⟩

/-- C39: the conditional-branch hooks with an observed outcome `taken` in {0, 1}. When the
tested flag is known (0 or 1) the hook changes nothing but the failure flag, which it sets
exactly when the outcome contradicts the flag (BCC, BNE, BPL, BVC are taken when the flag is 0;
BCS, BEQ, BMI, BVS when it is 1); when the flag is unknown the hook changes nothing but that
flag, which takes the one value consistent with the outcome. -/
theorem branch_hooks (taken ea : Int) (s : State) (ht : taken = 0 ∨ taken = 1) :
    ((s.C = 0 ∨ s.C = 1 → (op_BCC taken ea s).1 =
        { s with failflag := if (taken = 1 ↔ s.C = 0) then s.failflag else 1 }) ∧
      (s.C < 0 → (op_BCC taken ea s).1 = { s with C := if taken = 1 then 0 else 1 })) ∧
    ((s.C = 0 ∨ s.C = 1 → (op_BCS taken ea s).1 =
        { s with failflag := if (taken = 1 ↔ s.C = 1) then s.failflag else 1 }) ∧
      (s.C < 0 → (op_BCS taken ea s).1 = { s with C := if taken = 1 then 1 else 0 })) ∧
    ((s.Z = 0 ∨ s.Z = 1 → (op_BNE taken ea s).1 =
        { s with failflag := if (taken = 1 ↔ s.Z = 0) then s.failflag else 1 }) ∧
      (s.Z < 0 → (op_BNE taken ea s).1 = { s with Z := if taken = 1 then 0 else 1 })) ∧
    ((s.Z = 0 ∨ s.Z = 1 → (op_BEQ taken ea s).1 =
        { s with failflag := if (taken = 1 ↔ s.Z = 1) then s.failflag else 1 }) ∧
      (s.Z < 0 → (op_BEQ taken ea s).1 = { s with Z := if taken = 1 then 1 else 0 })) ∧
    ((s.N = 0 ∨ s.N = 1 → (op_BPL taken ea s).1 =
        { s with failflag := if (taken = 1 ↔ s.N = 0) then s.failflag else 1 }) ∧
      (s.N < 0 → (op_BPL taken ea s).1 = { s with N := if taken = 1 then 0 else 1 })) ∧
    ((s.N = 0 ∨ s.N = 1 → (op_BMI taken ea s).1 =
        { s with failflag := if (taken = 1 ↔ s.N = 1) then s.failflag else 1 }) ∧
      (s.N < 0 → (op_BMI taken ea s).1 = { s with N := if taken = 1 then 1 else 0 })) ∧
    ((s.V = 0 ∨ s.V = 1 → (op_BVC taken ea s).1 =
        { s with failflag := if (taken = 1 ↔ s.V = 0) then s.failflag else 1 }) ∧
      (s.V < 0 → (op_BVC taken ea s).1 = { s with V := if taken = 1 then 0 else 1 })) ∧
    ((s.V = 0 ∨ s.V = 1 → (op_BVS taken ea s).1 =
        { s with failflag := if (taken = 1 ↔ s.V = 1) then s.failflag else 1 }) ∧
      (s.V < 0 → (op_BVS taken ea s).1 = { s with V := if taken = 1 then 1 else 0 })) := by
  unfold op_BCC op_BCS op_BNE op_BEQ op_BPL op_BMI op_BVC op_BVS
  refine ⟨⟨?_, ?_⟩, ⟨?_, ?_⟩, ⟨?_, ?_⟩, ⟨?_, ?_⟩, ⟨?_, ?_⟩, ⟨?_, ?_⟩, ⟨?_, ?_⟩, ⟨?_, ?_⟩⟩
  all_goals first
    | (rintro (h | h) <;> rcases ht with t | t <;> simp [h, t])
    | (intro h
       have h' : ¬ (0 : Int) ≤ _ := not_le.mpr h
       rcases ht with t | t <;> simp [h', t])

/-- Witness of C39: BEQ observed taken with Z known to be 0 sets the failure flag and leaves
Z = 0. -/
theorem branch_hooks_witness :
    (op_BEQ 1 (-1) { Z := 0 }).1.failflag = 1 ∧ (op_BEQ 1 (-1) { Z := 0 }).1.Z = 0 := by
  rw [(branch_hooks 1 (-1) { Z := 0 } (by decide)).2.2.2.1.1 (by decide)]
  decide

/-- C40: the 8-bit cycle helper agrees with the predictor in emulation mode. For every opcode
0..255 with non-zero m_extra or x_extra, with E = 1, MS = XS = 1, no interrupt seen and any
sample window: a known result of `get_num_cycles` equals `get_8bit_cycles`; hence in every
state with the same DP, X and Y, an instruction observed with exactly that number of cycles
is not taken for a 16-bit one: the inference of MS and of XS in emulate, when it applies,
sets the width flag to 1. -/
theorem get_8bit_cycles_agrees (sample_q : Int → sample_t) (s : State)
    (hop : 0 ≤ (sample_q 0).data ∧ (sample_q 0).data < 256)
    (hx : (instr_table (sample_q 0).data).m_extra ≠ 0 ∨
      (instr_table (sample_q 0).data).x_extra ≠ 0)
    (hE : s.E = 1) (hMS : s.MS = 1) (hXS : s.XS = 1) :
    (get_num_cycles sample_q 0 s ≠ -1 →
      get_num_cycles sample_q 0 s = get_8bit_cycles sample_q s) ∧
    (∀ t : State, t.DP = s.DP → t.X = s.X → t.Y = s.Y → get_num_cycles sample_q 0 s ≠ -1 →
      ¬ (get_num_cycles sample_q 0 s > get_8bit_cycles sample_q t) ∧
      emulate_infer_ms sample_q (get_num_cycles sample_q 0 s) t =
        (if t.MS < 0 ∧ (instr_table (sample_q 0).data).m_extra ≠ 0 then check_and_set_ms 1 t
         else t) ∧
      emulate_infer_xs sample_q (get_num_cycles sample_q 0 s) t =
        (if t.XS < 0 ∧ (instr_table (sample_q 0).data).x_extra ≠ 0 then check_and_set_xs 1 t
         else t)) := by
  refine ⟨get_num_cycles_emulation sample_q s hop hx hE hMS hXS, ?_⟩
  intro t hDP hX hY hk
  have h1 := get_num_cycles_emulation sample_q s hop hx hE hMS hXS hk
  have h2 := get_8bit_cycles_of_regs sample_q s t hDP hX hY
  have h3 : ¬ (get_num_cycles sample_q 0 s > get_8bit_cycles sample_q t) := by
    rw [h1, h2]
    omega
  refine ⟨h3, ?_, ?_⟩
  · unfold emulate_infer_ms
    simp only [if_neg h3]
  · unfold emulate_infer_xs
    simp only [if_neg h3]

/-- Witness of C40: LDA abs,X (0xBD) with a page crossing in emulation mode: both counts are
5, and a state with MS unknown and the same registers is given MS = 1. -/
theorem get_8bit_cycles_agrees_witness :
    get_num_cycles (bus [0xBD, 0xFF, 0x20, 0x00, 0x00]) 0
        { E := 1, MS := 1, XS := 1, SH := 1, X := 1 } =
      get_8bit_cycles (bus [0xBD, 0xFF, 0x20, 0x00, 0x00])
        { E := 1, MS := 1, XS := 1, SH := 1, X := 1 } ∧
    get_8bit_cycles (bus [0xBD, 0xFF, 0x20, 0x00, 0x00])
        { E := 1, MS := 1, XS := 1, SH := 1, X := 1 } = 5 :=
  ⟨(get_8bit_cycles_agrees (bus [0xBD, 0xFF, 0x20, 0x00, 0x00])
      { E := 1, MS := 1, XS := 1, SH := 1, X := 1 } (by decide) (by decide) rfl rfl rfl).1
      (by decide),
    by decide⟩

end Decoder
